import Mathlib

/-!
# Motion planning core: shallow embedding and verified properties

The development embeds, function by function, the parts of the planner that the
verified properties talk about:

* `common.CoordinateTransformer` (`coordinate_transformer.cpp`),
* `planning.CollisionChecker`: `IsCollision` and `Init` (`collision_checker.cpp`),
* `planning.FollowLane` decision logic and state transitions (`follow_lane.cpp`),
* `planning.StopState` (`stop_state.cpp`),
* `planning.OnLaneForwardSimulator.GetIDMLonAcc` (`on_lane_forward_simulator.cpp`),
* `planning.TrajectorySelector.Comparator` (`trajectory_selector.hpp`).

Numbers. C++ `double` is read as an exact number: as a real (`ℝ`) where the code
calls `<cmath>` (cos, sin, tan, atan2, sqrt), and as a rational (`ℚ`) in the
decision logic, which only adds, multiplies, divides and compares; the lane
costs, which can be infinite, are values of `planning.Double` (a rational or an
IEEE special value).  Rounding and signed zeros are outside this reading, with
two exceptions.  In `CollisionChecker::Init` the accumulated sum
`relative_time += delta_t` is the rounded sum of two `double`s
(`common.binary64_add`), because the rounding decides the number of snapshots.
In `GetIDMLonAcc` the values are `planning.OnLaneForwardSimulator.RealDouble`s (a
real or an IEEE special value), because a NaN passes the final clamp.

Failures. A function that can throw, fail an assertion or run into undefined
behaviour returns `Option` or `Except`; the theorems about it state that it
returns, not only what it returns.
-/

set_option autoImplicit false

namespace common

/-! ## `<cmath>` and `MathUtils` -/

/-- Real reading of `std::copysign(x, y)`: the magnitude of `x` with the sign of
`y`; a zero `y` carries the positive sign. -/
noncomputable def copysign (x y : ℝ) : ℝ := if 0 ≤ y then |x| else -|x|

/-- Real reading of `std::atan2(y, x)`: the angle in `(-π, π]` of the point
`(x, y)`, and `0` at the origin. -/
noncomputable def atan2 (y x : ℝ) : ℝ := Complex.arg ⟨x, y⟩

/-- Modelled from the spec: `MathUtils::NormalizeAngle` (`math/math_utils.hpp` is
not among the sources).  The spec keeps every heading normalized to `(-π, π]`;
the model returns the representative of the angle modulo `2π` in that interval. -/
noncomputable def NormalizeAngle (angle : ℝ) : ℝ :=
  toIocMod Real.two_pi_pos (-Real.pi) angle

/-- A `std::array<double, 3>`. -/
structure Array3 where
  at0 : ℝ
  at1 : ℝ
  at2 : ℝ

/-- The six values `FrenetToCartesian` writes through its output pointers. -/
structure CartesianState where
  x : ℝ
  y : ℝ
  theta : ℝ
  kappa : ℝ
  v : ℝ
  a : ℝ

namespace CoordinateTransformer

/-- The function `CoordinateTransformer::CartesianToFrenet` (the six-value overload).  The
result is the pair `(s_condition, d_condition)` written through the two output
pointers. -/
noncomputable def CartesianToFrenet (rs rx ry rtheta rkappa rdkappa x y v a theta kappa : ℝ) :
    Array3 × Array3 :=
  let dx := x - rx
  let dy := y - ry
  let cos_theta_r := Real.cos rtheta
  let sin_theta_r := Real.sin rtheta
  let cross_rd_nd := cos_theta_r * dy - sin_theta_r * dx
  let d0 := copysign (Real.sqrt (dx * dx + dy * dy)) cross_rd_nd
  let delta_theta := theta - rtheta
  let tan_delta_theta := Real.tan delta_theta
  let cos_delta_theta := Real.cos delta_theta
  let one_minus_kappa_r_d := 1 - rkappa * d0
  let d1 := one_minus_kappa_r_d * tan_delta_theta
  let kappa_r_d_prime := rdkappa * d0 + rkappa * d1
  let d2 := -kappa_r_d_prime * tan_delta_theta +
    one_minus_kappa_r_d / cos_delta_theta / cos_delta_theta *
      (kappa * one_minus_kappa_r_d / cos_delta_theta - rkappa)
  let s0 := rs
  let s1 := v * cos_delta_theta / one_minus_kappa_r_d
  let delta_theta_prime := one_minus_kappa_r_d / cos_delta_theta * kappa - rkappa
  let s2 := (a * cos_delta_theta -
    s1 * s1 * (d1 * delta_theta_prime - kappa_r_d_prime)) / one_minus_kappa_r_d
  (⟨s0, s1, s2⟩, ⟨d0, d1, d2⟩)

/-- The function `CoordinateTransformer::FrenetToCartesian`.  `none` is the failed
`assert(std::abs(rs - s_condition[0]) < 1.0e-6)`; otherwise the six values
written through the output pointers. -/
noncomputable def FrenetToCartesian (rs rx ry rtheta rkappa rdkappa : ℝ)
    (s_condition d_condition : Array3) : Option CartesianState :=
  if |rs - s_condition.at0| < 1.0e-6 then
    let cos_theta_r := Real.cos rtheta
    let sin_theta_r := Real.sin rtheta
    let x := rx - sin_theta_r * d_condition.at0
    let y := ry + cos_theta_r * d_condition.at0
    let one_minus_kappa_r_d := 1 - rkappa * d_condition.at0
    let tan_delta_theta := d_condition.at1 / one_minus_kappa_r_d
    let delta_theta := atan2 d_condition.at1 one_minus_kappa_r_d
    let cos_delta_theta := Real.cos delta_theta
    let theta := NormalizeAngle (delta_theta + rtheta)
    let kappa_r_d_prime := rdkappa * d_condition.at0 + rkappa * d_condition.at1
    let kappa := (((d_condition.at2 + kappa_r_d_prime * tan_delta_theta) *
      cos_delta_theta * cos_delta_theta) / one_minus_kappa_r_d + rkappa) *
      cos_delta_theta / one_minus_kappa_r_d
    let d_dot := d_condition.at1 * s_condition.at1
    let v := Real.sqrt (one_minus_kappa_r_d * one_minus_kappa_r_d *
      s_condition.at1 * s_condition.at1 + d_dot * d_dot)
    let delta_theta_prime := one_minus_kappa_r_d / cos_delta_theta * kappa - rkappa
    let a := s_condition.at2 * one_minus_kappa_r_d / cos_delta_theta +
      s_condition.at1 * s_condition.at1 / cos_delta_theta *
        (d_condition.at1 * delta_theta_prime - kappa_r_d_prime)
    some ⟨x, y, theta, kappa, v, a⟩
  else none

end CoordinateTransformer

end common

namespace planning

/-! ## Collision checker (`collision_checker.cpp`) -/

/-- The `planning_msgs::PathPoint` message. -/
structure PathPoint where
  x : ℝ
  y : ℝ
  theta : ℝ
  kappa : ℝ
  dkappa : ℝ
  s : ℝ

/-- The `planning_msgs::TrajectoryPoint` message. -/
structure TrajectoryPoint where
  path_point : PathPoint
  v : ℝ
  a : ℝ
  relative_time : ℝ

/-- Modelled from the spec: `common::Box2d` (its header is not among the sources):
an oriented box given by centre, heading, length and width, built by
`Box2d(center, heading, length, width)`. -/
structure Box2d where
  center_x : ℝ
  center_y : ℝ
  heading : ℝ
  length : ℝ
  width : ℝ

/-- Modelled from the spec: `Box2d::Shift(v)` translates the centre by `v`. -/
def Box2d.Shift (b : Box2d) (vx vy : ℝ) : Box2d :=
  { b with center_x := b.center_x + vx, center_y := b.center_y + vy }

/-- The part of `PlanningConfig::Instance().vehicle_params()` the checker reads. -/
structure VehicleParams where
  length : ℝ
  width : ℝ
  back_axle_to_center_length : ℝ

namespace CollisionChecker

/-- The loop of `CollisionChecker::IsCollision` in the branch
`thread_pool_ == nullptr`, from loop index `i` on, over the trajectory points
that are still to be visited.  `Box2d::HasOverlapWithBox2d` (not among the
sources) is the parameter `HasOverlapWithBox2d`.  `none` is the unchecked read
`predicted_obstacle_box_[i]` past the end of the vector. -/
noncomputable def IsCollisionFrom (HasOverlapWithBox2d : Box2d → Box2d → Bool)
    (vehicle_params : VehicleParams) (predicted_obstacle_box_ : List (List Box2d)) :
    Nat → List TrajectoryPoint → Option Bool
  | _, [] => some false
  | i, traj_point :: rest =>
    let ego_width := vehicle_params.width
    let ego_length := vehicle_params.length
    let shift_distance := vehicle_params.back_axle_to_center_length
    let ego_theta := traj_point.path_point.theta
    let ego_box := (Box2d.mk traj_point.path_point.x traj_point.path_point.y ego_theta
      ego_length ego_width).Shift (shift_distance * Real.cos ego_theta)
        (shift_distance * Real.sin ego_theta)
    match predicted_obstacle_box_[i]? with
    | none => none
    | some boxes =>
      if boxes.any (fun obstacle_box => HasOverlapWithBox2d ego_box obstacle_box) then some true
      else IsCollisionFrom HasOverlapWithBox2d vehicle_params predicted_obstacle_box_ (i + 1) rest

/-- The function `CollisionChecker::IsCollision` without a thread pool
(`thread_pool_ == nullptr`): the sequential scan from index `0`. -/
noncomputable def IsCollision (HasOverlapWithBox2d : Box2d → Box2d → Bool)
    (vehicle_params : VehicleParams) (predicted_obstacle_box_ : List (List Box2d))
    (trajectory_points : List TrajectoryPoint) : Option Bool :=
  IsCollisionFrom HasOverlapWithBox2d vehicle_params predicted_obstacle_box_ 0 trajectory_points

/-- The ego box as the specification words it: the `length x width` box at
`(x, y)` with heading `theta`, its centre moved forward by
`back_axle_to_center_length` along the heading. -/
noncomputable def EgoBoxSpec (vehicle_params : VehicleParams) (p : TrajectoryPoint) : Box2d :=
  { center_x := p.path_point.x +
      vehicle_params.back_axle_to_center_length * Real.cos p.path_point.theta
    center_y := p.path_point.y +
      vehicle_params.back_axle_to_center_length * Real.sin p.path_point.theta
    heading := p.path_point.theta
    length := vehicle_params.length
    width := vehicle_params.width }

end CollisionChecker

end planning

namespace planning

/-! ## Maneuver planner: `FollowLane` (`follow_lane.cpp`)

The decision logic reads process-wide singletons (`PlanningConfig`,
`ObstacleFilter`, `VehicleState`) and helpers of the `State` base class whose
sources are not available (`GetLaneClearDistance`, `ReferenceLine`).  They are
gathered in `PlanningInputs`, one value per call. -/

/-- What a call can end in other than a normal return. -/
inductive Failure
  /-- An exception `std::out_of_range` thrown by `std::unordered_map::at`. -/
  | out_of_range
  /-- A call of `front()` or `back()` on an empty vector. -/
  | undefined_behaviour
  /-- A failed `ROS_ASSERT`. -/
  | assertion
  deriving DecidableEq, Repr

/-- Modelled from the spec: the `DecisionType` enumeration (its header is not
among the sources). -/
inductive DecisionType
  | kFollowLane
  | kChangeLeft
  | kChangeRight
  | kStopAtTrafficSign
  | kStopAtDestination
  | kEmergencyStop
  deriving DecidableEq, Repr

/-- Modelled from the spec: `planning_msgs::CarlaRoadOption` (the message is not
among the sources); `OTHER` stands for the options the spec leaves unnamed. -/
inductive CarlaRoadOption
  | LANEFOLLOW
  | LEFT
  | RIGHT
  | STRAIGHT
  | OTHER
  deriving DecidableEq, Repr

/-- Modelled from the spec: `planning_msgs::LaneChangeType`. -/
inductive LaneChangeType
  | NONE
  | LEFT
  | RIGHT
  | BOTH
  deriving DecidableEq, Repr

/-- Modelled from the spec: the fields of `planning_msgs::WayPoint` the decision
reads (`road_option.option` and `lane_change.type` are flattened). -/
structure WayPoint where
  lane_id : Int
  road_option : CarlaRoadOption
  lane_change : LaneChangeType
  has_left_lane : Bool
  has_right_lane : Bool

/-- Modelled from the spec: the two `ReferenceLine` queries the decision uses. -/
structure ReferenceLine where
  Length : ℚ
  NearestWayPoint : ℚ → WayPoint

/-- The `maneuver_target` member of a `ManeuverInfo`. -/
structure ManeuverTarget where
  target_s : ℚ
  target_speed : ℚ

/-- One entry of `ManeuverGoal::maneuver_infos`; `ptr_ref_line = none` is
`nullptr`. -/
structure ManeuverInfo where
  lane_id : Int
  has_stop_point : Bool
  maneuver_target : ManeuverTarget
  ptr_ref_line : Option ReferenceLine

/-- The `ManeuverGoal` a decision writes. -/
structure ManeuverGoal where
  decision_type : DecisionType
  maneuver_infos : List ManeuverInfo

/-- The part of an `Obstacle` the decision reads. -/
structure Obstacle where
  Speed : ℚ

/-- The options of `PlanningConfig::Instance()` read by the maneuver planner. -/
structure PlanningConfig where
  lon_safety_buffer : ℚ
  min_lookahead_distance : ℚ
  max_lookahead_distance : ℚ
  target_speed : ℚ
  maneuver_forward_clear_threshold : ℚ
  maneuver_backward_clear_threshold : ℚ
  maneuver_target_lane_forward_clear_threshold : ℚ
  maneuver_target_lane_backward_clear_threshold : ℚ
  maneuver_execute_time_length : ℚ
  maneuver_safety_cost_gain : ℚ
  maneuver_efficiency_cost_gain : ℚ
  maneuver_comfort_cost_gain : ℚ
  max_lon_velocity : ℚ
  max_lon_acc : ℚ

/-- The four values `State::GetLaneClearDistance` writes through its output
pointers. -/
structure LaneClear where
  forward_clear_distance : ℚ
  backward_clear_distance : ℚ
  forward_obstacle_id : Int
  backward_obstacle_id : Int

/-- Everything one call of the decision reads from outside its arguments:
the configuration, `ObstacleFilter::Instance().Obstacles()` as a finite map
from id to obstacle, `VehicleState::Instance().linear_vel()`, the `s` that
`reference_line_->XYToSL` gives for the ego pose, the member `reference_line_`,
the result of `GetLaneClearDistance` for each lane offset, and the
value-initialised `ManeuverInfo` that `resize` appends. -/
structure PlanningInputs where
  config : PlanningConfig
  obstacles : Int → Option Obstacle
  ego_vel : ℚ
  ego_sl_s : ℚ
  reference_line_ : ReferenceLine
  GetLaneClearDistance : Int → LaneClear
  value_initialized_info : ManeuverInfo

/-- The lookup `std::unordered_map::at`: throws `std::out_of_range` for a missing key. -/
def ObstaclesAt (obstacles : Int → Option Obstacle) (id : Int) : Except Failure Obstacle :=
  match obstacles id with
  | some obstacle => Except.ok obstacle
  | none => Except.error Failure.out_of_range

/-- The call `std::vector::resize(n)`: drops the elements past `n`, appends
value-initialised ones up to `n`. -/
def resize (n : Nat) (value_initialized : ManeuverInfo) (v : List ManeuverInfo) :
    List ManeuverInfo :=
  v.take n ++ List.replicate (n - v.length) value_initialized

/-- An assignment through `maneuver_infos.front()`. -/
def assignFront (f : ManeuverInfo → ManeuverInfo) :
    List ManeuverInfo → Except Failure (List ManeuverInfo)
  | [] => Except.error Failure.undefined_behaviour
  | m :: rest => Except.ok (f m :: rest)

/-- An assignment through `maneuver_infos.back()`. -/
def assignBack (f : ManeuverInfo → ManeuverInfo) :
    List ManeuverInfo → Except Failure (List ManeuverInfo)
  | [] => Except.error Failure.undefined_behaviour
  | [m] => Except.ok [f m]
  | m :: m2 :: rest => (assignBack f (m2 :: rest)).map (fun t => m :: t)

/-! ### A `double` with its special values -/

/-- A C++ `double` read exactly: a rational, or one of the IEEE special values. -/
inductive Double
  | finite (q : ℚ)
  | inf
  | neg_inf
  | nan
  deriving DecidableEq

namespace Double

/-- The quotient `a / b` of two finite doubles. -/
def ofDiv (a b : ℚ) : Double :=
  if b ≠ 0 then finite (a / b)
  else if 0 < a then inf
  else if a < 0 then neg_inf
  else nan

/-- The signed infinity a finite factor turns `+inf` into. -/
def scaleInf (q : ℚ) : Double :=
  if 0 < q then inf else if q < 0 then neg_inf else nan

/-- The opposite value. -/
def neg : Double → Double
  | finite q => finite (-q)
  | inf => neg_inf
  | neg_inf => inf
  | nan => nan

/-- The product of two doubles. -/
def mul : Double → Double → Double
  | finite a, finite b => finite (a * b)
  | finite a, inf => scaleInf a
  | finite a, neg_inf => neg (scaleInf a)
  | inf, finite b => scaleInf b
  | neg_inf, finite b => neg (scaleInf b)
  | inf, inf => inf
  | neg_inf, neg_inf => inf
  | inf, neg_inf => neg_inf
  | neg_inf, inf => neg_inf
  | nan, _ => nan
  | _, nan => nan

/-- The sum of two doubles. -/
def add : Double → Double → Double
  | finite a, finite b => finite (a + b)
  | finite _, inf => inf
  | finite _, neg_inf => neg_inf
  | inf, finite _ => inf
  | neg_inf, finite _ => neg_inf
  | inf, inf => inf
  | neg_inf, neg_inf => neg_inf
  | inf, neg_inf => nan
  | neg_inf, inf => nan
  | nan, _ => nan
  | _, nan => nan

/-- The comparison `x < y`; false as soon as one side is NaN. -/
def lt : Double → Double → Bool
  | finite a, finite b => decide (a < b)
  | finite _, inf => true
  | neg_inf, finite _ => true
  | neg_inf, inf => true
  | _, _ => false

end Double

/-- The algorithm `std::min_element(first, last, comp)`: the first element no later element
is smaller than; `none` for an empty range. -/
def min_element {α : Type} (comp : α → α → Bool) : List α → Option α
  | [] => none
  | first :: rest =>
    some (rest.foldl (fun smallest it => if comp it smallest then it else smallest) first)

namespace FollowLane

/-- The function `FollowLane::SafetyCost`. -/
def SafetyCost (config : PlanningConfig) (leading_vel following_vel leading_clear_distance
    following_clear_distance : ℚ) : Double :=
  let target_lane_vel_diff := leading_vel - following_vel
  let change_lane_execute_time := config.maneuver_execute_time_length
  let target_lane_clear_length := following_clear_distance + leading_clear_distance
  let clear_length_diff := target_lane_vel_diff * change_lane_execute_time
  let min_clear_length := max (1e-3 : ℚ) (clear_length_diff + target_lane_clear_length)
  let clear_length_threshold := config.maneuver_target_lane_forward_clear_threshold
    + config.maneuver_target_lane_backward_clear_threshold
  let safety_cost := Double.ofDiv clear_length_threshold
    (min min_clear_length clear_length_threshold)
  safety_cost

/-- The function `FollowLane::EfficiencyCost`. -/
def EfficiencyCost (target_vel leading_vel max_vel : ℚ) : Double :=
  let vel_buffer := max (max_vel - target_vel) (0.2 : ℚ)
  let desired_vel := max_vel - vel_buffer
  if leading_vel < desired_vel then
    Double.ofDiv (desired_vel - leading_vel) desired_vel
  else if leading_vel > desired_vel ∧ leading_vel < max_vel then
    Double.ofDiv (leading_vel - desired_vel) vel_buffer
  else
    Double.inf

/-- The function `FollowLane::ComfortCost`.  The expression for `acc` is parsed as C++ does:
`(…) / 2 * std::max(…)` is `((…) / 2) * std::max(…)`. -/
def ComfortCost (config : PlanningConfig) (ego_vel leading_vel forward_clear_distance : ℚ) :
    Double :=
  let acc := (leading_vel * leading_vel - ego_vel * ego_vel) /
    2 * max (1e-3 : ℚ) (forward_clear_distance - config.lon_safety_buffer)
  let max_acc := config.max_lon_acc
  if |acc| > max_acc then
    Double.inf
  else
    Double.ofDiv |acc| max_acc

/-- The body of the loop of `FollowLane::SelectLane`: the cost of lane `i`. -/
def LaneCost (config : PlanningConfig) (ego_vel leading_velocity_i following_velocity_i
    leading_clear_distance_i following_clear_distance_i : ℚ) : Double :=
  let safety_cost_gain := config.maneuver_safety_cost_gain
  let efficiency_cost_gain := config.maneuver_efficiency_cost_gain
  let comfort_cost_gain := config.maneuver_comfort_cost_gain
  let safety_cost := Double.mul (Double.finite safety_cost_gain)
    (SafetyCost config leading_velocity_i following_velocity_i leading_clear_distance_i
      following_clear_distance_i)
  let efficiency_cost := Double.mul (Double.finite efficiency_cost_gain)
    (EfficiencyCost config.target_speed leading_velocity_i config.max_lon_velocity)
  let comfort_cost := Double.mul (Double.finite comfort_cost_gain)
    (ComfortCost config ego_vel leading_velocity_i leading_clear_distance_i)
  let lane_cost := Double.add (Double.add comfort_cost efficiency_cost) safety_cost
  lane_cost

/-- The function `FollowLane::SelectLane`.  The four vectors are lists; a failed `ROS_ASSERT`
on their sizes is `Failure.assertion`. -/
def SelectLane (config : PlanningConfig) (_ego_s ego_vel : ℚ)
    (leading_velocity following_velocity leading_clear_distance
      following_clear_distance : List ℚ) : Except Failure Int :=
  if leading_velocity.isEmpty then Except.error Failure.assertion
  else
    let lane_num := leading_velocity.length
    if lane_num ≠ following_velocity.length then Except.error Failure.assertion
    else if lane_num ≠ leading_clear_distance.length then Except.error Failure.assertion
    else if lane_num ≠ following_clear_distance.length then Except.error Failure.assertion
    else
      let rows := List.zip leading_velocity (List.zip following_velocity
        (List.zip leading_clear_distance following_clear_distance))
      let cost_pairs : List (Int × Double) := rows.enum.map (fun r =>
        ((r.1 : Int) - 1, LaneCost config ego_vel r.2.1 r.2.2.1 r.2.2.2.1 r.2.2.2.2))
      let comp := fun (rhs lhs : Int × Double) => Double.lt rhs.2 lhs.2
      match min_element comp cost_pairs with
      | some result => Except.ok result.1
      | none => Except.error Failure.undefined_behaviour

/-- The block of `FollowLane::ChangeLaneDecision` that judges one neighbouring
lane (the same text for the left lane, `lane_offset = -1`, and for the right
lane, `lane_offset = 1`), entered when the way point permits the change and
has the lane.  It gives `can_change_*` and the four values read from
`GetLaneClearDistance`. -/
def JudgeTargetLane (inputs : PlanningInputs) (ego_vel : ℚ) (lane_offset : Int) :
    Except Failure (Bool × LaneClear) :=
  let lane := inputs.GetLaneClearDistance lane_offset
  if lane.backward_clear_distance > inputs.config.maneuver_target_lane_backward_clear_threshold
      ∧ lane.forward_clear_distance > inputs.config.maneuver_target_lane_forward_clear_threshold
  then
    if lane.forward_obstacle_id < 0 then
      Except.ok (true, lane)
    else do
      let leading_obstacle ← ObstaclesAt inputs.obstacles lane.forward_obstacle_id
      let leading_vel := leading_obstacle.Speed
      if lane.backward_obstacle_id < 0 then
        Except.ok (decide (leading_vel > min ego_vel inputs.config.target_speed), lane)
      else do
        let backward_obstacle ← ObstaclesAt inputs.obstacles lane.backward_obstacle_id
        let follow_vel := backward_obstacle.Speed
        Except.ok (decide (follow_vel < min inputs.config.target_speed leading_vel), lane)
  else
    Except.ok (false, lane)

/-- The values of the locals `*_forward_clear_distance = -10.0`,
`*_backward_clear_distance = -10.0` and of the two ids of a neighbouring lane
that `GetLaneClearDistance` was not called for.  The ids are indeterminate in
the source; no path reads them. -/
def unvisitedLane : LaneClear :=
  { forward_clear_distance := -10
    backward_clear_distance := -10
    forward_obstacle_id := 0
    backward_obstacle_id := 0 }

/-- The lane id of the left neighbour written by `ChangeLaneDecision`. -/
def leftLaneId (lane_id : Int) : Int := if lane_id < 0 then lane_id + 1 else lane_id - 1

/-- The lane id of the right neighbour written by `ChangeLaneDecision`. -/
def rightLaneId (lane_id : Int) : Int := if lane_id < 0 then lane_id - 1 else lane_id + 1

/-- The function `FollowLane::ChangeLaneDecision`. -/
def ChangeLaneDecision (inputs : PlanningInputs) (ego_s : ℚ)
    (current_lane_forward_clear_distance current_lane_backward_clear_distance : ℚ)
    (current_lane_forward_obstacle_id current_lane_backward_obstacle_id : Int)
    (incoming_way_point : WayPoint) (maneuver_goal : ManeuverGoal) :
    Except Failure ManeuverGoal := do
  let config := inputs.config
  let ego_vel := inputs.ego_vel
  let _rear_obstacle ← ObstaclesAt inputs.obstacles current_lane_backward_obstacle_id
  let _front_obstacle ← ObstaclesAt inputs.obstacles current_lane_forward_obstacle_id
  -- check current lane is clear to change lane
  let current_unsafe : Bool :=
    decide (current_lane_forward_clear_distance < config.maneuver_forward_clear_threshold
      ∨ current_lane_backward_clear_distance < config.maneuver_backward_clear_threshold)
  let (can_change_left, left) ←
    (if current_unsafe then Except.ok (false, unvisitedLane)
    else if (incoming_way_point.lane_change = LaneChangeType.LEFT ∨
        incoming_way_point.lane_change = LaneChangeType.BOTH) ∧
        incoming_way_point.has_left_lane = true then
      JudgeTargetLane inputs ego_vel (-1)
    else Except.ok (false, unvisitedLane))
  let (can_change_right, right) ←
    (if current_unsafe then Except.ok (false, unvisitedLane)
    else if (incoming_way_point.lane_change = LaneChangeType.RIGHT ∨
        incoming_way_point.lane_change = LaneChangeType.BOTH) ∧
        incoming_way_point.has_right_lane = true then
      JudgeTargetLane inputs ego_vel 1
    else Except.ok (false, unvisitedLane))
  if !can_change_right && !can_change_left then
    let infos := resize 1 inputs.value_initialized_info maneuver_goal.maneuver_infos
    let infos ← assignFront (fun m => { m with lane_id := incoming_way_point.lane_id }) infos
    let front_obstacle ← ObstaclesAt inputs.obstacles current_lane_forward_obstacle_id
    let infos ← assignFront (fun m => { m with
      maneuver_target := { m.maneuver_target with
        target_speed := min config.target_speed front_obstacle.Speed } }) infos
    let infos ← assignFront (fun m => { m with has_stop_point := false }) infos
    let infos ← assignFront (fun m => { m with ptr_ref_line := some inputs.reference_line_ }) infos
    Except.ok { decision_type := DecisionType.kFollowLane, maneuver_infos := infos }
  else if can_change_left && !can_change_right then
    -- only can change left
    let infos := resize 2 inputs.value_initialized_info maneuver_goal.maneuver_infos
    let infos ← assignFront (fun m => { m with ptr_ref_line := some inputs.reference_line_ }) infos
    let infos ← assignFront (fun m => { m with lane_id := incoming_way_point.lane_id }) infos
    let infos ← assignFront (fun m => { m with has_stop_point := false }) infos
    let front_obstacle ← ObstaclesAt inputs.obstacles current_lane_forward_obstacle_id
    let infos ← assignFront (fun m => { m with
      maneuver_target := { m.maneuver_target with target_speed := front_obstacle.Speed } }) infos
    let left_obstacle ← ObstaclesAt inputs.obstacles left.forward_obstacle_id
    let infos ← assignBack (fun m => { m with
      maneuver_target := { m.maneuver_target with
        target_speed := min left_obstacle.Speed config.target_speed } }) infos
    let infos ← assignBack (fun m => { m with has_stop_point := false }) infos
    let infos ← assignBack (fun m => { m with
      lane_id := leftLaneId incoming_way_point.lane_id }) infos
    let infos ← assignBack (fun m => { m with ptr_ref_line := none }) infos
    Except.ok { decision_type := DecisionType.kChangeLeft, maneuver_infos := infos }
  else if !can_change_left then
    -- only can change right
    let infos := resize 2 inputs.value_initialized_info maneuver_goal.maneuver_infos
    let front_obstacle ← ObstaclesAt inputs.obstacles current_lane_forward_obstacle_id
    let infos ← assignFront (fun m => { m with
      maneuver_target := { m.maneuver_target with
        target_speed := min front_obstacle.Speed config.target_speed } }) infos
    let infos ← assignFront (fun m => { m with has_stop_point := false }) infos
    let infos ← assignFront (fun m => { m with ptr_ref_line := some inputs.reference_line_ }) infos
    let infos ← assignFront (fun m => { m with lane_id := incoming_way_point.lane_id }) infos
    let right_obstacle ← ObstaclesAt inputs.obstacles right.forward_obstacle_id
    let infos ← assignBack (fun m => { m with
      maneuver_target := { m.maneuver_target with
        target_speed := min right_obstacle.Speed config.target_speed } }) infos
    let infos ← assignBack (fun m => { m with has_stop_point := false }) infos
    let infos ← assignBack (fun m => { m with ptr_ref_line := none }) infos
    let infos ← assignBack (fun m => { m with
      lane_id := rightLaneId incoming_way_point.lane_id }) infos
    Except.ok { decision_type := DecisionType.kChangeRight, maneuver_infos := infos }
  else
    -- can change both
    let left_leading_vel ←
      (if left.forward_obstacle_id < 0 then Except.ok config.target_speed
      else (ObstaclesAt inputs.obstacles left.forward_obstacle_id).map (fun o => o.Speed))
    let left_following_vel ←
      (if left.backward_obstacle_id < 0 then Except.ok config.target_speed
      else (ObstaclesAt inputs.obstacles left.backward_obstacle_id).map (fun o => o.Speed))
    let current_leading_vel ←
      (if current_lane_forward_obstacle_id < 0 then Except.ok config.target_speed
      else (ObstaclesAt inputs.obstacles current_lane_forward_obstacle_id).map (fun o => o.Speed))
    let current_following_vel ←
      (if current_lane_backward_obstacle_id < 0 then Except.ok config.target_speed
      else (ObstaclesAt inputs.obstacles current_lane_backward_obstacle_id).map (fun o => o.Speed))
    let right_leading_vel ←
      (if right.forward_obstacle_id < 0 then Except.ok config.target_speed
      else (ObstaclesAt inputs.obstacles right.forward_obstacle_id).map (fun o => o.Speed))
    let right_following_vel ←
      (if right.forward_obstacle_id < 0 then Except.ok config.target_speed
      else (ObstaclesAt inputs.obstacles right.backward_obstacle_id).map (fun o => o.Speed))
    let leading_velocity := [left_leading_vel, current_leading_vel, right_leading_vel]
    let following_velocity := [left_following_vel, current_following_vel, right_following_vel]
    let leading_clear_distance := [left.forward_clear_distance,
      current_lane_forward_clear_distance, right.forward_clear_distance]
    let following_clear_distance := [left.backward_clear_distance,
      current_lane_backward_clear_distance, right.backward_clear_distance]
    let target_lane_offset ← SelectLane config ego_s ego_vel leading_velocity
      following_velocity leading_clear_distance following_clear_distance
    if target_lane_offset = -1 then
      let infos := resize 2 inputs.value_initialized_info maneuver_goal.maneuver_infos
      let infos ← assignFront (fun m => { m with
        maneuver_target := { m.maneuver_target with
          target_speed := min current_leading_vel config.target_speed } }) infos
      let infos ← assignFront (fun m => { m with lane_id := incoming_way_point.lane_id }) infos
      let infos ← assignFront (fun m => { m with has_stop_point := false }) infos
      let infos ← assignFront (fun m => { m with
        ptr_ref_line := some inputs.reference_line_ }) infos
      let infos ← assignBack (fun m => { m with
        lane_id := leftLaneId incoming_way_point.lane_id }) infos
      let infos ← assignBack (fun m => { m with has_stop_point := false }) infos
      let infos ← assignBack (fun m => { m with
        maneuver_target := { m.maneuver_target with
          target_speed := min left_leading_vel config.target_speed } }) infos
      let infos ← assignBack (fun m => { m with ptr_ref_line := none }) infos
      Except.ok { decision_type := DecisionType.kChangeLeft, maneuver_infos := infos }
    else if target_lane_offset = 0 then
      let infos := resize 1 inputs.value_initialized_info maneuver_goal.maneuver_infos
      let infos ← assignFront (fun m => { m with lane_id := incoming_way_point.lane_id }) infos
      let infos ← assignFront (fun m => { m with has_stop_point := false }) infos
      let infos ← assignFront (fun m => { m with
        maneuver_target := { m.maneuver_target with
          target_speed := min current_leading_vel config.target_speed } }) infos
      let infos ← assignFront (fun m => { m with
        ptr_ref_line := some inputs.reference_line_ }) infos
      Except.ok { decision_type := DecisionType.kFollowLane, maneuver_infos := infos }
    else if target_lane_offset = 1 then
      let infos := resize 2 inputs.value_initialized_info maneuver_goal.maneuver_infos
      let infos ← assignFront (fun m => { m with lane_id := incoming_way_point.lane_id }) infos
      let infos ← assignFront (fun m => { m with has_stop_point := false }) infos
      let infos ← assignFront (fun m => { m with
        maneuver_target := { m.maneuver_target with
          target_speed := min current_leading_vel config.target_speed } }) infos
      let infos ← assignFront (fun m => { m with
        ptr_ref_line := some inputs.reference_line_ }) infos
      let infos ← assignBack (fun m => { m with
        lane_id := rightLaneId incoming_way_point.lane_id }) infos
      let infos ← assignBack (fun m => { m with has_stop_point := false }) infos
      let infos ← assignBack (fun m => { m with
        maneuver_target := { m.maneuver_target with
          target_speed := min config.target_speed right_leading_vel } }) infos
      let infos ← assignBack (fun m => { m with ptr_ref_line := none }) infos
      Except.ok { decision_type := DecisionType.kChangeRight, maneuver_infos := infos }
    else
      Except.ok maneuver_goal

/-- The function `FollowLane::ObstacleDecision`.  The argument is the goal the pointer
`maneuver_goal` points to at entry, the result the goal at return. -/
def ObstacleDecision (inputs : PlanningInputs) (maneuver_goal : ManeuverGoal) :
    Except Failure ManeuverGoal :=
  let config := inputs.config
  let obstacles := inputs.obstacles
  let reference_line_ := inputs.reference_line_
  let ego_sl_s := inputs.ego_sl_s
  let ego_vel := inputs.ego_vel
  --  check current lane
  let current := inputs.GetLaneClearDistance 0
  let forward_clear_distance := current.forward_clear_distance
  let backward_clear_distance := current.backward_clear_distance
  let forward_obstacle_id := current.forward_obstacle_id
  let backward_obstacle_id := current.backward_obstacle_id
  -- determine the road option for vehicle
  let incoming_way_point :=
    reference_line_.NearestWayPoint (min (ego_sl_s + 5) reference_line_.Length)
  let lookahead_distance :=
    min (max (forward_clear_distance - config.lon_safety_buffer) config.min_lookahead_distance)
      config.max_lookahead_distance
  let reference_line_length := reference_line_.Length
  -- 0. no leading vehicle
  if forward_obstacle_id < 0 then
    -- 0.1 no leading vehicle and near the reference line's end
    if ego_sl_s + lookahead_distance > reference_line_length then do
      let infos := resize 1 inputs.value_initialized_info maneuver_goal.maneuver_infos
      let infos ← assignFront (fun m => { m with
        maneuver_target := { m.maneuver_target with target_s := reference_line_.Length } }) infos
      let infos ← assignFront (fun m => { m with has_stop_point := true }) infos
      let infos ← assignFront (fun m => { m with
        lane_id := (reference_line_.NearestWayPoint m.maneuver_target.target_s).lane_id }) infos
      let infos ← assignFront (fun m => { m with ptr_ref_line := some reference_line_ }) infos
      Except.ok { decision_type := DecisionType.kStopAtDestination, maneuver_infos := infos }
    else do
      -- 0.2 no leading vehicle and not near the reference line's end
      let infos := resize 1 inputs.value_initialized_info maneuver_goal.maneuver_infos
      let infos ← assignFront (fun m => { m with
        maneuver_target := { m.maneuver_target with target_speed := config.target_speed } }) infos
      let infos ← assignFront (fun m => { m with
        lane_id := (reference_line_.NearestWayPoint (ego_sl_s + lookahead_distance)).lane_id })
        infos
      let infos ← assignFront (fun m => { m with has_stop_point := false }) infos
      let infos ← assignFront (fun m => { m with ptr_ref_line := some reference_line_ }) infos
      Except.ok { decision_type := DecisionType.kFollowLane, maneuver_infos := infos }
  else do
    let forward_obstacle ← ObstaclesAt obstacles forward_obstacle_id
    -- 1. if there is a vehicle is so close
    if forward_clear_distance < config.lon_safety_buffer then
      let infos := resize 1 inputs.value_initialized_info maneuver_goal.maneuver_infos
      let infos ← assignFront (fun m => { m with
        maneuver_target := { m.maneuver_target with
          target_s := ego_sl_s + forward_clear_distance } }) infos
      let infos ← assignFront (fun m => { m with
        lane_id := (reference_line_.NearestWayPoint m.maneuver_target.target_s).lane_id }) infos
      let infos ← assignFront (fun m => { m with has_stop_point := true }) infos
      let infos ← assignFront (fun m => { m with ptr_ref_line := some reference_line_ }) infos
      Except.ok { decision_type := DecisionType.kEmergencyStop, maneuver_infos := infos }
    -- 2. has leading vehicle
    -- 2.1 leading vehicle is far away the ego vehicle
    else if lookahead_distance > config.max_lookahead_distance then
      -- 2.1.1 has stop point
      if ego_sl_s + lookahead_distance > reference_line_length then
        let infos := resize 1 inputs.value_initialized_info maneuver_goal.maneuver_infos
        let infos ← assignFront (fun m => { m with has_stop_point := true }) infos
        let infos ← assignFront (fun m => { m with
          maneuver_target := { m.maneuver_target with target_s := reference_line_.Length } })
          infos
        let infos ← assignFront (fun m => { m with ptr_ref_line := some reference_line_ }) infos
        let infos ← assignFront (fun m => { m with
          lane_id := (reference_line_.NearestWayPoint m.maneuver_target.target_s).lane_id })
          infos
        Except.ok { decision_type := DecisionType.kStopAtDestination, maneuver_infos := infos }
      else
        -- 2.1.2 does not have stop point (no resize in the source)
        let infos := maneuver_goal.maneuver_infos
        let infos ← assignFront (fun m => { m with has_stop_point := false }) infos
        let infos ← assignFront (fun m => { m with
          maneuver_target := { m.maneuver_target with target_speed := config.target_speed } })
          infos
        let infos ← assignFront (fun m => { m with
          lane_id := (reference_line_.NearestWayPoint (ego_sl_s + lookahead_distance)).lane_id })
          infos
        let infos ← assignFront (fun m => { m with ptr_ref_line := some reference_line_ }) infos
        Except.ok { decision_type := DecisionType.kFollowLane, maneuver_infos := infos }
    -- 2.2 leading vehicle is in lookahead distance
    else if ego_sl_s + lookahead_distance < reference_line_length then
      -- 2.2.1 check to left and right lane
      if (0.3 : ℚ) * ego_vel > forward_obstacle.Speed then
        if incoming_way_point.road_option = CarlaRoadOption.LANEFOLLOW then
          ChangeLaneDecision inputs ego_sl_s forward_clear_distance backward_clear_distance
            forward_obstacle_id backward_obstacle_id incoming_way_point maneuver_goal
        else
          -- follow the leading vehicle
          let infos := resize 1 inputs.value_initialized_info maneuver_goal.maneuver_infos
          let infos ← assignFront (fun m => { m with
            lane_id := (reference_line_.NearestWayPoint
              (min (ego_sl_s + lookahead_distance) reference_line_.Length)).lane_id }) infos
          let infos ← assignFront (fun m => { m with has_stop_point := false }) infos
          let infos ← assignFront (fun m => { m with ptr_ref_line := some reference_line_ }) infos
          let infos ← assignFront (fun m => { m with
            maneuver_target := { m.maneuver_target with
              target_speed := min forward_obstacle.Speed config.target_speed } }) infos
          Except.ok { decision_type := DecisionType.kFollowLane, maneuver_infos := infos }
      else
        -- 2.2.2 the leading vehicle is not so slow, just follow
        let infos := resize 1 inputs.value_initialized_info maneuver_goal.maneuver_infos
        let infos ← assignFront (fun m => { m with
          lane_id := (reference_line_.NearestWayPoint
            (min (ego_sl_s + lookahead_distance) reference_line_.Length)).lane_id }) infos
        let infos ← assignFront (fun m => { m with has_stop_point := false }) infos
        let infos ← assignFront (fun m => { m with ptr_ref_line := some reference_line_ }) infos
        let infos ← assignFront (fun m => { m with
          maneuver_target := { m.maneuver_target with
            target_speed := min forward_obstacle.Speed config.target_speed } }) infos
        Except.ok { decision_type := DecisionType.kFollowLane, maneuver_infos := infos }
    else
      -- 2.3 the vehicle is approach the reference end, we don't want to change the lane
      let infos := resize 1 inputs.value_initialized_info maneuver_goal.maneuver_infos
      let infos ← assignFront (fun m => { m with has_stop_point := true }) infos
      let infos ← assignFront (fun m => { m with
        maneuver_target := { m.maneuver_target with target_s := reference_line_length } })
        infos
      let infos ← assignFront (fun m => { m with
        lane_id := (reference_line_.NearestWayPoint reference_line_length).lane_id }) infos
      Except.ok { decision_type := DecisionType.kStopAtDestination, maneuver_infos := infos }

end FollowLane

end planning

/-! ## Concrete scenarios used to exercise the definitions -/

namespace planning

namespace Scenario

/-- A vehicle 4 m long and 2 m wide, rear axle 1 m behind the centre. -/
def vehicleParams : VehicleParams :=
  { length := 4, width := 2, back_axle_to_center_length := 1 }

/-- A one-point trajectory at the origin, heading along the x axis. -/
def trajectory : List TrajectoryPoint :=
  [{ path_point := { x := 0, y := 0, theta := 0, kappa := 0, dkappa := 0, s := 0 },
     v := 0, a := 0, relative_time := 0 }]

/-- One snapshot holding one obstacle box. -/
def predictedEnvironment : List (List Box2d) :=
  [[{ center_x := 1, center_y := 0, heading := 0, length := 4, width := 2 }]]

/-- A way point on lane 1 that follows the lane and permits both lane changes. -/
def wayPoint : WayPoint :=
  { lane_id := 1, road_option := CarlaRoadOption.LANEFOLLOW,
    lane_change := LaneChangeType.BOTH, has_left_lane := true, has_right_lane := true }

/-- A reference line of the given length with the same way point everywhere. -/
def referenceLine (length : ℚ) : ReferenceLine :=
  { Length := length, NearestWayPoint := fun _ => wayPoint }

/-- A configuration with `lon_safety_buffer = 5` and `target_speed = 10`. -/
def config : PlanningConfig :=
  { lon_safety_buffer := 5, min_lookahead_distance := 10, max_lookahead_distance := 50,
    target_speed := 10, maneuver_forward_clear_threshold := 10,
    maneuver_backward_clear_threshold := 5,
    maneuver_target_lane_forward_clear_threshold := 20,
    maneuver_target_lane_backward_clear_threshold := 10,
    maneuver_execute_time_length := 3, maneuver_safety_cost_gain := 1,
    maneuver_efficiency_cost_gain := 1, maneuver_comfort_cost_gain := 1,
    max_lon_velocity := 15, max_lon_acc := 3 }

/-- A value-initialised `ManeuverInfo`. -/
def zeroInfo : ManeuverInfo :=
  { lane_id := 0, has_stop_point := false,
    maneuver_target := { target_s := 0, target_speed := 0 }, ptr_ref_line := none }

/-- A freshly constructed goal: no infos yet. -/
def freshGoal : ManeuverGoal :=
  { decision_type := DecisionType.kFollowLane, maneuver_infos := [] }

/-- The only obstacle has id 7 and drives at 2 m/s. -/
def obstacles : Int → Option Obstacle := fun id => if id = 7 then some { Speed := 2 } else none

/-- Ego at `s = 20` with 10 m/s on a 100 m reference line; no leading vehicle,
and only 3 m of clear distance ahead, less than `lon_safety_buffer`. -/
def noLeaderShortClear : PlanningInputs :=
  { config := config, obstacles := obstacles, ego_vel := 10, ego_sl_s := 20,
    reference_line_ := referenceLine 100,
    GetLaneClearDistance := fun _ =>
      { forward_clear_distance := 3, backward_clear_distance := 100,
        forward_obstacle_id := -1, backward_obstacle_id := -1 },
    value_initialized_info := zeroInfo }

/-- Ego at `s = 20` with 10 m/s; obstacle 7 leads 3 m ahead, closer than
`lon_safety_buffer`. -/
def leaderTooClose : PlanningInputs :=
  { config := config, obstacles := obstacles, ego_vel := 10, ego_sl_s := 20,
    reference_line_ := referenceLine 100,
    GetLaneClearDistance := fun _ =>
      { forward_clear_distance := 3, backward_clear_distance := 100,
        forward_obstacle_id := 7, backward_obstacle_id := -1 },
    value_initialized_info := zeroInfo }

/-- The spec's S4: reference line of 30 m, ego at `s = 20`, target speed 10, no
leading vehicle. -/
def S4 : PlanningInputs :=
  { config := config, obstacles := obstacles, ego_vel := 10, ego_sl_s := 20,
    reference_line_ := referenceLine 30,
    GetLaneClearDistance := fun _ =>
      { forward_clear_distance := 100, backward_clear_distance := 100,
        forward_obstacle_id := -1, backward_obstacle_id := -1 },
    value_initialized_info := zeroInfo }

/-- Ego at `s = 20` with 5 m/s behind obstacle 7, which drives at 2 m/s 40 m
ahead: the leader is not much slower than the ego (`0.3 * 5 = 1.5 < 2`). -/
def followingLeader : PlanningInputs :=
  { config := config, obstacles := obstacles, ego_vel := 5, ego_sl_s := 20,
    reference_line_ := referenceLine 100,
    GetLaneClearDistance := fun _ =>
      { forward_clear_distance := 40, backward_clear_distance := 100,
        forward_obstacle_id := 7, backward_obstacle_id := -1 },
    value_initialized_info := zeroInfo }

/-- The goal `ObstacleDecision` returns on `followingLeader`. -/
def followingLeaderGoal : ManeuverGoal :=
  { decision_type := DecisionType.kFollowLane,
    maneuver_infos :=
      [{ lane_id := 1, has_stop_point := false,
         maneuver_target := { target_s := 0, target_speed := 2 },
         ptr_ref_line := some (referenceLine 100) }] }

end Scenario

end planning

namespace planning

namespace FollowLane

/-- The conditions under which the specification lets `ObstacleDecision` emit a
lane change, in the specification's words: a leading vehicle exists, its clear
distance is at least `lon_safety_buffer`, `ego_s + lookahead` is below the
reference line length, the leader is much slower (`0.3 * ego_vel > leading
speed`) and the incoming way point's road option is `LANEFOLLOW`. -/
def LaneChangeConsidered (inputs : PlanningInputs) : Prop :=
  ∃ leader : Obstacle,
    0 ≤ (inputs.GetLaneClearDistance 0).forward_obstacle_id ∧
    inputs.obstacles (inputs.GetLaneClearDistance 0).forward_obstacle_id = some leader ∧
    inputs.config.lon_safety_buffer ≤ (inputs.GetLaneClearDistance 0).forward_clear_distance ∧
    inputs.ego_sl_s + min (max ((inputs.GetLaneClearDistance 0).forward_clear_distance
      - inputs.config.lon_safety_buffer) inputs.config.min_lookahead_distance)
      inputs.config.max_lookahead_distance < inputs.reference_line_.Length ∧
    (0.3 : ℚ) * inputs.ego_vel > leader.Speed ∧
    (inputs.reference_line_.NearestWayPoint
      (min (inputs.ego_sl_s + 5) inputs.reference_line_.Length)).road_option
        = CarlaRoadOption.LANEFOLLOW

end FollowLane

end planning


namespace planning

namespace FollowLane

/-- The weighted lane cost in the specification's words:
`safety_gain*SafetyCost + efficiency_gain*EfficiencyCost + comfort_gain*ComfortCost`,
for finite values of the three costs. -/
def WeightedCost (config : PlanningConfig) (safety efficiency comfort : ℚ) : ℚ :=
  config.maneuver_safety_cost_gain * safety + config.maneuver_efficiency_cost_gain * efficiency
    + config.maneuver_comfort_cost_gain * comfort

/-- The comfort cost as the specification words it: `|required_acc| / max_lon_acc`
with `required_acc = (leading_vel^2 - ego_vel^2) /
(2 * max(1e-3, forward_clear - lon_safety_buffer))`, infinite when
`|required_acc| > max_lon_acc`. -/
def ComfortCostSpec (config : PlanningConfig) (ego_vel leading_vel forward_clear_distance : ℚ) :
    Double :=
  let required_acc := (leading_vel ^ 2 - ego_vel ^ 2) /
    (2 * max (1e-3 : ℚ) (forward_clear_distance - config.lon_safety_buffer))
  if |required_acc| > config.max_lon_acc then Double.inf
  else Double.ofDiv |required_acc| config.max_lon_acc

/-- Admissibility of a neighbouring lane in the specification's words:
`forward_clear ≥ maneuver_target_lane_forward_clear_threshold`,
`backward_clear ≥ maneuver_target_lane_backward_clear_threshold` and, when a
following vehicle exists on that lane, the follower's speed is below
`min(target_speed, that lane's leading speed)`.  For a lane without a leading
vehicle the leading speed is read as `target_speed`, the default the code uses
for an empty lane. -/
def AdmissibleSpec (inputs : PlanningInputs) (lane_offset : Int) : Prop :=
  let lane := inputs.GetLaneClearDistance lane_offset
  let leading_speed : ℚ :=
    if lane.forward_obstacle_id < 0 then inputs.config.target_speed
    else match inputs.obstacles lane.forward_obstacle_id with
      | some leader => leader.Speed
      | none => inputs.config.target_speed
  lane.forward_clear_distance ≥ inputs.config.maneuver_target_lane_forward_clear_threshold ∧
  lane.backward_clear_distance ≥ inputs.config.maneuver_target_lane_backward_clear_threshold ∧
  (0 ≤ lane.backward_obstacle_id →
    ∀ follower : Obstacle, inputs.obstacles lane.backward_obstacle_id = some follower →
      follower.Speed < min inputs.config.target_speed leading_speed)

end FollowLane

namespace Scenario

/-- Obstacle 7 drives at 2 m/s, obstacle 8 at 12 m/s. -/
def twoObstacles : Int → Option Obstacle := fun id =>
  if id = 7 then some { Speed := 2 } else if id = 8 then some { Speed := 12 } else none

/-- Ego at 10 m/s with `target_speed = 10`.  The left lane (offset `-1`) has
100 m clear ahead and behind, obstacle 7 (2 m/s) as leader and no follower; the
right lane (offset `1`) has exactly the threshold of 20 m clear ahead, 100 m
behind and no vehicles. -/
def judgeSlowLeaderAndBoundary : PlanningInputs :=
  { config := config, obstacles := twoObstacles, ego_vel := 10, ego_sl_s := 20,
    reference_line_ := referenceLine 100,
    GetLaneClearDistance := fun lane_offset =>
      if lane_offset = -1 then
        { forward_clear_distance := 100, backward_clear_distance := 100,
          forward_obstacle_id := 7, backward_obstacle_id := -1 }
      else
        { forward_clear_distance := 20, backward_clear_distance := 100,
          forward_obstacle_id := -1, backward_obstacle_id := -1 },
    value_initialized_info := zeroInfo }

/-- Ego at 10 m/s with `target_speed = 10`.  Every lane has 100 m clear ahead
and behind, no leader, and obstacle 8 (12 m/s) as follower. -/
def judgeFastFollower : PlanningInputs :=
  { config := config, obstacles := twoObstacles, ego_vel := 10, ego_sl_s := 20,
    reference_line_ := referenceLine 100,
    GetLaneClearDistance := fun _ =>
      { forward_clear_distance := 100, backward_clear_distance := 100,
        forward_obstacle_id := -1, backward_obstacle_id := 8 },
    value_initialized_info := zeroInfo }

/-- Ego at 10 m/s with `target_speed = 10`.  Every lane has 100 m clear ahead
and behind, obstacle 8 (12 m/s) as leader and obstacle 7 (2 m/s) as follower. -/
def judgeLeaderAndFollower : PlanningInputs :=
  { config := config, obstacles := twoObstacles, ego_vel := 10, ego_sl_s := 20,
    reference_line_ := referenceLine 100,
    GetLaneClearDistance := fun _ =>
      { forward_clear_distance := 100, backward_clear_distance := 100,
        forward_obstacle_id := 8, backward_obstacle_id := 7 },
    value_initialized_info := zeroInfo }

/-- The spec's S3: ego at `s = 20` with 10 m/s; obstacle 7 leads 40 m ahead at
2 m/s, there is no follower; both lane changes are permitted; the left lane is
clear (forward 100, backward 100, no vehicles), the right lane has 3 m of clear
distance ahead. -/
def S3 : PlanningInputs :=
  { config := config, obstacles := obstacles, ego_vel := 10, ego_sl_s := 20,
    reference_line_ := referenceLine 100,
    GetLaneClearDistance := fun lane_offset =>
      if lane_offset = 0 then
        { forward_clear_distance := 40, backward_clear_distance := 100,
          forward_obstacle_id := 7, backward_obstacle_id := -1 }
      else if lane_offset = -1 then
        { forward_clear_distance := 100, backward_clear_distance := 100,
          forward_obstacle_id := -1, backward_obstacle_id := -1 }
      else
        { forward_clear_distance := 3, backward_clear_distance := 100,
          forward_obstacle_id := -1, backward_obstacle_id := -1 },
    value_initialized_info := zeroInfo }

/-- The scenario S3 with one more vehicle: obstacle 8 follows the ego on the
current lane, 100 m behind. -/
def S3WithFollower : PlanningInputs :=
  { config := config, obstacles := twoObstacles, ego_vel := 10, ego_sl_s := 20,
    reference_line_ := referenceLine 100,
    GetLaneClearDistance := fun lane_offset =>
      if lane_offset = 0 then
        { forward_clear_distance := 40, backward_clear_distance := 100,
          forward_obstacle_id := 7, backward_obstacle_id := 8 }
      else if lane_offset = -1 then
        { forward_clear_distance := 100, backward_clear_distance := 100,
          forward_obstacle_id := -1, backward_obstacle_id := -1 }
      else
        { forward_clear_distance := 3, backward_clear_distance := 100,
          forward_obstacle_id := -1, backward_obstacle_id := -1 },
    value_initialized_info := zeroInfo }

/-- A way point on lane 1 that follows the lane and permits no lane change. -/
def wayPointNoChange : WayPoint :=
  { lane_id := 1, road_option := CarlaRoadOption.LANEFOLLOW,
    lane_change := LaneChangeType.NONE, has_left_lane := false, has_right_lane := false }

/-- The configuration `config` with target-lane thresholds of half a millimetre
each, so that their sum is `1e-3`. -/
def tinyThresholds : PlanningConfig :=
  { config with
    maneuver_target_lane_forward_clear_threshold := 1 / 2000,
    maneuver_target_lane_backward_clear_threshold := 1 / 2000 }

end Scenario

end planning

namespace common

namespace CoordinateTransformer

/-! ## The partial transforms of `coordinate_transformer.cpp` -/

/-- The function `CoordinateTransformer::CalcTheta`. -/
noncomputable def CalcTheta (rtheta rkappa l dl : ℝ) : ℝ :=
  NormalizeAngle (rtheta + atan2 dl (1 - l * rkappa))

/-- The function `CoordinateTransformer::CalcKappa`.  The call
`std::pow(denominator, 1.5)` is read as the real power, which it is for the
non-negative base it is applied to. -/
noncomputable def CalcKappa (rkappa rdkappa l dl ddl : ℝ) : ℝ :=
  let denominator := dl * dl + (1 - l * rkappa) * (1 - l * rkappa)
  if |denominator| < 1e-8 then 0.0
  else
    let denominator := denominator ^ (1.5 : ℝ)
    let numerator := rkappa + ddl - 2 * l * rkappa * rkappa -
      l * ddl * rkappa + l * l * rkappa * rkappa * rkappa +
      l * dl * rdkappa + 2 * dl * dl * rkappa
    numerator / denominator

/-- The function `CoordinateTransformer::CalcCatesianPoint`; the pair is the
returned `Eigen::Vector2d`. -/
noncomputable def CalcCatesianPoint (rtheta rx ry l : ℝ) : ℝ × ℝ :=
  let x := rx - l * Real.sin rtheta
  let y := ry + l * Real.cos rtheta
  (x, y)

end CoordinateTransformer

end common

namespace common

/-! ## Sums of `double`s -/

/-- Rounding of a real to the nearest multiple of `ulp`, a tie going to the even
multiple (the IEEE 754 rounding `roundTiesToEven`). -/
noncomputable def roundTiesToEven (ulp x : ℝ) : ℝ :=
  let q := x / ulp
  let n := ⌊q⌋
  if q - n < 1 / 2 then n * ulp
  else if q - n > 1 / 2 then (n + 1) * ulp
  else if n % 2 = 0 then n * ulp
  else (n + 1) * ulp

/-- The exponent of a nonzero real in IEEE 754 binary64: `e` with
`2^e ≤ |x| < 2^(e+1)`, and `-1022` for the subnormal numbers. -/
noncomputable def binary64_exponent (x : ℝ) : ℤ :=
  max ⌊Real.logb 2 |x|⌋ (-1022)

/-- The `double` nearest to a real: 53 significant bits, round to nearest, ties
to even.  Overflow to an infinity (`|x| ≥ 2^1024`) is not represented. -/
noncomputable def binary64_round (x : ℝ) : ℝ :=
  if x = 0 then 0 else roundTiesToEven ((2 : ℝ) ^ (binary64_exponent x - 52)) x

/-- The sum `a + b` of two `double`s as the machine computes it: the exact sum,
rounded to the nearest `double`. -/
noncomputable def binary64_add (a b : ℝ) : ℝ :=
  binary64_round (a + b)

end common

namespace planning

/-! ## Collision checker: `CollisionChecker::Init` -/

/-- Modelled from the spec: `Box2d::LateralExtend(Δ)` grows the width by `Δ`. -/
def Box2d.LateralExtend (b : Box2d) (extension : ℝ) : Box2d :=
  { b with width := b.width + extension }

/-- Modelled from the spec: `Box2d::LongitudinalExtend(Δ)` grows the length by `Δ`. -/
def Box2d.LongitudinalExtend (b : Box2d) (extension : ℝ) : Box2d :=
  { b with length := b.length + extension }

/-- The Frenet point `SLPoint` that `ReferenceLine::XYToSL` writes. -/
structure SLPoint where
  s : ℝ
  l : ℝ

namespace CollisionChecker

/-- The two methods of `Obstacle` that `Init` calls (the class is not among the
sources): the predicted point at a relative time and the bounding box at a
point. -/
structure PredictedObstacle where
  GetPointAtTime : ℝ → TrajectoryPoint
  GetBoundingBoxAtPoint : TrajectoryPoint → Box2d

/-- The two queries of the member `ptr_ref_line_` that the checker calls (the
class is not among the sources): `GetLaneWidth(s, &left_width, &right_width)`
as the pair of widths it writes, and `XYToSL(x, y, &sl_point)` as the point it
writes. -/
structure LaneGeometry where
  GetLaneWidth : ℝ → ℝ × ℝ
  XYToSL : ℝ → ℝ → SLPoint

/-- The options of `PlanningConfig::Instance()` that `Init` reads. -/
structure PredictionConfig where
  max_lookahead_time : ℝ
  delta_t : ℝ
  lat_safety_buffer : ℝ
  lon_safety_buffer : ℝ

/-- The function `CollisionChecker::IsEgoVehicleInLane`. -/
noncomputable def IsEgoVehicleInLane (ptr_ref_line_ : LaneGeometry)
    (ego_vehicle_s ego_vehicle_d : ℝ) : Bool :=
  let left_width := (ptr_ref_line_.GetLaneWidth ego_vehicle_s).1
  let right_width := (ptr_ref_line_.GetLaneWidth ego_vehicle_s).2
  decide (ego_vehicle_d < left_width) && decide (ego_vehicle_d > -right_width)

/-- The function `CollisionChecker::IsObstacleBehindEgoVehicle`.  As in the source, the
point is projected on the member `ptr_ref_line_`; the argument `ref_line` is not
read. -/
noncomputable def IsObstacleBehindEgoVehicle (ptr_ref_line_ : LaneGeometry)
    (obstacle : PredictedObstacle) (ego_s : ℝ) (_ref_line : LaneGeometry) : Bool :=
  let default_lane_width : ℝ := 3.0
  let point := obstacle.GetPointAtTime 0.0
  let sl_point := ptr_ref_line_.XYToSL point.path_point.x point.path_point.y
  if ego_s > sl_point.s ∧ |sl_point.l| < default_lane_width / 2.0 then true else false

/-- The first loop of `CollisionChecker::Init` (lines 69-78): the entries of the
obstacle map, in iteration order, that are pushed to `obstacle_considered`.
`IsObstacleInGraph` is `ptr_st_graph_->IsObstacleInGraph`.  The entry keeps its
key next to the pointer. -/
noncomputable def ObstacleConsidered (ptr_ref_line_ : LaneGeometry)
    (IsObstacleInGraph : Int → Bool) (obstacles : List (Int × PredictedObstacle))
    (ego_vehicle_s ego_vehicle_d : ℝ) (reference_line : LaneGeometry) :
    List (Int × PredictedObstacle) :=
  let ego_vehicle_in_lane := IsEgoVehicleInLane ptr_ref_line_ ego_vehicle_s ego_vehicle_d
  obstacles.foldl (fun obstacle_considered obstacle =>
    if ego_vehicle_in_lane &&
        (IsObstacleBehindEgoVehicle ptr_ref_line_ obstacle.2 ego_vehicle_s reference_line
          || !IsObstacleInGraph obstacle.1) then
      obstacle_considered
    else obstacle_considered ++ [obstacle]) []

/-- The body of the second loop of `CollisionChecker::Init` (lines 82-89): the snapshot
`predicted_env` built at `relative_time`. -/
def PredictedEnv (config : PredictionConfig) (obstacle_considered : List PredictedObstacle)
    (relative_time : ℝ) : List Box2d :=
  obstacle_considered.map (fun obstacle =>
    let point := obstacle.GetPointAtTime relative_time
    let box := obstacle.GetBoundingBoxAtPoint point
    let box := box.LateralExtend (2.0 * config.lat_safety_buffer)
    let box := box.LongitudinalExtend (2.0 * config.lon_safety_buffer)
    box)

/-- The second loop of `CollisionChecker::Init` (lines 80-92), from the state
`(relative_time, predicted_obstacle_box_)` on.  `add` is the sum of two
`double`s as the machine computes it (`common.binary64_add`): the statement
`relative_time += delta_t` rounds the sum, and the rounding decides how many
snapshots are built, so the exact sum of reals is not used here.  The loop need
not end (it does not for `delta_t ≤ 0 < max_lookahead_time`, nor when the
rounded sum stops growing below `max_lookahead_time`), so the model counts
iterations: `none` means that `fuel` tests of the loop condition were not
enough. -/
noncomputable def InitLoop (add : ℝ → ℝ → ℝ) (config : PredictionConfig)
    (obstacle_considered : List PredictedObstacle) :
    Nat → ℝ → List (List Box2d) → Option (List (List Box2d))
  | 0, _, _ => none
  | fuel + 1, relative_time, predicted_obstacle_box_ =>
    if relative_time < config.max_lookahead_time then
      let predicted_env := PredictedEnv config obstacle_considered relative_time
      InitLoop add config obstacle_considered fuel (add relative_time config.delta_t)
        (predicted_obstacle_box_ ++ [predicted_env])
    else some predicted_obstacle_box_

/-- The function `CollisionChecker::Init`, called by the constructor on the cleared member
`predicted_obstacle_box_`; the result is the member after the call.  `add` is
the sum of two `double`s, see `InitLoop`. -/
noncomputable def Init (add : ℝ → ℝ → ℝ) (fuel : Nat) (config : PredictionConfig)
    (ptr_ref_line_ : LaneGeometry)
    (IsObstacleInGraph : Int → Bool) (obstacles : List (Int × PredictedObstacle))
    (ego_vehicle_s ego_vehicle_d : ℝ) (reference_line : LaneGeometry) :
    Option (List (List Box2d)) :=
  let obstacle_considered := (ObstacleConsidered ptr_ref_line_ IsObstacleInGraph obstacles
    ego_vehicle_s ego_vehicle_d reference_line).map Prod.snd
  let relative_time : ℝ := 0.0
  InitLoop add config obstacle_considered fuel relative_time []

/-- The value of the local `relative_time` of `Init` at the `k`-th test of the
loop condition, counted from 0: the initial `0.0` after `k` executions of
`relative_time += delta_t`. -/
noncomputable def RelativeTimeAt (add : ℝ → ℝ → ℝ) (config : PredictionConfig) (k : Nat) : ℝ :=
  (fun relative_time => add relative_time config.delta_t)^[k] 0.0

end CollisionChecker

end planning

namespace planning

namespace Scenario

/-- A prediction horizon of 1 s sampled every 0.5 s, with safety buffers of
0.5 m to the side and 1 m along the obstacle. -/
noncomputable def predictionConfig : CollisionChecker.PredictionConfig :=
  { max_lookahead_time := 1, delta_t := 1 / 2, lat_safety_buffer := 1 / 2,
    lon_safety_buffer := 1 }

/-- A prediction horizon of 1 s sampled every 0.1 s: `delta_t` is the `double`
nearest to 0.1, `3602879701896397 / 2^55`. -/
noncomputable def tenthConfig : CollisionChecker.PredictionConfig :=
  { max_lookahead_time := 1, delta_t := 3602879701896397 / 36028797018963968,
    lat_safety_buffer := 1 / 2, lon_safety_buffer := 1 }

/-- A straight reference line along the x axis: `s = x`, `l = y`, and a lane
2 m wide on each side. -/
def laneGeometry : CollisionChecker.LaneGeometry :=
  { GetLaneWidth := fun _ => (2, 2), XYToSL := fun x y => { s := x, l := y } }

/-- An obstacle 4 m long and 2 m wide that starts at `x = 10` on the reference
line and drives along it at 2 m/s. -/
def movingObstacle : CollisionChecker.PredictedObstacle :=
  { GetPointAtTime := fun t =>
      { path_point := { x := 10 + 2 * t, y := 0, theta := 0, kappa := 0, dkappa := 0,
                        s := 10 + 2 * t },
        v := 2, a := 0, relative_time := t },
    GetBoundingBoxAtPoint := fun p =>
      { center_x := p.path_point.x, center_y := p.path_point.y, heading := p.path_point.theta,
        length := 4, width := 2 } }

end Scenario

end planning

namespace planning

namespace CollisionChecker

/-! ## Collision checker: `IsCollision` with a thread pool -/

/-- The task that `IsCollision` enqueues in the branch `thread_pool_ != nullptr`
(the lambda of lines 42-52) for the trajectory point `traj_point`.  The lambda
captures the loop counter by reference (`&i`), so the index of the snapshot it
reads is the value the counter holds when the task runs, the argument `i`.
`none` is the unchecked read `predicted_obstacle_box_[i]` past the end of the
vector. -/
noncomputable def IsCollisionTask (HasOverlapWithBox2d : Box2d → Box2d → Bool)
    (vehicle_params : VehicleParams) (predicted_obstacle_box_ : List (List Box2d))
    (traj_point : TrajectoryPoint) (i : Nat) : Option Bool :=
  let ego_width := vehicle_params.width
  let ego_length := vehicle_params.length
  let shift_distance := vehicle_params.back_axle_to_center_length
  let ego_theta := traj_point.path_point.theta
  let ego_box := (Box2d.mk traj_point.path_point.x traj_point.path_point.y ego_theta
    ego_length ego_width).Shift (shift_distance * Real.cos ego_theta)
      (shift_distance * Real.sin ego_theta)
  match predicted_obstacle_box_[i]? with
  | none => none
  | some boxes => some (boxes.any (fun obstacle_box => HasOverlapWithBox2d ego_box obstacle_box))

/-- The values the futures of lines 38-54 deliver, from loop index `k` on.  The
task enqueued at index `k` runs at some later moment that the source does not
fix; `observed_i k` is the value of the loop counter at that moment (`k` when
the task runs before the loop advances, larger when it runs later).  `none`
means that some task read past the end of `predicted_obstacle_box_`. -/
noncomputable def IsCollisionFutures (HasOverlapWithBox2d : Box2d → Box2d → Bool)
    (vehicle_params : VehicleParams) (predicted_obstacle_box_ : List (List Box2d))
    (observed_i : Nat → Nat) : Nat → List TrajectoryPoint → Option (List Bool)
  | _, [] => some []
  | k, traj_point :: rest =>
    match IsCollisionTask HasOverlapWithBox2d vehicle_params predicted_obstacle_box_ traj_point
        (observed_i k),
      IsCollisionFutures HasOverlapWithBox2d vehicle_params predicted_obstacle_box_ observed_i
        (k + 1) rest with
    | some b, some bs => some (b :: bs)
    | _, _ => none

/-- The function `CollisionChecker::IsCollision` with a thread pool
(`thread_pool_ != nullptr`): every task is enqueued, then the futures are read in
order (lines 55-60) up to the first one that delivers `true`. -/
noncomputable def IsCollisionPooled (HasOverlapWithBox2d : Box2d → Box2d → Bool)
    (vehicle_params : VehicleParams) (predicted_obstacle_box_ : List (List Box2d))
    (observed_i : Nat → Nat) (trajectory_points : List TrajectoryPoint) : Option Bool :=
  match IsCollisionFutures HasOverlapWithBox2d vehicle_params predicted_obstacle_box_
      observed_i 0 trajectory_points with
  | none => none
  | some futures => some (futures.any (fun future => future))

end CollisionChecker

namespace Scenario

/-- The overlap test of two boxes whose headings are both 0: their projections
on the x axis and on the y axis intersect.  It stands for
`Box2d::HasOverlapWithBox2d` in scenarios where every box has heading 0. -/
noncomputable def axisAlignedOverlap (a b : Box2d) : Bool :=
  decide (|a.center_x - b.center_x| ≤ (a.length + b.length) / 2) &&
    decide (|a.center_y - b.center_y| ≤ (a.width + b.width) / 2)

/-- A two-point trajectory along the x axis: the rear axle at `x = 0`, then at
`x = 10`, both with heading 0; the relative times are 0 and 5. -/
def twoPointTrajectory : List TrajectoryPoint :=
  [{ path_point := { x := 0, y := 0, theta := 0, kappa := 0, dkappa := 0, s := 0 },
     v := 2, a := 0, relative_time := 0 },
   { path_point := { x := 10, y := 0, theta := 0, kappa := 0, dkappa := 0, s := 10 },
     v := 2, a := 0, relative_time := 5 }]

/-- Two snapshots of one crossing obstacle, 4 m long and 2 m wide with heading
0: at the first step it is 10 m to the left of the ego box, at the second step
it is where the ego box was at the first step. -/
def crossingEnvironment : List (List Box2d) :=
  [[{ center_x := 1, center_y := 10, heading := 0, length := 4, width := 2 }],
   [{ center_x := 1, center_y := 0, heading := 0, length := 4, width := 2 }]]

end Scenario

end planning

namespace planning

/-! ## State machine: `Enter`, `Exit` and `NextState` of `FollowLane` and `StopState` -/

/-- The state singletons a `State *` can point to (`X::Instance()`); a null
pointer is `none : Option StateId`.  The package of `stop_state.cpp` names the
same five states with the suffix `State`. -/
inductive StateId
  | FollowLane
  | ChangeLeftLane
  | ChangeRightLane
  | Stop
  | EmergencyStop
  deriving DecidableEq, Repr

/-- Modelled from the spec: `planning_srvs::RouteResponse` (the message is not
among the sources): the way points of a route. -/
structure RouteResponse where
  route : List WayPoint

/-- The members of `ManeuverPlanner` that the states reach through its accessors
(`maneuver_planner.hpp`): `maneuver_goal_`, `routes_` and `ref_lines_`. -/
structure ManeuverPlanner where
  maneuver_goal_ : ManeuverGoal
  routes_ : List RouteResponse
  ref_lines_ : List ReferenceLine

/-- The method `ManeuverPlanner::SetManeuverGoal` (declared in
`maneuver_planner.hpp`, defined outside the sources): it stores the goal. -/
def ManeuverPlanner.SetManeuverGoal (planner : ManeuverPlanner) (maneuver_goal : ManeuverGoal) :
    ManeuverPlanner :=
  { planner with maneuver_goal_ := maneuver_goal }

namespace FollowLane

/-- The function `FollowLane::Enter`.  `route_response` is what
`maneuver_planner->ReRoute` writes into its output argument.  The result is the
returned `bool` and the planner after the call; a null `maneuver_planner` is
dereferenced. -/
def Enter (route_response : RouteResponse) (maneuver_planner : Option ManeuverPlanner) :
    Except Failure (Bool × ManeuverPlanner) :=
  match maneuver_planner with
  | none => Except.error Failure.undefined_behaviour
  | some planner =>
    if planner.routes_.isEmpty then
      Except.ok (true, { planner with routes_ := planner.routes_ ++ [route_response] })
    else
      Except.ok (true, planner)

/-- The function `FollowLane::Exit`: it only logs.  The result is the planner after
the call. -/
def Exit (maneuver_planner : Option ManeuverPlanner) : Option ManeuverPlanner :=
  maneuver_planner

/-- The function `FollowLane::NextState`.  `TrafficLightDecision` and `CombineManeuver` are
the members of the base class `State` (not among the sources), `default_goal`
is a default-constructed `ManeuverGoal`.  The result is the returned `State *`
and the planner after the call (`SetManeuverGoal` has stored the combined
goal); an exception of `ObstacleDecision` propagates.  The `default:` case of
the `switch` (a value outside the enumeration) has no counterpart here. -/
def NextState (inputs : PlanningInputs)
    (TrafficLightDecision : ReferenceLine → ManeuverGoal → ManeuverGoal)
    (CombineManeuver : ManeuverGoal → ManeuverGoal → ManeuverGoal)
    (default_goal : ManeuverGoal) (maneuver_planner : Option ManeuverPlanner) :
    Except Failure (Option StateId × Option ManeuverPlanner) :=
  match maneuver_planner with
  | none => Except.ok (none, none)
  | some planner => do
    -- traffic decision
    let traffic_maneuver_goal := TrafficLightDecision inputs.reference_line_ default_goal
    let obstacle_maneuver_goal ← ObstacleDecision inputs default_goal
    let combined_maneuver := CombineManeuver traffic_maneuver_goal obstacle_maneuver_goal
    let planner := planner.SetManeuverGoal combined_maneuver
    match combined_maneuver.decision_type with
    | DecisionType.kStopAtDestination => Except.ok (some StateId.Stop, some planner)
    | DecisionType.kStopAtTrafficSign => Except.ok (some StateId.Stop, some planner)
    | DecisionType.kEmergencyStop => Except.ok (some StateId.EmergencyStop, some planner)
    | DecisionType.kChangeRight => Except.ok (some StateId.ChangeRightLane, some planner)
    | DecisionType.kChangeLeft => Except.ok (some StateId.ChangeLeftLane, some planner)
    | DecisionType.kFollowLane => Except.ok (some StateId.FollowLane, some planner)

end FollowLane

namespace StopState

/-- The `ManeuverGoal` of the package of `stop_state.cpp`: one decision with one
target, not a list of infos. -/
structure ManeuverGoal where
  decision_type : DecisionType
  has_stop_point : Bool
  target_speed : ℚ
  target_s : ℚ
  lane_id : Int

/-- The function `StopState::Enter`: it stores the last reference line of
`PlanningContext::Instance().reference_lines()` in the member `reference_line_`
(calling `back()` on an empty container is undefined) and then reaches the
closing brace of a function that returns `bool` without a `return` statement,
which is undefined behaviour: no call of it has a defined result.  The type of
a result is the returned `bool`, the member and the planner after the call. -/
def Enter (reference_lines : List ReferenceLine) (_maneuver_planner : Option ManeuverPlanner) :
    Except Failure (Bool × ReferenceLine × Option ManeuverPlanner) :=
  match reference_lines.getLast? with
  | none => Except.error Failure.undefined_behaviour
  | some _reference_line_ => Except.error Failure.undefined_behaviour

/-- The function `StopState::Exit`: it only logs.  The result is the planner after
the call. -/
def Exit (maneuver_planner : Option ManeuverPlanner) : Option ManeuverPlanner :=
  maneuver_planner

/-- The function `StopState::ObstacleDecision`.  The inputs are those of
`FollowLane::ObstacleDecision`; `GetLaneClearDistance(0, reference_line_, ...)`
writes the leading (forward) and following (backward) clear distances and
ids. -/
def ObstacleDecision (inputs : PlanningInputs) (maneuver_goal : ManeuverGoal) :
    Except Failure ManeuverGoal :=
  let config := inputs.config
  let reference_line_ := inputs.reference_line_
  let ego_sl_s := inputs.ego_sl_s
  let current := inputs.GetLaneClearDistance 0
  let leading_clear_distance := current.forward_clear_distance
  let following_clear_distance := current.backward_clear_distance
  let leading_vehicle_id := current.forward_obstacle_id
  if leading_clear_distance < config.lon_safety_buffer ∧
      following_clear_distance < config.lon_safety_buffer then
    let maneuver_goal := { maneuver_goal with decision_type := DecisionType.kEmergencyStop }
    let maneuver_goal := { maneuver_goal with has_stop_point := true }
    let maneuver_goal := { maneuver_goal with target_speed := 0.0 }
    let maneuver_goal := { maneuver_goal with
      target_s := min (ego_sl_s + max (leading_clear_distance - config.lon_safety_buffer)
        config.min_lookahead_distance) config.max_lookahead_distance }
    let maneuver_goal := { maneuver_goal with
      lane_id := (reference_line_.NearestWayPoint maneuver_goal.target_s).lane_id }
    Except.ok maneuver_goal
  else
    if ego_sl_s + leading_clear_distance > reference_line_.Length then
      let maneuver_goal := { maneuver_goal with has_stop_point := true }
      let maneuver_goal := { maneuver_goal with target_speed := 0.0 }
      let maneuver_goal := { maneuver_goal with decision_type := DecisionType.kStopAtDestination }
      let maneuver_goal := { maneuver_goal with
        target_s := ego_sl_s + min config.max_lookahead_distance
          (max (leading_clear_distance - config.lon_safety_buffer)
            config.min_lookahead_distance) }
      let maneuver_goal := { maneuver_goal with
        lane_id := (reference_line_.NearestWayPoint maneuver_goal.target_s).lane_id }
      Except.ok maneuver_goal
    else do
      let maneuver_goal := { maneuver_goal with has_stop_point := false }
      let target_speed ← (if leading_vehicle_id < 0 then Except.ok config.target_speed
        else (ObstaclesAt inputs.obstacles leading_vehicle_id).map (fun obstacle =>
          obstacle.Speed))
      let maneuver_goal := { maneuver_goal with target_speed := target_speed }
      let maneuver_goal := { maneuver_goal with
        target_s := ego_sl_s + min config.max_lookahead_distance
          (max (leading_clear_distance - config.lon_safety_buffer)
            config.min_lookahead_distance) }
      let maneuver_goal := { maneuver_goal with decision_type := DecisionType.kFollowLane }
      let maneuver_goal := { maneuver_goal with
        lane_id := (reference_line_.NearestWayPoint maneuver_goal.target_s).lane_id }
      Except.ok maneuver_goal

/-- The function `StopState::NextState`.  `TrafficLightDecision` and `CombineManeuver` are
the members of the base class `State` (not among the sources), `default_goal`
is a default-constructed `ManeuverGoal`.  The result is the returned `State *`;
an exception of `ObstacleDecision` propagates.  The `default:` case of the
`switch` (a value outside the enumeration) has no counterpart here. -/
def NextState (inputs : PlanningInputs)
    (TrafficLightDecision : ReferenceLine → ManeuverGoal → ManeuverGoal)
    (CombineManeuver : ManeuverGoal → ManeuverGoal → ManeuverGoal)
    (default_goal : ManeuverGoal) (maneuver_planner : Option ManeuverPlanner) :
    Except Failure (Option StateId) :=
  match maneuver_planner with
  | none => Except.ok none
  | some _ => do
    let obstacle_maneuver ← ObstacleDecision inputs default_goal
    let traffic_light_maneuver := TrafficLightDecision inputs.reference_line_ default_goal
    let combined_maneuver := CombineManeuver traffic_light_maneuver obstacle_maneuver
    match combined_maneuver.decision_type with
    | DecisionType.kStopAtTrafficSign => Except.ok (some StateId.Stop)
    | DecisionType.kStopAtDestination => Except.ok (some StateId.Stop)
    | DecisionType.kEmergencyStop => Except.ok (some StateId.EmergencyStop)
    | DecisionType.kFollowLane => Except.ok (some StateId.FollowLane)
    | DecisionType.kChangeLeft => Except.ok (some StateId.ChangeLeftLane)
    | DecisionType.kChangeRight => Except.ok (some StateId.ChangeRightLane)

end StopState

/-- The transition table in the specification's words: `StopAtDestination` and
`StopAtTrafficSign` give `Stop`, `EmergencyStop` gives `EmergencyStop`,
`ChangeLeft` gives `ChangeLeftLane`, `ChangeRight` gives `ChangeRightLane`,
`FollowLane` gives `FollowLane`. -/
def NextStateTable : DecisionType → StateId
  | DecisionType.kStopAtDestination => StateId.Stop
  | DecisionType.kStopAtTrafficSign => StateId.Stop
  | DecisionType.kEmergencyStop => StateId.EmergencyStop
  | DecisionType.kChangeLeft => StateId.ChangeLeftLane
  | DecisionType.kChangeRight => StateId.ChangeRightLane
  | DecisionType.kFollowLane => StateId.FollowLane

namespace Scenario

/-- A planner with no route yet, one reference line and a fresh goal. -/
def plannerWithoutRoute : ManeuverPlanner :=
  { maneuver_goal_ := freshGoal, routes_ := [], ref_lines_ := [referenceLine 100] }

/-- A route of one way point. -/
def routeResponse : RouteResponse :=
  { route := [wayPoint] }

/-- Ego at `s = 20` with 10 m/s; the leading vehicle, 3 m ahead, has the id 7,
which is not a key of the (empty) obstacle map. -/
def unknownLeaderTooClose : PlanningInputs :=
  { config := config, obstacles := fun _ => none, ego_vel := 10, ego_sl_s := 20,
    reference_line_ := referenceLine 100,
    GetLaneClearDistance := fun _ =>
      { forward_clear_distance := 3, backward_clear_distance := 100,
        forward_obstacle_id := 7, backward_obstacle_id := -1 },
    value_initialized_info := zeroInfo }

/-- A default-constructed goal of the package of `stop_state.cpp`. -/
def freshStopGoal : StopState.ManeuverGoal :=
  { decision_type := DecisionType.kFollowLane, has_stop_point := false, target_speed := 0,
    target_s := 0, lane_id := 0 }

end Scenario

end planning

namespace planning

/-! ## Forward simulation: `OnLaneForwardSimulator::GetIDMLonAcc` -/

namespace OnLaneForwardSimulator

/-- The members of `params_.idm_params` that `GetIDMLonAcc` reads. -/
structure IDMParams where
  desired_velocity : ℝ
  s0 : ℝ
  s1 : ℝ
  safe_time_headway : ℝ
  max_acc : ℝ
  max_decel : ℝ
  leading_vehicle_length : ℝ
  acc_exponent : ℝ

/-- The fields of `vehicle_state::KinoDynamicState` that the simulator reads. -/
structure KinoDynamicState where
  x : ℝ
  y : ℝ
  theta : ℝ
  kappa : ℝ
  v : ℝ
  a : ℝ

/-- What the simulator reads of an `Agent` (the class is not among the sources). -/
structure Agent where
  is_valid : Bool
  state : KinoDynamicState

/-- A `ReferencePoint` of the reference line. -/
structure ReferencePoint where
  x : ℝ
  y : ℝ
  theta : ℝ
  kappa : ℝ
  dkappa : ℝ

/-- The two queries of `ReferenceLine` that `GetIDMLonAcc` uses (the class is not
among the sources): `Length()`, and `GetMatchedPoint(x, y, &ref_point, &rs)` as
the pair it writes, `none` when it returns `false`. -/
structure ReferenceLine where
  Length : ℝ
  GetMatchedPoint : ℝ → ℝ → Option (ReferencePoint × ℝ)

/-- The function `OnLaneForwardSimulator::GetAgentFrenetState`: `none` when it returns
`false`, otherwise the pair `(s_conditions, d_conditions)` it writes. -/
noncomputable def GetAgentFrenetState (agent : Agent) (reference_line : ReferenceLine) :
    Option (common.Array3 × common.Array3) :=
  match reference_line.GetMatchedPoint agent.state.x agent.state.y with
  | none => none
  | some (ref_point, rs) =>
    let rx := ref_point.x
    let ry := ref_point.y
    let rtheta := ref_point.theta
    let rkappa := ref_point.kappa
    let rdkappa := ref_point.dkappa
    let x := agent.state.x
    let y := agent.state.y
    let v := agent.state.v
    let a := agent.state.a
    let kappa := agent.state.kappa
    let theta := agent.state.theta
    some (common.CoordinateTransformer.CartesianToFrenet rs rx ry rtheta rkappa rdkappa
      x y v a theta kappa)

/-! ### A `double` of the forward simulator, with its special values -/

/-- A C++ `double` of `GetIDMLonAcc`: a real number, or one of the IEEE 754
special values.  A finite value is an exact real (no rounding, no overflow), and
a zero is read as `+0`. -/
inductive RealDouble
  | finite (x : ℝ)
  | inf
  | neg_inf
  | nan

namespace RealDouble

/-- The signed infinity a finite factor turns `+inf` into. -/
noncomputable def scaleInf (x : ℝ) : RealDouble :=
  if 0 < x then inf else if x < 0 then neg_inf else nan

/-- The opposite value. -/
noncomputable def neg : RealDouble → RealDouble
  | finite x => finite (-x)
  | inf => neg_inf
  | neg_inf => inf
  | nan => nan

/-- The sum of two doubles. -/
noncomputable def add : RealDouble → RealDouble → RealDouble
  | finite a, finite b => finite (a + b)
  | finite _, inf => inf
  | finite _, neg_inf => neg_inf
  | inf, finite _ => inf
  | neg_inf, finite _ => neg_inf
  | inf, inf => inf
  | neg_inf, neg_inf => neg_inf
  | inf, neg_inf => nan
  | neg_inf, inf => nan
  | nan, _ => nan
  | _, nan => nan

/-- The difference of two doubles. -/
noncomputable def sub (a b : RealDouble) : RealDouble :=
  add a (neg b)

/-- The product of two doubles. -/
noncomputable def mul : RealDouble → RealDouble → RealDouble
  | finite a, finite b => finite (a * b)
  | finite a, inf => scaleInf a
  | finite a, neg_inf => neg (scaleInf a)
  | inf, finite b => scaleInf b
  | neg_inf, finite b => neg (scaleInf b)
  | inf, inf => inf
  | neg_inf, neg_inf => inf
  | inf, neg_inf => neg_inf
  | neg_inf, inf => neg_inf
  | nan, _ => nan
  | _, nan => nan

/-- The quotient of two doubles: a nonzero number over zero is an infinity,
`0 / 0` and `inf / inf` are NaN. -/
noncomputable def div : RealDouble → RealDouble → RealDouble
  | finite a, finite b =>
    if b ≠ 0 then finite (a / b)
    else if 0 < a then inf
    else if a < 0 then neg_inf
    else nan
  | finite _, inf => finite 0
  | finite _, neg_inf => finite 0
  | inf, finite b => if 0 ≤ b then inf else neg_inf
  | neg_inf, finite b => if 0 ≤ b then neg_inf else inf
  | inf, inf => nan
  | inf, neg_inf => nan
  | neg_inf, inf => nan
  | neg_inf, neg_inf => nan
  | nan, _ => nan
  | _, nan => nan

/-- The call `std::sqrt(x)`: NaN for a negative argument. -/
noncomputable def sqrt : RealDouble → RealDouble
  | finite x => if 0 ≤ x then finite (Real.sqrt x) else nan
  | inf => inf
  | neg_inf => nan
  | nan => nan

/-- The call `std::pow(x, y)` for a finite exponent `y`: 1 for `y = 0`; for a
finite base the real power, except that a zero base with a negative exponent
gives `+inf` and a negative base with an exponent that is not an integer gives
NaN. -/
noncomputable def pow (x : RealDouble) (y : ℝ) : RealDouble :=
  if y = 0 then finite 1
  else
    match x with
    | finite r =>
      if r = 0 then (if 0 < y then finite 0 else inf)
      else if r < 0 ∧ (⌊y⌋ : ℝ) ≠ y then nan
      else finite (r ^ y)
    | inf => if 0 < y then inf else finite 0
    | neg_inf =>
      if 0 < y then (if (⌊y⌋ : ℝ) = y ∧ ⌊y⌋ % 2 = 1 then neg_inf else inf)
      else finite 0
    | nan => nan

/-- The comparison `x < y`; false as soon as one side is NaN. -/
noncomputable def lt : RealDouble → RealDouble → Bool
  | finite a, finite b => decide (a < b)
  | finite _, inf => true
  | neg_inf, finite _ => true
  | neg_inf, inf => true
  | _, _ => false

/-- The call `std::min(a, b)`, which is `(b < a) ? b : a`. -/
noncomputable def min (a b : RealDouble) : RealDouble :=
  if lt b a then b else a

/-- The call `std::max(a, b)`, which is `(a < b) ? b : a`. -/
noncomputable def max (a b : RealDouble) : RealDouble :=
  if lt a b then b else a

end RealDouble

/-- Lines 70-114 of `OnLaneForwardSimulator::GetIDMLonAcc`: `none` when the function
returns `false` there, otherwise the values of the locals `desired_min_gap` and
`s_a` when line 115 is reached.  The inputs, the Frenet state of the leader and
`s_a`, a sum of these, are numbers; `desired_min_gap` goes through a square root
and two quotients and is a `RealDouble`. -/
noncomputable def GetIDMLonAccGaps (idm_params : IDMParams) (ego_s_conditions : common.Array3)
    (reference_line : ReferenceLine) (leading_agent : Agent) : Option (RealDouble × ℝ) :=
  let ego_lon_v := ego_s_conditions.at1
  let v0 := idm_params.desired_velocity
  let s0 := idm_params.s0
  let s1 := idm_params.s1
  let T := idm_params.safe_time_headway
  let a := idm_params.max_acc
  let b := idm_params.max_decel
  if ego_s_conditions.at0 > reference_line.Length ∨ ego_s_conditions.at0 < 0.0 then none
  else if leading_agent.is_valid then
    match GetAgentFrenetState leading_agent reference_line with
    | none => none
    | some (leading_s_conditions, _) =>
      let leading_vel := leading_s_conditions.at1
      let delta_v := ego_lon_v - leading_vel
      let desired_min_gap :=
        RealDouble.add
          (RealDouble.add
            (RealDouble.add (RealDouble.finite s0)
              (RealDouble.mul (RealDouble.finite s1)
                (RealDouble.sqrt
                  (RealDouble.div (RealDouble.finite ego_lon_v) (RealDouble.finite v0)))))
            (RealDouble.mul (RealDouble.finite T) (RealDouble.finite ego_lon_v)))
          (RealDouble.div
            (RealDouble.mul (RealDouble.finite ego_lon_v) (RealDouble.finite delta_v))
            (RealDouble.mul (RealDouble.finite 2.0)
              (RealDouble.sqrt (RealDouble.mul (RealDouble.finite a) (RealDouble.finite b)))))
      let s_a := leading_s_conditions.at0 - ego_s_conditions.at0
        + idm_params.leading_vehicle_length
      some (desired_min_gap, s_a)
  else
    let leading_s_conditions : common.Array3 :=
      if ego_s_conditions.at0 + 50.0 > reference_line.Length then
        -- a virtual static agent in front.
        ⟨reference_line.Length - 0.5, 0.0, 0.0⟩
      else
        -- a virtual agent in front, has same speed and same acc as agent.
        ⟨reference_line.Length - 0.5, ego_s_conditions.at1, ego_s_conditions.at2⟩
    let leading_vel := leading_s_conditions.at1
    let delta_v := ego_lon_v - leading_vel
    let desired_min_gap :=
      RealDouble.add
        (RealDouble.add
          (RealDouble.add (RealDouble.finite s0)
            (RealDouble.mul (RealDouble.finite s1)
              (RealDouble.sqrt
                (RealDouble.div (RealDouble.finite ego_lon_v) (RealDouble.finite v0)))))
          (RealDouble.mul (RealDouble.finite T) (RealDouble.finite ego_lon_v)))
        (RealDouble.div
          (RealDouble.mul (RealDouble.finite ego_lon_v) (RealDouble.finite delta_v))
          (RealDouble.mul (RealDouble.finite 2.0)
            (RealDouble.sqrt (RealDouble.mul (RealDouble.finite a) (RealDouble.finite b)))))
    let s_a := leading_s_conditions.at0 - ego_s_conditions.at0
      + idm_params.leading_vehicle_length
    some (desired_min_gap, s_a)

/-- The value of `lon_acc` before the clamp (lines 115-116):
`a * (1 - std::pow(ego_lon_v / v0, acc_exponent) - std::pow(desired_min_gap / s_a, 2))`. -/
noncomputable def IDMLonAccUnclamped (idm_params : IDMParams) (ego_lon_v : ℝ)
    (desired_min_gap : RealDouble) (s_a : ℝ) : RealDouble :=
  let v0 := idm_params.desired_velocity
  let a := idm_params.max_acc
  RealDouble.mul (RealDouble.finite a)
    (RealDouble.sub
      (RealDouble.sub (RealDouble.finite 1)
        (RealDouble.pow (RealDouble.div (RealDouble.finite ego_lon_v) (RealDouble.finite v0))
          idm_params.acc_exponent))
      (RealDouble.pow (RealDouble.div desired_min_gap (RealDouble.finite s_a)) 2))

/-- The function `OnLaneForwardSimulator::GetIDMLonAcc`: `none` when it returns `false`,
otherwise the `lon_acc` it writes, which can be NaN: `std::min` and `std::max`
return their first argument when a comparison with NaN is false. -/
noncomputable def GetIDMLonAcc (idm_params : IDMParams) (ego_s_conditions : common.Array3)
    (reference_line : ReferenceLine) (leading_agent : Agent) : Option RealDouble :=
  let ego_lon_v := ego_s_conditions.at1
  match GetIDMLonAccGaps idm_params ego_s_conditions reference_line leading_agent with
  | none => none
  | some (desired_min_gap, s_a) =>
    let lon_acc := IDMLonAccUnclamped idm_params ego_lon_v desired_min_gap s_a
    let lon_acc := RealDouble.max (RealDouble.min lon_acc (RealDouble.finite idm_params.max_acc))
      (RealDouble.neg (RealDouble.finite idm_params.max_decel))
    some lon_acc

/-- The net gap in the specification's words:
`s_a = leading_s - ego_s - leading_length - ego_length/2`. -/
noncomputable def NetGapSpec (leading_s ego_s leading_length ego_length : ℝ) : ℝ :=
  leading_s - ego_s - leading_length - ego_length / 2

end OnLaneForwardSimulator

namespace Scenario

/-- Parameters of the intelligent driver model: desired velocity 10 m/s, a
leading vehicle length of 5 m. -/
noncomputable def idmParams : OnLaneForwardSimulator.IDMParams :=
  { desired_velocity := 10, s0 := 2, s1 := 0, safe_time_headway := 1, max_acc := 1,
    max_decel := 1, leading_vehicle_length := 5, acc_exponent := 4 }

/-- A reference line of 100 m along the x axis: every point matches the point
below it, at arc length `x`. -/
def straightLine : OnLaneForwardSimulator.ReferenceLine :=
  { Length := 100,
    GetMatchedPoint := fun x _ => some ({ x := x, y := 0, theta := 0, kappa := 0, dkappa := 0 }, x) }

/-- A valid leading agent on the reference line at `x = 30`, driving at 5 m/s. -/
def leadingAgent : OnLaneForwardSimulator.Agent :=
  { is_valid := true, state := { x := 30, y := 0, theta := 0, kappa := 0, v := 5, a := 0 } }

/-- An agent that is not valid: no leading vehicle. -/
def noAgent : OnLaneForwardSimulator.Agent :=
  { is_valid := false, state := { x := 0, y := 0, theta := 0, kappa := 0, v := 0, a := 0 } }

end Scenario

end planning

namespace planning

/-! ## Trajectory selector: the cost queue (`trajectory_selector.hpp`) -/

namespace TrajectorySelector

/-- The type `TrajectoryCostPair`: a trajectory pair with its cost.  The pair of
polynomial pointers `TrajectoryPair` is a parameter (`polynomial.hpp` is not
among the sources); a finite cost is a rational. -/
abbrev TrajectoryCostPair (TrajectoryPair : Type) : Type := TrajectoryPair × ℚ

/-- The call operator of `TrajectorySelector::Comparator`. -/
def Comparator {TrajectoryPair : Type} (left right : TrajectoryCostPair TrajectoryPair) : Bool :=
  decide (left.2 > right.2)

/-- The heap property of the C++ standard library (`std::is_heap`), which the
container of a `std::priority_queue` has after every operation: for every index
`0 < i < N`, `comp(c[(i - 1) / 2], c[i])` is false. -/
def is_heap {β : Type} (comp : β → β → Bool) (c : List β) : Bool :=
  (List.range c.length).all (fun i =>
    i == 0 ||
      match c.get? ((i - 1) / 2), c.get? i with
      | some parent, some child => !comp parent child
      | _, _ => true)

/-- The member `std::priority_queue::top()`: the front of the container; `none` on an
empty queue. -/
def top {β : Type} (c : List β) : Option β := c.head?

end TrajectorySelector

namespace Scenario

/-- A cost queue of four entries, laid out as a heap under
`TrajectorySelector::Comparator`; the trajectory pairs are numbered. -/
def costQueue : List (TrajectorySelector.TrajectoryCostPair Nat) :=
  [(2, 1 / 2), (0, 3), (3, 1), (1, 7 / 2)]

end Scenario

end planning

namespace common

namespace CoordinateTransformer

/-! ## The forward helpers of `coordinate_transformer.cpp` -/

/-- The function `CoordinateTransformer::CartesianToFrenet`, the overload with the two
outputs `*ptr_s` and `*ptr_d`; the result is the pair `(s, d)`. -/
noncomputable def CartesianToFrenetSD (rs rx ry rtheta x y : ℝ) : ℝ × ℝ :=
  let dx := x - rx
  let dy := y - ry
  let cos_theta_r := Real.cos rtheta
  let sin_theta_r := Real.sin rtheta
  let cross_rd_nd := cos_theta_r * dy - sin_theta_r * dx
  let d := copysign (Real.sqrt (dx * dx + dy * dy)) cross_rd_nd
  let s := rs
  (s, d)

/-- The function `CoordinateTransformer::CalcLateralDerivative`. -/
noncomputable def CalcLateralDerivative (rtheta theta l rkappa : ℝ) : ℝ :=
  (1 - rkappa * l) * Real.tan (theta - rtheta)

/-- The function `CoordinateTransformer::CalcSecondOrderLateralDerivative`; the empty
`if (std::isinf(res))` has no effect. -/
noncomputable def CalcSecondOrderLateralDerivative (rtheta theta rkappa kappa rdkappa l : ℝ) :
    ℝ :=
  let dl := CalcLateralDerivative rtheta theta l rkappa
  let theta_diff := theta - rtheta
  let cos_theta_diff := Real.cos theta_diff
  let res := -(rdkappa * l + rkappa * dl) * Real.tan (theta - rtheta) +
    (1 - rkappa * l) / (cos_theta_diff * cos_theta_diff) *
      (kappa * (1 - rkappa * l) / cos_theta_diff - rkappa)
  res

end CoordinateTransformer

end common

namespace planning

namespace FollowLane

/-! ## `ChangeLaneDecision`: the branch "can change both" -/

/-- The six velocities that the branch "can change both" of
`FollowLane::ChangeLaneDecision` computes before it calls `SelectLane`. -/
structure LaneVelocities where
  left_leading_vel : ℚ
  left_following_vel : ℚ
  current_leading_vel : ℚ
  current_following_vel : ℚ
  right_leading_vel : ℚ
  right_following_vel : ℚ

/-- Lines 363-380 of `FollowLane::ChangeLaneDecision`: the six velocities of the
branch "can change both", from the values `GetLaneClearDistance` wrote for the
left and the right lane and the two ids of the current lane.  As in the source,
the last one tests `right_forward_obstacle_id` and looks up
`right_backward_obstacle_id`. -/
def BothLanesVelocities (inputs : PlanningInputs) (left right : LaneClear)
    (current_lane_forward_obstacle_id current_lane_backward_obstacle_id : Int) :
    Except Failure LaneVelocities := do
  let config := inputs.config
  let left_leading_vel ←
    (if left.forward_obstacle_id < 0 then Except.ok config.target_speed
    else (ObstaclesAt inputs.obstacles left.forward_obstacle_id).map (fun o => o.Speed))
  let left_following_vel ←
    (if left.backward_obstacle_id < 0 then Except.ok config.target_speed
    else (ObstaclesAt inputs.obstacles left.backward_obstacle_id).map (fun o => o.Speed))
  let current_leading_vel ←
    (if current_lane_forward_obstacle_id < 0 then Except.ok config.target_speed
    else (ObstaclesAt inputs.obstacles current_lane_forward_obstacle_id).map (fun o => o.Speed))
  let current_following_vel ←
    (if current_lane_backward_obstacle_id < 0 then Except.ok config.target_speed
    else (ObstaclesAt inputs.obstacles current_lane_backward_obstacle_id).map (fun o => o.Speed))
  let right_leading_vel ←
    (if right.forward_obstacle_id < 0 then Except.ok config.target_speed
    else (ObstaclesAt inputs.obstacles right.forward_obstacle_id).map (fun o => o.Speed))
  let right_following_vel ←
    (if right.forward_obstacle_id < 0 then Except.ok config.target_speed
    else (ObstaclesAt inputs.obstacles right.backward_obstacle_id).map (fun o => o.Speed))
  Except.ok { left_leading_vel := left_leading_vel, left_following_vel := left_following_vel,
              current_leading_vel := current_leading_vel,
              current_following_vel := current_following_vel,
              right_leading_vel := right_leading_vel,
              right_following_vel := right_following_vel }

/-- The following velocity of a lane in the specification's words: the speed of
the lane's follower when a follower exists (`backward_obstacle_id ≥ 0`), the
configured `target_speed` otherwise. -/
def FollowingVelSpec (inputs : PlanningInputs) (lane : LaneClear) : Except Failure ℚ :=
  if lane.backward_obstacle_id < 0 then Except.ok inputs.config.target_speed
  else (ObstaclesAt inputs.obstacles lane.backward_obstacle_id).map (fun o => o.Speed)

/-- A call throws `std::out_of_range` or returns: it neither fails an assertion
nor runs into undefined behaviour. -/
def ThrowsOnly {α : Type} (call : Except Failure α) : Prop :=
  ∀ e : Failure, call = Except.error e → e = Failure.out_of_range

end FollowLane

namespace Scenario

/-- Obstacle 7 drives at 2 m/s, obstacle 8 at 12 m/s, obstacle 9 at 8 m/s. -/
def threeObstacles : Int → Option Obstacle := fun id =>
  if id = 7 then some { Speed := 2 } else if id = 8 then some { Speed := 12 }
  else if id = 9 then some { Speed := 8 } else none

/-- Ego at `s = 20` with 10 m/s; obstacle 7 leads 40 m ahead at 2 m/s, obstacle 9
follows 100 m behind.  Both neighbouring lanes are clear for 100 m ahead and
behind; the left lane is empty, the right lane has obstacle 8 (12 m/s) as
leader and no follower. -/
def rightLeaderNoFollower : PlanningInputs :=
  { config := config, obstacles := threeObstacles, ego_vel := 10, ego_sl_s := 20,
    reference_line_ := referenceLine 100,
    GetLaneClearDistance := fun lane_offset =>
      if lane_offset = 0 then
        { forward_clear_distance := 40, backward_clear_distance := 100,
          forward_obstacle_id := 7, backward_obstacle_id := 9 }
      else if lane_offset = -1 then
        { forward_clear_distance := 100, backward_clear_distance := 100,
          forward_obstacle_id := -1, backward_obstacle_id := -1 }
      else
        { forward_clear_distance := 100, backward_clear_distance := 100,
          forward_obstacle_id := 8, backward_obstacle_id := -1 },
    value_initialized_info := zeroInfo }

/-- The scenario `rightLeaderNoFollower` with the right lane changed: it has no
leader, and obstacle 8 (12 m/s) follows on it. -/
def rightFollowerNoLeader : PlanningInputs :=
  { config := config, obstacles := threeObstacles, ego_vel := 10, ego_sl_s := 20,
    reference_line_ := referenceLine 100,
    GetLaneClearDistance := fun lane_offset =>
      if lane_offset = 0 then
        { forward_clear_distance := 40, backward_clear_distance := 100,
          forward_obstacle_id := 7, backward_obstacle_id := 9 }
      else if lane_offset = -1 then
        { forward_clear_distance := 100, backward_clear_distance := 100,
          forward_obstacle_id := -1, backward_obstacle_id := -1 }
      else
        { forward_clear_distance := 100, backward_clear_distance := 100,
          forward_obstacle_id := -1, backward_obstacle_id := 8 },
    value_initialized_info := zeroInfo }

/-- Obstacle 7 drives at 11 m/s, obstacle 8 at 12 m/s, obstacle 9 at 8 m/s. -/
def fastObstacles : Int → Option Obstacle := fun id =>
  if id = 7 then some { Speed := 11 } else if id = 8 then some { Speed := 12 }
  else if id = 9 then some { Speed := 8 } else none

/-- Ego at `s = 20` with 40 m/s where `target_speed = 10`; obstacle 7 leads 40 m
ahead at 11 m/s (`0.3 * 40 = 12 > 11`), obstacle 9 follows 100 m behind.  The
left lane is clear for 100 m with obstacle 8 (12 m/s) as leader and no
follower; the right lane has 3 m of clear distance ahead. -/
def fastEgo : PlanningInputs :=
  { config := config, obstacles := fastObstacles, ego_vel := 40, ego_sl_s := 20,
    reference_line_ := referenceLine 100,
    GetLaneClearDistance := fun lane_offset =>
      if lane_offset = 0 then
        { forward_clear_distance := 40, backward_clear_distance := 100,
          forward_obstacle_id := 7, backward_obstacle_id := 9 }
      else if lane_offset = -1 then
        { forward_clear_distance := 100, backward_clear_distance := 100,
          forward_obstacle_id := 8, backward_obstacle_id := -1 }
      else
        { forward_clear_distance := 3, backward_clear_distance := 100,
          forward_obstacle_id := -1, backward_obstacle_id := -1 },
    value_initialized_info := zeroInfo }

/-- Ego at `s = 20` with 5 m/s on a reference line of 30 m; obstacle 7 leads 40 m
ahead at 2 m/s, so that `ego_s + lookahead = 55` is beyond the end of the
line. -/
def leaderNearLineEnd : PlanningInputs :=
  { config := config, obstacles := obstacles, ego_vel := 5, ego_sl_s := 20,
    reference_line_ := referenceLine 30,
    GetLaneClearDistance := fun _ =>
      { forward_clear_distance := 40, backward_clear_distance := 100,
        forward_obstacle_id := 7, backward_obstacle_id := -1 },
    value_initialized_info := zeroInfo }

/-- Ego at `s = 100` on a reference line of 200 m; obstacle 7 is 3 m ahead and
obstacle 8 is 3 m behind, both closer than `lon_safety_buffer = 5`. -/
def boxedIn : PlanningInputs :=
  { config := config, obstacles := twoObstacles, ego_vel := 5, ego_sl_s := 100,
    reference_line_ := referenceLine 200,
    GetLaneClearDistance := fun _ =>
      { forward_clear_distance := 3, backward_clear_distance := 3,
        forward_obstacle_id := 7, backward_obstacle_id := 8 },
    value_initialized_info := zeroInfo }

/-- A three-point trajectory along the x axis with heading 0, sampled every
0.5 s: the points at `t = 0`, `t = 0.5` and `t = 1`. -/
noncomputable def horizonTrajectory : List TrajectoryPoint :=
  [{ path_point := { x := 0, y := 0, theta := 0, kappa := 0, dkappa := 0, s := 0 },
     v := 2, a := 0, relative_time := 0 },
   { path_point := { x := 1, y := 0, theta := 0, kappa := 0, dkappa := 0, s := 1 },
     v := 2, a := 0, relative_time := 1 / 2 },
   { path_point := { x := 2, y := 0, theta := 0, kappa := 0, dkappa := 0, s := 2 },
     v := 2, a := 0, relative_time := 1 }]

end Scenario

end planning
/-! # Theorems -/

open common common.CoordinateTransformer

/-! ## Helper lemmas: `<cmath>` readings -/

theorem copysign_abs_self (d : ℝ) : copysign |d| d = d := by
  unfold copysign
  split_ifs with h
  · simp [abs_of_nonneg h]
  · push_neg at h
    simp [abs_of_neg h]

theorem sqrt_normal_offset (t d : ℝ) :
    Real.sqrt ((-(Real.sin t * d)) * (-(Real.sin t * d)) +
      (Real.cos t * d) * (Real.cos t * d)) = |d| := by
  have h : (-(Real.sin t * d)) * (-(Real.sin t * d)) +
      (Real.cos t * d) * (Real.cos t * d) = d ^ 2 := by
    have := Real.sin_sq_add_cos_sq t
    nlinarith [this]
  rw [h, Real.sqrt_sq_eq_abs]

theorem NormalizeAngle_eq_sub (a : ℝ) :
    ∃ k : ℤ, NormalizeAngle a = a - k * (2 * Real.pi) := by
  refine ⟨toIocDiv Real.two_pi_pos (-Real.pi) a, ?_⟩
  unfold NormalizeAngle toIocMod
  simp [zsmul_eq_mul]

theorem NormalizeAngle_of_mem (a : ℝ) (h1 : -Real.pi < a) (h2 : a ≤ Real.pi) :
    NormalizeAngle a = a := by
  unfold NormalizeAngle
  rw [toIocMod_eq_self]
  constructor
  · exact h1
  · linarith

theorem cos_NormalizeAngle_sub (d r : ℝ) :
    Real.cos (NormalizeAngle (d + r) - r) = Real.cos d := by
  obtain ⟨k, hk⟩ := NormalizeAngle_eq_sub (d + r)
  rw [hk, show d + r - k * (2 * Real.pi) - r = d - k * (2 * Real.pi) by ring,
    Real.cos_sub_int_mul_two_pi]

theorem tan_NormalizeAngle_sub (d r : ℝ) :
    Real.tan (NormalizeAngle (d + r) - r) = Real.tan d := by
  obtain ⟨k, hk⟩ := NormalizeAngle_eq_sub (d + r)
  rw [hk, show d + r - k * (2 * Real.pi) - r = d - ((2 * k : ℤ) : ℝ) * Real.pi by
    push_cast; ring, Real.tan_sub_int_mul_pi]

theorem cos_atan2_of_pos (d1 K : ℝ) (hK : 0 < K) :
    Real.cos (atan2 d1 K) = K / Real.sqrt (K * K + d1 * d1) := by
  unfold atan2
  have hz : (⟨K, d1⟩ : ℂ) ≠ 0 := by
    intro h
    have := congrArg Complex.re h
    simp at this
    linarith
  rw [Complex.cos_arg hz]
  simp [Complex.abs_apply, Complex.normSq_apply]

theorem tan_atan2 (d1 K : ℝ) : Real.tan (atan2 d1 K) = d1 / K := by
  unfold atan2
  rw [Complex.tan_arg]

theorem atan2_zero_of_nonneg (x : ℝ) (hx : 0 ≤ x) : atan2 0 x = 0 := by
  unfold atan2
  have h : (⟨x, 0⟩ : ℂ) = ((x : ℝ) : ℂ) := rfl
  rw [h, Complex.arg_ofReal_of_nonneg hx]

theorem atan2_mul_tan (K d : ℝ) (hK : 0 < K) (hd : |d| < Real.pi / 2) :
    atan2 (K * Real.tan d) K = d := by
  have hd1 := (abs_lt.mp hd).1
  have hd2 := (abs_lt.mp hd).2
  have hc : 0 < Real.cos d := Real.cos_pos_of_mem_Ioo ⟨by linarith, hd2⟩
  have hmem : d ∈ Set.Ioc (-Real.pi) Real.pi :=
    ⟨by linarith [Real.pi_pos], by linarith [Real.pi_pos]⟩
  have hr : 0 < K / Real.cos d := div_pos hK hc
  have key := Complex.arg_mul_cos_add_sin_mul_I hr hmem
  have hz : (⟨K, K * Real.tan d⟩ : ℂ) =
      ((K / Real.cos d : ℝ) : ℂ) *
        (((Real.cos d : ℝ) : ℂ) + ((Real.sin d : ℝ) : ℂ) * Complex.I) := by
    apply Complex.ext
    · simp only [Complex.mul_re, Complex.add_re, Complex.ofReal_re, Complex.ofReal_im,
        Complex.I_re, Complex.I_im, Complex.add_im, Complex.mul_im]
      field_simp
    · simp only [Complex.mul_re, Complex.add_re, Complex.ofReal_re, Complex.ofReal_im,
        Complex.I_re, Complex.I_im, Complex.add_im, Complex.mul_im, Real.tan_eq_sin_div_cos]
      field_simp
  unfold atan2
  rw [hz, Complex.ofReal_cos, Complex.ofReal_sin]
  exact key

/-! ## Helper lemmas: the lateral offset -/

theorem d0_recovered (rx ry rtheta d0 : ℝ) :
    copysign (Real.sqrt ((rx - Real.sin rtheta * d0 - rx) * (rx - Real.sin rtheta * d0 - rx) +
      (ry + Real.cos rtheta * d0 - ry) * (ry + Real.cos rtheta * d0 - ry)))
      (Real.cos rtheta * (ry + Real.cos rtheta * d0 - ry) -
        Real.sin rtheta * (rx - Real.sin rtheta * d0 - rx)) = d0 := by
  have e1 : rx - Real.sin rtheta * d0 - rx = -(Real.sin rtheta * d0) := by ring
  have e2 : ry + Real.cos rtheta * d0 - ry = Real.cos rtheta * d0 := by ring
  rw [e1, e2, sqrt_normal_offset]
  have e3 : Real.cos rtheta * (Real.cos rtheta * d0) -
      Real.sin rtheta * -(Real.sin rtheta * d0) = d0 := by
    have := Real.sin_sq_add_cos_sq rtheta
    linear_combination d0 * this
  rw [e3, copysign_abs_self]

theorem d0_on_normal (rx ry rtheta x y : ℝ)
    (hn : (x - rx) * Real.cos rtheta + (y - ry) * Real.sin rtheta = 0) :
    copysign (Real.sqrt ((x - rx) * (x - rx) + (y - ry) * (y - ry)))
      (Real.cos rtheta * (y - ry) - Real.sin rtheta * (x - rx))
      = Real.cos rtheta * (y - ry) - Real.sin rtheta * (x - rx) := by
  have h1 := Real.sin_sq_add_cos_sq rtheta
  set t := Real.cos rtheta * (y - ry) - Real.sin rtheta * (x - rx) with ht
  have ex : x - rx = -(Real.sin rtheta * t) := by
    rw [ht]
    linear_combination (-(x - rx)) * h1 + Real.cos rtheta * hn
  have ey : y - ry = Real.cos rtheta * t := by
    rw [ht]
    linear_combination (-(y - ry)) * h1 + Real.sin rtheta * hn
  rw [ex, ey, sqrt_normal_offset, copysign_abs_self]

theorem sqrt_dist_pos_of_cross_ne (c s dx dy : ℝ) (h : c * dy - s * dx ≠ 0) :
    0 < Real.sqrt (dx * dx + dy * dy) := by
  apply Real.sqrt_pos.mpr
  by_contra hcon
  have h0 : dx * dx + dy * dy = 0 :=
    le_antisymm (not_lt.mp hcon) (add_nonneg (mul_self_nonneg dx) (mul_self_nonneg dy))
  have hx : dx = 0 := by nlinarith [mul_self_nonneg dx, mul_self_nonneg dy]
  have hy : dy = 0 := by nlinarith [mul_self_nonneg dx, mul_self_nonneg dy]
  apply h
  rw [hx, hy]
  ring

/-- The S5 input: the lateral offset computed by `CartesianToFrenet` is `1`. -/
theorem S5_d0 : (CartesianToFrenet 0 0 0 0 0.1 0 0 1 5 0 0 0).2.at0 = 1 := by
  simp [CartesianToFrenet, copysign]

/-! ## Coordinate transformer -/

/-- Round trip Frenet → Cartesian → Frenet for `K > 0`, without an assumption on
the sign of `s'`: everything is reproduced except that `s'` comes back as
`|s'|`. -/
theorem frenet_roundtrip_abs (rs rx ry rtheta rkappa rdkappa s1 s2 d0 d1 d2 : ℝ)
    (hKpos : 0 < 1 - rkappa * d0) :
    ∃ c, FrenetToCartesian rs rx ry rtheta rkappa rdkappa ⟨rs, s1, s2⟩ ⟨d0, d1, d2⟩ = some c ∧
      CartesianToFrenet rs rx ry rtheta rkappa rdkappa c.x c.y c.v c.a c.theta c.kappa
        = (⟨rs, |s1|, s2⟩, ⟨d0, d1, d2⟩) := by
  have hassert : |rs - rs| < (1.0e-6 : ℝ) := by norm_num
  refine ⟨_, by simp only [FrenetToCartesian, if_pos hassert]; rfl, ?_⟩
  simp only [CartesianToFrenet]
  rw [d0_recovered, cos_NormalizeAngle_sub, tan_NormalizeAngle_sub, tan_atan2,
    cos_atan2_of_pos _ _ hKpos]
  set K := 1 - rkappa * d0 with hKdef
  have hsum : 0 < K * K + d1 * d1 := by nlinarith [mul_pos hKpos hKpos, mul_self_nonneg d1]
  have hRpos : 0 < Real.sqrt (K * K + d1 * d1) := Real.sqrt_pos.mpr hsum
  have hv : Real.sqrt (K * K * s1 * s1 + d1 * s1 * (d1 * s1)) =
      |s1| * Real.sqrt (K * K + d1 * d1) := by
    rw [show K * K * s1 * s1 + d1 * s1 * (d1 * s1) = (K * K + d1 * d1) * (s1 * s1) by ring,
      Real.sqrt_mul hsum.le, Real.sqrt_mul_self_eq_abs]
    ring
  rw [hv]
  set R := Real.sqrt (K * K + d1 * d1) with hR
  have hK0 : K ≠ 0 := ne_of_gt hKpos
  have hR0 : R ≠ 0 := ne_of_gt hRpos
  have habs : |s1| * |s1| = s1 * s1 := abs_mul_abs_self s1
  simp only [Prod.mk.injEq, Array3.mk.injEq, true_and]
  refine ⟨⟨?_, ?_⟩, ?_, ?_⟩
  · field_simp
    ring
  · have e : |s1| * R * (K / R) / K = |s1| := by
      field_simp
      ring
    rw [e, habs]
    field_simp
    ring
  · field_simp
  · field_simp
    ring

/-- C2 (as stated, refuted): with `s' = -1` on a straight reference line
(`K = 1 > 0.05`, `Δθ = 0`), `FrenetToCartesian` followed by `CartesianToFrenet`
returns `s' = +1`: the sign of the longitudinal velocity is lost, and the value
is not reproduced within `1e-6`. -/
theorem frenet_roundtrip_loses_sign_of_s_dot :
    ∃ c, FrenetToCartesian 0 0 0 0 0 0 ⟨0, -1, 0⟩ ⟨0, 0, 0⟩ = some c ∧
      (0.05 : ℝ) < 1 - 0 * 0 ∧
      |atan2 0 (1 - 0 * 0)| < Real.pi / 3 ∧
      (CartesianToFrenet 0 0 0 0 0 0 c.x c.y c.v c.a c.theta c.kappa).1.at1 = 1 ∧
      ¬ |(CartesianToFrenet 0 0 0 0 0 0 c.x c.y c.v c.a c.theta c.kappa).1.at1 - (-1)|
        < (1e-6 : ℝ) := by
  obtain ⟨c, hc, hrt⟩ := frenet_roundtrip_abs 0 0 0 0 0 0 (-1) 0 0 0 0 (by norm_num)
  have hat : atan2 0 ((1 : ℝ) - 0 * 0) = 0 := atan2_zero_of_nonneg _ (by norm_num)
  refine ⟨c, hc, by norm_num, ?_, ?_, ?_⟩
  · rw [hat]
    simp [Real.pi_pos]
  · rw [hrt]
    simp
  · rw [hrt]
    norm_num

/-- C2 (amended): for every reference point and every Frenet state with
`s0 = rs`, `s' ≥ 0`, `K = 1 - rkappa*d0 > 0.05` and `|atan2(d', K)| < π/3`,
`FrenetToCartesian` returns a Cartesian state, and `CartesianToFrenet` at the
same reference point gives back the six Frenet values (exactly, in real
arithmetic). -/
theorem frenet_cartesian_frenet_roundtrip
    (rs rx ry rtheta rkappa rdkappa s1 s2 d0 d1 d2 : ℝ)
    (hK : 0.05 < 1 - rkappa * d0)
    (_hdelta : |atan2 d1 (1 - rkappa * d0)| < Real.pi / 3)
    (hs1 : 0 ≤ s1) :
    ∃ c, FrenetToCartesian rs rx ry rtheta rkappa rdkappa ⟨rs, s1, s2⟩ ⟨d0, d1, d2⟩ = some c ∧
      CartesianToFrenet rs rx ry rtheta rkappa rdkappa c.x c.y c.v c.a c.theta c.kappa
        = (⟨rs, s1, s2⟩, ⟨d0, d1, d2⟩) := by
  have hKpos : 0 < 1 - rkappa * d0 := by norm_num at hK; linarith
  obtain ⟨c, hc, hrt⟩ := frenet_roundtrip_abs rs rx ry rtheta rkappa rdkappa s1 s2 d0 d1 d2 hKpos
  rw [abs_of_nonneg hs1] at hrt
  exact ⟨c, hc, hrt⟩

/-- C2 (amended), exercised on the Frenet state `s = (0, 5, 0)`, `d = (1, 0, 0)`
at the reference point of S5 (`rkappa = 0.1`). -/
theorem frenet_cartesian_frenet_roundtrip_witness :
    ((0.05 : ℝ) < 1 - 0.1 * 1 ∧ |atan2 0 (1 - 0.1 * 1)| < Real.pi / 3 ∧ (0 : ℝ) ≤ 5) ∧
    ∃ c, FrenetToCartesian 0 0 0 0 0.1 0 ⟨0, 5, 0⟩ ⟨1, 0, 0⟩ = some c ∧
      CartesianToFrenet 0 0 0 0 0.1 0 c.x c.y c.v c.a c.theta c.kappa
        = (⟨0, 5, 0⟩, ⟨1, 0, 0⟩) := by
  have h1 : (0.05 : ℝ) < 1 - 0.1 * 1 := by norm_num
  have h2 : |atan2 0 ((1 : ℝ) - 0.1 * 1)| < Real.pi / 3 := by
    rw [atan2_zero_of_nonneg _ (by norm_num)]
    simp [Real.pi_pos]
  have h3 : (0 : ℝ) ≤ 5 := by norm_num
  exact ⟨⟨h1, h2, h3⟩, frenet_cartesian_frenet_roundtrip 0 0 0 0 0.1 0 5 0 1 0 0 h1 h2 h3⟩

/-- C3: for every reference point and every Cartesian state whose position lies
on the normal of the reference point, with `K = 1 - rkappa*d0 > 0`, `v ≥ 0`,
`theta ∈ (-π, π]` and `|theta - rtheta| < π/2`, `CartesianToFrenet` followed by
`FrenetToCartesian` at the same reference point returns the input
`(x, y, theta, kappa, v, a)`. -/
theorem cartesian_frenet_cartesian_roundtrip
    (rs rx ry rtheta rkappa rdkappa x y v a theta kappa : ℝ)
    (hn : (x - rx) * Real.cos rtheta + (y - ry) * Real.sin rtheta = 0)
    (hK : 0 < 1 - rkappa *
      (CartesianToFrenet rs rx ry rtheta rkappa rdkappa x y v a theta kappa).2.at0)
    (hv : 0 ≤ v) (hlo : -Real.pi < theta) (hhi : theta ≤ Real.pi)
    (hd : |theta - rtheta| < Real.pi / 2) :
    FrenetToCartesian rs rx ry rtheta rkappa rdkappa
        (CartesianToFrenet rs rx ry rtheta rkappa rdkappa x y v a theta kappa).1
        (CartesianToFrenet rs rx ry rtheta rkappa rdkappa x y v a theta kappa).2
      = some ⟨x, y, theta, kappa, v, a⟩ := by
  have hassert : |rs - rs| < (1.0e-6 : ℝ) := by norm_num
  have h1 := Real.sin_sq_add_cos_sq rtheta
  have h2 := Real.sin_sq_add_cos_sq (theta - rtheta)
  have hc : 0 < Real.cos (theta - rtheta) :=
    Real.cos_pos_of_mem_Ioo ⟨by linarith [(abs_lt.mp hd).1], (abs_lt.mp hd).2⟩
  simp only [CartesianToFrenet] at hK ⊢
  rw [d0_on_normal _ _ _ _ _ hn] at hK ⊢
  simp only [FrenetToCartesian, if_pos hassert]
  rw [atan2_mul_tan _ _ hK hd, show theta - rtheta + rtheta = theta by ring,
    NormalizeAngle_of_mem _ hlo hhi, Real.tan_eq_sin_div_cos]
  set t := Real.cos rtheta * (y - ry) - Real.sin rtheta * (x - rx) with ht
  set K := 1 - rkappa * t with hKdef
  set c := Real.cos (theta - rtheta) with hcdef
  set s := Real.sin (theta - rtheta) with hsdef
  have hK0 : K ≠ 0 := ne_of_gt hK
  have hc0 : c ≠ 0 := ne_of_gt hc
  have hx : rx - Real.sin rtheta * t = x := by
    rw [ht]
    linear_combination (x - rx) * h1 - Real.cos rtheta * hn
  have hy : ry + Real.cos rtheta * t = y := by
    rw [ht]
    linear_combination (y - ry) * h1 - Real.sin rtheta * hn
  have hvv : Real.sqrt (K * K * (v * c / K) * (v * c / K) +
      K * (s / c) * (v * c / K) * (K * (s / c) * (v * c / K))) = v := by
    have a1 : K * K * (v * c / K) * (v * c / K) = (v * c) * (v * c) := by
      field_simp
      ring
    have a2 : K * (s / c) * (v * c / K) = s * v := by
      field_simp
      ring
    have a3 : (v * c) * (v * c) + s * v * (s * v) = v * v := by
      linear_combination (v * v) * h2
    rw [a1, a2, a3, Real.sqrt_mul_self hv]
  rw [hx, hy, hvv]
  simp only [Option.some.injEq, CartesianState.mk.injEq, true_and]
  generalize rdkappa * t + rkappa * (K * (s / c)) = krd
  have hk : ((-krd * (s / c) + K / c / c * (kappa * K / c - rkappa) +
      krd * (K * (s / c) / K)) * c * c / K + rkappa) * c / K = kappa := by
    field_simp
    ring
  rw [hk]
  refine ⟨rfl, ?_⟩
  field_simp
  ring

/-- C3 on the spec's S5 input (`rs = rx = ry = rtheta = 0`, `rkappa = 0.1`;
`x = 0`, `y = 1`, `v = 5`, `a = 0`, `theta = 0`, `kappa = 0`): the hypotheses
hold and the round trip returns the input. -/
theorem cartesian_frenet_cartesian_roundtrip_S5 :
    (((0 : ℝ) - 0) * Real.cos 0 + (1 - 0) * Real.sin 0 = 0 ∧
      0 < 1 - 0.1 * (CartesianToFrenet 0 0 0 0 0.1 0 0 1 5 0 0 0).2.at0 ∧
      (0 : ℝ) ≤ 5 ∧ -Real.pi < 0 ∧ (0 : ℝ) ≤ Real.pi ∧ |(0 : ℝ) - 0| < Real.pi / 2) ∧
    FrenetToCartesian 0 0 0 0 0.1 0
        (CartesianToFrenet 0 0 0 0 0.1 0 0 1 5 0 0 0).1
        (CartesianToFrenet 0 0 0 0 0.1 0 0 1 5 0 0 0).2
      = some ⟨0, 1, 0, 0, 5, 0⟩ := by
  have h1 : ((0 : ℝ) - 0) * Real.cos 0 + (1 - 0) * Real.sin 0 = 0 := by simp
  have h2 : 0 < 1 - 0.1 * (CartesianToFrenet 0 0 0 0 0.1 0 0 1 5 0 0 0).2.at0 := by
    rw [S5_d0]
    norm_num
  have h3 : (0 : ℝ) ≤ 5 := by norm_num
  have h4 : -Real.pi < 0 := by linarith [Real.pi_pos]
  have h5 : (0 : ℝ) ≤ Real.pi := Real.pi_pos.le
  have h6 : |(0 : ℝ) - 0| < Real.pi / 2 := by simp [Real.pi_pos]
  exact ⟨⟨h1, h2, h3, h4, h5, h6⟩,
    cartesian_frenet_cartesian_roundtrip 0 0 0 0 0.1 0 0 1 5 0 0 0 h1 h2 h3 h4 h5 h6⟩

/-- C4 (as stated, refuted): for the point one metre straight ahead of the
reference point (`rtheta = 0`, reference point at the origin, `x = 1`, `y = 0`)
the cross product `cos(rtheta)*dy - sin(rtheta)*dx` is `0`, so the point is not
to the left and `sign(cross) * sqrt(dx^2 + dy^2)` is `0`; the code returns
`d0 = 1`. -/
theorem d0_positive_on_reference_direction :
    Real.cos 0 * ((0 : ℝ) - 0) - Real.sin 0 * (1 - 0) = 0 ∧
    (CartesianToFrenet 0 0 0 0 0 0 1 0 0 0 0 0).2.at0 = 1 ∧
    (CartesianToFrenet 0 0 0 0 0 0 1 0 0 0 0 0).2.at0 ≠
      Real.sign (Real.cos 0 * ((0 : ℝ) - 0) - Real.sin 0 * (1 - 0)) *
        Real.sqrt ((1 - 0) * (1 - 0) + (0 - 0) * (0 - 0)) ∧
    ¬ (0 < (CartesianToFrenet 0 0 0 0 0 0 1 0 0 0 0 0).2.at0 ↔
      0 < Real.cos 0 * ((0 : ℝ) - 0) - Real.sin 0 * (1 - 0)) := by
  have hd : (CartesianToFrenet 0 0 0 0 0 0 1 0 0 0 0 0).2.at0 = 1 := by
    simp [CartesianToFrenet, copysign]
  refine ⟨by simp, hd, ?_, ?_⟩
  · rw [hd]
    simp
  · rw [hd]
    simp

/-- C4 (amended): for every input, with `dx = x - rx`, `dy = y - ry` and
`cross = cos(rtheta)*dy - sin(rtheta)*dx`, the lateral condition computed by
`CartesianToFrenet` has `d0 = sqrt(dx^2 + dy^2)` when `cross ≥ 0` and
`d0 = -sqrt(dx^2 + dy^2)` when `cross < 0`; this is `sign(cross) * sqrt(dx^2 + dy^2)`
whenever `cross ≠ 0`, and `d0` is negative exactly when `cross < 0`.  Moreover
`d1 = K * tan(Δθ)` and
`d2 = -(rdkappa*d0 + rkappa*d1) * tan(Δθ) + (K / cos^2 Δθ) * (kappa*K/cos Δθ - rkappa)`
with `Δθ = theta - rtheta` and `K = 1 - rkappa*d0`. -/
theorem CartesianToFrenet_d_condition
    (rs rx ry rtheta rkappa rdkappa x y v a theta kappa : ℝ) :
    ((CartesianToFrenet rs rx ry rtheta rkappa rdkappa x y v a theta kappa).2.at0 =
      if 0 ≤ Real.cos rtheta * (y - ry) - Real.sin rtheta * (x - rx)
      then Real.sqrt ((x - rx) ^ 2 + (y - ry) ^ 2)
      else -Real.sqrt ((x - rx) ^ 2 + (y - ry) ^ 2)) ∧
    (Real.cos rtheta * (y - ry) - Real.sin rtheta * (x - rx) ≠ 0 →
      (CartesianToFrenet rs rx ry rtheta rkappa rdkappa x y v a theta kappa).2.at0 =
        Real.sign (Real.cos rtheta * (y - ry) - Real.sin rtheta * (x - rx)) *
          Real.sqrt ((x - rx) ^ 2 + (y - ry) ^ 2)) ∧
    ((CartesianToFrenet rs rx ry rtheta rkappa rdkappa x y v a theta kappa).2.at0 < 0 ↔
      Real.cos rtheta * (y - ry) - Real.sin rtheta * (x - rx) < 0) ∧
    (CartesianToFrenet rs rx ry rtheta rkappa rdkappa x y v a theta kappa).2.at1 =
      (1 - rkappa *
        (CartesianToFrenet rs rx ry rtheta rkappa rdkappa x y v a theta kappa).2.at0) *
        Real.tan (theta - rtheta) ∧
    (CartesianToFrenet rs rx ry rtheta rkappa rdkappa x y v a theta kappa).2.at2 =
      -(rdkappa *
          (CartesianToFrenet rs rx ry rtheta rkappa rdkappa x y v a theta kappa).2.at0 +
        rkappa *
          (CartesianToFrenet rs rx ry rtheta rkappa rdkappa x y v a theta kappa).2.at1) *
        Real.tan (theta - rtheta) +
      ((1 - rkappa *
        (CartesianToFrenet rs rx ry rtheta rkappa rdkappa x y v a theta kappa).2.at0) /
          Real.cos (theta - rtheta) ^ 2) *
        (kappa * (1 - rkappa *
          (CartesianToFrenet rs rx ry rtheta rkappa rdkappa x y v a theta kappa).2.at0) /
            Real.cos (theta - rtheta) - rkappa) := by
  have hsq : (x - rx) ^ 2 + (y - ry) ^ 2 = (x - rx) * (x - rx) + (y - ry) * (y - ry) := by ring
  have hnn : 0 ≤ Real.sqrt ((x - rx) * (x - rx) + (y - ry) * (y - ry)) := Real.sqrt_nonneg _
  have hd0 : (CartesianToFrenet rs rx ry rtheta rkappa rdkappa x y v a theta kappa).2.at0 =
      if 0 ≤ Real.cos rtheta * (y - ry) - Real.sin rtheta * (x - rx)
      then Real.sqrt ((x - rx) * (x - rx) + (y - ry) * (y - ry))
      else -Real.sqrt ((x - rx) * (x - rx) + (y - ry) * (y - ry)) := by
    simp only [CartesianToFrenet, copysign]
    rw [abs_of_nonneg hnn]
  rw [hsq]
  refine ⟨hd0, ?_, ?_, rfl, ?_⟩
  · intro hne
    have hpos := sqrt_dist_pos_of_cross_ne _ _ _ _ hne
    rw [hd0]
    rcases lt_or_gt_of_ne hne with hlt | hgt
    · rw [if_neg (not_le.mpr hlt), Real.sign_of_neg hlt]
      ring
    · rw [if_pos hgt.le, Real.sign_of_pos hgt]
      ring
  · rw [hd0]
    constructor
    · intro hneg
      by_contra hcon
      rw [if_pos (not_lt.mp hcon)] at hneg
      linarith
    · intro hlt
      have hpos := sqrt_dist_pos_of_cross_ne _ _ _ _ (ne_of_lt hlt)
      rw [if_neg (not_le.mpr hlt)]
      linarith
  · simp only [CartesianToFrenet]
    rw [div_div, ← pow_two (Real.cos (theta - rtheta))]

/-- C5: for every input with `K = 1 - rkappa*d0 > 0`, the longitudinal condition
computed by `CartesianToFrenet` is `s0 = rs`, `s1 = v*cos(Δθ)/K` and
`s2 = (a*cos(Δθ) - s1^2 * (d1*Δθ' - (rdkappa*d0 + rkappa*d1))) / K` with
`Δθ' = K/cos(Δθ)*kappa - rkappa`; on the S5 input, `s0 = 0` and `s1 = 50/9`. -/
theorem CartesianToFrenet_s_condition
    (rs rx ry rtheta rkappa rdkappa x y v a theta kappa : ℝ)
    (_hK : 0 < 1 - rkappa *
      (CartesianToFrenet rs rx ry rtheta rkappa rdkappa x y v a theta kappa).2.at0) :
    ((CartesianToFrenet rs rx ry rtheta rkappa rdkappa x y v a theta kappa).1.at0 = rs ∧
    (CartesianToFrenet rs rx ry rtheta rkappa rdkappa x y v a theta kappa).1.at1 =
      v * Real.cos (theta - rtheta) / (1 - rkappa *
        (CartesianToFrenet rs rx ry rtheta rkappa rdkappa x y v a theta kappa).2.at0) ∧
    (CartesianToFrenet rs rx ry rtheta rkappa rdkappa x y v a theta kappa).1.at2 =
      (a * Real.cos (theta - rtheta) -
        (CartesianToFrenet rs rx ry rtheta rkappa rdkappa x y v a theta kappa).1.at1 ^ 2 *
          ((CartesianToFrenet rs rx ry rtheta rkappa rdkappa x y v a theta kappa).2.at1 *
            ((1 - rkappa *
              (CartesianToFrenet rs rx ry rtheta rkappa rdkappa x y v a theta kappa).2.at0) /
                Real.cos (theta - rtheta) * kappa - rkappa) -
            (rdkappa *
              (CartesianToFrenet rs rx ry rtheta rkappa rdkappa x y v a theta kappa).2.at0 +
             rkappa *
              (CartesianToFrenet rs rx ry rtheta rkappa rdkappa x y v a theta kappa).2.at1))) /
        (1 - rkappa *
          (CartesianToFrenet rs rx ry rtheta rkappa rdkappa x y v a theta kappa).2.at0)) ∧
    ((CartesianToFrenet 0 0 0 0 0.1 0 0 1 5 0 0 0).1.at0 = 0 ∧
      (CartesianToFrenet 0 0 0 0 0.1 0 0 1 5 0 0 0).1.at1 = 50 / 9) := by
  refine ⟨⟨rfl, rfl, ?_⟩, rfl, ?_⟩
  · simp only [CartesianToFrenet, pow_two]
  · simp only [CartesianToFrenet, copysign]
    norm_num

/-- C5 on the spec's S5 input: `K = 1 - 0.1 * 1 > 0` there. -/
theorem CartesianToFrenet_s_condition_S5 :
    0 < 1 - 0.1 * (CartesianToFrenet 0 0 0 0 0.1 0 0 1 5 0 0 0).2.at0 ∧
    (CartesianToFrenet 0 0 0 0 0.1 0 0 1 5 0 0 0).1.at0 = 0 ∧
    (CartesianToFrenet 0 0 0 0 0.1 0 0 1 5 0 0 0).1.at1 = 50 / 9 := by
  have h : 0 < 1 - 0.1 * (CartesianToFrenet 0 0 0 0 0.1 0 0 1 5 0 0 0).2.at0 := by
    rw [S5_d0]
    norm_num
  exact ⟨h, (CartesianToFrenet_s_condition 0 0 0 0 0.1 0 0 1 5 0 0 0 h).2⟩

/-- C6 (as stated, refuted): with `rkappa = 1` and lateral offset `2`, so
`K = -1 ≤ 0`, both transforms return output values: `CartesianToFrenet` gives
`s1 = v*cos(Δθ)/K = -1`, and `FrenetToCartesian` gives the point `(0, 2)` with
speed `1`.  Neither signals a failure. -/
theorem transformer_outputs_with_nonpositive_K :
    (1 - 1 * (CartesianToFrenet 0 0 0 0 1 0 0 2 1 0 0 0).2.at0 ≤ 0 ∧
      (CartesianToFrenet 0 0 0 0 1 0 0 2 1 0 0 0).1.at1 = -1) ∧
    ((1 : ℝ) - 1 * 2 ≤ 0 ∧
      ∃ c, FrenetToCartesian 0 0 0 0 1 0 ⟨0, 1, 0⟩ ⟨2, 0, 0⟩ = some c ∧
        c.x = 0 ∧ c.y = 2 ∧ c.v = 1) := by
  have hsqrt : Real.sqrt ((0 - 0) * (0 - 0) + ((2 : ℝ) - 0) * (2 - 0)) = 2 := by
    rw [show ((0 : ℝ) - 0) * (0 - 0) + ((2 : ℝ) - 0) * (2 - 0) = 2 * 2 by norm_num]
    exact Real.sqrt_mul_self (by norm_num)
  have hd : (CartesianToFrenet 0 0 0 0 1 0 0 2 1 0 0 0).2.at0 = 2 := by
    simp only [CartesianToFrenet, hsqrt]
    simp [copysign]
  have hassert : |(0 : ℝ) - 0| < (1.0e-6 : ℝ) := by norm_num
  refine ⟨⟨?_, ?_⟩, by norm_num, ?_⟩
  · rw [hd]
    norm_num
  · have : (CartesianToFrenet 0 0 0 0 1 0 0 2 1 0 0 0).1.at1 =
        1 * Real.cos (0 - 0) /
          (1 - 1 * (CartesianToFrenet 0 0 0 0 1 0 0 2 1 0 0 0).2.at0) := rfl
    rw [this, hd]
    norm_num
  · refine ⟨_, by simp only [FrenetToCartesian, if_pos hassert]; rfl, ?_, ?_, ?_⟩
    · simp
    · simp
    · norm_num

/-- C6 (amended): `FrenetToCartesian` has one failure, the assertion
`|rs - s_condition[0]| < 1e-6`; for every input that passes it, whatever the
sign of `K = 1 - rkappa*d0`, it produces its six output values, the position
being `(rx - sin(rtheta)*d0, ry + cos(rtheta)*d0)`.  (`CartesianToFrenet` has no
failure at all: it is a total function of its twelve inputs.) -/
theorem FrenetToCartesian_fails_only_on_assert
    (rs rx ry rtheta rkappa rdkappa : ℝ) (s_condition d_condition : Array3) :
    ((∃ c, FrenetToCartesian rs rx ry rtheta rkappa rdkappa s_condition d_condition = some c)
      ↔ |rs - s_condition.at0| < 1e-6) ∧
    ∀ c, FrenetToCartesian rs rx ry rtheta rkappa rdkappa s_condition d_condition = some c →
      c.x = rx - Real.sin rtheta * d_condition.at0 ∧
      c.y = ry + Real.cos rtheta * d_condition.at0 := by
  by_cases h : |rs - s_condition.at0| < (1.0e-6 : ℝ)
  · constructor
    · simp only [FrenetToCartesian, if_pos h]
      have h2 : |rs - s_condition.at0| < (1e-6 : ℝ) := by
        norm_num at h ⊢
        exact h
      simp [h2]
    · intro c hc
      simp only [FrenetToCartesian, if_pos h, Option.some.injEq] at hc
      subst hc
      exact ⟨rfl, rfl⟩
  · constructor
    · simp only [FrenetToCartesian, if_neg h]
      have h2 : ¬ |rs - s_condition.at0| < (1e-6 : ℝ) := by
        norm_num at h ⊢
        exact h
      simp [h2]
    · intro c hc
      simp [FrenetToCartesian, if_neg h] at hc

/-! ## Collision checker -/

open planning planning.CollisionChecker planning.FollowLane

/-- Loop invariant of the sequential scan: started at index `i` on the points
still to visit, the scan returns, and it returns `true` exactly when some
remaining point `k` overlaps a box of snapshot `i + k`. -/
theorem IsCollisionFrom_spec (overlap : Box2d → Box2d → Bool) (vp : VehicleParams)
    (env : List (List Box2d)) (traj : List TrajectoryPoint) :
    ∀ i : Nat, i + traj.length ≤ env.length →
      ∃ b, IsCollisionFrom overlap vp env i traj = some b ∧
        (b = true ↔ ∃ (k : Nat) (p : TrajectoryPoint) (boxes : List Box2d) (ob : Box2d),
          traj[k]? = some p ∧ env[i + k]? = some boxes ∧
          ob ∈ boxes ∧ overlap (EgoBoxSpec vp p) ob = true) := by
  induction traj with
  | nil =>
    intro i _
    refine ⟨false, rfl, ?_⟩
    simp
  | cons p rest ih =>
    intro i hi
    simp only [List.length_cons] at hi
    have hlt : i < env.length := by omega
    obtain ⟨b, hb, hiff⟩ := ih (i + 1) (by omega)
    have hget : env[i]? = some env[i] := List.getElem?_eq_getElem hlt
    by_cases hany : (env[i]).any (fun ob => overlap (EgoBoxSpec vp p) ob) = true
    · refine ⟨true, ?_, ?_⟩
      · simp only [IsCollisionFrom, hget]
        simp only [EgoBoxSpec, Box2d.Shift] at hany
        simp only [Box2d.Shift, hany, if_true]
      · simp only [true_iff]
        obtain ⟨ob, hmem, hov⟩ := List.any_eq_true.mp hany
        exact ⟨0, p, env[i], ob, by simp, by simp, hmem, hov⟩
    · refine ⟨b, ?_, ?_⟩
      · simp only [IsCollisionFrom, hget]
        simp only [EgoBoxSpec, Box2d.Shift] at hany
        simp only [Box2d.Shift, hany]
        simpa using hb
      · rw [hiff]
        constructor
        · rintro ⟨k, q, boxes, ob, h1, h2, h3, h4⟩
          refine ⟨k + 1, q, boxes, ob, by simpa using h1, ?_, h3, h4⟩
          rw [← h2]
          congr 1
          omega
        · rintro ⟨k, q, boxes, ob, h1, h2, h3, h4⟩
          cases k with
          | zero =>
            exfalso
            apply hany
            simp only [List.getElem?_cons_zero, Option.some.injEq] at h1
            simp only [Nat.add_zero, hget, Option.some.injEq] at h2
            subst h1 h2
            exact List.any_eq_true.mpr ⟨ob, h3, h4⟩
          | succ k =>
            refine ⟨k, q, boxes, ob, by simpa using h1, ?_, h3, h4⟩
            rw [← h2]
            congr 1
            omega

/-- C1: for every trajectory no longer than the predicted environment,
`IsCollision` without a thread pool returns, and it returns `true` if and only
if there are an index `k` and an obstacle box in `predicted_obstacle_box_[k]`
that overlaps the ego box of the `k`-th trajectory point (the `length x width`
box at `(x, y)` with heading `theta`, centre shifted by
`back_axle_to_center_length * (cos theta, sin theta)`); a point is only ever
compared with the snapshot of its own index. -/
theorem IsCollision_iff_overlap_at_same_index (HasOverlapWithBox2d : Box2d → Box2d → Bool)
    (vehicle_params : VehicleParams) (predicted_obstacle_box_ : List (List Box2d))
    (trajectory_points : List TrajectoryPoint)
    (hlen : trajectory_points.length ≤ predicted_obstacle_box_.length) :
    ∃ b, IsCollision HasOverlapWithBox2d vehicle_params predicted_obstacle_box_
        trajectory_points = some b ∧
      (b = true ↔ ∃ (k : Nat) (p : TrajectoryPoint) (boxes : List Box2d) (ob : Box2d),
        trajectory_points[k]? = some p ∧ predicted_obstacle_box_[k]? = some boxes ∧
        ob ∈ boxes ∧ HasOverlapWithBox2d (EgoBoxSpec vehicle_params p) ob = true) := by
  have h := IsCollisionFrom_spec HasOverlapWithBox2d vehicle_params predicted_obstacle_box_
    trajectory_points 0 (by omega)
  simpa [IsCollision] using h

/-- C1 on a one-point trajectory and a one-snapshot environment, with an
overlap test that always reports an overlap. -/
theorem IsCollision_iff_overlap_at_same_index_witness :
    Scenario.trajectory.length ≤ Scenario.predictedEnvironment.length ∧
    ∃ b, IsCollision (fun _ _ => true) Scenario.vehicleParams Scenario.predictedEnvironment
        Scenario.trajectory = some b ∧
      (b = true ↔ ∃ (k : Nat) (p : TrajectoryPoint) (boxes : List Box2d) (ob : Box2d),
        Scenario.trajectory[k]? = some p ∧ Scenario.predictedEnvironment[k]? = some boxes ∧
        ob ∈ boxes ∧ (fun _ _ => true) (EgoBoxSpec Scenario.vehicleParams p) ob = true) :=
  ⟨by simp [Scenario.trajectory, Scenario.predictedEnvironment],
    IsCollision_iff_overlap_at_same_index (fun _ _ => true) Scenario.vehicleParams
      Scenario.predictedEnvironment Scenario.trajectory
      (by simp [Scenario.trajectory, Scenario.predictedEnvironment])⟩

/-! ## Maneuver planner: helper lemmas -/

theorem resize_one (d : ManeuverInfo) (l : List ManeuverInfo) : ∃ m, resize 1 d l = [m] := by
  cases l with
  | nil => exact ⟨d, rfl⟩
  | cons x xs => exact ⟨x, by simp [resize]⟩

theorem resize_two (d : ManeuverInfo) (l : List ManeuverInfo) :
    ∃ m1 m2, resize 2 d l = [m1, m2] := by
  match l with
  | [] => exact ⟨d, d, rfl⟩
  | [x] => exact ⟨x, d, rfl⟩
  | x :: y :: xs => exact ⟨x, y, by simp [resize]⟩

theorem assignBack_pair (f : ManeuverInfo → ManeuverInfo) (a b : ManeuverInfo) :
    assignBack f [a, b] = Except.ok [a, f b] := rfl

theorem Except_bind_ok {α β : Type} (x : Except Failure α) (f : α → Except Failure β) (b : β) :
    (x >>= f) = Except.ok b ↔ ∃ a, x = Except.ok a ∧ f a = Except.ok b := by
  cases x with
  | error e => simp [bind, Except.bind]
  | ok a => simp [bind, Except.bind]

theorem min_element_three {α : Type} (comp : α → α → Bool) (a b c : α) :
    min_element comp [a, b, c] = some a ∨ min_element comp [a, b, c] = some b ∨
      min_element comp [a, b, c] = some c := by
  simp only [min_element, List.foldl]
  split_ifs <;> simp

/-- On three lanes `SelectLane` returns one of the offsets `-1`, `0`, `1`. -/
theorem SelectLane_range (config : PlanningConfig) (ego_s ego_vel a1 a2 a3 b1 b2 b3 c1 c2 c3
    d1 d2 d3 : ℚ) (r : Int)
    (h : SelectLane config ego_s ego_vel [a1, a2, a3] [b1, b2, b3] [c1, c2, c3] [d1, d2, d3]
      = Except.ok r) : r = -1 ∨ r = 0 ∨ r = 1 := by
  simp only [SelectLane, List.isEmpty_cons, List.length_cons, List.length_nil, ne_eq,
    not_true_eq_false, if_false, List.zip_cons_cons, List.zip_nil_right, List.enum_cons,
    List.enumFrom_cons, List.enumFrom_nil, List.map_cons, List.map_nil, List.enum] at h
  rcases min_element_three (fun (rhs lhs : Int × Double) => Double.lt rhs.2 lhs.2)
    (((0 : Nat) : Int) - 1, LaneCost config ego_vel a1 b1 c1 d1)
    ((((0 + 1 : Nat)) : Int) - 1, LaneCost config ego_vel a2 b2 c2 d2)
    ((((0 + 1 + 1 : Nat)) : Int) - 1, LaneCost config ego_vel a3 b3 c3 d3) with h1 | h1 | h1
  all_goals
    simp only [h1] at h
    simp at h
    omega

/-- The lookahead distance never exceeds `max_lookahead_distance`. -/
theorem lookahead_le_max (a b c : ℚ) : ¬ (min (max a b) c > c) := by
  simp

/-- Whenever `ChangeLaneDecision` returns with the decision `kFollowLane` and a
leading vehicle of non-negative id, the goal has a single info, with
`target_speed = min(leading speed, target_speed)` and no stop point. -/
theorem ChangeLaneDecision_follow (inputs : PlanningInputs) (ego_s fcd bcd : ℚ) (fid bid : Int)
    (wp : WayPoint) (goal g : ManeuverGoal)
    (h : ChangeLaneDecision inputs ego_s fcd bcd fid bid wp goal = Except.ok g)
    (hd : g.decision_type = DecisionType.kFollowLane) (hfid : 0 ≤ fid) :
    ∃ leader info, inputs.obstacles fid = some leader ∧ g.maneuver_infos = [info] ∧
      info.maneuver_target.target_speed = min leader.Speed inputs.config.target_speed ∧
      info.has_stop_point = false := by
  obtain ⟨m, hm⟩ := resize_one inputs.value_initialized_info goal.maneuver_infos
  obtain ⟨m1, m2, hm2⟩ := resize_two inputs.value_initialized_info goal.maneuver_infos
  have hnot : ¬ fid < 0 := not_lt.mpr hfid
  unfold ChangeLaneDecision at h
  simp only [Except_bind_ok] at h
  obtain ⟨rear, hrear, front, hfront, ⟨cl, left⟩, hleft, ⟨cr, right⟩, hright, h⟩ := h
  have hfmap : ∃ o, inputs.obstacles fid = some o := by
    unfold ObstaclesAt at hfront
    split at hfront
    · exact ⟨_, by assumption⟩
    · cases hfront
  obtain ⟨o, ho⟩ := hfmap
  have hfo : front = o := by
    simp [ObstaclesAt, ho] at hfront
    exact hfront.symm
  subst hfo
  refine ⟨front, ?_⟩
  cases cl <;> cases cr
  · simp [hm, assignFront, ObstaclesAt, ho, bind, Except.bind] at h
    subst h
    exact ⟨_, ho, rfl, by simp [min_comm], rfl⟩
  · exfalso
    cases hr : inputs.obstacles right.forward_obstacle_id with
    | none =>
      simp [hm2, assignFront, assignBack_pair, ObstaclesAt, ho, hr, bind, Except.bind] at h
    | some ro =>
      simp [hm2, assignFront, assignBack_pair, ObstaclesAt, ho, hr, bind, Except.bind] at h
      subst h
      cases hd
  · exfalso
    cases hl : inputs.obstacles left.forward_obstacle_id with
    | none =>
      simp [hm2, assignFront, assignBack_pair, ObstaclesAt, ho, hl, bind, Except.bind] at h
    | some lo =>
      simp [hm2, assignFront, assignBack_pair, ObstaclesAt, ho, hl, bind, Except.bind] at h
      subst h
      cases hd
  · simp only [Bool.not_true, Bool.not_false, Bool.and_true, Bool.true_and, Bool.and_false,
      Bool.false_and, if_false, Bool.false_eq_true, if_true, Except_bind_ok] at h
    obtain ⟨llv, -, lfv, -, clv, hclv, cfv, -, rlv, -, rfv, -, off, hoff, h⟩ := h
    have hr := SelectLane_range _ _ _ _ _ _ _ _ _ _ _ _ _ _ _ _ hoff
    simp [hnot, ObstaclesAt, ho, Except.map] at hclv
    rcases hr with hr | hr | hr
    · exfalso
      subst hr
      simp [hm2, assignFront, assignBack_pair, bind, Except.bind] at h
      subst h
      cases hd
    · subst hr
      simp [hm, assignFront, bind, Except.bind] at h
      subst h
      refine ⟨_, ho, rfl, ?_, rfl⟩
      simp [← hclv]
    · exfalso
      subst hr
      simp [hm2, assignFront, assignBack_pair, bind, Except.bind] at h
      subst h
      cases hd

/-! ## Maneuver planner: `ObstacleDecision` -/

/-- C7 (as stated, refuted): with no leading vehicle (`forward_obstacle_id = -1`)
and a forward clear distance of 3 m, below `lon_safety_buffer = 5`, the decision
is `kFollowLane`, not `kEmergencyStop`. -/
theorem no_leader_short_clear_is_not_emergency_stop :
    (Scenario.noLeaderShortClear.GetLaneClearDistance 0).forward_clear_distance
      < Scenario.noLeaderShortClear.config.lon_safety_buffer ∧
    ∃ g, ObstacleDecision Scenario.noLeaderShortClear Scenario.freshGoal = Except.ok g ∧
      g.decision_type = DecisionType.kFollowLane ∧
      g.decision_type ≠ DecisionType.kEmergencyStop := by
  constructor
  · norm_num [Scenario.noLeaderShortClear, Scenario.config]
  · refine ⟨{ decision_type := DecisionType.kFollowLane,
              maneuver_infos := [{ lane_id := 1, has_stop_point := false,
                                   maneuver_target := { target_s := 0, target_speed := 10 },
                                   ptr_ref_line := some (Scenario.referenceLine 100) }] },
      ?_, rfl, by simp⟩
    norm_num [ObstacleDecision, Scenario.noLeaderShortClear, Scenario.config,
      Scenario.referenceLine, Scenario.wayPoint, Scenario.zeroInfo, Scenario.freshGoal,
      resize, assignFront, bind, Except.bind]

/-- C7 (amended): for every input with a leading vehicle on the current lane
(`forward_obstacle_id ≥ 0`, found in the obstacle map) whose clear distance is
below `lon_safety_buffer`, `ObstacleDecision` returns the decision
`kEmergencyStop` with exactly one maneuver info, which has
`has_stop_point = true` and `target_s = ego_s + leading clear distance`. -/
theorem ObstacleDecision_emergency_stop (inputs : PlanningInputs) (maneuver_goal : ManeuverGoal)
    (leader : Obstacle)
    (hlead : 0 ≤ (inputs.GetLaneClearDistance 0).forward_obstacle_id)
    (hmap : inputs.obstacles (inputs.GetLaneClearDistance 0).forward_obstacle_id = some leader)
    (hclose : (inputs.GetLaneClearDistance 0).forward_clear_distance
      < inputs.config.lon_safety_buffer) :
    ∃ g info, ObstacleDecision inputs maneuver_goal = Except.ok g ∧
      g.decision_type = DecisionType.kEmergencyStop ∧
      g.maneuver_infos = [info] ∧
      info.has_stop_point = true ∧
      info.maneuver_target.target_s =
        inputs.ego_sl_s + (inputs.GetLaneClearDistance 0).forward_clear_distance := by
  obtain ⟨m, hm⟩ := resize_one inputs.value_initialized_info maneuver_goal.maneuver_infos
  have hnot : ¬ (inputs.GetLaneClearDistance 0).forward_obstacle_id < 0 := not_lt.mpr hlead
  simp [ObstacleDecision, hnot, hmap, hclose, hm, assignFront, ObstaclesAt, bind, Except.bind]

/-- C7 (amended) on a leading vehicle 3 m ahead with `lon_safety_buffer = 5`. -/
theorem ObstacleDecision_emergency_stop_witness :
    (0 ≤ (Scenario.leaderTooClose.GetLaneClearDistance 0).forward_obstacle_id ∧
      Scenario.leaderTooClose.obstacles
        (Scenario.leaderTooClose.GetLaneClearDistance 0).forward_obstacle_id
          = some { Speed := 2 } ∧
      (Scenario.leaderTooClose.GetLaneClearDistance 0).forward_clear_distance
        < Scenario.leaderTooClose.config.lon_safety_buffer) ∧
    ∃ g info, ObstacleDecision Scenario.leaderTooClose Scenario.freshGoal = Except.ok g ∧
      g.decision_type = DecisionType.kEmergencyStop ∧
      g.maneuver_infos = [info] ∧
      info.has_stop_point = true ∧
      info.maneuver_target.target_s = Scenario.leaderTooClose.ego_sl_s +
        (Scenario.leaderTooClose.GetLaneClearDistance 0).forward_clear_distance := by
  have h1 : 0 ≤ (Scenario.leaderTooClose.GetLaneClearDistance 0).forward_obstacle_id := by
    simp [Scenario.leaderTooClose]
  have h2 : Scenario.leaderTooClose.obstacles
      (Scenario.leaderTooClose.GetLaneClearDistance 0).forward_obstacle_id
        = some { Speed := 2 } := by
    simp [Scenario.leaderTooClose, Scenario.obstacles]
  have h3 : (Scenario.leaderTooClose.GetLaneClearDistance 0).forward_clear_distance
      < Scenario.leaderTooClose.config.lon_safety_buffer := by
    norm_num [Scenario.leaderTooClose, Scenario.config]
  exact ⟨⟨h1, h2, h3⟩,
    ObstacleDecision_emergency_stop Scenario.leaderTooClose Scenario.freshGoal _ h1 h2 h3⟩

/-- C8: for every input with no leading vehicle (`forward_obstacle_id < 0`),
`ObstacleDecision` returns a goal with a single info; the decision is
`kStopAtDestination` if and only if `ego_s + lookahead > reference line length`
with `lookahead = min(max(forward_clear - lon_safety_buffer,
min_lookahead_distance), max_lookahead_distance)`; in that case the info has
`has_stop_point = true` and `target_s = reference line length`; otherwise the
decision is `kFollowLane` with `has_stop_point = false` and
`target_speed = configured target_speed`. -/
theorem ObstacleDecision_no_leader (inputs : PlanningInputs) (maneuver_goal : ManeuverGoal)
    (hno : (inputs.GetLaneClearDistance 0).forward_obstacle_id < 0) :
    ∃ g info, ObstacleDecision inputs maneuver_goal = Except.ok g ∧
      g.maneuver_infos = [info] ∧
      (g.decision_type = DecisionType.kStopAtDestination ↔
        inputs.ego_sl_s + min (max ((inputs.GetLaneClearDistance 0).forward_clear_distance
          - inputs.config.lon_safety_buffer) inputs.config.min_lookahead_distance)
          inputs.config.max_lookahead_distance > inputs.reference_line_.Length) ∧
      (g.decision_type = DecisionType.kStopAtDestination →
        info.has_stop_point = true ∧
        info.maneuver_target.target_s = inputs.reference_line_.Length) ∧
      (g.decision_type ≠ DecisionType.kStopAtDestination →
        g.decision_type = DecisionType.kFollowLane ∧ info.has_stop_point = false ∧
        info.maneuver_target.target_speed = inputs.config.target_speed) := by
  obtain ⟨m, hm⟩ := resize_one inputs.value_initialized_info maneuver_goal.maneuver_infos
  by_cases hend : inputs.ego_sl_s + min (max
      ((inputs.GetLaneClearDistance 0).forward_clear_distance
        - inputs.config.lon_safety_buffer) inputs.config.min_lookahead_distance)
      inputs.config.max_lookahead_distance > inputs.reference_line_.Length
  · simp [ObstacleDecision, hno, hend, hm, assignFront, bind, Except.bind]
  · simp [ObstacleDecision, hno, hend, hm, assignFront, bind, Except.bind]

/-- C8 on the spec's S4 (reference line of 30 m, ego at `s = 20`, no leading
vehicle). -/
theorem ObstacleDecision_no_leader_S4 :
    (Scenario.S4.GetLaneClearDistance 0).forward_obstacle_id < 0 ∧
    ∃ g info, ObstacleDecision Scenario.S4 Scenario.freshGoal = Except.ok g ∧
      g.maneuver_infos = [info] ∧
      (g.decision_type = DecisionType.kStopAtDestination ↔
        Scenario.S4.ego_sl_s + min (max ((Scenario.S4.GetLaneClearDistance 0).forward_clear_distance
          - Scenario.S4.config.lon_safety_buffer) Scenario.S4.config.min_lookahead_distance)
          Scenario.S4.config.max_lookahead_distance > Scenario.S4.reference_line_.Length) ∧
      (g.decision_type = DecisionType.kStopAtDestination →
        info.has_stop_point = true ∧
        info.maneuver_target.target_s = Scenario.S4.reference_line_.Length) ∧
      (g.decision_type ≠ DecisionType.kStopAtDestination →
        g.decision_type = DecisionType.kFollowLane ∧ info.has_stop_point = false ∧
        info.maneuver_target.target_speed = Scenario.S4.config.target_speed) :=
  ⟨by simp [Scenario.S4],
    ObstacleDecision_no_leader Scenario.S4 Scenario.freshGoal (by simp [Scenario.S4])⟩

/-- C9: whenever `ObstacleDecision` (directly or through `ChangeLaneDecision`)
returns the decision `kFollowLane` while a leading vehicle exists
(`forward_obstacle_id ≥ 0`), the goal has a single maneuver info, with
`target_speed = min(leading vehicle speed, configured target_speed)` and
`has_stop_point = false`. -/
theorem ObstacleDecision_follow_target_speed (inputs : PlanningInputs)
    (maneuver_goal g : ManeuverGoal)
    (h : ObstacleDecision inputs maneuver_goal = Except.ok g)
    (hd : g.decision_type = DecisionType.kFollowLane)
    (hlead : 0 ≤ (inputs.GetLaneClearDistance 0).forward_obstacle_id) :
    ∃ leader info,
      inputs.obstacles (inputs.GetLaneClearDistance 0).forward_obstacle_id = some leader ∧
      g.maneuver_infos = [info] ∧
      info.maneuver_target.target_speed = min leader.Speed inputs.config.target_speed ∧
      info.has_stop_point = false := by
  obtain ⟨m, hm⟩ := resize_one inputs.value_initialized_info maneuver_goal.maneuver_infos
  have hno : ¬ (inputs.GetLaneClearDistance 0).forward_obstacle_id < 0 := not_lt.mpr hlead
  have hla := lookahead_le_max ((inputs.GetLaneClearDistance 0).forward_clear_distance
          - inputs.config.lon_safety_buffer) inputs.config.min_lookahead_distance
          inputs.config.max_lookahead_distance
  cases hmap : inputs.obstacles (inputs.GetLaneClearDistance 0).forward_obstacle_id with
  | none =>
    simp [ObstacleDecision, hno, hmap, ObstaclesAt, bind, Except.bind] at h
  | some leader =>
    refine ⟨leader, ?_⟩
    by_cases hclose : (inputs.GetLaneClearDistance 0).forward_clear_distance
        < inputs.config.lon_safety_buffer
    · exfalso
      simp [ObstacleDecision, hno, hmap, hclose, hm, assignFront, ObstaclesAt, bind,
        Except.bind] at h
      subst h
      cases hd
    · by_cases hin : inputs.ego_sl_s + min (max
          ((inputs.GetLaneClearDistance 0).forward_clear_distance
            - inputs.config.lon_safety_buffer) inputs.config.min_lookahead_distance)
          inputs.config.max_lookahead_distance < inputs.reference_line_.Length
      · by_cases hslow : (0.3 : ℚ) * inputs.ego_vel > leader.Speed
        · by_cases hopt : (inputs.reference_line_.NearestWayPoint
            (min (inputs.ego_sl_s + 5) inputs.reference_line_.Length)).road_option
              = CarlaRoadOption.LANEFOLLOW
          · simp only [ObstacleDecision, hno, hmap, hclose, hla, hin, hslow, hopt, ObstaclesAt,
              bind, Except.bind, if_false, if_true] at h
            obtain ⟨l2, info, h1, h2, h3, h4⟩ :=
              ChangeLaneDecision_follow _ _ _ _ _ _ _ _ _ h hd hlead
            rw [hmap] at h1
            cases h1
            exact ⟨info, rfl, h2, h3, h4⟩
          · simp [ObstacleDecision, hno, hmap, hclose, hla, hin, hslow, hopt, hm, assignFront,
              ObstaclesAt, bind, Except.bind] at h
            subst h
            exact ⟨_, rfl, rfl, rfl, rfl⟩
        · simp [ObstacleDecision, hno, hmap, hclose, hla, hin, hslow, hm, assignFront,
            ObstaclesAt, bind, Except.bind] at h
          subst h
          exact ⟨_, rfl, rfl, rfl, rfl⟩
      · exfalso
        simp [ObstacleDecision, hno, hmap, hclose, hla, hin, hm, assignFront,
          ObstaclesAt, bind, Except.bind] at h
        subst h
        cases hd

/-- The outcome of `ObstacleDecision` on `Scenario.followingLeader`. -/
theorem followingLeader_outcome :
    ObstacleDecision Scenario.followingLeader Scenario.freshGoal
      = Except.ok Scenario.followingLeaderGoal := by
  norm_num [ObstacleDecision, Scenario.followingLeader, Scenario.followingLeaderGoal,
    Scenario.config, Scenario.obstacles, Scenario.referenceLine, Scenario.wayPoint,
    Scenario.zeroInfo, Scenario.freshGoal, ObstaclesAt, resize, assignFront, bind,
    Except.bind]

/-- C9 on a leader at 2 m/s, 40 m ahead of an ego driving at 5 m/s with
`target_speed = 10`: the emitted target speed is `min 2 10`. -/
theorem ObstacleDecision_follow_target_speed_witness :
    (ObstacleDecision Scenario.followingLeader Scenario.freshGoal
        = Except.ok Scenario.followingLeaderGoal ∧
      Scenario.followingLeaderGoal.decision_type = DecisionType.kFollowLane ∧
      0 ≤ (Scenario.followingLeader.GetLaneClearDistance 0).forward_obstacle_id) ∧
    ∃ leader info,
      Scenario.followingLeader.obstacles
        (Scenario.followingLeader.GetLaneClearDistance 0).forward_obstacle_id
          = some leader ∧
      Scenario.followingLeaderGoal.maneuver_infos = [info] ∧
      info.maneuver_target.target_speed =
        min leader.Speed Scenario.followingLeader.config.target_speed ∧
      info.has_stop_point = false := by
  have h3 : 0 ≤ (Scenario.followingLeader.GetLaneClearDistance 0).forward_obstacle_id := by
    simp [Scenario.followingLeader]
  exact ⟨⟨followingLeader_outcome, rfl, h3⟩,
    ObstacleDecision_follow_target_speed Scenario.followingLeader Scenario.freshGoal
      Scenario.followingLeaderGoal followingLeader_outcome rfl h3⟩

/-- C10 (amended): for every input in which a non-negative leading-vehicle id is
a key of the obstacle map, `ObstacleDecision` returns `kChangeLeft` or
`kChangeRight` only when a leading vehicle exists, its clear distance is at
least `lon_safety_buffer`, `ego_s + lookahead` is below the reference line
length, the leader is much slower (`0.3 * ego_vel > leading speed`) and the
incoming way point's road option is `LANEFOLLOW`; when any of these is violated
the call returns and the decision is one of `kFollowLane`,
`kStopAtDestination`, `kEmergencyStop`. -/
theorem ObstacleDecision_change_lane_only_when (inputs : PlanningInputs)
    (maneuver_goal : ManeuverGoal)
    (hwf : 0 ≤ (inputs.GetLaneClearDistance 0).forward_obstacle_id →
      ∃ o, inputs.obstacles (inputs.GetLaneClearDistance 0).forward_obstacle_id = some o) :
    (∀ g, ObstacleDecision inputs maneuver_goal = Except.ok g →
      (g.decision_type = DecisionType.kChangeLeft ∨
        g.decision_type = DecisionType.kChangeRight) →
      LaneChangeConsidered inputs) ∧
    (¬ LaneChangeConsidered inputs →
      ∃ g, ObstacleDecision inputs maneuver_goal = Except.ok g ∧
        (g.decision_type = DecisionType.kFollowLane ∨
          g.decision_type = DecisionType.kStopAtDestination ∨
          g.decision_type = DecisionType.kEmergencyStop)) := by
  obtain ⟨m, hm⟩ := resize_one inputs.value_initialized_info maneuver_goal.maneuver_infos
  have hla := lookahead_le_max ((inputs.GetLaneClearDistance 0).forward_clear_distance
          - inputs.config.lon_safety_buffer) inputs.config.min_lookahead_distance
          inputs.config.max_lookahead_distance
  by_cases hno : (inputs.GetLaneClearDistance 0).forward_obstacle_id < 0
  · by_cases hend : inputs.ego_sl_s + min (max
        ((inputs.GetLaneClearDistance 0).forward_clear_distance
          - inputs.config.lon_safety_buffer) inputs.config.min_lookahead_distance)
        inputs.config.max_lookahead_distance > inputs.reference_line_.Length
    · constructor
      · intro g hg hd
        exfalso
        simp [ObstacleDecision, hno, hend, hm, assignFront, bind, Except.bind] at hg
        subst hg
        simp at hd
      · intro _
        simp [ObstacleDecision, hno, hend, hm, assignFront, bind, Except.bind]
    · constructor
      · intro g hg hd
        exfalso
        simp [ObstacleDecision, hno, hend, hm, assignFront, bind, Except.bind] at hg
        subst hg
        simp at hd
      · intro _
        simp [ObstacleDecision, hno, hend, hm, assignFront, bind, Except.bind]
  · have hlead : 0 ≤ (inputs.GetLaneClearDistance 0).forward_obstacle_id := not_lt.mp hno
    obtain ⟨leader, hmap⟩ := hwf hlead
    by_cases hclose : (inputs.GetLaneClearDistance 0).forward_clear_distance
        < inputs.config.lon_safety_buffer
    · constructor
      · intro g hg hd
        exfalso
        simp [ObstacleDecision, hno, hmap, hclose, hm, assignFront, ObstaclesAt, bind,
          Except.bind] at hg
        subst hg
        simp at hd
      · intro _
        simp [ObstacleDecision, hno, hmap, hclose, hm, assignFront, ObstaclesAt, bind,
          Except.bind]
    · by_cases hin : inputs.ego_sl_s + min (max
          ((inputs.GetLaneClearDistance 0).forward_clear_distance
            - inputs.config.lon_safety_buffer) inputs.config.min_lookahead_distance)
          inputs.config.max_lookahead_distance < inputs.reference_line_.Length
      · by_cases hslow : (0.3 : ℚ) * inputs.ego_vel > leader.Speed
        · by_cases hopt : (inputs.reference_line_.NearestWayPoint
            (min (inputs.ego_sl_s + 5) inputs.reference_line_.Length)).road_option
              = CarlaRoadOption.LANEFOLLOW
          · have hcons : LaneChangeConsidered inputs :=
              ⟨leader, hlead, hmap, not_lt.mp hclose, hin, hslow, hopt⟩
            exact ⟨fun _ _ _ => hcons, fun hneg => absurd hcons hneg⟩
          · constructor
            · intro g hg hd
              exfalso
              simp [ObstacleDecision, hno, hmap, hclose, hla, hin, hslow, hopt, hm, assignFront,
                ObstaclesAt, bind, Except.bind] at hg
              subst hg
              simp at hd
            · intro _
              simp [ObstacleDecision, hno, hmap, hclose, hla, hin, hslow, hopt, hm, assignFront,
                ObstaclesAt, bind, Except.bind]
        · constructor
          · intro g hg hd
            exfalso
            simp [ObstacleDecision, hno, hmap, hclose, hla, hin, hslow, hm, assignFront,
              ObstaclesAt, bind, Except.bind] at hg
            subst hg
            simp at hd
          · intro _
            simp [ObstacleDecision, hno, hmap, hclose, hla, hin, hslow, hm, assignFront,
              ObstaclesAt, bind, Except.bind]
      · constructor
        · intro g hg hd
          exfalso
          simp [ObstacleDecision, hno, hmap, hclose, hla, hin, hm, assignFront,
            ObstaclesAt, bind, Except.bind] at hg
          subst hg
          simp at hd
        · intro _
          simp [ObstacleDecision, hno, hmap, hclose, hla, hin, hm, assignFront,
            ObstaclesAt, bind, Except.bind]

/-- C10 (amended) on the too-close leader of `Scenario.leaderTooClose`, whose id 7
is a key of the obstacle map. -/
theorem ObstacleDecision_change_lane_only_when_witness :
    (0 ≤ (Scenario.leaderTooClose.GetLaneClearDistance 0).forward_obstacle_id →
      ∃ o, Scenario.leaderTooClose.obstacles
        (Scenario.leaderTooClose.GetLaneClearDistance 0).forward_obstacle_id = some o) ∧
    ((∀ g, ObstacleDecision Scenario.leaderTooClose Scenario.freshGoal = Except.ok g →
      (g.decision_type = DecisionType.kChangeLeft ∨
        g.decision_type = DecisionType.kChangeRight) →
      LaneChangeConsidered Scenario.leaderTooClose) ∧
    (¬ LaneChangeConsidered Scenario.leaderTooClose →
      ∃ g, ObstacleDecision Scenario.leaderTooClose Scenario.freshGoal = Except.ok g ∧
        (g.decision_type = DecisionType.kFollowLane ∨
          g.decision_type = DecisionType.kStopAtDestination ∨
          g.decision_type = DecisionType.kEmergencyStop))) := by
  have hwf : 0 ≤ (Scenario.leaderTooClose.GetLaneClearDistance 0).forward_obstacle_id →
      ∃ o, Scenario.leaderTooClose.obstacles
        (Scenario.leaderTooClose.GetLaneClearDistance 0).forward_obstacle_id = some o := by
    intro _
    exact ⟨{ Speed := 2 }, by simp [Scenario.leaderTooClose, Scenario.obstacles]⟩
  exact ⟨hwf, ObstacleDecision_change_lane_only_when Scenario.leaderTooClose
    Scenario.freshGoal hwf⟩

/-! ## Cost functions -/

/-- C18 (as stated, refuted): with thresholds summing to `T = 1e-3 > 0` and a
projected clear length of `0 < T`, `SafetyCost` is `1`: the cost equals `1`
although the projected clear length is below `T`. -/
theorem SafetyCost_one_below_threshold :
    (0 : ℚ) < Scenario.tinyThresholds.maneuver_target_lane_forward_clear_threshold
      + Scenario.tinyThresholds.maneuver_target_lane_backward_clear_threshold ∧
    SafetyCost Scenario.tinyThresholds 0 0 0 0 = Double.finite 1 ∧
    ¬ ((0 : ℚ) + 0 + (0 - 0) * Scenario.tinyThresholds.maneuver_execute_time_length ≥
      Scenario.tinyThresholds.maneuver_target_lane_forward_clear_threshold
        + Scenario.tinyThresholds.maneuver_target_lane_backward_clear_threshold) := by
  refine ⟨?_, ?_, ?_⟩
  · norm_num [Scenario.tinyThresholds, Scenario.config]
  · norm_num [SafetyCost, Double.ofDiv, Scenario.tinyThresholds, Scenario.config]
  · norm_num [Scenario.tinyThresholds, Scenario.config]

/-- C18 (amended): for every input, `SafetyCost` equals
`T / min(T, max(1e-3, L))` with `T` the sum of the two target-lane thresholds
and `L = following_clear + leading_clear + (leading_vel - following_vel) *
maneuver_execute_time_length`; hence for `T > 0` it is finite, at least `1`, and
equal to `1` exactly when `max(1e-3, L) ≥ T`, which for `T > 1e-3` is `L ≥ T`. -/
theorem SafetyCost_formula (config : PlanningConfig)
    (leading_vel following_vel leading_clear_distance following_clear_distance : ℚ) :
    SafetyCost config leading_vel following_vel leading_clear_distance following_clear_distance
      = Double.ofDiv
          (config.maneuver_target_lane_forward_clear_threshold
            + config.maneuver_target_lane_backward_clear_threshold)
          (min (config.maneuver_target_lane_forward_clear_threshold
              + config.maneuver_target_lane_backward_clear_threshold)
            (max (1e-3 : ℚ) (following_clear_distance + leading_clear_distance +
              (leading_vel - following_vel) * config.maneuver_execute_time_length))) ∧
    (0 < config.maneuver_target_lane_forward_clear_threshold
        + config.maneuver_target_lane_backward_clear_threshold →
      ∃ q : ℚ, SafetyCost config leading_vel following_vel leading_clear_distance
          following_clear_distance = Double.finite q ∧ 1 ≤ q ∧
        (q = 1 ↔ max (1e-3 : ℚ) (following_clear_distance + leading_clear_distance +
            (leading_vel - following_vel) * config.maneuver_execute_time_length)
          ≥ config.maneuver_target_lane_forward_clear_threshold
            + config.maneuver_target_lane_backward_clear_threshold) ∧
        ((1e-3 : ℚ) < config.maneuver_target_lane_forward_clear_threshold
            + config.maneuver_target_lane_backward_clear_threshold →
          (q = 1 ↔ following_clear_distance + leading_clear_distance +
              (leading_vel - following_vel) * config.maneuver_execute_time_length
            ≥ config.maneuver_target_lane_forward_clear_threshold
              + config.maneuver_target_lane_backward_clear_threshold))) := by
  set T := config.maneuver_target_lane_forward_clear_threshold
            + config.maneuver_target_lane_backward_clear_threshold with hT
  set L := following_clear_distance + leading_clear_distance +
              (leading_vel - following_vel) * config.maneuver_execute_time_length with hL
  have hform : SafetyCost config leading_vel following_vel leading_clear_distance
      following_clear_distance = Double.ofDiv T (min T (max (1e-3 : ℚ) L)) := by
    simp only [SafetyCost]
    rw [min_comm, ← hT]
    congr 3
    rw [hL]
    ring
  refine ⟨hform, ?_⟩
  intro hpos
  have hM : (0 : ℚ) < max (1e-3 : ℚ) L := lt_of_lt_of_le (by norm_num) (le_max_left _ _)
  have hmin : 0 < min T (max (1e-3 : ℚ) L) := lt_min hpos hM
  have hne : min T (max (1e-3 : ℚ) L) ≠ 0 := ne_of_gt hmin
  have hq1 : T / min T (max (1e-3 : ℚ) L) = 1 ↔ max (1e-3 : ℚ) L ≥ T := by
    rw [div_eq_one_iff_eq hne]
    constructor
    · intro h
      have := min_le_right T (max (1e-3 : ℚ) L)
      rw [← h] at this
      exact this
    · intro h
      exact (min_eq_left h).symm
  refine ⟨T / min T (max (1e-3 : ℚ) L), ?_, ?_, hq1, ?_⟩
  · rw [hform]
    simp [Double.ofDiv, hne]
  · rw [le_div_iff₀ hmin, one_mul]
    exact min_le_left _ _
  · intro hbig
    rw [hq1]
    constructor
    · intro h
      rcases le_max_iff.mp h with h1 | h1
      · exact absurd h1 (not_le.mpr hbig)
      · exact h1
    · intro h
      exact le_trans h (le_max_right _ _)

/-- C19: for every `target_vel`, `max_vel` and `leading_vel`, with
`buffer = max(max_vel - target_vel, 0.2)` and `desired = max_vel - buffer`:
`EfficiencyCost` is infinite when `leading_vel ≥ max_vel`, it is the quotient
`(desired - leading_vel) / desired` when `leading_vel < desired`, and it is
`(leading_vel - desired) / buffer` when `desired < leading_vel < max_vel`. -/
theorem EfficiencyCost_cases (target_vel leading_vel max_vel : ℚ) :
    (max_vel ≤ leading_vel → EfficiencyCost target_vel leading_vel max_vel = Double.inf) ∧
    (leading_vel < max_vel - max (max_vel - target_vel) (0.2 : ℚ) →
      EfficiencyCost target_vel leading_vel max_vel =
        Double.ofDiv (max_vel - max (max_vel - target_vel) (0.2 : ℚ) - leading_vel)
          (max_vel - max (max_vel - target_vel) (0.2 : ℚ)) ∧
      (max_vel - max (max_vel - target_vel) (0.2 : ℚ) ≠ 0 →
        EfficiencyCost target_vel leading_vel max_vel =
          Double.finite ((max_vel - max (max_vel - target_vel) (0.2 : ℚ) - leading_vel) /
            (max_vel - max (max_vel - target_vel) (0.2 : ℚ))))) ∧
    (max_vel - max (max_vel - target_vel) (0.2 : ℚ) < leading_vel → leading_vel < max_vel →
      EfficiencyCost target_vel leading_vel max_vel =
        Double.finite ((leading_vel - (max_vel - max (max_vel - target_vel) (0.2 : ℚ))) /
          max (max_vel - target_vel) (0.2 : ℚ))) := by
  have hb : (0 : ℚ) < max (max_vel - target_vel) (0.2 : ℚ) :=
    lt_of_lt_of_le (by norm_num) (le_max_right _ _)
  refine ⟨?_, ?_, ?_⟩
  · intro h
    have h1 : ¬ leading_vel < max_vel - max (max_vel - target_vel) (0.2 : ℚ) := by
      intro hlt
      linarith
    have h2 : ¬ leading_vel < max_vel := not_lt.mpr h
    simp [EfficiencyCost, h1, h2]
  · intro h
    have e : EfficiencyCost target_vel leading_vel max_vel =
        Double.ofDiv (max_vel - max (max_vel - target_vel) (0.2 : ℚ) - leading_vel)
          (max_vel - max (max_vel - target_vel) (0.2 : ℚ)) := by
      simp only [EfficiencyCost, if_pos h]
    refine ⟨e, ?_⟩
    intro hne
    rw [e]
    simp [Double.ofDiv, hne]
  · intro h1 h2
    have h0 : ¬ leading_vel < max_vel - max (max_vel - target_vel) (0.2 : ℚ) := not_lt.mpr h1.le
    have hne : max (max_vel - target_vel) (0.2 : ℚ) ≠ 0 := ne_of_gt hb
    have h12 : leading_vel > max_vel - max (max_vel - target_vel) (0.2 : ℚ) ∧
        leading_vel < max_vel := ⟨h1, h2⟩
    simp only [EfficiencyCost, if_neg h0, if_pos h12, Double.ofDiv]
    rw [if_pos hne]

/-- C20 (the code at a failing input): with `lon_safety_buffer = 5` and
`max_lon_acc = 3`, for `ego_vel = 2`, `leading_vel = 0` and a forward clear
distance of `7` the required acceleration is `(0 - 4) / (2 * 2) = -1` and the
comfort cost of the specification is `1/3`; the code computes
`acc = (0 - 4) / 2 * 2 = -4` and returns an infinite cost. -/
theorem ComfortCost_multiplies_by_distance :
    ComfortCost Scenario.config 2 0 7 = Double.inf ∧
    ComfortCostSpec Scenario.config 2 0 7 = Double.finite (1 / 3) ∧
    ((0 : ℚ) * 0 - 2 * 2) / 2 * max (1e-3 : ℚ) (7 - Scenario.config.lon_safety_buffer) = -4 ∧
    ((0 : ℚ) ^ 2 - 2 ^ 2) / (2 * max (1e-3 : ℚ) (7 - Scenario.config.lon_safety_buffer)) = -1 := by
  have hmax : max (1e-3 : ℚ) (7 - 5) = 2 := by
    rw [max_eq_right]
    · norm_num
    · norm_num
  refine ⟨?_, ?_, ?_, ?_⟩
  · simp only [ComfortCost, Scenario.config, hmax]
    norm_num
  · simp only [ComfortCostSpec, Scenario.config, hmax]
    norm_num [Double.ofDiv]
  · simp only [Scenario.config, hmax]
    norm_num
  · simp only [Scenario.config, hmax]
    norm_num

/-! ## `SelectLane` on three lanes -/

theorem Double_lt_asymm (x y : Double) (h : Double.lt x y = true) : Double.lt y x = false := by
  cases x <;> cases y <;> simp_all [Double.lt]
  exact le_of_lt h

theorem Double_lt_trans (x y z : Double) (h1 : Double.lt x y = true)
    (h2 : Double.lt y z = true) : Double.lt x z = true := by
  cases x <;> cases y <;> cases z <;> simp_all [Double.lt]
  exact lt_trans h1 h2

theorem Double_lt_finite (a b : ℚ) :
    Double.lt (Double.finite a) (Double.finite b) = decide (a < b) := rfl

/-- The value of `SelectLane` on three lanes, in terms of the three lane costs:
the scan of `std::min_element` written out. -/
theorem SelectLane_three (config : PlanningConfig) (ego_s ego_vel a1 a2 a3 b1 b2 b3 c1 c2 c3
    d1 d2 d3 : ℚ) :
    SelectLane config ego_s ego_vel [a1, a2, a3] [b1, b2, b3] [c1, c2, c3] [d1, d2, d3]
      = Except.ok
        (if Double.lt (LaneCost config ego_vel a2 b2 c2 d2) (LaneCost config ego_vel a1 b1 c1 d1)
          then
            (if Double.lt (LaneCost config ego_vel a3 b3 c3 d3)
                (LaneCost config ego_vel a2 b2 c2 d2) then 1 else 0)
          else
            (if Double.lt (LaneCost config ego_vel a3 b3 c3 d3)
                (LaneCost config ego_vel a1 b1 c1 d1) then 1 else -1)) := by
  simp only [SelectLane, List.isEmpty_cons, List.length_cons, List.length_nil, ne_eq,
    not_true_eq_false, if_false, List.zip_cons_cons, List.zip_nil_right, List.enum_cons,
    List.enumFrom_cons, List.enumFrom_nil, List.map_cons, List.map_nil, List.enum,
    min_element, List.foldl]
  by_cases h1 : Double.lt (LaneCost config ego_vel a2 b2 c2 d2)
      (LaneCost config ego_vel a1 b1 c1 d1) = true
  · by_cases h2 : Double.lt (LaneCost config ego_vel a3 b3 c3 d3)
        (LaneCost config ego_vel a2 b2 c2 d2) = true
    · simp [h1, h2]
    · simp [h1, h2]
  · by_cases h2 : Double.lt (LaneCost config ego_vel a3 b3 c3 d3)
        (LaneCost config ego_vel a1 b1 c1 d1) = true
    · simp [h1, h2]
    · simp [h1, h2]

/-- A lane whose three cost terms are finite has the weighted sum as its cost. -/
theorem LaneCost_finite (config : PlanningConfig) (ego_vel lv fv lc fc s e c : ℚ)
    (hs : SafetyCost config lv fv lc fc = Double.finite s)
    (he : EfficiencyCost config.target_speed lv config.max_lon_velocity = Double.finite e)
    (hc : ComfortCost config ego_vel lv lc = Double.finite c) :
    LaneCost config ego_vel lv fv lc fc = Double.finite (WeightedCost config s e c) := by
  simp only [LaneCost, hs, he, hc, Double.mul, Double.add, WeightedCost]
  congr 1
  ring

/-- C15: for every call of `SelectLane` with three lanes (left, current, right)
whose safety, efficiency and comfort costs are finite, the call returns a lane
offset in `{-1, 0, 1}` whose weighted cost
`safety_gain*SafetyCost + efficiency_gain*EfficiencyCost + comfort_gain*ComfortCost`
is minimal among the three lanes, the first such lane in the order left,
current, right on ties. -/
theorem SelectLane_minimal_cost (config : PlanningConfig) (ego_s ego_vel : ℚ)
    (lv1 lv2 lv3 fv1 fv2 fv3 lc1 lc2 lc3 fc1 fc2 fc3 : ℚ)
    (s1 s2 s3 e1 e2 e3 c1 c2 c3 : ℚ)
    (hs1 : SafetyCost config lv1 fv1 lc1 fc1 = Double.finite s1)
    (hs2 : SafetyCost config lv2 fv2 lc2 fc2 = Double.finite s2)
    (hs3 : SafetyCost config lv3 fv3 lc3 fc3 = Double.finite s3)
    (he1 : EfficiencyCost config.target_speed lv1 config.max_lon_velocity = Double.finite e1)
    (he2 : EfficiencyCost config.target_speed lv2 config.max_lon_velocity = Double.finite e2)
    (he3 : EfficiencyCost config.target_speed lv3 config.max_lon_velocity = Double.finite e3)
    (hc1 : ComfortCost config ego_vel lv1 lc1 = Double.finite c1)
    (hc2 : ComfortCost config ego_vel lv2 lc2 = Double.finite c2)
    (hc3 : ComfortCost config ego_vel lv3 lc3 = Double.finite c3) :
    ∃ r : Int, SelectLane config ego_s ego_vel [lv1, lv2, lv3] [fv1, fv2, fv3]
        [lc1, lc2, lc3] [fc1, fc2, fc3] = Except.ok r ∧
      ((r = -1 ∧
          WeightedCost config s1 e1 c1 ≤
          WeightedCost config s2 e2 c2 ∧
          WeightedCost config s1 e1 c1 ≤
          WeightedCost config s3 e3 c3) ∨
        (r = 0 ∧
          WeightedCost config s2 e2 c2 <
          WeightedCost config s1 e1 c1 ∧
          WeightedCost config s2 e2 c2 ≤
          WeightedCost config s3 e3 c3) ∨
        (r = 1 ∧
          WeightedCost config s3 e3 c3 <
          WeightedCost config s1 e1 c1 ∧
          WeightedCost config s3 e3 c3 <
          WeightedCost config s2 e2 c2)) := by
  rw [SelectLane_three, LaneCost_finite config ego_vel lv1 fv1 lc1 fc1 s1 e1 c1 hs1 he1 hc1,
    LaneCost_finite config ego_vel lv2 fv2 lc2 fc2 s2 e2 c2 hs2 he2 hc2,
    LaneCost_finite config ego_vel lv3 fv3 lc3 fc3 s3 e3 c3 hs3 he3 hc3]
  simp only [Double_lt_finite, decide_eq_true_eq]
  generalize WeightedCost config s1 e1 c1 = w1
  generalize WeightedCost config s2 e2 c2 = w2
  generalize WeightedCost config s3 e3 c3 = w3
  by_cases h1 : w2 < w1
  · by_cases h2 : w3 < w2
    · refine ⟨1, by simp [h1, h2], Or.inr (Or.inr ⟨rfl, lt_trans h2 h1, h2⟩)⟩
    · refine ⟨0, by simp [h1, h2], Or.inr (Or.inl ⟨rfl, h1, not_lt.mp h2⟩)⟩
  · by_cases h2 : w3 < w1
    · refine ⟨1, by simp [h1, h2], Or.inr (Or.inr ⟨rfl, h2, lt_of_lt_of_le h2 (not_lt.mp h1)⟩)⟩
    · refine ⟨-1, by simp [h1, h2], Or.inl ⟨rfl, not_lt.mp h1, not_lt.mp h2⟩⟩

/-- The costs of a lane whose leader drives at the ego speed of 8 m/s, with
100 m clear ahead and behind: safety `1`, efficiency `1/5`, comfort `0`. -/
theorem evenLane_costs :
    SafetyCost Scenario.config 8 8 100 100 = Double.finite 1 ∧
    EfficiencyCost Scenario.config.target_speed 8 Scenario.config.max_lon_velocity
      = Double.finite (1 / 5) ∧
    ComfortCost Scenario.config 8 8 100 = Double.finite 0 := by
  refine ⟨?_, ?_, ?_⟩
  · norm_num [SafetyCost, Double.ofDiv, Scenario.config]
  · norm_num [EfficiencyCost, Double.ofDiv, Scenario.config]
  · norm_num [ComfortCost, Double.ofDiv, Scenario.config]

/-- C15 on three equal lanes (leader at the ego speed of 8 m/s, 100 m clear
ahead and behind on each). -/
theorem SelectLane_minimal_cost_witness :
    (SafetyCost Scenario.config 8 8 100 100 = Double.finite 1 ∧
      EfficiencyCost Scenario.config.target_speed 8 Scenario.config.max_lon_velocity
        = Double.finite (1 / 5) ∧
      ComfortCost Scenario.config 8 8 100 = Double.finite 0) ∧
    ∃ r : Int, SelectLane Scenario.config 20 8 [8, 8, 8] [8, 8, 8]
        [100, 100, 100] [100, 100, 100] = Except.ok r ∧
      ((r = -1 ∧
          WeightedCost Scenario.config 1 (1 / 5) 0 ≤
          WeightedCost Scenario.config 1 (1 / 5) 0 ∧
          WeightedCost Scenario.config 1 (1 / 5) 0 ≤
          WeightedCost Scenario.config 1 (1 / 5) 0) ∨
        (r = 0 ∧
          WeightedCost Scenario.config 1 (1 / 5) 0 <
          WeightedCost Scenario.config 1 (1 / 5) 0 ∧
          WeightedCost Scenario.config 1 (1 / 5) 0 ≤
          WeightedCost Scenario.config 1 (1 / 5) 0) ∨
        (r = 1 ∧
          WeightedCost Scenario.config 1 (1 / 5) 0 <
          WeightedCost Scenario.config 1 (1 / 5) 0 ∧
          WeightedCost Scenario.config 1 (1 / 5) 0 <
          WeightedCost Scenario.config 1 (1 / 5) 0)) :=
  ⟨evenLane_costs,
    SelectLane_minimal_cost Scenario.config 20 8 8 8 8 8 8 8 100 100 100 100 100 100
      1 1 1 (1 / 5) (1 / 5) (1 / 5) 0 0 0
      evenLane_costs.1 evenLane_costs.1 evenLane_costs.1
      evenLane_costs.2.1 evenLane_costs.2.1 evenLane_costs.2.1
      evenLane_costs.2.2 evenLane_costs.2.2 evenLane_costs.2.2⟩

/-- The cost of a lane whose leader drives at 20 m/s, above
`max_lon_velocity = 15`, is infinite (ego at 8 m/s, 100 m clear ahead and
behind, follower at 20 m/s). -/
theorem fastLeaderLane_cost :
    LaneCost Scenario.config 8 20 20 100 100 = Double.inf := by
  have hs : SafetyCost Scenario.config 20 20 100 100 = Double.finite 1 := by
    norm_num [SafetyCost, Double.ofDiv, Scenario.config]
  have he : EfficiencyCost Scenario.config.target_speed 20 Scenario.config.max_lon_velocity
      = Double.inf := by
    norm_num [EfficiencyCost, Scenario.config]
  have hc : ComfortCost Scenario.config 8 20 100 = Double.inf := by
    have hmax : max (1e-3 : ℚ) (100 - 5) = 95 := by
      rw [max_eq_right]
      · norm_num
      · norm_num
    simp only [ComfortCost, Scenario.config, hmax]
    norm_num
  simp only [LaneCost, hs, he, hc]
  simp [Scenario.config, Double.mul, Double.add, Double.scaleInf]

/-- The cost of a lane whose leader drives at the ego speed of 8 m/s, with 100 m
clear ahead and behind, is `6/5`. -/
theorem evenLane_cost :
    LaneCost Scenario.config 8 8 8 100 100 = Double.finite (6 / 5) := by
  rw [LaneCost_finite Scenario.config 8 8 8 100 100 1 (1 / 5) 0 evenLane_costs.1
    evenLane_costs.2.1 evenLane_costs.2.2]
  norm_num [WeightedCost, Scenario.config]

/-- C16 (as stated, refuted): when all three lanes have an infinite cost (every
leader at 20 m/s, above `max_lon_velocity = 15`), the left and the right lane
have an infinite cost and `SelectLane` returns `-1`, not `0`. -/
theorem SelectLane_all_infinite_returns_left :
    LaneCost Scenario.config 8 20 20 100 100 = Double.inf ∧
    SelectLane Scenario.config 20 8 [20, 20, 20] [20, 20, 20] [100, 100, 100] [100, 100, 100]
      = Except.ok (-1) ∧
    SelectLane Scenario.config 20 8 [20, 20, 20] [20, 20, 20] [100, 100, 100] [100, 100, 100]
      ≠ Except.ok 0 := by
  have h : SelectLane Scenario.config 20 8 [20, 20, 20] [20, 20, 20] [100, 100, 100]
      [100, 100, 100] = Except.ok (-1) := by
    rw [SelectLane_three, fastLeaderLane_cost]
    simp [Double.lt]
  refine ⟨fastLeaderLane_cost, h, ?_⟩
  rw [h]
  simp

/-- C16 (amended): `SelectLane` on three lanes returns `0` whenever the left and
the right lane both have an infinite cost and the cost of the current lane is
below `+inf` (finite or `-inf`); when the current lane's cost is `+inf` too, or
NaN, no lane compares smaller than the left one and `-1` is returned. -/
theorem SelectLane_stays_when_neighbours_infinite (config : PlanningConfig)
    (ego_s ego_vel lv1 lv2 lv3 fv1 fv2 fv3 lc1 lc2 lc3 fc1 fc2 fc3 : ℚ)
    (hleft : LaneCost config ego_vel lv1 fv1 lc1 fc1 = Double.inf)
    (hright : LaneCost config ego_vel lv3 fv3 lc3 fc3 = Double.inf) :
    (Double.lt (LaneCost config ego_vel lv2 fv2 lc2 fc2) Double.inf = true →
      SelectLane config ego_s ego_vel [lv1, lv2, lv3] [fv1, fv2, fv3] [lc1, lc2, lc3]
        [fc1, fc2, fc3] = Except.ok 0) ∧
    (Double.lt (LaneCost config ego_vel lv2 fv2 lc2 fc2) Double.inf = false →
      SelectLane config ego_s ego_vel [lv1, lv2, lv3] [fv1, fv2, fv3] [lc1, lc2, lc3]
        [fc1, fc2, fc3] = Except.ok (-1)) := by
  rw [SelectLane_three, hleft, hright]
  constructor
  · intro h
    have h2 : Double.lt Double.inf (LaneCost config ego_vel lv2 fv2 lc2 fc2) = false :=
      Double_lt_asymm _ _ h
    simp [h, h2]
  · intro h
    have hinf : Double.lt Double.inf Double.inf = false := rfl
    simp [h, hinf]

/-- C16 (amended) with the left and the right leader at 20 m/s (infinite cost)
and the current leader at the ego speed (cost `6/5`). -/
theorem SelectLane_stays_when_neighbours_infinite_witness :
    (LaneCost Scenario.config 8 20 20 100 100 = Double.inf ∧
      LaneCost Scenario.config 8 20 20 100 100 = Double.inf) ∧
    (Double.lt (LaneCost Scenario.config 8 8 8 100 100) Double.inf = true →
      SelectLane Scenario.config 20 8 [20, 8, 20] [20, 8, 20] [100, 100, 100]
        [100, 100, 100] = Except.ok 0) ∧
    (Double.lt (LaneCost Scenario.config 8 8 8 100 100) Double.inf = false →
      SelectLane Scenario.config 20 8 [20, 8, 20] [20, 8, 20] [100, 100, 100]
        [100, 100, 100] = Except.ok (-1)) :=
  ⟨⟨fastLeaderLane_cost, fastLeaderLane_cost⟩,
    SelectLane_stays_when_neighbours_infinite Scenario.config 20 8 20 8 20 20 8 20
      100 100 100 100 100 100 fastLeaderLane_cost fastLeaderLane_cost⟩

/-- The cost of a lane whose leader drives at 12 m/s, faster than the ego at
8 m/s, 5 m ahead (follower at 12 m/s, 100 m behind): `1 + 2/5 + 1/75`. -/
theorem fasterLeaderLane_cost :
    LaneCost Scenario.config 8 12 12 5 100 = Double.finite (106 / 75) := by
  have hs : SafetyCost Scenario.config 12 12 5 100 = Double.finite 1 := by
    norm_num [SafetyCost, Double.ofDiv, Scenario.config]
  have he : EfficiencyCost Scenario.config.target_speed 12 Scenario.config.max_lon_velocity
      = Double.finite (2 / 5) := by
    norm_num [EfficiencyCost, Double.ofDiv, Scenario.config]
  have hc : ComfortCost Scenario.config 8 12 5 = Double.finite (1 / 75) := by
    have habs : |(1 / 25 : ℚ)| = 1 / 25 := abs_of_pos (by norm_num)
    norm_num [ComfortCost, Double.ofDiv, Scenario.config, habs]
  rw [LaneCost_finite Scenario.config 8 12 12 5 100 1 (2 / 5) (1 / 75) hs he hc]
  norm_num [WeightedCost, Scenario.config]

/-- C17 (as stated, refuted): ego at 8 m/s; the current and the right leader
drive at 8 m/s (not faster than the ego), the left leader at 12 m/s (faster).
The left lane costs `106/75`, the other two `6/5`, and `SelectLane` returns `0`,
the current lane, whose leading velocity is not above the ego velocity. -/
theorem SelectLane_keeps_slow_lane :
    (![12, 8, 8] : Fin 3 → ℚ) 1 ≤ 8 ∧
    (∃ j : Fin 3, (8 : ℚ) < (![12, 8, 8] : Fin 3 → ℚ) j) ∧
    SelectLane Scenario.config 20 8
      [(![12, 8, 8] : Fin 3 → ℚ) 0, (![12, 8, 8] : Fin 3 → ℚ) 1, (![12, 8, 8] : Fin 3 → ℚ) 2]
      [12, 8, 8] [5, 100, 100] [100, 100, 100] = Except.ok (((1 : Fin 3) : ℕ) - 1 : ℤ) ∧
    ¬ ((8 : ℚ) < (![12, 8, 8] : Fin 3 → ℚ) 1) := by
  refine ⟨by simp, ⟨0, by norm_num⟩, ?_, by simp⟩
  simp only [Matrix.cons_val_zero, Matrix.cons_val_one, Matrix.head_cons, Matrix.cons_val_two,
    Matrix.tail_cons]
  rw [SelectLane_three, fasterLeaderLane_cost, evenLane_cost]
  norm_num [Double.lt]

/-- C17 (amended): for every call of `SelectLane` on three lanes in which the
current lane's leading velocity is `≤ ego_vel` and some lane with leading
velocity `> ego_vel` has a strictly smaller cost than every lane with leading
velocity `≤ ego_vel`, the returned lane has leading velocity `> ego_vel`.
Without the condition on the costs the lane of least cost is returned, whatever
its leading velocity. -/
theorem SelectLane_faster_lane_when_cheaper (config : PlanningConfig) (ego_s ego_vel : ℚ)
    (lv fv lc fc : Fin 3 → ℚ)
    (_hcur : lv 1 ≤ ego_vel)
    (hfast : ∃ j : Fin 3, ego_vel < lv j ∧ ∀ i : Fin 3, lv i ≤ ego_vel →
      Double.lt (LaneCost config ego_vel (lv j) (fv j) (lc j) (fc j))
        (LaneCost config ego_vel (lv i) (fv i) (lc i) (fc i)) = true) :
    ∃ r : Fin 3, SelectLane config ego_s ego_vel [lv 0, lv 1, lv 2] [fv 0, fv 1, fv 2]
        [lc 0, lc 1, lc 2] [fc 0, fc 1, fc 2] = Except.ok ((r : ℕ) - 1 : ℤ) ∧
      ego_vel < lv r := by
  obtain ⟨j, hj, hcost⟩ := hfast
  rw [SelectLane_three]
  have key : ∀ i : Fin 3, (∀ k : Fin 3,
      Double.lt (LaneCost config ego_vel (lv k) (fv k) (lc k) (fc k))
        (LaneCost config ego_vel (lv i) (fv i) (lc i) (fc i)) = false) → ego_vel < lv i := by
    intro i hmin
    by_contra hslow
    have := hcost i (not_lt.mp hslow)
    rw [hmin j] at this
    cases this
  by_cases h1 : Double.lt (LaneCost config ego_vel (lv 1) (fv 1) (lc 1) (fc 1))
      (LaneCost config ego_vel (lv 0) (fv 0) (lc 0) (fc 0)) = true
  · by_cases h2 : Double.lt (LaneCost config ego_vel (lv 2) (fv 2) (lc 2) (fc 2))
        (LaneCost config ego_vel (lv 1) (fv 1) (lc 1) (fc 1)) = true
    · refine ⟨2, by simp [h1, h2], key 2 ?_⟩
      intro k
      fin_cases k
      · exact Double_lt_asymm _ _ (Double_lt_trans _ _ _ h2 h1)
      · exact Double_lt_asymm _ _ h2
      · cases hk : Double.lt (LaneCost config ego_vel (lv 2) (fv 2) (lc 2) (fc 2))
            (LaneCost config ego_vel (lv 2) (fv 2) (lc 2) (fc 2)) with
        | false => simpa using hk
        | true => simpa [hk] using Double_lt_asymm _ _ hk
    · refine ⟨1, by simp [h1, h2], key 1 ?_⟩
      intro k
      fin_cases k
      · exact Double_lt_asymm _ _ h1
      · cases hk : Double.lt (LaneCost config ego_vel (lv 1) (fv 1) (lc 1) (fc 1))
            (LaneCost config ego_vel (lv 1) (fv 1) (lc 1) (fc 1)) with
        | false => simpa using hk
        | true => simpa [hk] using Double_lt_asymm _ _ hk
      · simpa using h2
  · by_cases h2 : Double.lt (LaneCost config ego_vel (lv 2) (fv 2) (lc 2) (fc 2))
        (LaneCost config ego_vel (lv 0) (fv 0) (lc 0) (fc 0)) = true
    · refine ⟨2, by simp [h1, h2], key 2 ?_⟩
      intro k
      fin_cases k
      · exact Double_lt_asymm _ _ h2
      · cases hk : Double.lt (LaneCost config ego_vel (lv 1) (fv 1) (lc 1) (fc 1))
            (LaneCost config ego_vel (lv 2) (fv 2) (lc 2) (fc 2)) with
        | false => simpa using hk
        | true =>
          exfalso
          exact h1 (Double_lt_trans _ _ _ hk h2)
      · cases hk : Double.lt (LaneCost config ego_vel (lv 2) (fv 2) (lc 2) (fc 2))
            (LaneCost config ego_vel (lv 2) (fv 2) (lc 2) (fc 2)) with
        | false => simpa using hk
        | true => simpa [hk] using Double_lt_asymm _ _ hk
    · refine ⟨0, by simp [h1, h2], key 0 ?_⟩
      intro k
      fin_cases k
      · cases hk : Double.lt (LaneCost config ego_vel (lv 0) (fv 0) (lc 0) (fc 0))
            (LaneCost config ego_vel (lv 0) (fv 0) (lc 0) (fc 0)) with
        | false => simpa using hk
        | true => simpa [hk] using Double_lt_asymm _ _ hk
      · simpa using h1
      · simpa using h2

/-- The cost of a lane whose leader drives at 9 m/s, 5 m ahead of the ego at
8 m/s (follower at 9 m/s, 100 m behind): `1 + 1/10 + 17/6000`. -/
theorem slightlyFasterLeaderLane_cost :
    LaneCost Scenario.config 8 9 9 5 100 = Double.finite (6617 / 6000) := by
  have hs : SafetyCost Scenario.config 9 9 5 100 = Double.finite 1 := by
    norm_num [SafetyCost, Double.ofDiv, Scenario.config]
  have he : EfficiencyCost Scenario.config.target_speed 9 Scenario.config.max_lon_velocity
      = Double.finite (1 / 10) := by
    norm_num [EfficiencyCost, Double.ofDiv, Scenario.config]
  have hc : ComfortCost Scenario.config 8 9 5 = Double.finite (17 / 6000) := by
    have habs : |(17 / 2000 : ℚ)| = 17 / 2000 := abs_of_pos (by norm_num)
    norm_num [ComfortCost, Double.ofDiv, Scenario.config, habs]
  rw [LaneCost_finite Scenario.config 8 9 9 5 100 1 (1 / 10) (17 / 6000) hs he hc]
  norm_num [WeightedCost, Scenario.config]

/-- C17 (amended) with the left leader at 9 m/s (cost `6617/6000`) and the
current and right leaders at the ego speed of 8 m/s (cost `6/5`). -/
theorem SelectLane_faster_lane_when_cheaper_witness :
    ((![9, 8, 8] : Fin 3 → ℚ) 1 ≤ 8 ∧
      ∃ j : Fin 3, (8 : ℚ) < (![9, 8, 8] : Fin 3 → ℚ) j ∧
        ∀ i : Fin 3, (![9, 8, 8] : Fin 3 → ℚ) i ≤ 8 →
          Double.lt
            (LaneCost Scenario.config 8 ((![9, 8, 8] : Fin 3 → ℚ) j)
              ((![9, 8, 8] : Fin 3 → ℚ) j) ((![5, 100, 100] : Fin 3 → ℚ) j)
              ((![100, 100, 100] : Fin 3 → ℚ) j))
            (LaneCost Scenario.config 8 ((![9, 8, 8] : Fin 3 → ℚ) i)
              ((![9, 8, 8] : Fin 3 → ℚ) i) ((![5, 100, 100] : Fin 3 → ℚ) i)
              ((![100, 100, 100] : Fin 3 → ℚ) i)) = true) ∧
    ∃ r : Fin 3, SelectLane Scenario.config 20 8
        [(![9, 8, 8] : Fin 3 → ℚ) 0, (![9, 8, 8] : Fin 3 → ℚ) 1, (![9, 8, 8] : Fin 3 → ℚ) 2]
        [(![9, 8, 8] : Fin 3 → ℚ) 0, (![9, 8, 8] : Fin 3 → ℚ) 1, (![9, 8, 8] : Fin 3 → ℚ) 2]
        [(![5, 100, 100] : Fin 3 → ℚ) 0, (![5, 100, 100] : Fin 3 → ℚ) 1,
          (![5, 100, 100] : Fin 3 → ℚ) 2]
        [(![100, 100, 100] : Fin 3 → ℚ) 0, (![100, 100, 100] : Fin 3 → ℚ) 1,
          (![100, 100, 100] : Fin 3 → ℚ) 2] = Except.ok ((r : ℕ) - 1 : ℤ) ∧
      (8 : ℚ) < (![9, 8, 8] : Fin 3 → ℚ) r := by
  have hcur : (![9, 8, 8] : Fin 3 → ℚ) 1 ≤ 8 := by simp
  have hfast : ∃ j : Fin 3, (8 : ℚ) < (![9, 8, 8] : Fin 3 → ℚ) j ∧
      ∀ i : Fin 3, (![9, 8, 8] : Fin 3 → ℚ) i ≤ 8 →
        Double.lt
          (LaneCost Scenario.config 8 ((![9, 8, 8] : Fin 3 → ℚ) j)
            ((![9, 8, 8] : Fin 3 → ℚ) j) ((![5, 100, 100] : Fin 3 → ℚ) j)
            ((![100, 100, 100] : Fin 3 → ℚ) j))
          (LaneCost Scenario.config 8 ((![9, 8, 8] : Fin 3 → ℚ) i)
            ((![9, 8, 8] : Fin 3 → ℚ) i) ((![5, 100, 100] : Fin 3 → ℚ) i)
            ((![100, 100, 100] : Fin 3 → ℚ) i)) = true := by
    refine ⟨0, by norm_num, ?_⟩
    intro i hi
    fin_cases i
    · norm_num at hi
    · simp only [Matrix.cons_val_zero, Fin.mk_one, Matrix.cons_val_one, Matrix.head_cons]
      rw [slightlyFasterLeaderLane_cost, evenLane_cost]
      norm_num [Double.lt]
    · simp only [Matrix.cons_val_zero, Matrix.cons_val_two, Matrix.tail_cons,
        Matrix.head_cons, Fin.reduceFinMk]
      rw [slightlyFasterLeaderLane_cost, evenLane_cost]
      norm_num [Double.lt]
  exact ⟨⟨hcur, hfast⟩, SelectLane_faster_lane_when_cheaper Scenario.config 20 8
    ![9, 8, 8] ![9, 8, 8] ![5, 100, 100] ![100, 100, 100] hcur hfast⟩

/-! ## Maneuver planner: `ChangeLaneDecision` -/

/-- C11 (as stated, refuted): three neighbouring lanes on which the judgement of
the code and the admissibility of the specification differ.  A lane with a slow
leader (2 m/s, ego at 10 m/s) and no follower is admissible for the
specification and rejected by the code; so is an empty lane whose forward clear
distance equals the threshold; an empty-ahead lane with a follower at 12 m/s,
above `target_speed = 10`, is not admissible for the specification and accepted
by the code. -/
theorem JudgeTargetLane_differs_from_spec :
    (AdmissibleSpec Scenario.judgeSlowLeaderAndBoundary (-1) ∧
      JudgeTargetLane Scenario.judgeSlowLeaderAndBoundary 10 (-1)
        = Except.ok (false, Scenario.judgeSlowLeaderAndBoundary.GetLaneClearDistance (-1))) ∧
    (AdmissibleSpec Scenario.judgeSlowLeaderAndBoundary 1 ∧
      JudgeTargetLane Scenario.judgeSlowLeaderAndBoundary 10 1
        = Except.ok (false, Scenario.judgeSlowLeaderAndBoundary.GetLaneClearDistance 1)) ∧
    (¬ AdmissibleSpec Scenario.judgeFastFollower (-1) ∧
      JudgeTargetLane Scenario.judgeFastFollower 10 (-1)
        = Except.ok (true, Scenario.judgeFastFollower.GetLaneClearDistance (-1))) := by
  refine ⟨⟨?_, ?_⟩, ⟨?_, ?_⟩, ⟨?_, ?_⟩⟩
  · norm_num [AdmissibleSpec, Scenario.judgeSlowLeaderAndBoundary, Scenario.config]
  · norm_num [JudgeTargetLane, Scenario.judgeSlowLeaderAndBoundary, Scenario.config,
      Scenario.twoObstacles, ObstaclesAt, bind, Except.bind]
  · norm_num [AdmissibleSpec, Scenario.judgeSlowLeaderAndBoundary, Scenario.config]
  · norm_num [JudgeTargetLane, Scenario.judgeSlowLeaderAndBoundary, Scenario.config]
  · norm_num [AdmissibleSpec, Scenario.judgeFastFollower, Scenario.config,
      Scenario.twoObstacles]
  · norm_num [JudgeTargetLane, Scenario.judgeFastFollower, Scenario.config]

/-- C11 (amended): the block of `ChangeLaneDecision` that judges a neighbouring
lane (entered when the current lane passes its own clear thresholds and the
incoming way point permits the change and has the lane) returns, and it judges
the lane admissible exactly when `backward_clear >
maneuver_target_lane_backward_clear_threshold`, `forward_clear >
maneuver_target_lane_forward_clear_threshold` (both strictly) and one of: the
lane has no leading vehicle; it has a leading vehicle and no follower, and the
leader's speed is above `min(ego_vel, target_speed)`; it has both, and the
follower's speed is below `min(target_speed, leader's speed)`.  (Well-formed
inputs: a non-negative id is a key of the obstacle map.) -/
theorem JudgeTargetLane_admissible_iff (inputs : PlanningInputs) (ego_vel : ℚ) (lane_offset : Int)
    (hwf_forward : 0 ≤ (inputs.GetLaneClearDistance lane_offset).forward_obstacle_id →
      ∃ o, inputs.obstacles (inputs.GetLaneClearDistance lane_offset).forward_obstacle_id
        = some o)
    (hwf_backward : 0 ≤ (inputs.GetLaneClearDistance lane_offset).backward_obstacle_id →
      ∃ o, inputs.obstacles (inputs.GetLaneClearDistance lane_offset).backward_obstacle_id
        = some o) :
    ∃ can_change : Bool,
      JudgeTargetLane inputs ego_vel lane_offset
        = Except.ok (can_change, inputs.GetLaneClearDistance lane_offset) ∧
      (can_change = true ↔
        (inputs.GetLaneClearDistance lane_offset).backward_clear_distance
          > inputs.config.maneuver_target_lane_backward_clear_threshold ∧
        (inputs.GetLaneClearDistance lane_offset).forward_clear_distance
          > inputs.config.maneuver_target_lane_forward_clear_threshold ∧
        ((inputs.GetLaneClearDistance lane_offset).forward_obstacle_id < 0 ∨
          ∃ leader, inputs.obstacles
              (inputs.GetLaneClearDistance lane_offset).forward_obstacle_id = some leader ∧
            (((inputs.GetLaneClearDistance lane_offset).backward_obstacle_id < 0 ∧
                leader.Speed > min ego_vel inputs.config.target_speed) ∨
              ∃ follower, 0 ≤ (inputs.GetLaneClearDistance lane_offset).backward_obstacle_id ∧
                inputs.obstacles
                  (inputs.GetLaneClearDistance lane_offset).backward_obstacle_id
                    = some follower ∧
                follower.Speed < min inputs.config.target_speed leader.Speed))) := by
  generalize hl : inputs.GetLaneClearDistance lane_offset = lane at hwf_forward hwf_backward ⊢
  by_cases hthr : lane.backward_clear_distance
      > inputs.config.maneuver_target_lane_backward_clear_threshold
      ∧ lane.forward_clear_distance > inputs.config.maneuver_target_lane_forward_clear_threshold
  · by_cases hf : lane.forward_obstacle_id < 0
    · refine ⟨true, ?_, ?_⟩
      · simp only [JudgeTargetLane, hl, if_pos hthr, if_pos hf]
      · simp only [true_iff]
        exact ⟨hthr.1, hthr.2, Or.inl hf⟩
    · obtain ⟨leader, hleader⟩ := hwf_forward (not_lt.mp hf)
      by_cases hb : lane.backward_obstacle_id < 0
      · refine ⟨decide (leader.Speed > min ego_vel inputs.config.target_speed), ?_, ?_⟩
        · simp only [JudgeTargetLane, hl, if_pos hthr, if_neg hf, ObstaclesAt, hleader, bind,
            Except.bind, if_pos hb]
        · simp only [decide_eq_true_eq]
          constructor
          · intro h
            exact ⟨hthr.1, hthr.2, Or.inr ⟨leader, hleader, Or.inl ⟨hb, h⟩⟩⟩
          · rintro ⟨-, -, h | ⟨l2, hl2, h | ⟨f, hf0, -, -⟩⟩⟩
            · exact absurd h hf
            · rw [hleader] at hl2
              cases hl2
              exact h.2
            · exact absurd hb (not_lt.mpr hf0)
      · obtain ⟨follower, hfollower⟩ := hwf_backward (not_lt.mp hb)
        refine ⟨decide (follower.Speed < min inputs.config.target_speed leader.Speed), ?_, ?_⟩
        · simp only [JudgeTargetLane, hl, if_pos hthr, if_neg hf, ObstaclesAt, hleader, bind,
            Except.bind, if_neg hb, hfollower]
        · simp only [decide_eq_true_eq]
          constructor
          · intro h
            exact ⟨hthr.1, hthr.2, Or.inr ⟨leader, hleader,
              Or.inr ⟨follower, not_lt.mp hb, hfollower, h⟩⟩⟩
          · rintro ⟨-, -, h | ⟨l2, hl2, h | ⟨f, -, hf2, h⟩⟩⟩
            · exact absurd h hf
            · exact absurd h.1 hb
            · rw [hleader] at hl2
              cases hl2
              rw [hfollower] at hf2
              cases hf2
              exact h
  · refine ⟨false, ?_, ?_⟩
    · simp only [JudgeTargetLane, hl, if_neg hthr]
    · simp only [Bool.false_eq_true, false_iff]
      rintro ⟨h1, h2, -⟩
      exact hthr ⟨h1, h2⟩

/-- C11 (amended) on a lane with a leader at 12 m/s and a follower at 2 m/s,
100 m clear ahead and behind. -/
theorem JudgeTargetLane_admissible_iff_witness :
    ((0 ≤ (Scenario.judgeLeaderAndFollower.GetLaneClearDistance (-1)).forward_obstacle_id →
      ∃ o, Scenario.judgeLeaderAndFollower.obstacles
        (Scenario.judgeLeaderAndFollower.GetLaneClearDistance (-1)).forward_obstacle_id
          = some o) ∧
      (0 ≤ (Scenario.judgeLeaderAndFollower.GetLaneClearDistance (-1)).backward_obstacle_id →
      ∃ o, Scenario.judgeLeaderAndFollower.obstacles
        (Scenario.judgeLeaderAndFollower.GetLaneClearDistance (-1)).backward_obstacle_id
          = some o)) ∧
    ∃ can_change : Bool,
      JudgeTargetLane Scenario.judgeLeaderAndFollower 10 (-1)
        = Except.ok (can_change, Scenario.judgeLeaderAndFollower.GetLaneClearDistance (-1)) ∧
      (can_change = true ↔
        (Scenario.judgeLeaderAndFollower.GetLaneClearDistance (-1)).backward_clear_distance
          > Scenario.judgeLeaderAndFollower.config.maneuver_target_lane_backward_clear_threshold ∧
        (Scenario.judgeLeaderAndFollower.GetLaneClearDistance (-1)).forward_clear_distance
          > Scenario.judgeLeaderAndFollower.config.maneuver_target_lane_forward_clear_threshold ∧
        ((Scenario.judgeLeaderAndFollower.GetLaneClearDistance (-1)).forward_obstacle_id < 0 ∨
          ∃ leader, Scenario.judgeLeaderAndFollower.obstacles
              (Scenario.judgeLeaderAndFollower.GetLaneClearDistance (-1)).forward_obstacle_id
                = some leader ∧
            (((Scenario.judgeLeaderAndFollower.GetLaneClearDistance (-1)).backward_obstacle_id
                  < 0 ∧
                leader.Speed > min 10 Scenario.judgeLeaderAndFollower.config.target_speed) ∨
              ∃ follower,
                0 ≤ (Scenario.judgeLeaderAndFollower.GetLaneClearDistance
                  (-1)).backward_obstacle_id ∧
                Scenario.judgeLeaderAndFollower.obstacles
                  (Scenario.judgeLeaderAndFollower.GetLaneClearDistance
                    (-1)).backward_obstacle_id = some follower ∧
                follower.Speed <
                  min Scenario.judgeLeaderAndFollower.config.target_speed leader.Speed))) := by
  have h1 : 0 ≤ (Scenario.judgeLeaderAndFollower.GetLaneClearDistance (-1)).forward_obstacle_id →
      ∃ o, Scenario.judgeLeaderAndFollower.obstacles
        (Scenario.judgeLeaderAndFollower.GetLaneClearDistance (-1)).forward_obstacle_id
          = some o := by
    intro _
    exact ⟨{ Speed := 12 }, by simp [Scenario.judgeLeaderAndFollower, Scenario.twoObstacles]⟩
  have h2 : 0 ≤ (Scenario.judgeLeaderAndFollower.GetLaneClearDistance (-1)).backward_obstacle_id →
      ∃ o, Scenario.judgeLeaderAndFollower.obstacles
        (Scenario.judgeLeaderAndFollower.GetLaneClearDistance (-1)).backward_obstacle_id
          = some o := by
    intro _
    exact ⟨{ Speed := 2 }, by simp [Scenario.judgeLeaderAndFollower, Scenario.twoObstacles]⟩
  exact ⟨⟨h1, h2⟩, JudgeTargetLane_admissible_iff Scenario.judgeLeaderAndFollower 10 (-1) h1 h2⟩

/-- The lookup of line 224, `Obstacles().at(current_lane_backward_obstacle_id)`,
is the first statement that can fail: when the id of the follower on the
current lane is not a key of the obstacle map, `ChangeLaneDecision` throws. -/
theorem ChangeLaneDecision_rear_missing (inputs : PlanningInputs) (ego_s fcd bcd : ℚ)
    (fid bid : Int) (wp : WayPoint) (goal : ManeuverGoal)
    (hrear : inputs.obstacles bid = none) :
    ChangeLaneDecision inputs ego_s fcd bcd fid bid wp goal
      = Except.error Failure.out_of_range := by
  simp [ChangeLaneDecision, ObstaclesAt, hrear, bind, Except.bind]

/-- The branch "only can change left" of `ChangeLaneDecision`: with both
current-lane vehicles in the obstacle map, the left lane judged admissible and
the right lane not, the call throws when the left lane's leading-vehicle id is
not a key of the obstacle map, and otherwise returns `kChangeLeft` with two
infos, the second for the left neighbour lane. -/
theorem ChangeLaneDecision_only_left (inputs : PlanningInputs) (ego_s fcd bcd : ℚ)
    (fid bid : Int) (wp : WayPoint) (goal : ManeuverGoal) (rear front : Obstacle)
    (left right : LaneClear)
    (hrear : inputs.obstacles bid = some rear) (hfront : inputs.obstacles fid = some front)
    (hsafe : ¬ (fcd < inputs.config.maneuver_forward_clear_threshold
      ∨ bcd < inputs.config.maneuver_backward_clear_threshold))
    (hpermit_left : (wp.lane_change = LaneChangeType.LEFT ∨
      wp.lane_change = LaneChangeType.BOTH) ∧ wp.has_left_lane = true)
    (hleft : JudgeTargetLane inputs inputs.ego_vel (-1) = Except.ok (true, left))
    (hright : (if (wp.lane_change = LaneChangeType.RIGHT ∨
        wp.lane_change = LaneChangeType.BOTH) ∧ wp.has_right_lane = true then
        JudgeTargetLane inputs inputs.ego_vel 1
      else Except.ok (false, unvisitedLane)) = Except.ok (false, right)) :
    (inputs.obstacles left.forward_obstacle_id = none →
      ChangeLaneDecision inputs ego_s fcd bcd fid bid wp goal
        = Except.error Failure.out_of_range) ∧
    (∀ left_leader, inputs.obstacles left.forward_obstacle_id = some left_leader →
      ∃ g first second, ChangeLaneDecision inputs ego_s fcd bcd fid bid wp goal = Except.ok g ∧
        g.decision_type = DecisionType.kChangeLeft ∧
        g.maneuver_infos = [first, second] ∧
        first.lane_id = wp.lane_id ∧
        second.lane_id = leftLaneId wp.lane_id) := by
  obtain ⟨m1, m2, hm2⟩ := resize_two inputs.value_initialized_info goal.maneuver_infos
  have hunsafe : decide (fcd < inputs.config.maneuver_forward_clear_threshold
      ∨ bcd < inputs.config.maneuver_backward_clear_threshold) = false := by
    simpa using hsafe
  constructor
  · intro hnone
    simp only [ChangeLaneDecision, ObstaclesAt, hrear, hfront, hunsafe, hpermit_left, hleft,
      hright, bind, Except.bind]
    simp [hm2, assignFront, assignBack_pair, ObstaclesAt, hfront, hnone, bind, Except.bind]
  · intro left_leader hsome
    simp only [ChangeLaneDecision, ObstaclesAt, hrear, hfront, hunsafe, hpermit_left, hleft,
      hright, bind, Except.bind]
    simp [hm2, assignFront, assignBack_pair, ObstaclesAt, hfront, hsome, bind, Except.bind]
    exact ⟨_, _, ⟨rfl, rfl⟩, rfl, rfl⟩

/-- Every normal return of `ChangeLaneDecision` carries one of three shapes:
`kFollowLane` with one info, `kChangeLeft` with two infos (current lane, left
neighbour), `kChangeRight` with two infos (current lane, right neighbour). -/
theorem ChangeLaneDecision_outcome (inputs : PlanningInputs) (ego_s fcd bcd : ℚ)
    (fid bid : Int) (wp : WayPoint) (goal g : ManeuverGoal)
    (h : ChangeLaneDecision inputs ego_s fcd bcd fid bid wp goal = Except.ok g) :
    (g.decision_type = DecisionType.kFollowLane ∧
      ∃ first, g.maneuver_infos = [first] ∧ first.lane_id = wp.lane_id) ∨
    (g.decision_type = DecisionType.kChangeLeft ∧
      ∃ first second, g.maneuver_infos = [first, second] ∧ first.lane_id = wp.lane_id ∧
        second.lane_id = leftLaneId wp.lane_id) ∨
    (g.decision_type = DecisionType.kChangeRight ∧
      ∃ first second, g.maneuver_infos = [first, second] ∧ first.lane_id = wp.lane_id ∧
        second.lane_id = rightLaneId wp.lane_id) := by
  obtain ⟨m, hm⟩ := resize_one inputs.value_initialized_info goal.maneuver_infos
  obtain ⟨m1, m2, hm2⟩ := resize_two inputs.value_initialized_info goal.maneuver_infos
  unfold ChangeLaneDecision at h
  simp only [Except_bind_ok] at h
  obtain ⟨rear, hrear, front, hfront, ⟨cl, left⟩, hleft, ⟨cr, right⟩, hright, h⟩ := h
  have hfmap : ∃ o, inputs.obstacles fid = some o := by
    unfold ObstaclesAt at hfront
    split at hfront
    · exact ⟨_, by assumption⟩
    · cases hfront
  obtain ⟨o, ho⟩ := hfmap
  cases cl <;> cases cr
  · left
    simp [hm, assignFront, ObstaclesAt, ho, bind, Except.bind] at h
    subst h
    exact ⟨rfl, _, rfl, rfl⟩
  · right
    right
    cases hr : inputs.obstacles right.forward_obstacle_id with
    | none =>
      simp [hm2, assignFront, assignBack_pair, ObstaclesAt, ho, hr, bind, Except.bind] at h
    | some ro =>
      simp [hm2, assignFront, assignBack_pair, ObstaclesAt, ho, hr, bind, Except.bind] at h
      subst h
      exact ⟨rfl, _, _, rfl, rfl, rfl⟩
  · right
    left
    cases hl : inputs.obstacles left.forward_obstacle_id with
    | none =>
      simp [hm2, assignFront, assignBack_pair, ObstaclesAt, ho, hl, bind, Except.bind] at h
    | some lo =>
      simp [hm2, assignFront, assignBack_pair, ObstaclesAt, ho, hl, bind, Except.bind] at h
      subst h
      exact ⟨rfl, _, _, rfl, rfl, rfl⟩
  · simp only [Bool.not_true, Bool.not_false, Bool.and_true, Bool.true_and, Bool.and_false,
      Bool.false_and, if_false, Bool.false_eq_true, if_true, Except_bind_ok] at h
    obtain ⟨llv, -, lfv, -, clv, -, cfv, -, rlv, -, rfv, -, off, hoff, h⟩ := h
    have hr := SelectLane_range _ _ _ _ _ _ _ _ _ _ _ _ _ _ _ _ hoff
    rcases hr with hr | hr | hr
    · right
      left
      subst hr
      simp [hm2, assignFront, assignBack_pair, bind, Except.bind] at h
      subst h
      exact ⟨rfl, _, _, rfl, rfl, rfl⟩
    · left
      subst hr
      simp [hm, assignFront, bind, Except.bind] at h
      subst h
      exact ⟨rfl, _, rfl, rfl⟩
    · right
      right
      subst hr
      simp [hm2, assignFront, assignBack_pair, bind, Except.bind] at h
      subst h
      exact ⟨rfl, _, _, rfl, rfl, rfl⟩

/-- When a leading vehicle exists, is not too close, the lookahead stays on the
reference line, the leader is much slower and the way point follows the lane,
`ObstacleDecision` is the call of `ChangeLaneDecision`. -/
theorem ObstacleDecision_eq_ChangeLaneDecision (inputs : PlanningInputs)
    (maneuver_goal : ManeuverGoal) (leader : Obstacle)
    (hlead : 0 ≤ (inputs.GetLaneClearDistance 0).forward_obstacle_id)
    (hmap : inputs.obstacles (inputs.GetLaneClearDistance 0).forward_obstacle_id = some leader)
    (hfar : ¬ (inputs.GetLaneClearDistance 0).forward_clear_distance
      < inputs.config.lon_safety_buffer)
    (hin : inputs.ego_sl_s + min (max ((inputs.GetLaneClearDistance 0).forward_clear_distance
        - inputs.config.lon_safety_buffer) inputs.config.min_lookahead_distance)
      inputs.config.max_lookahead_distance < inputs.reference_line_.Length)
    (hslow : (0.3 : ℚ) * inputs.ego_vel > leader.Speed)
    (hopt : (inputs.reference_line_.NearestWayPoint
      (min (inputs.ego_sl_s + 5) inputs.reference_line_.Length)).road_option
        = CarlaRoadOption.LANEFOLLOW) :
    ObstacleDecision inputs maneuver_goal =
      ChangeLaneDecision inputs inputs.ego_sl_s
        (inputs.GetLaneClearDistance 0).forward_clear_distance
        (inputs.GetLaneClearDistance 0).backward_clear_distance
        (inputs.GetLaneClearDistance 0).forward_obstacle_id
        (inputs.GetLaneClearDistance 0).backward_obstacle_id
        (inputs.reference_line_.NearestWayPoint
          (min (inputs.ego_sl_s + 5) inputs.reference_line_.Length))
        maneuver_goal := by
  have hno : ¬ (inputs.GetLaneClearDistance 0).forward_obstacle_id < 0 := not_lt.mpr hlead
  have hla := lookahead_le_max ((inputs.GetLaneClearDistance 0).forward_clear_distance
          - inputs.config.lon_safety_buffer) inputs.config.min_lookahead_distance
          inputs.config.max_lookahead_distance
  simp only [ObstacleDecision, hno, hmap, hfar, hla, hin, hslow, hopt, ObstaclesAt,
    bind, Except.bind, if_false, if_true]

/-- Every normal return of `ObstacleDecision` either comes from one of its own
branches, with one info and the decision `kFollowLane`, `kStopAtDestination` or
`kEmergencyStop`, or is the return of `ChangeLaneDecision`. -/
theorem ObstacleDecision_outcome (inputs : PlanningInputs) (maneuver_goal g : ManeuverGoal)
    (h : ObstacleDecision inputs maneuver_goal = Except.ok g) :
    ((g.decision_type = DecisionType.kFollowLane ∨
        g.decision_type = DecisionType.kStopAtDestination ∨
        g.decision_type = DecisionType.kEmergencyStop) ∧
      ∃ only, g.maneuver_infos = [only]) ∨
    ChangeLaneDecision inputs inputs.ego_sl_s
        (inputs.GetLaneClearDistance 0).forward_clear_distance
        (inputs.GetLaneClearDistance 0).backward_clear_distance
        (inputs.GetLaneClearDistance 0).forward_obstacle_id
        (inputs.GetLaneClearDistance 0).backward_obstacle_id
        (inputs.reference_line_.NearestWayPoint
          (min (inputs.ego_sl_s + 5) inputs.reference_line_.Length))
        maneuver_goal = Except.ok g := by
  obtain ⟨m, hm⟩ := resize_one inputs.value_initialized_info maneuver_goal.maneuver_infos
  have hla := lookahead_le_max ((inputs.GetLaneClearDistance 0).forward_clear_distance
          - inputs.config.lon_safety_buffer) inputs.config.min_lookahead_distance
          inputs.config.max_lookahead_distance
  by_cases hno : (inputs.GetLaneClearDistance 0).forward_obstacle_id < 0
  · left
    by_cases hend : inputs.ego_sl_s + min (max
        ((inputs.GetLaneClearDistance 0).forward_clear_distance
          - inputs.config.lon_safety_buffer) inputs.config.min_lookahead_distance)
        inputs.config.max_lookahead_distance > inputs.reference_line_.Length
    · simp [ObstacleDecision, hno, hend, hm, assignFront, bind, Except.bind] at h
      subst h
      exact ⟨Or.inr (Or.inl rfl), _, rfl⟩
    · simp [ObstacleDecision, hno, hend, hm, assignFront, bind, Except.bind] at h
      subst h
      exact ⟨Or.inl rfl, _, rfl⟩
  · cases hmap : inputs.obstacles (inputs.GetLaneClearDistance 0).forward_obstacle_id with
    | none =>
      simp [ObstacleDecision, hno, hmap, ObstaclesAt, bind, Except.bind] at h
    | some leader =>
      by_cases hclose : (inputs.GetLaneClearDistance 0).forward_clear_distance
          < inputs.config.lon_safety_buffer
      · left
        simp [ObstacleDecision, hno, hmap, hclose, hm, assignFront, ObstaclesAt, bind,
          Except.bind] at h
        subst h
        exact ⟨Or.inr (Or.inr rfl), _, rfl⟩
      · by_cases hin : inputs.ego_sl_s + min (max
            ((inputs.GetLaneClearDistance 0).forward_clear_distance
              - inputs.config.lon_safety_buffer) inputs.config.min_lookahead_distance)
            inputs.config.max_lookahead_distance < inputs.reference_line_.Length
        · by_cases hslow : (0.3 : ℚ) * inputs.ego_vel > leader.Speed
          · by_cases hopt : (inputs.reference_line_.NearestWayPoint
              (min (inputs.ego_sl_s + 5) inputs.reference_line_.Length)).road_option
                = CarlaRoadOption.LANEFOLLOW
            · right
              rw [← ObstacleDecision_eq_ChangeLaneDecision inputs maneuver_goal leader
                (not_lt.mp hno) hmap hclose hin hslow hopt]
              exact h
            · left
              simp [ObstacleDecision, hno, hmap, hclose, hla, hin, hslow, hopt, hm, assignFront,
                ObstaclesAt, bind, Except.bind] at h
              subst h
              exact ⟨Or.inl rfl, _, rfl⟩
          · left
            simp [ObstacleDecision, hno, hmap, hclose, hla, hin, hslow, hm, assignFront,
              ObstaclesAt, bind, Except.bind] at h
            subst h
            exact ⟨Or.inl rfl, _, rfl⟩
        · left
          simp [ObstacleDecision, hno, hmap, hclose, hla, hin, hm, assignFront,
            ObstaclesAt, bind, Except.bind] at h
          subst h
          exact ⟨Or.inr (Or.inl rfl), _, rfl⟩

/-- C12 (the code at the failing input S3): in S3 the left lane is judged
admissible and the right lane is not, and `ChangeLaneDecision`, as well as
`ObstacleDecision` which calls it, throws `std::out_of_range` instead of
returning `kChangeLeft`.  With a follower registered on the current lane
(`S3WithFollower`) the first lookup succeeds and the call still throws, at
`Obstacles().at(left_forward_obstacle_id)` with id `-1`. -/
theorem ChangeLaneDecision_throws_on_S3 :
    (JudgeTargetLane Scenario.S3 Scenario.S3.ego_vel (-1)
        = Except.ok (true, Scenario.S3.GetLaneClearDistance (-1)) ∧
      JudgeTargetLane Scenario.S3 Scenario.S3.ego_vel 1
        = Except.ok (false, Scenario.S3.GetLaneClearDistance 1)) ∧
    ChangeLaneDecision Scenario.S3 20 40 100 7 (-1) Scenario.wayPoint Scenario.freshGoal
      = Except.error Failure.out_of_range ∧
    ObstacleDecision Scenario.S3 Scenario.freshGoal = Except.error Failure.out_of_range ∧
    (JudgeTargetLane Scenario.S3WithFollower Scenario.S3WithFollower.ego_vel (-1)
        = Except.ok (true, Scenario.S3WithFollower.GetLaneClearDistance (-1)) ∧
      JudgeTargetLane Scenario.S3WithFollower Scenario.S3WithFollower.ego_vel 1
        = Except.ok (false, Scenario.S3WithFollower.GetLaneClearDistance 1)) ∧
    ChangeLaneDecision Scenario.S3WithFollower 20 40 100 7 8 Scenario.wayPoint
      Scenario.freshGoal = Except.error Failure.out_of_range := by
  have hl : JudgeTargetLane Scenario.S3 Scenario.S3.ego_vel (-1)
      = Except.ok (true, Scenario.S3.GetLaneClearDistance (-1)) := by
    norm_num [JudgeTargetLane, Scenario.S3, Scenario.config]
  have hr : JudgeTargetLane Scenario.S3 Scenario.S3.ego_vel 1
      = Except.ok (false, Scenario.S3.GetLaneClearDistance 1) := by
    norm_num [JudgeTargetLane, Scenario.S3, Scenario.config]
  have hl2 : JudgeTargetLane Scenario.S3WithFollower Scenario.S3WithFollower.ego_vel (-1)
      = Except.ok (true, Scenario.S3WithFollower.GetLaneClearDistance (-1)) := by
    norm_num [JudgeTargetLane, Scenario.S3WithFollower, Scenario.config]
  have hr2 : JudgeTargetLane Scenario.S3WithFollower Scenario.S3WithFollower.ego_vel 1
      = Except.ok (false, Scenario.S3WithFollower.GetLaneClearDistance 1) := by
    norm_num [JudgeTargetLane, Scenario.S3WithFollower, Scenario.config]
  have hcld : ChangeLaneDecision Scenario.S3 20 40 100 7 (-1) Scenario.wayPoint
      Scenario.freshGoal = Except.error Failure.out_of_range :=
    ChangeLaneDecision_rear_missing Scenario.S3 20 40 100 7 (-1) Scenario.wayPoint
      Scenario.freshGoal (by simp [Scenario.S3, Scenario.obstacles])
  refine ⟨⟨hl, hr⟩, hcld, ?_, ⟨hl2, hr2⟩, ?_⟩
  · have hmap : Scenario.S3.obstacles (Scenario.S3.GetLaneClearDistance 0).forward_obstacle_id
        = some { Speed := 2 } := by
      simp [Scenario.S3, Scenario.obstacles]
    rw [ObstacleDecision_eq_ChangeLaneDecision Scenario.S3 Scenario.freshGoal { Speed := 2 }
      (by simp [Scenario.S3]) hmap
      (by norm_num [Scenario.S3, Scenario.config])
      (by norm_num [Scenario.S3, Scenario.config, Scenario.referenceLine])
      (by norm_num [Scenario.S3])
      (by simp [Scenario.S3, Scenario.referenceLine, Scenario.wayPoint])]
    exact ChangeLaneDecision_rear_missing _ _ _ _ _ _ _ _
      (by simp [Scenario.S3, Scenario.obstacles])
  · have hright : (if (Scenario.wayPoint.lane_change = LaneChangeType.RIGHT ∨
          Scenario.wayPoint.lane_change = LaneChangeType.BOTH) ∧
          Scenario.wayPoint.has_right_lane = true then
          JudgeTargetLane Scenario.S3WithFollower Scenario.S3WithFollower.ego_vel 1
        else Except.ok (false, unvisitedLane))
        = Except.ok (false, Scenario.S3WithFollower.GetLaneClearDistance 1) := by
      rw [if_pos (by simp [Scenario.wayPoint])]
      exact hr2
    exact (ChangeLaneDecision_only_left Scenario.S3WithFollower 20 40 100 7 8 Scenario.wayPoint
      Scenario.freshGoal { Speed := 12 } { Speed := 2 }
      (Scenario.S3WithFollower.GetLaneClearDistance (-1))
      (Scenario.S3WithFollower.GetLaneClearDistance 1)
      (by simp [Scenario.S3WithFollower, Scenario.twoObstacles])
      (by simp [Scenario.S3WithFollower, Scenario.twoObstacles])
      (by norm_num [Scenario.S3WithFollower, Scenario.config])
      (by simp [Scenario.wayPoint]) hl2 hright).1
      (by simp [Scenario.S3WithFollower, Scenario.twoObstacles])

/-- C13 (the code at a failing input): in S3 the leading vehicle, obstacle 7, is
in the obstacle map and every other id is `-1`; `ChangeLaneDecision` throws
`std::out_of_range` at its first statement that reads the map,
`Obstacles().at(current_lane_backward_obstacle_id)`, even for a way point that
permits no lane change. -/
theorem ChangeLaneDecision_throws_without_follower :
    (∃ leader, Scenario.S3.obstacles (Scenario.S3.GetLaneClearDistance 0).forward_obstacle_id
        = some leader) ∧
    (Scenario.S3.GetLaneClearDistance 0).backward_obstacle_id < 0 ∧
    ((Scenario.S3.GetLaneClearDistance (-1)).forward_obstacle_id < 0 ∧
      (Scenario.S3.GetLaneClearDistance (-1)).backward_obstacle_id < 0 ∧
      (Scenario.S3.GetLaneClearDistance 1).forward_obstacle_id < 0 ∧
      (Scenario.S3.GetLaneClearDistance 1).backward_obstacle_id < 0) ∧
    ChangeLaneDecision Scenario.S3 Scenario.S3.ego_sl_s
        (Scenario.S3.GetLaneClearDistance 0).forward_clear_distance
        (Scenario.S3.GetLaneClearDistance 0).backward_clear_distance
        (Scenario.S3.GetLaneClearDistance 0).forward_obstacle_id
        (Scenario.S3.GetLaneClearDistance 0).backward_obstacle_id
        Scenario.wayPointNoChange Scenario.freshGoal
      = Except.error Failure.out_of_range := by
  refine ⟨⟨{ Speed := 2 }, by simp [Scenario.S3, Scenario.obstacles]⟩,
    by simp [Scenario.S3], by simp [Scenario.S3], ?_⟩
  exact ChangeLaneDecision_rear_missing _ _ _ _ _ _ _ _
    (by simp [Scenario.S3, Scenario.obstacles])

/-- C14: after every completed call of `ObstacleDecision` the goal has exactly
two infos when the decision is `kChangeLeft` or `kChangeRight`, the first for
the current lane and the second for the neighbouring target lane, and exactly
one info when the decision is `kFollowLane`, `kStopAtDestination` or
`kEmergencyStop`; these five are the only decisions, so there are never more
than two infos. -/
theorem ObstacleDecision_info_count (inputs : PlanningInputs) (maneuver_goal g : ManeuverGoal)
    (h : ObstacleDecision inputs maneuver_goal = Except.ok g) :
    (g.decision_type = DecisionType.kChangeLeft →
      ∃ first second, g.maneuver_infos = [first, second] ∧
        first.lane_id = (inputs.reference_line_.NearestWayPoint
          (min (inputs.ego_sl_s + 5) inputs.reference_line_.Length)).lane_id ∧
        second.lane_id = leftLaneId (inputs.reference_line_.NearestWayPoint
          (min (inputs.ego_sl_s + 5) inputs.reference_line_.Length)).lane_id) ∧
    (g.decision_type = DecisionType.kChangeRight →
      ∃ first second, g.maneuver_infos = [first, second] ∧
        first.lane_id = (inputs.reference_line_.NearestWayPoint
          (min (inputs.ego_sl_s + 5) inputs.reference_line_.Length)).lane_id ∧
        second.lane_id = rightLaneId (inputs.reference_line_.NearestWayPoint
          (min (inputs.ego_sl_s + 5) inputs.reference_line_.Length)).lane_id) ∧
    ((g.decision_type = DecisionType.kFollowLane ∨
        g.decision_type = DecisionType.kStopAtDestination ∨
        g.decision_type = DecisionType.kEmergencyStop) →
      ∃ only, g.maneuver_infos = [only]) ∧
    (g.decision_type = DecisionType.kChangeLeft ∨
      g.decision_type = DecisionType.kChangeRight ∨
      g.decision_type = DecisionType.kFollowLane ∨
      g.decision_type = DecisionType.kStopAtDestination ∨
      g.decision_type = DecisionType.kEmergencyStop) ∧
    g.maneuver_infos.length ≤ 2 := by
  rcases ObstacleDecision_outcome inputs maneuver_goal g h with ⟨hd, only, honly⟩ | hcld
  · refine ⟨?_, ?_, fun _ => ⟨only, honly⟩, ?_, ?_⟩
    · intro hcl
      rcases hd with hd | hd | hd <;> rw [hcl] at hd <;> cases hd
    · intro hcr
      rcases hd with hd | hd | hd <;> rw [hcr] at hd <;> cases hd
    · exact Or.inr (Or.inr hd)
    · rw [honly]
      simp
  · rcases ChangeLaneDecision_outcome _ _ _ _ _ _ _ _ _ hcld with
      ⟨hd, first, hi, hl⟩ | ⟨hd, first, second, hi, hl1, hl2⟩ |
      ⟨hd, first, second, hi, hl1, hl2⟩
    · refine ⟨?_, ?_, fun _ => ⟨first, hi⟩, Or.inr (Or.inr (Or.inl hd)), ?_⟩
      · intro hcl
        rw [hcl] at hd
        cases hd
      · intro hcr
        rw [hcr] at hd
        cases hd
      · rw [hi]
        simp
    · refine ⟨fun _ => ⟨first, second, hi, hl1, hl2⟩, ?_, ?_, Or.inl hd, ?_⟩
      · intro hcr
        rw [hcr] at hd
        cases hd
      · intro hone
        rcases hone with hone | hone | hone <;> rw [hone] at hd <;> cases hd
      · rw [hi]
        simp
    · refine ⟨?_, fun _ => ⟨first, second, hi, hl1, hl2⟩, ?_, Or.inr (Or.inl hd), ?_⟩
      · intro hcl
        rw [hcl] at hd
        cases hd
      · intro hone
        rcases hone with hone | hone | hone <;> rw [hone] at hd <;> cases hd
      · rw [hi]
        simp

/-- C14 on `Scenario.followingLeader`, where the call returns `kFollowLane`. -/
theorem ObstacleDecision_info_count_witness :
    ObstacleDecision Scenario.followingLeader Scenario.freshGoal
      = Except.ok Scenario.followingLeaderGoal ∧
    ((Scenario.followingLeaderGoal.decision_type = DecisionType.kFollowLane ∨
        Scenario.followingLeaderGoal.decision_type = DecisionType.kStopAtDestination ∨
        Scenario.followingLeaderGoal.decision_type = DecisionType.kEmergencyStop) →
      ∃ only, Scenario.followingLeaderGoal.maneuver_infos = [only]) ∧
    Scenario.followingLeaderGoal.maneuver_infos.length ≤ 2 :=
  ⟨followingLeader_outcome,
    (ObstacleDecision_info_count Scenario.followingLeader Scenario.freshGoal
      Scenario.followingLeaderGoal followingLeader_outcome).2.2.1,
    (ObstacleDecision_info_count Scenario.followingLeader Scenario.freshGoal
      Scenario.followingLeaderGoal followingLeader_outcome).2.2.2.2⟩

/-! ## Coordinate transformer: the partial transforms -/

namespace common

namespace CoordinateTransformer

theorem cos_atan2_of_ne (d1 K : ℝ) (hK : K ≠ 0) :
    Real.cos (atan2 d1 K) = K / Real.sqrt (K * K + d1 * d1) := by
  unfold atan2
  have hz : (⟨K, d1⟩ : ℂ) ≠ 0 := by
    intro h
    have := congrArg Complex.re h
    simp at this
    exact hK this
  rw [Complex.cos_arg hz]
  simp [Complex.abs_apply, Complex.normSq_apply]

theorem rpow_three_halves (D : ℝ) (hD : 0 < D) :
    D ^ (1.5 : ℝ) = Real.sqrt D * Real.sqrt D * Real.sqrt D := by
  have h15 : (1.5 : ℝ) = 1 + 1 / 2 := by norm_num
  rw [h15, Real.rpow_add hD, Real.rpow_one, ← Real.sqrt_eq_rpow]
  nth_rewrite 1 [← Real.mul_self_sqrt hD.le]
  ring

theorem CalcKappa_denominator_pos (rkappa l dl : ℝ)
    (h : ¬ dl ^ 2 + (1 - l * rkappa) ^ 2 < 1e-8) :
    0 < dl ^ 2 + (1 - l * rkappa) ^ 2 := by
  have h1 : (1e-8 : ℝ) ≤ dl ^ 2 + (1 - l * rkappa) ^ 2 := not_lt.mp h
  have h2 : (0 : ℝ) < 1e-8 := by norm_num
  linarith

theorem CalcKappa_eq (rkappa rdkappa l dl ddl : ℝ) :
    CalcKappa rkappa rdkappa l dl ddl =
      if dl ^ 2 + (1 - l * rkappa) ^ 2 < 1e-8 then 0
      else (rkappa + ddl - 2 * l * rkappa ^ 2 - l * ddl * rkappa + l ^ 2 * rkappa ^ 3 +
        l * dl * rdkappa + 2 * dl ^ 2 * rkappa) /
          (dl ^ 2 + (1 - l * rkappa) ^ 2) ^ ((3 : ℝ) / 2) := by
  have hnn : 0 ≤ dl * dl + (1 - l * rkappa) * (1 - l * rkappa) :=
    add_nonneg (mul_self_nonneg _) (mul_self_nonneg _)
  have hsq : dl * dl + (1 - l * rkappa) * (1 - l * rkappa) = dl ^ 2 + (1 - l * rkappa) ^ 2 := by
    ring
  have h15 : (1.5 : ℝ) = 3 / 2 := by norm_num
  unfold CalcKappa
  simp only [abs_of_nonneg hnn]
  simp only [hsq, h15]
  split_ifs with h
  · norm_num
  · congr 1
    ring

/-- C29: when `dl^2 + (1 - l*rkappa)^2 < 1e-8` the function `CalcKappa` returns 0;
otherwise it returns the quotient of
`rkappa + ddl - 2*l*rkappa^2 - l*ddl*rkappa + l^2*rkappa^3 + l*dl*rdkappa + 2*dl^2*rkappa`
by `(dl^2 + (1 - l*rkappa)^2)^(3/2)`, and that divisor is not zero. -/
theorem CalcKappa_guarded (rkappa rdkappa l dl ddl : ℝ) :
    (dl ^ 2 + (1 - l * rkappa) ^ 2 < 1e-8 → CalcKappa rkappa rdkappa l dl ddl = 0) ∧
    (¬ dl ^ 2 + (1 - l * rkappa) ^ 2 < 1e-8 →
      CalcKappa rkappa rdkappa l dl ddl =
        (rkappa + ddl - 2 * l * rkappa ^ 2 - l * ddl * rkappa + l ^ 2 * rkappa ^ 3 +
          l * dl * rdkappa + 2 * dl ^ 2 * rkappa) /
            (dl ^ 2 + (1 - l * rkappa) ^ 2) ^ ((3 : ℝ) / 2) ∧
      (dl ^ 2 + (1 - l * rkappa) ^ 2) ^ ((3 : ℝ) / 2) ≠ 0) := by
  refine ⟨?_, ?_⟩
  · intro h
    rw [CalcKappa_eq, if_pos h]
  · intro h
    refine ⟨by rw [CalcKappa_eq, if_neg h], ?_⟩
    exact ne_of_gt (Real.rpow_pos_of_pos (CalcKappa_denominator_pos rkappa l dl h) _)

/-- C30: when the assertion of `FrenetToCartesian` holds, `1 - l*rkappa ≠ 0` and
`dl^2 + (1 - l*rkappa)^2 ≥ 1e-8`, the call returns, and `CalcCatesianPoint`,
`CalcTheta` and `CalcKappa` return its `(x, y)`, its `theta` and its `kappa`;
`(x, y)` is `(rx - sin(rtheta)*l, ry + cos(rtheta)*l)` and `theta` is
`NormalizeAngle(atan2(dl, 1 - l*rkappa) + rtheta)`. -/
theorem helpers_agree_with_FrenetToCartesian (rs rx ry rtheta rkappa rdkappa : ℝ)
    (s_condition : Array3) (l dl ddl : ℝ)
    (hassert : |rs - s_condition.at0| < 1.0e-6)
    (hK : 1 - l * rkappa ≠ 0)
    (hD : (1e-8 : ℝ) ≤ dl ^ 2 + (1 - l * rkappa) ^ 2) :
    ∃ c, FrenetToCartesian rs rx ry rtheta rkappa rdkappa s_condition ⟨l, dl, ddl⟩ = some c ∧
      CalcCatesianPoint rtheta rx ry l = (c.x, c.y) ∧
      (c.x, c.y) = (rx - Real.sin rtheta * l, ry + Real.cos rtheta * l) ∧
      CalcTheta rtheta rkappa l dl = c.theta ∧
      c.theta = NormalizeAngle (atan2 dl (1 - l * rkappa) + rtheta) ∧
      CalcKappa rkappa rdkappa l dl ddl = c.kappa := by
  have hK2 : 1 - rkappa * l ≠ 0 := by rwa [mul_comm]
  have hKeq : 1 - rkappa * l = 1 - l * rkappa := by ring
  have hDn : ¬ dl ^ 2 + (1 - l * rkappa) ^ 2 < 1e-8 := not_lt.mpr hD
  have hDpos := CalcKappa_denominator_pos rkappa l dl hDn
  refine ⟨_, by simp only [FrenetToCartesian, if_pos hassert]; rfl, ?_, ?_, ?_, ?_, ?_⟩
  · simp only [CalcCatesianPoint, mul_comm]
  · rfl
  · simp only [CalcTheta, hKeq, add_comm]
  · simp only [hKeq]
  · have hnn : 0 ≤ dl * dl + (1 - l * rkappa) * (1 - l * rkappa) :=
      add_nonneg (mul_self_nonneg _) (mul_self_nonneg _)
    have hsq : dl * dl + (1 - l * rkappa) * (1 - l * rkappa)
        = dl ^ 2 + (1 - l * rkappa) ^ 2 := by ring
    have hcos := cos_atan2_of_ne dl (1 - l * rkappa) hK
    have hR : (1 - l * rkappa) * (1 - l * rkappa) + dl * dl
        = dl ^ 2 + (1 - l * rkappa) ^ 2 := by ring
    rw [hR] at hcos
    have hpow := rpow_three_halves _ hDpos
    have hs : 0 < Real.sqrt (dl ^ 2 + (1 - l * rkappa) ^ 2) := Real.sqrt_pos.mpr hDpos
    have hss : Real.sqrt (dl ^ 2 + (1 - l * rkappa) ^ 2) *
        Real.sqrt (dl ^ 2 + (1 - l * rkappa) ^ 2) = dl ^ 2 + (1 - l * rkappa) ^ 2 :=
      Real.mul_self_sqrt hDpos.le
    unfold CalcKappa
    simp only [abs_of_nonneg hnn]
    simp only [hsq, if_neg hDn, hKeq, hcos, hpow]
    generalize Real.sqrt (dl ^ 2 + (1 - l * rkappa) ^ 2) = R at hs hss ⊢
    have hR0 : R ≠ 0 := ne_of_gt hs
    field_simp
    linear_combination (-(rkappa * (1 - l * rkappa) ^ 2 * R ^ 3)) * hss

/-- C30 at the reference point of the scenario S5 (`rkappa = 0.1`) with the lateral
state `(1, 1/2, 0)`. -/
theorem helpers_agree_with_FrenetToCartesian_witness :
    |(0 : ℝ) - (⟨0, 5, 0⟩ : Array3).at0| < 1.0e-6 ∧ (1 : ℝ) - 1 * (1 / 10) ≠ 0 ∧
    (1e-8 : ℝ) ≤ (1 / 2) ^ 2 + (1 - 1 * (1 / 10)) ^ 2 ∧
    ∃ c, FrenetToCartesian 0 0 0 0 (1 / 10) 0 ⟨0, 5, 0⟩ ⟨1, 1 / 2, 0⟩ = some c ∧
      CalcCatesianPoint 0 0 0 1 = (c.x, c.y) ∧
      (c.x, c.y) = (0 - Real.sin 0 * 1, 0 + Real.cos 0 * 1) ∧
      CalcTheta 0 (1 / 10) 1 (1 / 2) = c.theta ∧
      c.theta = NormalizeAngle (atan2 (1 / 2) (1 - 1 * (1 / 10)) + 0) ∧
      CalcKappa (1 / 10) 0 1 (1 / 2) 0 = c.kappa :=
  ⟨by norm_num, by norm_num, by norm_num,
    helpers_agree_with_FrenetToCartesian 0 0 0 0 (1 / 10) 0 ⟨0, 5, 0⟩ 1 (1 / 2) 0
      (by norm_num) (by norm_num) (by norm_num)⟩

end CoordinateTransformer

end common

/-! ## Collision checker: `Init` -/

namespace planning

namespace CollisionChecker

theorem foldl_skip_eq_filter {α : Type} (skip : α → Bool) (l acc : List α) :
    l.foldl (fun considered a => if skip a then considered else considered ++ [a]) acc
      = acc ++ l.filter (fun a => !skip a) := by
  induction l generalizing acc with
  | nil => simp
  | cons a l ih =>
    rw [List.foldl_cons, ih]
    cases h : skip a <;> simp [h]

theorem ObstacleConsidered_eq_filter (ptr_ref_line_ : LaneGeometry)
    (IsObstacleInGraph : Int → Bool) (obstacles : List (Int × PredictedObstacle))
    (ego_vehicle_s ego_vehicle_d : ℝ) (reference_line : LaneGeometry) :
    ObstacleConsidered ptr_ref_line_ IsObstacleInGraph obstacles ego_vehicle_s ego_vehicle_d
        reference_line
      = obstacles.filter (fun obstacle =>
          !(IsEgoVehicleInLane ptr_ref_line_ ego_vehicle_s ego_vehicle_d &&
            (IsObstacleBehindEgoVehicle ptr_ref_line_ obstacle.2 ego_vehicle_s reference_line
              || !IsObstacleInGraph obstacle.1))) := by
  unfold ObstacleConsidered
  have h := foldl_skip_eq_filter (fun obstacle : Int × PredictedObstacle =>
    IsEgoVehicleInLane ptr_ref_line_ ego_vehicle_s ego_vehicle_d &&
      (IsObstacleBehindEgoVehicle ptr_ref_line_ obstacle.2 ego_vehicle_s reference_line
        || !IsObstacleInGraph obstacle.1)) obstacles []
  simpa using h

theorem IsEgoVehicleInLane_iff (ptr_ref_line_ : LaneGeometry) (ego_vehicle_s ego_vehicle_d : ℝ) :
    IsEgoVehicleInLane ptr_ref_line_ ego_vehicle_s ego_vehicle_d = true ↔
      -(ptr_ref_line_.GetLaneWidth ego_vehicle_s).2 < ego_vehicle_d ∧
        ego_vehicle_d < (ptr_ref_line_.GetLaneWidth ego_vehicle_s).1 := by
  simp [IsEgoVehicleInLane, and_comm]

theorem IsObstacleBehindEgoVehicle_iff (ptr_ref_line_ : LaneGeometry)
    (obstacle : PredictedObstacle) (ego_s : ℝ) (ref_line : LaneGeometry) :
    IsObstacleBehindEgoVehicle ptr_ref_line_ obstacle ego_s ref_line = true ↔
      ego_s > (ptr_ref_line_.XYToSL (obstacle.GetPointAtTime 0).path_point.x
          (obstacle.GetPointAtTime 0).path_point.y).s ∧
        |(ptr_ref_line_.XYToSL (obstacle.GetPointAtTime 0).path_point.x
          (obstacle.GetPointAtTime 0).path_point.y).l| < 1.5 := by
  have h : (3.0 : ℝ) / 2.0 = 1.5 := by norm_num
  have h0 : (0.0 : ℝ) = 0 := by norm_num
  simp [IsObstacleBehindEgoVehicle, h, h0]

/-- C22: an entry of the obstacle map is kept by `Init` if and only if it is not the
case that the ego is in lane and (the obstacle is behind the ego or is not in
the ST-graph); in lane means `-right_width < ego_d < left_width` at `ego_s`,
behind means `ego_s > s` and `|l| < 1.5` for the obstacle's Frenet point at
time 0.  The kept entries keep their order, and every entry is kept when the ego
is out of lane. -/
theorem Init_keeps_obstacle_iff (ptr_ref_line_ : LaneGeometry)
    (IsObstacleInGraph : Int → Bool) (obstacles : List (Int × PredictedObstacle))
    (ego_vehicle_s ego_vehicle_d : ℝ) (reference_line : LaneGeometry) :
    (∀ entry : Int × PredictedObstacle,
      entry ∈ ObstacleConsidered ptr_ref_line_ IsObstacleInGraph obstacles ego_vehicle_s
          ego_vehicle_d reference_line ↔
        entry ∈ obstacles ∧
        ¬ ((-(ptr_ref_line_.GetLaneWidth ego_vehicle_s).2 < ego_vehicle_d ∧
            ego_vehicle_d < (ptr_ref_line_.GetLaneWidth ego_vehicle_s).1) ∧
          ((ego_vehicle_s > (ptr_ref_line_.XYToSL (entry.2.GetPointAtTime 0).path_point.x
                (entry.2.GetPointAtTime 0).path_point.y).s ∧
              |(ptr_ref_line_.XYToSL (entry.2.GetPointAtTime 0).path_point.x
                (entry.2.GetPointAtTime 0).path_point.y).l| < 1.5) ∨
            IsObstacleInGraph entry.1 = false))) ∧
    List.Sublist (ObstacleConsidered ptr_ref_line_ IsObstacleInGraph obstacles ego_vehicle_s
      ego_vehicle_d reference_line) obstacles ∧
    (¬ (-(ptr_ref_line_.GetLaneWidth ego_vehicle_s).2 < ego_vehicle_d ∧
        ego_vehicle_d < (ptr_ref_line_.GetLaneWidth ego_vehicle_s).1) →
      ObstacleConsidered ptr_ref_line_ IsObstacleInGraph obstacles ego_vehicle_s
        ego_vehicle_d reference_line = obstacles) := by
  rw [ObstacleConsidered_eq_filter]
  refine ⟨?_, List.filter_sublist _, ?_⟩
  · intro entry
    rw [List.mem_filter, ← IsEgoVehicleInLane_iff,
      ← IsObstacleBehindEgoVehicle_iff ptr_ref_line_ entry.2 ego_vehicle_s reference_line]
    cases IsEgoVehicleInLane ptr_ref_line_ ego_vehicle_s ego_vehicle_d <;>
      cases IsObstacleBehindEgoVehicle ptr_ref_line_ entry.2 ego_vehicle_s reference_line <;>
      cases IsObstacleInGraph entry.1 <;> simp
  · intro hout
    rw [← IsEgoVehicleInLane_iff] at hout
    simp [hout]

end CollisionChecker

end planning

namespace planning

namespace CollisionChecker

end CollisionChecker

end planning

/-! ## Collision checker: what `IsCollision` reads, and the thread pool -/

namespace planning

namespace CollisionChecker

theorem twoPointTrajectory_sequential :
    IsCollision Scenario.axisAlignedOverlap Scenario.vehicleParams Scenario.crossingEnvironment
      Scenario.twoPointTrajectory = some false := by
  norm_num [IsCollision, IsCollisionFrom, Scenario.axisAlignedOverlap, Scenario.vehicleParams,
    Scenario.crossingEnvironment, Scenario.twoPointTrajectory, Box2d.Shift]

theorem IsCollisionFutures_in_order (HasOverlapWithBox2d : Box2d → Box2d → Bool)
    (vehicle_params : VehicleParams) (predicted_obstacle_box_ : List (List Box2d))
    (trajectory_points : List TrajectoryPoint) :
    ∀ k : Nat, k + trajectory_points.length ≤ predicted_obstacle_box_.length →
      ∃ futures, IsCollisionFutures HasOverlapWithBox2d vehicle_params predicted_obstacle_box_
          (fun j => j) k trajectory_points = some futures ∧
        IsCollisionFrom HasOverlapWithBox2d vehicle_params predicted_obstacle_box_ k
          trajectory_points = some (futures.any (fun future => future)) := by
  induction trajectory_points with
  | nil => intro k _; exact ⟨[], rfl, rfl⟩
  | cons p rest ih =>
    intro k hk
    simp only [List.length_cons] at hk
    obtain ⟨bs, hbs, hseq⟩ := ih (k + 1) (by omega)
    have hlt : k < predicted_obstacle_box_.length := by omega
    obtain ⟨boxes, hboxes⟩ : ∃ boxes, predicted_obstacle_box_[k]? = some boxes :=
      ⟨predicted_obstacle_box_[k], List.getElem?_eq_getElem hlt⟩
    refine ⟨_, by simp only [IsCollisionFutures, IsCollisionTask, hboxes, hbs]; rfl, ?_⟩
    simp only [IsCollisionFrom, hboxes, hseq, List.any_cons]
    split_ifs with h
    · simp [h]
    · simp [h]

/-- The pooled branch agrees with the sequential one when every task reads the
snapshot of its own index and the trajectory has no more points than there are
snapshots. -/
theorem IsCollisionPooled_in_order (HasOverlapWithBox2d : Box2d → Box2d → Bool)
    (vehicle_params : VehicleParams) (predicted_obstacle_box_ : List (List Box2d))
    (trajectory_points : List TrajectoryPoint)
    (hlen : trajectory_points.length ≤ predicted_obstacle_box_.length) :
    IsCollisionPooled HasOverlapWithBox2d vehicle_params predicted_obstacle_box_ (fun j => j)
        trajectory_points
      = IsCollision HasOverlapWithBox2d vehicle_params predicted_obstacle_box_
        trajectory_points := by
  obtain ⟨futures, hf, hseq⟩ := IsCollisionFutures_in_order HasOverlapWithBox2d vehicle_params
    predicted_obstacle_box_ trajectory_points 0 (by omega)
  simp only [IsCollisionPooled, IsCollision, hf, hseq]

/-- C25 fails on the code: on `Scenario.twoPointTrajectory` and
`Scenario.crossingEnvironment` the sequential scan returns `false`; the pooled
branch returns `false` when each task runs before the loop counter advances,
and `true` when the tasks run after the counter has advanced to 1, because the
first task then tests the first ego box against the second snapshot. -/
theorem IsCollisionPooled_depends_on_schedule :
    IsCollision Scenario.axisAlignedOverlap Scenario.vehicleParams Scenario.crossingEnvironment
      Scenario.twoPointTrajectory = some false ∧
    IsCollisionPooled Scenario.axisAlignedOverlap Scenario.vehicleParams
      Scenario.crossingEnvironment (fun j => j) Scenario.twoPointTrajectory = some false ∧
    IsCollisionPooled Scenario.axisAlignedOverlap Scenario.vehicleParams
      Scenario.crossingEnvironment (fun _ => 1) Scenario.twoPointTrajectory = some true := by
  refine ⟨twoPointTrajectory_sequential, ?_, ?_⟩
  · rw [IsCollisionPooled_in_order _ _ _ _ (by simp [Scenario.twoPointTrajectory,
      Scenario.crossingEnvironment])]
    exact twoPointTrajectory_sequential
  · norm_num [IsCollisionPooled, IsCollisionFutures, IsCollisionTask,
      Scenario.axisAlignedOverlap, Scenario.vehicleParams, Scenario.crossingEnvironment,
      Scenario.twoPointTrajectory, Box2d.Shift]

end CollisionChecker

end planning

/-! ## State machine -/

namespace planning

theorem FollowLane_NextState_of_ok (inputs : PlanningInputs)
    (TrafficLightDecision : ReferenceLine → ManeuverGoal → ManeuverGoal)
    (CombineManeuver : ManeuverGoal → ManeuverGoal → ManeuverGoal)
    (default_goal obstacle_goal : ManeuverGoal) (planner : ManeuverPlanner)
    (h : FollowLane.ObstacleDecision inputs default_goal = Except.ok obstacle_goal) :
    FollowLane.NextState inputs TrafficLightDecision CombineManeuver default_goal (some planner)
      = Except.ok
        (some (NextStateTable (CombineManeuver
          (TrafficLightDecision inputs.reference_line_ default_goal)
          obstacle_goal).decision_type),
         some { planner with
           maneuver_goal_ := CombineManeuver
             (TrafficLightDecision inputs.reference_line_ default_goal) obstacle_goal }) := by
  simp only [FollowLane.NextState, h, bind, Except.bind, ManeuverPlanner.SetManeuverGoal]
  cases (CombineManeuver (TrafficLightDecision inputs.reference_line_ default_goal)
    obstacle_goal).decision_type <;> rfl

theorem StopState_NextState_of_ok (inputs : PlanningInputs)
    (TrafficLightDecision : ReferenceLine → StopState.ManeuverGoal → StopState.ManeuverGoal)
    (CombineManeuver : StopState.ManeuverGoal → StopState.ManeuverGoal → StopState.ManeuverGoal)
    (default_goal obstacle_goal : StopState.ManeuverGoal) (planner : ManeuverPlanner)
    (h : StopState.ObstacleDecision inputs default_goal = Except.ok obstacle_goal) :
    StopState.NextState inputs TrafficLightDecision CombineManeuver default_goal (some planner)
      = Except.ok
        (some (NextStateTable (CombineManeuver
          (TrafficLightDecision inputs.reference_line_ default_goal)
          obstacle_goal).decision_type)) := by
  simp only [StopState.NextState, h, bind, Except.bind]
  cases (CombineManeuver (TrafficLightDecision inputs.reference_line_ default_goal)
    obstacle_goal).decision_type <;> rfl

/-- C21: with a null planner `FollowLane::NextState` and `StopState::NextState` return
null.  With a non-null planner, whenever the obstacle decision returns (so that
a combined decision exists), each returns the state that the table
`NextStateTable` gives for the combined decision type, the same table in both,
so the result is non-null for each of the six decision types; `FollowLane`
also stores the combined goal in the planner.  When the obstacle decision
throws, the exception propagates. -/
theorem NextState_table (inputs : PlanningInputs)
    (TrafficLightDecision : ReferenceLine → ManeuverGoal → ManeuverGoal)
    (CombineManeuver : ManeuverGoal → ManeuverGoal → ManeuverGoal)
    (default_goal : ManeuverGoal)
    (StopTrafficLightDecision :
      ReferenceLine → StopState.ManeuverGoal → StopState.ManeuverGoal)
    (StopCombineManeuver :
      StopState.ManeuverGoal → StopState.ManeuverGoal → StopState.ManeuverGoal)
    (default_stop_goal : StopState.ManeuverGoal) (planner : ManeuverPlanner) :
    FollowLane.NextState inputs TrafficLightDecision CombineManeuver default_goal none
      = Except.ok (none, none) ∧
    StopState.NextState inputs StopTrafficLightDecision StopCombineManeuver default_stop_goal
      none = Except.ok none ∧
    (∀ obstacle_goal : ManeuverGoal,
      FollowLane.ObstacleDecision inputs default_goal = Except.ok obstacle_goal →
      FollowLane.NextState inputs TrafficLightDecision CombineManeuver default_goal
          (some planner)
        = Except.ok
          (some (NextStateTable (CombineManeuver
            (TrafficLightDecision inputs.reference_line_ default_goal)
            obstacle_goal).decision_type),
           some { planner with
             maneuver_goal_ := CombineManeuver
               (TrafficLightDecision inputs.reference_line_ default_goal) obstacle_goal })) ∧
    (∀ obstacle_goal : StopState.ManeuverGoal,
      StopState.ObstacleDecision inputs default_stop_goal = Except.ok obstacle_goal →
      StopState.NextState inputs StopTrafficLightDecision StopCombineManeuver
          default_stop_goal (some planner)
        = Except.ok
          (some (NextStateTable (StopCombineManeuver
            (StopTrafficLightDecision inputs.reference_line_ default_stop_goal)
            obstacle_goal).decision_type))) ∧
    (∀ e : Failure, FollowLane.ObstacleDecision inputs default_goal = Except.error e →
      FollowLane.NextState inputs TrafficLightDecision CombineManeuver default_goal
        (some planner) = Except.error e) ∧
    (∀ e : Failure, StopState.ObstacleDecision inputs default_stop_goal = Except.error e →
      StopState.NextState inputs StopTrafficLightDecision StopCombineManeuver
        default_stop_goal (some planner) = Except.error e) := by
  refine ⟨rfl, rfl, ?_, ?_, ?_, ?_⟩
  · intro obstacle_goal h
    exact FollowLane_NextState_of_ok _ _ _ _ _ _ h
  · intro obstacle_goal h
    exact StopState_NextState_of_ok _ _ _ _ _ _ h
  · intro e h
    simp only [FollowLane.NextState, h, bind, Except.bind]
  · intro e h
    simp only [StopState.NextState, h, bind, Except.bind]

theorem StopState_ObstacleDecision_followingLeader :
    StopState.ObstacleDecision Scenario.followingLeader Scenario.freshStopGoal
      = Except.ok { decision_type := DecisionType.kFollowLane, has_stop_point := false,
                    target_speed := 2, target_s := 55, lane_id := 1 } := by
  norm_num [StopState.ObstacleDecision, Scenario.followingLeader, Scenario.freshStopGoal,
    Scenario.config, Scenario.referenceLine, Scenario.wayPoint, Scenario.obstacles,
    ObstaclesAt, bind, Except.bind, Except.map]

/-- C21 on `Scenario.followingLeader`, without a traffic light and with a
combination that keeps the obstacle decision: both states go to `FollowLane`. -/
theorem NextState_table_witness :
    FollowLane.NextState Scenario.followingLeader (fun _ goal => goal) (fun _ goal => goal)
        Scenario.freshGoal (some Scenario.plannerWithoutRoute)
      = Except.ok (some StateId.FollowLane,
          some { Scenario.plannerWithoutRoute with
            maneuver_goal_ := Scenario.followingLeaderGoal }) ∧
    StopState.NextState Scenario.followingLeader (fun _ goal => goal) (fun _ goal => goal)
        Scenario.freshStopGoal (some Scenario.plannerWithoutRoute)
      = Except.ok (some StateId.FollowLane) :=
  ⟨(NextState_table Scenario.followingLeader (fun _ goal => goal) (fun _ goal => goal)
      Scenario.freshGoal (fun _ goal => goal) (fun _ goal => goal) Scenario.freshStopGoal
      Scenario.plannerWithoutRoute).2.2.1 _ followingLeader_outcome,
   (NextState_table Scenario.followingLeader (fun _ goal => goal) (fun _ goal => goal)
      Scenario.freshGoal (fun _ goal => goal) (fun _ goal => goal) Scenario.freshStopGoal
      Scenario.plannerWithoutRoute).2.2.2.1 _ StopState_ObstacleDecision_followingLeader⟩

/-- C26 as stated fails for `FollowLane::Enter` on a planner without a route: after
the call the planner's routes hold the answer of `ReRoute`, so they are not what
they were before. -/
theorem FollowLane_Enter_appends_route :
    ∃ after : ManeuverPlanner,
      FollowLane.Enter Scenario.routeResponse (some Scenario.plannerWithoutRoute)
        = Except.ok (true, after) ∧
      after.routes_ ≠ Scenario.plannerWithoutRoute.routes_ := by
  refine ⟨{ Scenario.plannerWithoutRoute with routes_ := [Scenario.routeResponse] }, ?_, ?_⟩
  · simp [FollowLane.Enter, Scenario.plannerWithoutRoute]
  · simp [Scenario.plannerWithoutRoute]

end planning

/-! ## Forward simulation: the net gap of the intelligent driver model -/

namespace planning

namespace OnLaneForwardSimulator

end OnLaneForwardSimulator

end planning

/-! ## Trajectory selector: the cost queue -/

namespace planning

namespace TrajectorySelector

theorem Comparator_eq_false_iff {TrajectoryPair : Type}
    (left right : TrajectoryCostPair TrajectoryPair) :
    Comparator left right = false ↔ left.2 ≤ right.2 := by
  simp [Comparator]

theorem is_heap_iff {β : Type} (comp : β → β → Bool) (c : List β) :
    is_heap comp c = true ↔
      ∀ i : Nat, 0 < i → ∀ h : i < c.length,
        comp (c.get ⟨(i - 1) / 2, by omega⟩) (c.get ⟨i, h⟩) = false := by
  unfold is_heap
  rw [List.all_eq_true]
  constructor
  · intro hall i hi h
    have hp : (i - 1) / 2 < c.length := by omega
    have := hall i (List.mem_range.mpr h)
    have hi0 : (i == 0) = false := by
      simp only [beq_eq_false_iff_ne, ne_eq]
      omega
    simpa [hi0, List.getElem?_eq_getElem hp, List.getElem?_eq_getElem h] using this
  · intro hall i hmem
    have h : i < c.length := List.mem_range.mp hmem
    have hp : (i - 1) / 2 < c.length := by omega
    by_cases hi : i = 0
    · simp [hi]
    · have := hall i (by omega) h
      have hi0 : (i == 0) = false := by
        simp only [beq_eq_false_iff_ne, ne_eq]
        exact hi
      simpa [hi0, List.getElem?_eq_getElem hp, List.getElem?_eq_getElem h] using this

theorem heap_front_le {TrajectoryPair : Type} (c : List (TrajectoryCostPair TrajectoryPair))
    (hheap : is_heap Comparator c = true) :
    ∀ (i : Nat) (h : i < c.length), (c.get ⟨0, by omega⟩).2 ≤ (c.get ⟨i, h⟩).2 := by
  have hh := (is_heap_iff Comparator c).mp hheap
  intro i
  induction i using Nat.strong_induction_on with
  | _ i ih =>
    intro h
    by_cases hi : i = 0
    · subst hi
      exact le_refl _
    · have hp : (i - 1) / 2 < i := by omega
      have h1 := ih ((i - 1) / 2) hp (by omega)
      have h2 := (Comparator_eq_false_iff _ _).mp (hh i (by omega) h)
      exact le_trans h1 h2

theorem sorted_is_heap {TrajectoryPair : Type} (c : List (TrajectoryCostPair TrajectoryPair))
    (hsorted : c.Sorted (fun a b => a.2 ≤ b.2)) : is_heap Comparator c = true := by
  rw [is_heap_iff]
  intro i hi h
  rw [Comparator_eq_false_iff]
  have hp : (i - 1) / 2 < i := by omega
  exact List.pairwise_iff_get.mp hsorted ⟨(i - 1) / 2, by omega⟩ ⟨i, h⟩ hp

/-- C27: the function `Comparator` is a strict weak ordering on entries with finite
costs (irreflexive, transitive, and with a transitive incomparability), and a
queue whose container is a heap under it, as the container of a
`std::priority_queue` is, is a min-heap by cost: when it is not empty, its top
is an entry whose cost is at most the cost of every entry.  Every multiset of
entries has such a heap arrangement. -/
theorem Comparator_min_heap {TrajectoryPair : Type} :
    (∀ a : TrajectoryCostPair TrajectoryPair, Comparator a a = false) ∧
    (∀ a b c : TrajectoryCostPair TrajectoryPair,
      Comparator a b = true → Comparator b c = true → Comparator a c = true) ∧
    (∀ a b c : TrajectoryCostPair TrajectoryPair,
      Comparator a b = false ∧ Comparator b a = false →
      Comparator b c = false ∧ Comparator c b = false →
      Comparator a c = false ∧ Comparator c a = false) ∧
    (∀ c : List (TrajectoryCostPair TrajectoryPair), c ≠ [] → is_heap Comparator c = true →
      ∃ t, top c = some t ∧ t ∈ c ∧ ∀ e ∈ c, t.2 ≤ e.2) ∧
    (∀ entries : List (TrajectoryCostPair TrajectoryPair),
      ∃ c, List.Perm c entries ∧ is_heap Comparator c = true) := by
  refine ⟨?_, ?_, ?_, ?_, ?_⟩
  · intro a
    simp [Comparator]
  · intro a b c hab hbc
    simp only [Comparator, gt_iff_lt, decide_eq_true_eq] at hab hbc ⊢
    exact lt_trans hbc hab
  · intro a b c hab hbc
    simp only [Comparator_eq_false_iff] at hab hbc ⊢
    exact ⟨le_trans hab.1 hbc.1, le_trans hbc.2 hab.2⟩
  · intro c hne hheap
    cases c with
    | nil => exact absurd rfl hne
    | cons t rest =>
      refine ⟨t, rfl, List.mem_cons_self _ _, ?_⟩
      intro e he
      obtain ⟨n, hn⟩ := List.get_of_mem he
      have := heap_front_le (t :: rest) hheap n.1 n.2
      rw [← hn]
      simpa using this
  · intro entries
    refine ⟨entries.insertionSort (fun a b => a.2 ≤ b.2), List.perm_insertionSort _ _, ?_⟩
    apply sorted_is_heap
    have : IsTotal (TrajectoryCostPair TrajectoryPair) (fun a b => a.2 ≤ b.2) :=
      ⟨fun a b => le_total a.2 b.2⟩
    have : IsTrans (TrajectoryCostPair TrajectoryPair) (fun a b => a.2 ≤ b.2) :=
      ⟨fun a b c hab hbc => le_trans hab hbc⟩
    exact List.sorted_insertionSort _ _

/-- C27 on `Scenario.costQueue`: the container is a heap and its top, the entry of
cost 1/2, is the cheapest. -/
theorem Comparator_min_heap_witness :
    Scenario.costQueue ≠ [] ∧ is_heap Comparator Scenario.costQueue = true ∧
    ∃ t, top Scenario.costQueue = some t ∧ t ∈ Scenario.costQueue ∧
      ∀ e ∈ Scenario.costQueue, t.2 ≤ e.2 :=
  ⟨by simp [Scenario.costQueue],
   by norm_num [is_heap, Comparator, Scenario.costQueue, List.range, List.range.loop],
   Comparator_min_heap.2.2.2.1 Scenario.costQueue (by simp [Scenario.costQueue])
     (by norm_num [is_heap, Comparator, Scenario.costQueue, List.range, List.range.loop])⟩

end TrajectorySelector

end planning

/-! ## Coordinate transformer: the forward helpers and the Cartesian speed -/

namespace common

namespace CoordinateTransformer

/-- C31: with `l` the `d0` that `CartesianToFrenet` computes, `CalcLateralDerivative`
returns its `d1` and `CalcSecondOrderLateralDerivative` returns its `d2`; the
two-output overload of `CartesianToFrenet` returns its `s0` and its `d0`. -/
theorem forward_helpers_agree_with_CartesianToFrenet
    (rs rx ry rtheta rkappa rdkappa x y v a theta kappa : ℝ) :
    CalcLateralDerivative rtheta theta
        (CartesianToFrenet rs rx ry rtheta rkappa rdkappa x y v a theta kappa).2.at0 rkappa
      = (CartesianToFrenet rs rx ry rtheta rkappa rdkappa x y v a theta kappa).2.at1 ∧
    CalcSecondOrderLateralDerivative rtheta theta rkappa kappa rdkappa
        (CartesianToFrenet rs rx ry rtheta rkappa rdkappa x y v a theta kappa).2.at0
      = (CartesianToFrenet rs rx ry rtheta rkappa rdkappa x y v a theta kappa).2.at2 ∧
    CartesianToFrenetSD rs rx ry rtheta x y
      = ((CartesianToFrenet rs rx ry rtheta rkappa rdkappa x y v a theta kappa).1.at0,
         (CartesianToFrenet rs rx ry rtheta rkappa rdkappa x y v a theta kappa).2.at0) := by
  refine ⟨rfl, ?_, rfl⟩
  simp only [CalcSecondOrderLateralDerivative, CalcLateralDerivative, CartesianToFrenet,
    div_div]

theorem FrenetToCartesian_v_eq (rs rx ry rtheta rkappa rdkappa : ℝ)
    (s_condition d_condition : Array3) (c : CartesianState)
    (h : FrenetToCartesian rs rx ry rtheta rkappa rdkappa s_condition d_condition = some c) :
    c.v = |s_condition.at1| *
      Real.sqrt ((1 - rkappa * d_condition.at0) ^ 2 + d_condition.at1 ^ 2) := by
  unfold FrenetToCartesian at h
  split_ifs at h with hassert
  simp only [Option.some.injEq] at h
  subst h
  simp only
  have e : (1 - rkappa * d_condition.at0) * (1 - rkappa * d_condition.at0) *
        s_condition.at1 * s_condition.at1 +
      d_condition.at1 * s_condition.at1 * (d_condition.at1 * s_condition.at1)
      = s_condition.at1 ^ 2 *
        ((1 - rkappa * d_condition.at0) ^ 2 + d_condition.at1 ^ 2) := by ring
  rw [e, Real.sqrt_mul (sq_nonneg _), Real.sqrt_sq_eq_abs]

/-- C36: whenever the assertion of `FrenetToCartesian` holds, the call returns a
speed `v` that is non-negative and equals `|s'| * sqrt((1 - rkappa*d0)^2 + d'^2)`,
and the call on the state with `-s'` in place of `s'` returns the same `v`. -/
theorem FrenetToCartesian_speed (rs rx ry rtheta rkappa rdkappa s0 s1 s2 : ℝ)
    (d_condition : Array3) (hassert : |rs - s0| < 1.0e-6) :
    ∃ c c2 : CartesianState,
      FrenetToCartesian rs rx ry rtheta rkappa rdkappa ⟨s0, s1, s2⟩ d_condition = some c ∧
      FrenetToCartesian rs rx ry rtheta rkappa rdkappa ⟨s0, -s1, s2⟩ d_condition = some c2 ∧
      0 ≤ c.v ∧
      c.v = |s1| * Real.sqrt ((1 - rkappa * d_condition.at0) ^ 2 + d_condition.at1 ^ 2) ∧
      c2.v = c.v := by
  have h1 : ∃ c, FrenetToCartesian rs rx ry rtheta rkappa rdkappa ⟨s0, s1, s2⟩ d_condition
      = some c := ⟨_, by simp only [FrenetToCartesian, if_pos hassert]; rfl⟩
  have h2 : ∃ c, FrenetToCartesian rs rx ry rtheta rkappa rdkappa ⟨s0, -s1, s2⟩ d_condition
      = some c := ⟨_, by simp only [FrenetToCartesian, if_pos hassert]; rfl⟩
  obtain ⟨c, hc⟩ := h1
  obtain ⟨c2, hc2⟩ := h2
  have e1 := FrenetToCartesian_v_eq _ _ _ _ _ _ _ _ _ hc
  have e2 := FrenetToCartesian_v_eq _ _ _ _ _ _ _ _ _ hc2
  simp only [abs_neg] at e1 e2
  refine ⟨c, c2, hc, hc2, ?_, e1, by rw [e1, e2]⟩
  rw [e1]
  exact mul_nonneg (abs_nonneg _) (Real.sqrt_nonneg _)

/-- C36 at the reference point of the scenario S5 with `s' = -5`. -/
theorem FrenetToCartesian_speed_witness :
    |(0 : ℝ) - 0| < 1.0e-6 ∧
    ∃ c c2 : CartesianState,
      FrenetToCartesian 0 0 0 0 (1 / 10) 0 ⟨0, -5, 0⟩ ⟨1, 1 / 2, 0⟩ = some c ∧
      FrenetToCartesian 0 0 0 0 (1 / 10) 0 ⟨0, - -5, 0⟩ ⟨1, 1 / 2, 0⟩ = some c2 ∧
      0 ≤ c.v ∧
      c.v = |(-5 : ℝ)| * Real.sqrt ((1 - 1 / 10 * (⟨1, 1 / 2, 0⟩ : Array3).at0) ^ 2
        + (⟨1, 1 / 2, 0⟩ : Array3).at1 ^ 2) ∧
      c2.v = c.v :=
  ⟨by norm_num, FrenetToCartesian_speed 0 0 0 0 (1 / 10) 0 0 (-5) 0 ⟨1, 1 / 2, 0⟩
    (by norm_num)⟩

end CoordinateTransformer

end common

/-! ## Cost functions: the efficiency cost at the desired velocity -/

namespace planning

namespace FollowLane

/-- C34 fails on the code: at `leading_vel = desired velocity`
(`max_vel - max(max_vel - target_vel, 0.2)`) neither comparison of
`EfficiencyCost` holds and the cost is infinite, for every `target_vel` and
`max_vel`; so it is for `target_vel = 10`, `max_vel = 15` and the leading
velocity 10 that an empty lane gets. -/
theorem EfficiencyCost_infinite_at_desired :
    (∀ target_vel max_vel : ℚ,
      EfficiencyCost target_vel (max_vel - max (max_vel - target_vel) (0.2 : ℚ)) max_vel
        = Double.inf) ∧
    (15 : ℚ) - max (15 - 10) (0.2 : ℚ) > 0 ∧
    (10 : ℚ) = 15 - max (15 - 10) (0.2 : ℚ) ∧
    (10 : ℚ) < 15 ∧
    EfficiencyCost 10 10 15 = Double.inf := by
  have hgen : ∀ target_vel max_vel : ℚ,
      EfficiencyCost target_vel (max_vel - max (max_vel - target_vel) (0.2 : ℚ)) max_vel
        = Double.inf := by
    intro target_vel max_vel
    simp [EfficiencyCost]
  have h10 : (10 : ℚ) = 15 - max (15 - 10) (0.2 : ℚ) := by norm_num
  refine ⟨hgen, by norm_num, h10, by norm_num, ?_⟩
  have := hgen 10 15
  rw [← h10] at this
  exact this

end FollowLane

/-! ## `StopState::ObstacleDecision`: the target of an emergency stop -/

namespace StopState

/-- C39 fails on the code: on `Scenario.boxedIn` (ego at `s = 100`, vehicles 3 m
ahead and 3 m behind, `min_lookahead_distance = 10 ≤ max_lookahead_distance = 50`)
the decision is `EmergencyStop` with `target_s = min(100 + 10, 50) = 50`, which
is 50 m behind the ego, while `ego_s + min(max_lookahead_distance,
max(leading_clear - lon_safety_buffer, min_lookahead_distance))` is 110. -/
theorem ObstacleDecision_emergency_target_behind_ego :
    Scenario.boxedIn.config.min_lookahead_distance
      ≤ Scenario.boxedIn.config.max_lookahead_distance ∧
    StopState.ObstacleDecision Scenario.boxedIn Scenario.freshStopGoal
      = Except.ok { decision_type := DecisionType.kEmergencyStop, has_stop_point := true,
                    target_speed := 0, target_s := 50, lane_id := 1 } ∧
    Scenario.boxedIn.ego_sl_s + min Scenario.boxedIn.config.max_lookahead_distance
      (max ((Scenario.boxedIn.GetLaneClearDistance 0).forward_clear_distance
        - Scenario.boxedIn.config.lon_safety_buffer)
        Scenario.boxedIn.config.min_lookahead_distance) = 110 ∧
    (50 : ℚ) - Scenario.boxedIn.ego_sl_s < Scenario.boxedIn.config.min_lookahead_distance := by
  refine ⟨?_, ?_, ?_, ?_⟩
  · norm_num [Scenario.boxedIn, Scenario.config]
  · norm_num [StopState.ObstacleDecision, Scenario.boxedIn, Scenario.freshStopGoal,
      Scenario.config, Scenario.referenceLine, Scenario.wayPoint]
  · norm_num [Scenario.boxedIn, Scenario.config]
  · norm_num [Scenario.boxedIn, Scenario.config]

end StopState

/-! ## Forward simulation: the bounds of the acceleration -/

namespace OnLaneForwardSimulator

end OnLaneForwardSimulator

/-! ## `ObstacleDecision`: the reference line of the first info -/

namespace FollowLane

/-- C38 fails on the code: on `Scenario.leaderNearLineEnd` (a leading vehicle, and
`ego_s + lookahead` beyond the end of the reference line) the call on a fresh
goal returns `StopAtDestination` with one info whose `ptr_ref_line` is null:
the branch 2.3 does not write it. -/
theorem ObstacleDecision_stop_near_end_has_no_ref_line :
    ObstacleDecision Scenario.leaderNearLineEnd Scenario.freshGoal
      = Except.ok { decision_type := DecisionType.kStopAtDestination,
                    maneuver_infos :=
                      [{ lane_id := 1, has_stop_point := true,
                         maneuver_target := { target_s := 30, target_speed := 0 },
                         ptr_ref_line := none }] } := by
  norm_num [ObstacleDecision, Scenario.leaderNearLineEnd, Scenario.freshGoal,
    Scenario.config, Scenario.referenceLine, Scenario.wayPoint, Scenario.obstacles,
    Scenario.zeroInfo, ObstaclesAt, resize, assignFront, bind, Except.bind]

end FollowLane

end planning

/-! ## Collision checker: the reads of `predicted_obstacle_box_` -/

namespace planning

namespace CollisionChecker

/-- The sequential scan started at index `i` reads past the end of the snapshots
exactly when some remaining point has no snapshot and no point before it
overlaps a box of its snapshot. -/
theorem IsCollisionFrom_none_iff (overlap : Box2d → Box2d → Bool) (vp : VehicleParams)
    (env : List (List Box2d)) (traj : List TrajectoryPoint) :
    ∀ i : Nat, IsCollisionFrom overlap vp env i traj = none ↔
      (∃ k : Nat, k < traj.length ∧ env.length ≤ i + k) ∧
      ∀ (k : Nat) (p : TrajectoryPoint) (boxes : List Box2d), i + k < env.length →
        traj[k]? = some p → env[i + k]? = some boxes →
        ∀ ob ∈ boxes, overlap (EgoBoxSpec vp p) ob = false := by
  induction traj with
  | nil =>
    intro i
    simp [IsCollisionFrom]
  | cons p rest ih =>
    intro i
    by_cases hlt : i < env.length
    · have hget : env[i]? = some env[i] := List.getElem?_eq_getElem hlt
      by_cases hany : (env[i]).any (fun ob => overlap (EgoBoxSpec vp p) ob) = true
      · have hL : IsCollisionFrom overlap vp env i (p :: rest) = some true := by
          simp only [IsCollisionFrom, hget]
          simp only [EgoBoxSpec, Box2d.Shift] at hany
          simp only [Box2d.Shift, hany, if_true]
        rw [hL]
        constructor
        · intro h
          cases h
        · rintro ⟨-, hno⟩
          exfalso
          obtain ⟨ob, hob, hov⟩ := List.any_eq_true.mp hany
          have := hno 0 p env[i] (by simpa using hlt) (by simp) (by simp) ob hob
          rw [this] at hov
          cases hov
      · have hfalse : (env[i]).any (fun ob => overlap (EgoBoxSpec vp p) ob) = false := by
          simpa using hany
        have hL : IsCollisionFrom overlap vp env i (p :: rest)
            = IsCollisionFrom overlap vp env (i + 1) rest := by
          simp only [IsCollisionFrom, hget]
          simp only [EgoBoxSpec, Box2d.Shift] at hfalse
          simp only [Box2d.Shift, hfalse]
          simp
        rw [hL, ih (i + 1)]
        constructor
        · rintro ⟨⟨k, hk, hle⟩, hno⟩
          refine ⟨⟨k + 1, by simpa using hk, by omega⟩, ?_⟩
          intro k2 p2 boxes2 hk2 hp2 hb2 ob hob
          cases k2 with
          | zero =>
            simp only [List.getElem?_cons_zero, Option.some.injEq] at hp2
            subst hp2
            simp only [Nat.add_zero, hget, Option.some.injEq] at hb2
            subst hb2
            have hnot := (List.any_eq_false.mp hfalse) ob hob
            simpa using hnot
          | succ j =>
            simp only [List.getElem?_cons_succ] at hp2
            have e : i + (j + 1) = i + 1 + j := by omega
            rw [e] at hb2 hk2
            exact hno j p2 boxes2 hk2 hp2 hb2 ob hob
        · rintro ⟨⟨k, hk, hle⟩, hno⟩
          have hk0 : k ≠ 0 := by
            intro h0
            subst h0
            omega
          obtain ⟨j, rfl⟩ : ∃ j, k = j + 1 := ⟨k - 1, by omega⟩
          refine ⟨⟨j, by simpa using hk, by omega⟩, ?_⟩
          intro k2 p2 boxes2 hk2 hp2 hb2 ob hob
          have e : i + 1 + k2 = i + (k2 + 1) := by omega
          rw [e] at hb2 hk2
          exact hno (k2 + 1) p2 boxes2 hk2 (by simpa using hp2) hb2 ob hob
    · have hget : env[i]? = none := List.getElem?_eq_none (by omega)
      have hL : IsCollisionFrom overlap vp env i (p :: rest) = none := by
        simp only [IsCollisionFrom, hget]
      rw [hL]
      simp only [true_iff]
      refine ⟨⟨0, by simp, by omega⟩, ?_⟩
      intro k p2 boxes2 hk
      omega

end CollisionChecker

end planning

/-! ## `ChangeLaneDecision`: the target speeds it writes -/

namespace planning

namespace FollowLane

/-- The two target speeds of the branch "only can change left": the info of the
current lane gets the speed of the leading vehicle as it is (line 319 has no
`std::min`), the info of the left lane gets
`min(left leader speed, target_speed)`. -/
theorem ChangeLaneDecision_only_left_speeds (inputs : PlanningInputs) (ego_s fcd bcd : ℚ)
    (fid bid : Int) (wp : WayPoint) (goal : ManeuverGoal) (rear front left_leader : Obstacle)
    (left right : LaneClear)
    (hrear : inputs.obstacles bid = some rear) (hfront : inputs.obstacles fid = some front)
    (hsafe : ¬ (fcd < inputs.config.maneuver_forward_clear_threshold
      ∨ bcd < inputs.config.maneuver_backward_clear_threshold))
    (hpermit_left : (wp.lane_change = LaneChangeType.LEFT ∨
      wp.lane_change = LaneChangeType.BOTH) ∧ wp.has_left_lane = true)
    (hleft : JudgeTargetLane inputs inputs.ego_vel (-1) = Except.ok (true, left))
    (hright : (if (wp.lane_change = LaneChangeType.RIGHT ∨
        wp.lane_change = LaneChangeType.BOTH) ∧ wp.has_right_lane = true then
        JudgeTargetLane inputs inputs.ego_vel 1
      else Except.ok (false, unvisitedLane)) = Except.ok (false, right))
    (hleader : inputs.obstacles left.forward_obstacle_id = some left_leader) :
    ∃ g first second, ChangeLaneDecision inputs ego_s fcd bcd fid bid wp goal = Except.ok g ∧
      g.decision_type = DecisionType.kChangeLeft ∧
      g.maneuver_infos = [first, second] ∧
      first.maneuver_target.target_speed = front.Speed ∧
      second.maneuver_target.target_speed
        = min left_leader.Speed inputs.config.target_speed := by
  obtain ⟨m1, m2, hm2⟩ := resize_two inputs.value_initialized_info goal.maneuver_infos
  have hunsafe : decide (fcd < inputs.config.maneuver_forward_clear_threshold
      ∨ bcd < inputs.config.maneuver_backward_clear_threshold) = false := by
    simpa using hsafe
  simp only [ChangeLaneDecision, ObstaclesAt, hrear, hfront, hunsafe, hpermit_left, hleft,
    hright, bind, Except.bind]
  simp [hm2, assignFront, assignBack_pair, ObstaclesAt, hfront, hleader, bind, Except.bind]
  exact ⟨_, _, ⟨rfl, rfl⟩, rfl, rfl⟩

/-- C35 (the code at a failing input): in the scenario `fastEgo` the ego vehicle
drives at 40 m/s where `target_speed = 10`, its leader at 11 m/s, only the left
lane is admissible.  `ObstacleDecision` reaches the branch "only can change
left" of `ChangeLaneDecision` and returns `kChangeLeft` with two infos; the
`target_speed` written for the current lane is the leader's speed 11, above the
configured `target_speed = 10 = min(target_speed, leader speed)`. -/
theorem ChangeLaneDecision_only_left_exceeds_target_speed :
    ∃ g first second, ObstacleDecision Scenario.fastEgo Scenario.freshGoal = Except.ok g ∧
      g.decision_type = DecisionType.kChangeLeft ∧
      g.maneuver_infos = [first, second] ∧
      first.maneuver_target.target_speed = 11 ∧
      second.maneuver_target.target_speed = 10 ∧
      Scenario.fastEgo.config.target_speed = 10 ∧
      min Scenario.fastEgo.config.target_speed (11 : ℚ) = 10 ∧
      Scenario.fastEgo.config.target_speed < first.maneuver_target.target_speed := by
  have hl : JudgeTargetLane Scenario.fastEgo Scenario.fastEgo.ego_vel (-1)
      = Except.ok (true, Scenario.fastEgo.GetLaneClearDistance (-1)) := by
    norm_num [JudgeTargetLane, Scenario.fastEgo, Scenario.config, Scenario.fastObstacles,
      ObstaclesAt, bind, Except.bind]
  have hr : JudgeTargetLane Scenario.fastEgo Scenario.fastEgo.ego_vel 1
      = Except.ok (false, Scenario.fastEgo.GetLaneClearDistance 1) := by
    norm_num [JudgeTargetLane, Scenario.fastEgo, Scenario.config]
  have hmap : Scenario.fastEgo.obstacles
      (Scenario.fastEgo.GetLaneClearDistance 0).forward_obstacle_id = some { Speed := 11 } := by
    simp [Scenario.fastEgo, Scenario.fastObstacles]
  have hwp : Scenario.fastEgo.reference_line_.NearestWayPoint
      (min (Scenario.fastEgo.ego_sl_s + 5) Scenario.fastEgo.reference_line_.Length)
        = Scenario.wayPoint := rfl
  have hright : (if (Scenario.wayPoint.lane_change = LaneChangeType.RIGHT ∨
        Scenario.wayPoint.lane_change = LaneChangeType.BOTH) ∧
        Scenario.wayPoint.has_right_lane = true then
        JudgeTargetLane Scenario.fastEgo Scenario.fastEgo.ego_vel 1
      else Except.ok (false, unvisitedLane))
      = Except.ok (false, Scenario.fastEgo.GetLaneClearDistance 1) := by
    rw [if_pos (by simp [Scenario.wayPoint])]
    exact hr
  rw [ObstacleDecision_eq_ChangeLaneDecision Scenario.fastEgo Scenario.freshGoal { Speed := 11 }
    (by simp [Scenario.fastEgo]) hmap
    (by norm_num [Scenario.fastEgo, Scenario.config])
    (by norm_num [Scenario.fastEgo, Scenario.config, Scenario.referenceLine])
    (by norm_num [Scenario.fastEgo])
    (by simp [Scenario.fastEgo, Scenario.referenceLine, Scenario.wayPoint]), hwp]
  obtain ⟨g, first, second, hg, hd, hinfos, hfirst, hsecond⟩ :=
    ChangeLaneDecision_only_left_speeds Scenario.fastEgo Scenario.fastEgo.ego_sl_s
      (Scenario.fastEgo.GetLaneClearDistance 0).forward_clear_distance
      (Scenario.fastEgo.GetLaneClearDistance 0).backward_clear_distance
      (Scenario.fastEgo.GetLaneClearDistance 0).forward_obstacle_id
      (Scenario.fastEgo.GetLaneClearDistance 0).backward_obstacle_id
      Scenario.wayPoint Scenario.freshGoal { Speed := 8 } { Speed := 11 } { Speed := 12 }
      (Scenario.fastEgo.GetLaneClearDistance (-1))
      (Scenario.fastEgo.GetLaneClearDistance 1)
      (by simp [Scenario.fastEgo, Scenario.fastObstacles])
      (by simp [Scenario.fastEgo, Scenario.fastObstacles])
      (by norm_num [Scenario.fastEgo, Scenario.config])
      (by simp [Scenario.wayPoint]) hl hright
      (by simp [Scenario.fastEgo, Scenario.fastObstacles])
  refine ⟨g, first, second, hg, hd, hinfos, hfirst, ?_, ?_, ?_, ?_⟩
  · rw [hsecond]
    norm_num [Scenario.fastEgo, Scenario.config]
  · rfl
  · norm_num [Scenario.fastEgo, Scenario.config]
  · rw [hfirst]
    norm_num [Scenario.fastEgo, Scenario.config]

end FollowLane

end planning

/-! ## `ChangeLaneDecision`: the branch "can change both" -/

namespace planning

namespace FollowLane

theorem Except_ok_bind {α β : Type} (a : α) (f : α → Except Failure β) :
    ((Except.ok a : Except Failure α) >>= f) = f a := rfl

theorem Except_bind_error_mono {α β γ : Type} (x : Except Failure α)
    (f : α → Except Failure β) (g : α → Except Failure γ) (e : Failure)
    (h : (x >>= f) = Except.error e) (hfg : ∀ a, f a = Except.error e → g a = Except.error e) :
    (x >>= g) = Except.error e := by
  cases x with
  | error e2 => simpa [bind, Except.bind] using h
  | ok a => exact hfg a h

/-- In the branch "can change both", `ChangeLaneDecision` throws whenever the
computation of the six velocities throws, and whenever it returns, the six
velocities were computed and passed to `SelectLane` in the order left, current,
right. -/
theorem ChangeLaneDecision_both (inputs : PlanningInputs) (ego_s fcd bcd : ℚ)
    (fid bid : Int) (wp : WayPoint) (goal : ManeuverGoal) (rear front : Obstacle)
    (left right : LaneClear)
    (hrear : inputs.obstacles bid = some rear) (hfront : inputs.obstacles fid = some front)
    (hsafe : ¬ (fcd < inputs.config.maneuver_forward_clear_threshold
      ∨ bcd < inputs.config.maneuver_backward_clear_threshold))
    (hpermit_left : (wp.lane_change = LaneChangeType.LEFT ∨
      wp.lane_change = LaneChangeType.BOTH) ∧ wp.has_left_lane = true)
    (hpermit_right : (wp.lane_change = LaneChangeType.RIGHT ∨
      wp.lane_change = LaneChangeType.BOTH) ∧ wp.has_right_lane = true)
    (hleft : JudgeTargetLane inputs inputs.ego_vel (-1) = Except.ok (true, left))
    (hright : JudgeTargetLane inputs inputs.ego_vel 1 = Except.ok (true, right)) :
    (∀ e : Failure, BothLanesVelocities inputs left right fid bid = Except.error e →
      ChangeLaneDecision inputs ego_s fcd bcd fid bid wp goal = Except.error e) ∧
    (∀ g : ManeuverGoal, ChangeLaneDecision inputs ego_s fcd bcd fid bid wp goal = Except.ok g →
      ∃ (v : LaneVelocities) (target_lane_offset : Int),
        BothLanesVelocities inputs left right fid bid = Except.ok v ∧
        SelectLane inputs.config ego_s inputs.ego_vel
          [v.left_leading_vel, v.current_leading_vel, v.right_leading_vel]
          [v.left_following_vel, v.current_following_vel, v.right_following_vel]
          [left.forward_clear_distance, fcd, right.forward_clear_distance]
          [left.backward_clear_distance, bcd, right.backward_clear_distance]
            = Except.ok target_lane_offset) ∧
    (∀ v : LaneVelocities, BothLanesVelocities inputs left right fid bid = Except.ok v →
      ∃ (target_lane_offset : Int) (g : ManeuverGoal),
        SelectLane inputs.config ego_s inputs.ego_vel
          [v.left_leading_vel, v.current_leading_vel, v.right_leading_vel]
          [v.left_following_vel, v.current_following_vel, v.right_following_vel]
          [left.forward_clear_distance, fcd, right.forward_clear_distance]
          [left.backward_clear_distance, bcd, right.backward_clear_distance]
            = Except.ok target_lane_offset ∧
        ChangeLaneDecision inputs ego_s fcd bcd fid bid wp goal = Except.ok g) := by
  obtain ⟨m, hm⟩ := resize_one inputs.value_initialized_info goal.maneuver_infos
  obtain ⟨m1, m2, hm2⟩ := resize_two inputs.value_initialized_info goal.maneuver_infos
  have hunsafe : decide (fcd < inputs.config.maneuver_forward_clear_threshold
      ∨ bcd < inputs.config.maneuver_backward_clear_threshold) = false := by
    simpa using hsafe
  have h1 : ObstaclesAt inputs.obstacles bid = Except.ok rear := by
    simp [ObstaclesAt, hrear]
  have h2 : ObstaclesAt inputs.obstacles fid = Except.ok front := by
    simp [ObstaclesAt, hfront]
  refine ⟨?_, ?_, ?_⟩
  · intro e he
    unfold BothLanesVelocities at he
    unfold ChangeLaneDecision
    simp only [h1, h2, hunsafe, hpermit_left, hpermit_right, hleft, hright, and_self, if_true,
      Bool.false_eq_true, if_false, Except_ok_bind, Bool.not_true, Bool.and_self,
      Bool.and_false, Bool.false_and] at he ⊢
    refine Except_bind_error_mono _ _ _ e he (fun a1 he => ?_)
    refine Except_bind_error_mono _ _ _ e he (fun a2 he => ?_)
    refine Except_bind_error_mono _ _ _ e he (fun a3 he => ?_)
    refine Except_bind_error_mono _ _ _ e he (fun a4 he => ?_)
    refine Except_bind_error_mono _ _ _ e he (fun a5 he => ?_)
    refine Except_bind_error_mono _ _ _ e he (fun a6 he => ?_)
    cases he
  · intro g h
    unfold ChangeLaneDecision at h
    simp only [h1, h2, hunsafe, hpermit_left, hpermit_right, hleft, hright, and_self, if_true,
      Bool.false_eq_true, if_false, Except_ok_bind, Bool.not_true, Bool.and_self,
      Bool.and_false, Bool.false_and, Except_bind_ok] at h
    obtain ⟨a1, hx1, a2, hx2, a3, hx3, a4, hx4, a5, hx5, a6, hx6, off, hoff, -⟩ := h
    refine ⟨⟨a1, a2, a3, a4, a5, a6⟩, off, ?_, hoff⟩
    unfold BothLanesVelocities
    simp only [h1, h2, hx1, hx2, hx3, hx4, hx5, hx6, Except_ok_bind]
  · intro v hv
    unfold BothLanesVelocities at hv
    simp only [h1, h2, Except_bind_ok] at hv
    obtain ⟨a1, hx1, a2, hx2, a3, hx3, a4, hx4, a5, hx5, a6, hx6, hv⟩ := hv
    cases hv
    obtain ⟨off, hoff⟩ : ∃ off, SelectLane inputs.config ego_s inputs.ego_vel [a1, a3, a5]
        [a2, a4, a6] [left.forward_clear_distance, fcd, right.forward_clear_distance]
        [left.backward_clear_distance, bcd, right.backward_clear_distance] = Except.ok off :=
      ⟨_, SelectLane_three _ _ _ _ _ _ _ _ _ _ _ _ _ _ _⟩
    have hr := SelectLane_range _ _ _ _ _ _ _ _ _ _ _ _ _ _ _ _ hoff
    unfold ChangeLaneDecision
    simp only [h1, h2, hunsafe, hpermit_left, hpermit_right, hleft, hright, and_self, if_true,
      Bool.false_eq_true, if_false, Except_ok_bind, Bool.not_true, Bool.and_self,
      Bool.and_false, Bool.false_and, hx1, hx2, hx3, hx4, hx5, hx6, hoff]
    refine ⟨off, ?_⟩
    rcases hr with hr | hr | hr
    · subst hr
      simp [hm2, assignFront, assignBack_pair, bind, Except.bind]
    · subst hr
      simp [hm, assignFront, bind, Except.bind]
    · subst hr
      simp [hm2, assignFront, assignBack_pair, bind, Except.bind]

/-- C33 (the code at two failing inputs): line 379 computes the right lane's
following velocity under the test `right_forward_obstacle_id < 0`, the test of
the right lane's leader.  In the scenario `rightFollowerNoLeader` the right
lane has the follower 8 at 12 m/s and no leader: the six velocities are
computed, the right following velocity passed to `SelectLane` is the configured
`target_speed = 10` and not the follower's 12, and `ObstacleDecision` returns.
In the scenario `rightLeaderNoFollower` the right lane has the leader 8 and no
follower: the velocity should be `target_speed`, but the code looks up the
follower id `-1` and `ObstacleDecision` throws `std::out_of_range`. -/
theorem ChangeLaneDecision_right_following_vel_tests_leader :
    (BothLanesVelocities Scenario.rightFollowerNoLeader
        (Scenario.rightFollowerNoLeader.GetLaneClearDistance (-1))
        (Scenario.rightFollowerNoLeader.GetLaneClearDistance 1) 7 9
      = Except.ok { left_leading_vel := 10, left_following_vel := 10, current_leading_vel := 2,
                    current_following_vel := 8, right_leading_vel := 10,
                    right_following_vel := 10 } ∧
      (Scenario.rightFollowerNoLeader.GetLaneClearDistance 1).backward_obstacle_id = 8 ∧
      FollowingVelSpec Scenario.rightFollowerNoLeader
        (Scenario.rightFollowerNoLeader.GetLaneClearDistance 1) = Except.ok 12 ∧
      ∃ (target_lane_offset : Int) (g : ManeuverGoal),
        SelectLane Scenario.config 20 10 [10, 2, 10] [10, 8, 10] [100, 40, 100] [100, 100, 100]
          = Except.ok target_lane_offset ∧
        ObstacleDecision Scenario.rightFollowerNoLeader Scenario.freshGoal = Except.ok g) ∧
    ((Scenario.rightLeaderNoFollower.GetLaneClearDistance 1).backward_obstacle_id = -1 ∧
      FollowingVelSpec Scenario.rightLeaderNoFollower
        (Scenario.rightLeaderNoFollower.GetLaneClearDistance 1) = Except.ok 10 ∧
      BothLanesVelocities Scenario.rightLeaderNoFollower
        (Scenario.rightLeaderNoFollower.GetLaneClearDistance (-1))
        (Scenario.rightLeaderNoFollower.GetLaneClearDistance 1) 7 9
        = Except.error Failure.out_of_range ∧
      ObstacleDecision Scenario.rightLeaderNoFollower Scenario.freshGoal
        = Except.error Failure.out_of_range) := by
  have hv : BothLanesVelocities Scenario.rightFollowerNoLeader
        (Scenario.rightFollowerNoLeader.GetLaneClearDistance (-1))
        (Scenario.rightFollowerNoLeader.GetLaneClearDistance 1) 7 9
      = Except.ok { left_leading_vel := 10, left_following_vel := 10, current_leading_vel := 2,
                    current_following_vel := 8, right_leading_vel := 10,
                    right_following_vel := 10 } := by
    norm_num [BothLanesVelocities, Scenario.rightFollowerNoLeader, Scenario.config,
      Scenario.threeObstacles, ObstaclesAt, Except.map, bind, Except.bind]
  have he : BothLanesVelocities Scenario.rightLeaderNoFollower
        (Scenario.rightLeaderNoFollower.GetLaneClearDistance (-1))
        (Scenario.rightLeaderNoFollower.GetLaneClearDistance 1) 7 9
        = Except.error Failure.out_of_range := by
    norm_num [BothLanesVelocities, Scenario.rightLeaderNoFollower, Scenario.config,
      Scenario.threeObstacles, ObstaclesAt, Except.map, bind, Except.bind]
  have hboth := ChangeLaneDecision_both Scenario.rightFollowerNoLeader 20 40 100 7 9
    Scenario.wayPoint Scenario.freshGoal { Speed := 8 } { Speed := 2 }
    (Scenario.rightFollowerNoLeader.GetLaneClearDistance (-1))
    (Scenario.rightFollowerNoLeader.GetLaneClearDistance 1)
    (by simp [Scenario.rightFollowerNoLeader, Scenario.threeObstacles])
    (by simp [Scenario.rightFollowerNoLeader, Scenario.threeObstacles])
    (by norm_num [Scenario.rightFollowerNoLeader, Scenario.config])
    (by simp [Scenario.wayPoint]) (by simp [Scenario.wayPoint])
    (by norm_num [JudgeTargetLane, Scenario.rightFollowerNoLeader, Scenario.config])
    (by norm_num [JudgeTargetLane, Scenario.rightFollowerNoLeader, Scenario.config])
  have hboth2 := ChangeLaneDecision_both Scenario.rightLeaderNoFollower 20 40 100 7 9
    Scenario.wayPoint Scenario.freshGoal { Speed := 8 } { Speed := 2 }
    (Scenario.rightLeaderNoFollower.GetLaneClearDistance (-1))
    (Scenario.rightLeaderNoFollower.GetLaneClearDistance 1)
    (by simp [Scenario.rightLeaderNoFollower, Scenario.threeObstacles])
    (by simp [Scenario.rightLeaderNoFollower, Scenario.threeObstacles])
    (by norm_num [Scenario.rightLeaderNoFollower, Scenario.config])
    (by simp [Scenario.wayPoint]) (by simp [Scenario.wayPoint])
    (by norm_num [JudgeTargetLane, Scenario.rightLeaderNoFollower, Scenario.config])
    (by norm_num [JudgeTargetLane, Scenario.rightLeaderNoFollower, Scenario.config,
      Scenario.threeObstacles, ObstaclesAt, bind, Except.bind])
  have hOD : ObstacleDecision Scenario.rightFollowerNoLeader Scenario.freshGoal
      = ChangeLaneDecision Scenario.rightFollowerNoLeader 20 40 100 7 9 Scenario.wayPoint
        Scenario.freshGoal :=
    ObstacleDecision_eq_ChangeLaneDecision Scenario.rightFollowerNoLeader Scenario.freshGoal
      { Speed := 2 } (by simp [Scenario.rightFollowerNoLeader])
      (by simp [Scenario.rightFollowerNoLeader, Scenario.threeObstacles])
      (by norm_num [Scenario.rightFollowerNoLeader, Scenario.config])
      (by norm_num [Scenario.rightFollowerNoLeader, Scenario.config, Scenario.referenceLine])
      (by norm_num [Scenario.rightFollowerNoLeader])
      (by simp [Scenario.rightFollowerNoLeader, Scenario.referenceLine, Scenario.wayPoint])
  have hOD2 : ObstacleDecision Scenario.rightLeaderNoFollower Scenario.freshGoal
      = ChangeLaneDecision Scenario.rightLeaderNoFollower 20 40 100 7 9 Scenario.wayPoint
        Scenario.freshGoal :=
    ObstacleDecision_eq_ChangeLaneDecision Scenario.rightLeaderNoFollower Scenario.freshGoal
      { Speed := 2 } (by simp [Scenario.rightLeaderNoFollower])
      (by simp [Scenario.rightLeaderNoFollower, Scenario.threeObstacles])
      (by norm_num [Scenario.rightLeaderNoFollower, Scenario.config])
      (by norm_num [Scenario.rightLeaderNoFollower, Scenario.config, Scenario.referenceLine])
      (by norm_num [Scenario.rightLeaderNoFollower])
      (by simp [Scenario.rightLeaderNoFollower, Scenario.referenceLine, Scenario.wayPoint])
  refine ⟨⟨hv, by simp [Scenario.rightFollowerNoLeader], ?_, ?_⟩,
    by simp [Scenario.rightLeaderNoFollower], ?_, he, ?_⟩
  · norm_num [FollowingVelSpec, Scenario.rightFollowerNoLeader, Scenario.threeObstacles,
      ObstaclesAt, Except.map]
  · obtain ⟨off, g, hoff, hg⟩ := hboth.2.2 _ hv
    exact ⟨off, g, hoff, by rw [hOD]; exact hg⟩
  · norm_num [FollowingVelSpec, Scenario.rightLeaderNoFollower, Scenario.config]
  · rw [hOD2]
    exact hboth2.1 _ he

end FollowLane

end planning

/-! ## `ObstacleDecision`: no write through `front()` of an empty vector -/

namespace planning

namespace FollowLane

theorem ThrowsOnly_ok {α : Type} (a : α) : ThrowsOnly (Except.ok a : Except Failure α) := by
  intro e h
  cases h

theorem ThrowsOnly_out_of_range {α : Type} :
    ThrowsOnly (Except.error Failure.out_of_range : Except Failure α) := by
  intro e h
  cases h
  rfl

theorem ThrowsOnly_bind {α β : Type} (x : Except Failure α) (f : α → Except Failure β)
    (hx : ThrowsOnly x) (hf : ∀ a, ThrowsOnly (f a)) : ThrowsOnly (x >>= f) := by
  cases x with
  | error e2 =>
    intro e h
    have h2 : (Except.error e2 : Except Failure β) = Except.error e := h
    cases h2
    exact hx e2 rfl
  | ok a => exact hf a

theorem ThrowsOnly_map {α β : Type} (x : Except Failure α) (f : α → β)
    (hx : ThrowsOnly x) : ThrowsOnly (x.map f) := by
  cases x with
  | error e2 =>
    intro e h
    have h2 : (Except.error e2 : Except Failure β) = Except.error e := h
    cases h2
    exact hx e2 rfl
  | ok a => exact ThrowsOnly_ok _

theorem ThrowsOnly_ObstaclesAt (obstacles : Int → Option Obstacle) (id : Int) :
    ThrowsOnly (ObstaclesAt obstacles id) := by
  unfold ObstaclesAt
  cases obstacles id with
  | none => exact ThrowsOnly_out_of_range
  | some o => exact ThrowsOnly_ok _

theorem ThrowsOnly_ite {α : Type} (c : Prop) [Decidable c] (x y : Except Failure α)
    (hx : ThrowsOnly x) (hy : ThrowsOnly y) : ThrowsOnly (if c then x else y) := by
  split_ifs
  · exact hx
  · exact hy

theorem ThrowsOnly_JudgeTargetLane (inputs : PlanningInputs) (ego_vel : ℚ) (lane_offset : Int) :
    ThrowsOnly (JudgeTargetLane inputs ego_vel lane_offset) := by
  unfold JudgeTargetLane
  simp only []
  refine ThrowsOnly_ite _ _ _ (ThrowsOnly_ite _ _ _ (ThrowsOnly_ok _) ?_) (ThrowsOnly_ok _)
  refine ThrowsOnly_bind _ _ (ThrowsOnly_ObstaclesAt _ _) (fun leader => ?_)
  refine ThrowsOnly_ite _ _ _ (ThrowsOnly_ok _) ?_
  exact ThrowsOnly_bind _ _ (ThrowsOnly_ObstaclesAt _ _) (fun _ => ThrowsOnly_ok _)

/-- Every failure of `ChangeLaneDecision` is a `std::out_of_range` of a lookup
in the obstacle map: each of its branches resizes `maneuver_infos` before it
writes through `front()` and `back()`, and `SelectLane` gets three lanes. -/
theorem ThrowsOnly_ChangeLaneDecision (inputs : PlanningInputs) (ego_s fcd bcd : ℚ)
    (fid bid : Int) (wp : WayPoint) (goal : ManeuverGoal) :
    ThrowsOnly (ChangeLaneDecision inputs ego_s fcd bcd fid bid wp goal) := by
  obtain ⟨m, hm⟩ := resize_one inputs.value_initialized_info goal.maneuver_infos
  obtain ⟨m1, m2, hm2⟩ := resize_two inputs.value_initialized_info goal.maneuver_infos
  unfold ChangeLaneDecision
  simp only []
  refine ThrowsOnly_bind _ _ (ThrowsOnly_ObstaclesAt _ _) (fun rear => ?_)
  refine ThrowsOnly_bind _ _ (ThrowsOnly_ObstaclesAt _ _) (fun front => ?_)
  refine ThrowsOnly_bind _ _ (ThrowsOnly_ite _ _ _ (ThrowsOnly_ok _)
    (ThrowsOnly_ite _ _ _ (ThrowsOnly_JudgeTargetLane _ _ _) (ThrowsOnly_ok _))) ?_
  rintro ⟨cl, left⟩
  refine ThrowsOnly_bind _ _ (ThrowsOnly_ite _ _ _ (ThrowsOnly_ok _)
    (ThrowsOnly_ite _ _ _ (ThrowsOnly_JudgeTargetLane _ _ _) (ThrowsOnly_ok _))) ?_
  rintro ⟨cr, right⟩
  cases cl <;> cases cr
  · simp only [hm, assignFront, Except_ok_bind, Bool.not_false, Bool.and_self, if_true]
    exact ThrowsOnly_bind _ _ (ThrowsOnly_ObstaclesAt _ _) (fun _ => ThrowsOnly_ok _)
  · simp only [hm2, assignFront, assignBack_pair, Except_ok_bind, Bool.not_false, Bool.not_true,
      Bool.and_self, Bool.and_true, Bool.and_false, Bool.false_and, Bool.true_and,
      Bool.false_eq_true, if_true, if_false]
    exact ThrowsOnly_bind _ _ (ThrowsOnly_ObstaclesAt _ _) (fun _ =>
      ThrowsOnly_bind _ _ (ThrowsOnly_ObstaclesAt _ _) (fun _ => ThrowsOnly_ok _))
  · simp only [hm2, assignFront, assignBack_pair, Except_ok_bind, Bool.not_false, Bool.not_true,
      Bool.and_self, Bool.and_true, Bool.and_false, Bool.false_and, Bool.true_and,
      Bool.false_eq_true, if_true, if_false]
    exact ThrowsOnly_bind _ _ (ThrowsOnly_ObstaclesAt _ _) (fun _ =>
      ThrowsOnly_bind _ _ (ThrowsOnly_ObstaclesAt _ _) (fun _ => ThrowsOnly_ok _))
  · have hvel : ∀ (c : Prop) [Decidable c] (id : Int),
        ThrowsOnly (if c then Except.ok inputs.config.target_speed
          else (ObstaclesAt inputs.obstacles id).map (fun o => o.Speed)) := fun c _ id =>
      ThrowsOnly_ite _ _ _ (ThrowsOnly_ok _) (ThrowsOnly_map _ _ (ThrowsOnly_ObstaclesAt _ _))
    simp only [Except_ok_bind, Bool.not_false, Bool.not_true,
      Bool.and_self, Bool.and_true, Bool.and_false, Bool.false_and, Bool.true_and,
      Bool.false_eq_true, if_true, if_false]
    refine ThrowsOnly_bind _ _ (hvel _ _) (fun a1 => ?_)
    refine ThrowsOnly_bind _ _ (hvel _ _) (fun a2 => ?_)
    refine ThrowsOnly_bind _ _ (hvel _ _) (fun a3 => ?_)
    refine ThrowsOnly_bind _ _ (hvel _ _) (fun a4 => ?_)
    refine ThrowsOnly_bind _ _ (hvel _ _) (fun a5 => ?_)
    refine ThrowsOnly_bind _ _ (hvel _ _) (fun a6 => ?_)
    rw [SelectLane_three]
    simp only [Except_ok_bind, hm, hm2, assignFront, assignBack_pair]
    exact ThrowsOnly_ite _ _ _ (ThrowsOnly_ok _) (ThrowsOnly_ite _ _ _ (ThrowsOnly_ok _)
      (ThrowsOnly_ite _ _ _ (ThrowsOnly_ok _) (ThrowsOnly_ok _)))

/-- C37: in `FollowLane::ObstacleDecision` the lookahead distance
`min(max(forward_clear - lon_safety_buffer, min_lookahead_distance),
max_lookahead_distance)` never exceeds `max_lookahead_distance`, for every
input; the branch "leading vehicle is far away", guarded by
`lookahead_distance > max_lookahead_distance`, is therefore never taken.  Its
sub-branch 2.1.2 is the only path that writes `maneuver_infos.front()` without
a `resize`, which is undefined behaviour on an empty vector; since it is
unreachable, for every input and every goal at entry, also one with no infos,
a call of `ObstacleDecision` returns or throws `std::out_of_range`, and never
runs into that undefined behaviour. -/
theorem ObstacleDecision_far_away_branch_unreachable (inputs : PlanningInputs)
    (maneuver_goal : ManeuverGoal) :
    ¬ (min (max ((inputs.GetLaneClearDistance 0).forward_clear_distance
          - inputs.config.lon_safety_buffer) inputs.config.min_lookahead_distance)
        inputs.config.max_lookahead_distance > inputs.config.max_lookahead_distance) ∧
    (∀ f : ManeuverInfo → ManeuverInfo,
      assignFront f [] = Except.error Failure.undefined_behaviour) ∧
    ThrowsOnly (ObstacleDecision inputs maneuver_goal) ∧
    ObstacleDecision inputs maneuver_goal ≠ Except.error Failure.undefined_behaviour := by
  obtain ⟨m, hm⟩ := resize_one inputs.value_initialized_info maneuver_goal.maneuver_infos
  have hla := lookahead_le_max ((inputs.GetLaneClearDistance 0).forward_clear_distance
          - inputs.config.lon_safety_buffer) inputs.config.min_lookahead_distance
          inputs.config.max_lookahead_distance
  have hthrows : ThrowsOnly (ObstacleDecision inputs maneuver_goal) := by
    unfold ObstacleDecision
    simp only [hla, if_false, hm, assignFront, Except_ok_bind]
    refine ThrowsOnly_ite _ _ _ (ThrowsOnly_ite _ _ _ (ThrowsOnly_ok _) (ThrowsOnly_ok _)) ?_
    refine ThrowsOnly_bind _ _ (ThrowsOnly_ObstaclesAt _ _) (fun forward_obstacle => ?_)
    exact ThrowsOnly_ite _ _ _ (ThrowsOnly_ok _)
      (ThrowsOnly_ite _ _ _
        (ThrowsOnly_ite _ _ _
          (ThrowsOnly_ite _ _ _ (ThrowsOnly_ChangeLaneDecision _ _ _ _ _ _ _ _) (ThrowsOnly_ok _))
          (ThrowsOnly_ok _))
        (ThrowsOnly_ok _))
  refine ⟨hla, fun f => rfl, hthrows, ?_⟩
  intro h
  have := hthrows _ h
  cases this

end FollowLane

end planning

/-! ## Collision checker: the second loop of `Init` -/

namespace planning

namespace CollisionChecker

theorem InitLoop_spec (add : ℝ → ℝ → ℝ) (config : PredictionConfig)
    (obstacle_considered : List PredictedObstacle) (n : Nat) :
    ∀ (fuel : Nat) (relative_time : ℝ) (predicted_obstacle_box_ : List (List Box2d)),
    (∀ k : Nat, k < n →
      (fun t => add t config.delta_t)^[k] relative_time < config.max_lookahead_time) →
    ¬ ((fun t => add t config.delta_t)^[n] relative_time < config.max_lookahead_time) →
    n < fuel →
    InitLoop add config obstacle_considered fuel relative_time predicted_obstacle_box_
      = some (predicted_obstacle_box_ ++ (List.range n).map (fun k : Nat =>
          PredictedEnv config obstacle_considered
            ((fun t => add t config.delta_t)^[k] relative_time))) := by
  induction n with
  | zero =>
    intro fuel t acc _ hstop hfuel
    obtain ⟨f, rfl⟩ : ∃ f, fuel = f + 1 := ⟨fuel - 1, by omega⟩
    have hstop2 : ¬ t < config.max_lookahead_time := by simpa using hstop
    simp [InitLoop, hstop2]
  | succ n ih =>
    intro fuel t acc hin hstop hfuel
    obtain ⟨f, rfl⟩ : ∃ f, fuel = f + 1 := ⟨fuel - 1, by omega⟩
    have h0 : t < config.max_lookahead_time := by
      have := hin 0 (by omega)
      simpa using this
    have hin2 : ∀ k : Nat, k < n →
        (fun t => add t config.delta_t)^[k] (add t config.delta_t)
          < config.max_lookahead_time := by
      intro k hk
      have := hin (k + 1) (by omega)
      rwa [Function.iterate_succ_apply] at this
    have hstop2 : ¬ ((fun t => add t config.delta_t)^[n] (add t config.delta_t)
        < config.max_lookahead_time) := by
      rwa [Function.iterate_succ_apply] at hstop
    have hrec := ih f (add t config.delta_t)
      (acc ++ [PredictedEnv config obstacle_considered t]) hin2 hstop2 (by omega)
    simp only [InitLoop, if_pos h0]
    rw [hrec, List.range_succ_eq_map, List.map_cons, List.map_map, List.append_assoc]
    rfl

theorem InitLoop_never_returns (add : ℝ → ℝ → ℝ) (config : PredictionConfig)
    (obstacle_considered : List PredictedObstacle) (fuel : Nat) :
    ∀ (relative_time : ℝ) (predicted_obstacle_box_ : List (List Box2d)),
    (∀ k : Nat,
      (fun t => add t config.delta_t)^[k] relative_time < config.max_lookahead_time) →
    InitLoop add config obstacle_considered fuel relative_time predicted_obstacle_box_
      = none := by
  induction fuel with
  | zero =>
    intro t acc _
    rfl
  | succ f ih =>
    intro t acc hall
    have h0 : t < config.max_lookahead_time := by simpa using hall 0
    simp only [InitLoop, if_pos h0]
    apply ih
    intro k
    have := hall (k + 1)
    rwa [Function.iterate_succ_apply] at this

theorem InitLoop_fuel_mono (add : ℝ → ℝ → ℝ) (config : PredictionConfig)
    (obstacle_considered : List PredictedObstacle) (fuel : Nat) :
    ∀ (relative_time : ℝ) (predicted_obstacle_box_ r : List (List Box2d)) (fuel2 : Nat),
    InitLoop add config obstacle_considered fuel relative_time predicted_obstacle_box_
      = some r →
    fuel ≤ fuel2 →
    InitLoop add config obstacle_considered fuel2 relative_time predicted_obstacle_box_
      = some r := by
  induction fuel with
  | zero =>
    intro t acc r fuel2 h
    simp [InitLoop] at h
  | succ f ih =>
    intro t acc r fuel2 h hle
    obtain ⟨f2, rfl⟩ : ∃ f2, fuel2 = f2 + 1 := ⟨fuel2 - 1, by omega⟩
    by_cases hlt : t < config.max_lookahead_time
    · simp only [InitLoop, if_pos hlt] at h ⊢
      exact ih _ _ _ f2 h (by omega)
    · simp only [InitLoop, if_neg hlt] at h ⊢
      exact h

theorem InitLoop_result_unique (add : ℝ → ℝ → ℝ) (config : PredictionConfig)
    (obstacle_considered : List PredictedObstacle) (fuel1 fuel2 : Nat) (relative_time : ℝ)
    (predicted_obstacle_box_ r1 r2 : List (List Box2d))
    (h1 : InitLoop add config obstacle_considered fuel1 relative_time predicted_obstacle_box_
      = some r1)
    (h2 : InitLoop add config obstacle_considered fuel2 relative_time predicted_obstacle_box_
      = some r2) : r1 = r2 := by
  have a := InitLoop_fuel_mono add config obstacle_considered fuel1 relative_time
    predicted_obstacle_box_ r1 (max fuel1 fuel2) h1 (le_max_left _ _)
  have b := InitLoop_fuel_mono add config obstacle_considered fuel2 relative_time
    predicted_obstacle_box_ r2 (max fuel1 fuel2) h2 (le_max_right _ _)
  rw [a] at b
  exact Option.some.inj b

theorem InitLoop_count (config : PredictionConfig) (hdt : 0 < config.delta_t) (k : Nat) :
    k < ⌈config.max_lookahead_time / config.delta_t⌉₊ ↔
      (k : ℝ) * config.delta_t < config.max_lookahead_time := by
  rw [Nat.lt_ceil, lt_div_iff₀ hdt]

/-- The loop of `Init` from the start: when the accumulated time first fails the
loop test at its `n`-th value, every count of more than `n` loop tests gives
the `n` snapshots taken at the accumulated times. -/
theorem InitLoop_from_zero (add : ℝ → ℝ → ℝ) (config : PredictionConfig)
    (obstacle_considered : List PredictedObstacle) (n : Nat)
    (hbelow : ∀ k : Nat, k < n → RelativeTimeAt add config k < config.max_lookahead_time)
    (hstop : ¬ (RelativeTimeAt add config n < config.max_lookahead_time))
    (fuel : Nat) (hfuel : n < fuel) :
    InitLoop add config obstacle_considered fuel 0.0 []
      = some ((List.range n).map (fun k : Nat =>
          PredictedEnv config obstacle_considered (RelativeTimeAt add config k))) := by
  have h := InitLoop_spec add config obstacle_considered n fuel 0.0 [] hbelow hstop hfuel
  simpa [RelativeTimeAt] using h

/-- One more execution of `relative_time += delta_t`. -/
theorem RelativeTimeAt_succ (add : ℝ → ℝ → ℝ) (config : PredictionConfig) (k : Nat) :
    RelativeTimeAt add config (k + 1) = add (RelativeTimeAt add config k) config.delta_t := by
  have h : ∀ (n : Nat) (t : ℝ), (fun t => add t config.delta_t)^[n + 1] t
      = add ((fun t => add t config.delta_t)^[n] t) config.delta_t := by
    intro n
    induction n with
    | zero =>
      intro t
      rfl
    | succ n ih =>
      intro t
      rw [Function.iterate_succ_apply, ih (add t config.delta_t), Function.iterate_succ_apply]
  exact h k 0.0

/-- When the sums of the loop are exact, the accumulated time is `k * delta_t`. -/
theorem RelativeTimeAt_exact (add : ℝ → ℝ → ℝ) (config : PredictionConfig) (n : Nat)
    (hexact : ∀ k : Nat, k < n →
      add ((k : ℝ) * config.delta_t) config.delta_t = (k : ℝ) * config.delta_t + config.delta_t) :
    ∀ k : Nat, k ≤ n → RelativeTimeAt add config k = (k : ℝ) * config.delta_t := by
  intro k
  induction k with
  | zero =>
    intro _
    norm_num [RelativeTimeAt]
  | succ k ih =>
    intro hk
    have hprev := ih (by omega)
    rw [RelativeTimeAt_succ, hprev, hexact k (by omega)]
    push_cast
    ring

/-- Once a rounded sum returns its first argument, the accumulated time stays
where it is. -/
theorem RelativeTimeAt_stalled (add : ℝ → ℝ → ℝ) (config : PredictionConfig) (k : Nat)
    (hstall : add (RelativeTimeAt add config k) config.delta_t = RelativeTimeAt add config k) :
    ∀ m : Nat, RelativeTimeAt add config (k + m) = RelativeTimeAt add config k := by
  intro m
  induction m with
  | zero => rfl
  | succ m ih =>
    have h : k + (m + 1) = (k + m) + 1 := by omega
    rw [h, RelativeTimeAt_succ, ih, hstall]

end CollisionChecker

end planning

/-! ## Sums of `double`s -/

namespace common

theorem binary64_exponent_eq (x : ℝ) (e : ℤ) (hlo : (2 : ℝ) ^ e ≤ |x|)
    (hhi : |x| < (2 : ℝ) ^ (e + 1)) (hsub : -1022 ≤ e) : binary64_exponent x = e := by
  have hpos : 0 < |x| := lt_of_lt_of_le (zpow_pos (by norm_num) e) hlo
  have hfloor : ⌊Real.logb 2 |x|⌋ = e := by
    rw [Int.floor_eq_iff]
    constructor
    · rw [Real.le_logb_iff_rpow_le (by norm_num) hpos, Real.rpow_intCast]
      exact hlo
    · rw [Real.logb_lt_iff_lt_rpow (by norm_num) hpos]
      have : ((e : ℝ) + 1) = ((e + 1 : ℤ) : ℝ) := by push_cast; ring
      rw [this, Real.rpow_intCast]
      exact hhi
  unfold binary64_exponent
  rw [hfloor]
  exact max_eq_left hsub

/-- Rounding a positive real whose scaled value `x / ulp` lies less than half a
unit above the integer `n`: the result is `n * ulp`. -/
theorem binary64_round_down (x : ℝ) (e n : ℤ) (hlo : (2 : ℝ) ^ e ≤ x)
    (hhi : x < (2 : ℝ) ^ (e + 1)) (hsub : -1022 ≤ e)
    (hn : (n : ℝ) ≤ x / (2 : ℝ) ^ (e - 52))
    (hfrac : x / (2 : ℝ) ^ (e - 52) - n < 1 / 2) :
    binary64_round x = n * (2 : ℝ) ^ (e - 52) := by
  have hpos : 0 < x := lt_of_lt_of_le (zpow_pos (by norm_num) e) hlo
  have habs : |x| = x := abs_of_pos hpos
  have hexp := binary64_exponent_eq x e (by rw [habs]; exact hlo) (by rw [habs]; exact hhi) hsub
  have hfloor : ⌊x / (2 : ℝ) ^ (e - 52)⌋ = n := by
    rw [Int.floor_eq_iff]
    exact ⟨hn, by linarith⟩
  simp only [binary64_round, if_neg (ne_of_gt hpos), hexp, roundTiesToEven, hfloor, if_pos hfrac]

/-- Rounding a positive real whose scaled value `x / ulp` lies exactly half a
unit above the integer `n`: the result is the even one of `n * ulp` and
`(n + 1) * ulp`. -/
theorem binary64_round_tie (x : ℝ) (e n : ℤ) (hlo : (2 : ℝ) ^ e ≤ x)
    (hhi : x < (2 : ℝ) ^ (e + 1)) (hsub : -1022 ≤ e)
    (htie : x / (2 : ℝ) ^ (e - 52) = n + 1 / 2) :
    binary64_round x = (if n % 2 = 0 then (n : ℝ) else n + 1) * (2 : ℝ) ^ (e - 52) := by
  have hpos : 0 < x := lt_of_lt_of_le (zpow_pos (by norm_num) e) hlo
  have habs : |x| = x := abs_of_pos hpos
  have hexp := binary64_exponent_eq x e (by rw [habs]; exact hlo) (by rw [habs]; exact hhi) hsub
  have hfloor : ⌊x / (2 : ℝ) ^ (e - 52)⌋ = n := by
    rw [Int.floor_eq_iff, htie]
    constructor <;> linarith
  have h1 : ¬ (x / (2 : ℝ) ^ (e - 52) - n < 1 / 2) := by
    rw [htie]
    norm_num
  have h2 : ¬ (x / (2 : ℝ) ^ (e - 52) - n > 1 / 2) := by
    rw [htie]
    norm_num
  simp only [binary64_round, if_neg (ne_of_gt hpos), hexp, roundTiesToEven, hfloor, if_neg h1,
    if_neg h2]
  split_ifs <;> rfl

/-- The sums `0 + 0.5` and `0.5 + 0.5` of `double`s are exact. -/
theorem binary64_add_half :
    binary64_add 0 (1 / 2) = 1 / 2 ∧ binary64_add (1 / 2) (1 / 2) = 1 := by
  constructor
  · have h := binary64_round_down (1 / 2) (-1) 4503599627370496 (by norm_num) (by norm_num)
      (by norm_num) (by norm_num) (by norm_num)
    simp only [binary64_add, zero_add]
    rw [h]
    norm_num
  · have h := binary64_round_down 1 0 4503599627370496 (by norm_num) (by norm_num)
      (by norm_num) (by norm_num) (by norm_num)
    have hs : (1 / 2 : ℝ) + 1 / 2 = 1 := by norm_num
    simp only [binary64_add, hs]
    rw [h]
    norm_num

end common

/-! ## Collision checker: eleven snapshots for a horizon of 1 s sampled every 0.1 s -/

namespace planning

namespace CollisionChecker

/-- The first eleven sums `relative_time += delta_t` of `double`s for `delta_t`
the `double` nearest to 0.1: after ten of them the accumulated time is
`0.9999999999999999`, still below 1. -/
theorem binary64_add_tenth :
    common.binary64_add (0) (3602879701896397 / 36028797018963968) = 3602879701896397 /
        36028797018963968 ∧
    common.binary64_add (3602879701896397 / 36028797018963968) (3602879701896397 /
        36028797018963968) = 3602879701896397 / 18014398509481984 ∧
    common.binary64_add (3602879701896397 / 18014398509481984) (3602879701896397 /
        36028797018963968) = 1351079888211149 / 4503599627370496 ∧
    common.binary64_add (1351079888211149 / 4503599627370496) (3602879701896397 /
        36028797018963968) = 3602879701896397 / 9007199254740992 ∧
    common.binary64_add (3602879701896397 / 9007199254740992) (3602879701896397 /
        36028797018963968) = 1 / 2 ∧
    common.binary64_add (1 / 2) (3602879701896397 / 36028797018963968) = 5404319552844595 /
        9007199254740992 ∧
    common.binary64_add (5404319552844595 / 9007199254740992) (3602879701896397 /
        36028797018963968) = 3152519739159347 / 4503599627370496 ∧
    common.binary64_add (3152519739159347 / 4503599627370496) (3602879701896397 /
        36028797018963968) = 7205759403792793 / 9007199254740992 ∧
    common.binary64_add (7205759403792793 / 9007199254740992) (3602879701896397 /
        36028797018963968) = 2026619832316723 / 2251799813685248 ∧
    common.binary64_add (2026619832316723 / 2251799813685248) (3602879701896397 /
        36028797018963968) = 9007199254740991 / 9007199254740992 ∧
    common.binary64_add (9007199254740991 / 9007199254740992) (3602879701896397 /
        36028797018963968) = 4953959590107545 / 4503599627370496 := by
  refine ⟨?_, ?_, ?_, ?_, ?_, ?_, ?_, ?_, ?_, ?_, ?_⟩
  · have hs : ((0 : ℝ) + 3602879701896397 / 36028797018963968) = 3602879701896397 /
      36028797018963968 := by norm_num
    have h := common.binary64_round_down (3602879701896397 / 36028797018963968) (-4)
        7205759403792794 (by norm_num) (by norm_num)
      (by norm_num) (by norm_num) (by norm_num)
    simp only [common.binary64_add, hs]
    rw [h]
    norm_num
  · have hs : ((3602879701896397 / 36028797018963968 : ℝ) + 3602879701896397 / 36028797018963968)
      = 3602879701896397 / 18014398509481984 := by norm_num
    have h := common.binary64_round_down (3602879701896397 / 18014398509481984) (-3)
        7205759403792794 (by norm_num) (by norm_num)
      (by norm_num) (by norm_num) (by norm_num)
    simp only [common.binary64_add, hs]
    rw [h]
    norm_num
  · have hs : ((3602879701896397 / 18014398509481984 : ℝ) + 3602879701896397 / 36028797018963968)
      = 10808639105689191 / 36028797018963968 := by norm_num
    have h := common.binary64_round_tie (10808639105689191 / 36028797018963968) (-2)
        5404319552844595 (by norm_num) (by norm_num)
      (by norm_num) (by norm_num)
    simp only [common.binary64_add, hs]
    rw [h]
    norm_num
  · have hs : ((1351079888211149 / 4503599627370496 : ℝ) + 3602879701896397 / 36028797018963968) =
      14411518807585589 / 36028797018963968 := by norm_num
    have h := common.binary64_round_tie (14411518807585589 / 36028797018963968) (-2)
        7205759403792794 (by norm_num) (by norm_num)
      (by norm_num) (by norm_num)
    simp only [common.binary64_add, hs]
    rw [h]
    norm_num
  · have hs : ((3602879701896397 / 9007199254740992 : ℝ) + 3602879701896397 / 36028797018963968) =
      18014398509481985 / 36028797018963968 := by norm_num
    have h := common.binary64_round_down (18014398509481985 / 36028797018963968) (-1)
        4503599627370496 (by norm_num) (by norm_num)
      (by norm_num) (by norm_num) (by norm_num)
    simp only [common.binary64_add, hs]
    rw [h]
    norm_num
  · have hs : ((1 / 2 : ℝ) + 3602879701896397 / 36028797018963968) = 21617278211378381 /
      36028797018963968 := by norm_num
    have h := common.binary64_round_down (21617278211378381 / 36028797018963968) (-1)
        5404319552844595 (by norm_num) (by norm_num)
      (by norm_num) (by norm_num) (by norm_num)
    simp only [common.binary64_add, hs]
    rw [h]
    norm_num
  · have hs : ((5404319552844595 / 9007199254740992 : ℝ) + 3602879701896397 / 36028797018963968) =
      25220157913274777 / 36028797018963968 := by norm_num
    have h := common.binary64_round_down (25220157913274777 / 36028797018963968) (-1)
        6305039478318694 (by norm_num) (by norm_num)
      (by norm_num) (by norm_num) (by norm_num)
    simp only [common.binary64_add, hs]
    rw [h]
    norm_num
  · have hs : ((3152519739159347 / 4503599627370496 : ℝ) + 3602879701896397 / 36028797018963968) =
      28823037615171173 / 36028797018963968 := by norm_num
    have h := common.binary64_round_down (28823037615171173 / 36028797018963968) (-1)
        7205759403792793 (by norm_num) (by norm_num)
      (by norm_num) (by norm_num) (by norm_num)
    simp only [common.binary64_add, hs]
    rw [h]
    norm_num
  · have hs : ((7205759403792793 / 9007199254740992 : ℝ) + 3602879701896397 / 36028797018963968) =
      32425917317067569 / 36028797018963968 := by norm_num
    have h := common.binary64_round_down (32425917317067569 / 36028797018963968) (-1)
        8106479329266892 (by norm_num) (by norm_num)
      (by norm_num) (by norm_num) (by norm_num)
    simp only [common.binary64_add, hs]
    rw [h]
    norm_num
  · have hs : ((2026619832316723 / 2251799813685248 : ℝ) + 3602879701896397 / 36028797018963968) =
      36028797018963965 / 36028797018963968 := by norm_num
    have h := common.binary64_round_down (36028797018963965 / 36028797018963968) (-1)
        9007199254740991 (by norm_num) (by norm_num)
      (by norm_num) (by norm_num) (by norm_num)
    simp only [common.binary64_add, hs]
    rw [h]
    norm_num
  · have hs : ((9007199254740991 / 9007199254740992 : ℝ) + 3602879701896397 / 36028797018963968) =
      39631676720860361 / 36028797018963968 := by norm_num
    have h := common.binary64_round_down (39631676720860361 / 36028797018963968) (0)
        4953959590107545 (by norm_num) (by norm_num)
      (by norm_num) (by norm_num) (by norm_num)
    simp only [common.binary64_add, hs]
    rw [h]
    norm_num

/-- The accumulated time of `Init` for `delta_t` the `double` nearest to 0.1 and
a horizon of 1 s: the first eleven values are below 1 (the eleventh is
`0.9999999999999999`), the twelfth is not. -/
theorem RelativeTimeAt_tenth :
    (∀ k : Nat, k < 11 →
      RelativeTimeAt common.binary64_add Scenario.tenthConfig k
        < Scenario.tenthConfig.max_lookahead_time) ∧
    RelativeTimeAt common.binary64_add Scenario.tenthConfig 10 = 9007199254740991 /
        9007199254740992 ∧
    ¬ (RelativeTimeAt common.binary64_add Scenario.tenthConfig 11
        < Scenario.tenthConfig.max_lookahead_time) := by
  obtain ⟨a0, a1, a2, a3, a4, a5, a6, a7, a8, a9, a10⟩ := binary64_add_tenth
  have hstep : ∀ k : Nat, RelativeTimeAt common.binary64_add Scenario.tenthConfig (k + 1)
      = common.binary64_add (RelativeTimeAt common.binary64_add Scenario.tenthConfig k)
          (3602879701896397 / 36028797018963968) := by
    intro k
    rw [RelativeTimeAt_succ]
    rfl
  have h0 : RelativeTimeAt common.binary64_add Scenario.tenthConfig 0 = 0 := by
    norm_num [RelativeTimeAt]
  have h1 : RelativeTimeAt common.binary64_add Scenario.tenthConfig 1 = 3602879701896397 /
      36028797018963968 := by
    rw [hstep, h0]
    exact a0
  have h2 : RelativeTimeAt common.binary64_add Scenario.tenthConfig 2 = 3602879701896397 /
      18014398509481984 := by
    rw [hstep, h1]
    exact a1
  have h3 : RelativeTimeAt common.binary64_add Scenario.tenthConfig 3 = 1351079888211149 /
      4503599627370496 := by
    rw [hstep, h2]
    exact a2
  have h4 : RelativeTimeAt common.binary64_add Scenario.tenthConfig 4 = 3602879701896397 /
      9007199254740992 := by
    rw [hstep, h3]
    exact a3
  have h5 : RelativeTimeAt common.binary64_add Scenario.tenthConfig 5 = 1 / 2 := by
    rw [hstep, h4]
    exact a4
  have h6 : RelativeTimeAt common.binary64_add Scenario.tenthConfig 6 = 5404319552844595 /
      9007199254740992 := by
    rw [hstep, h5]
    exact a5
  have h7 : RelativeTimeAt common.binary64_add Scenario.tenthConfig 7 = 3152519739159347 /
      4503599627370496 := by
    rw [hstep, h6]
    exact a6
  have h8 : RelativeTimeAt common.binary64_add Scenario.tenthConfig 8 = 7205759403792793 /
      9007199254740992 := by
    rw [hstep, h7]
    exact a7
  have h9 : RelativeTimeAt common.binary64_add Scenario.tenthConfig 9 = 2026619832316723 /
      2251799813685248 := by
    rw [hstep, h8]
    exact a8
  have h10 : RelativeTimeAt common.binary64_add Scenario.tenthConfig 10 = 9007199254740991 /
      9007199254740992 := by
    rw [hstep, h9]
    exact a9
  have h11 : RelativeTimeAt common.binary64_add Scenario.tenthConfig 11 = 4953959590107545 /
      4503599627370496 := by
    rw [hstep, h10]
    exact a10
  have hmax : Scenario.tenthConfig.max_lookahead_time = 1 := rfl
  refine ⟨?_, h10, ?_⟩
  · intro k hk
    rw [hmax]
    interval_cases k
    · rw [h0]
      norm_num
    · rw [h1]
      norm_num
    · rw [h2]
      norm_num
    · rw [h3]
      norm_num
    · rw [h4]
      norm_num
    · rw [h5]
      norm_num
    · rw [h6]
      norm_num
    · rw [h7]
      norm_num
    · rw [h8]
      norm_num
    · rw [h9]
      norm_num
    · rw [h10]
      norm_num
  · rw [hmax, h11]
    norm_num

end CollisionChecker

end planning

/-! ## Collision checker: the snapshots of `Init` -/

namespace planning

namespace CollisionChecker

/-- One snapshot: for every kept obstacle, in order, its bounding box at
`relative_time`, the width extended by `2 * lat_safety_buffer` and the length by
`2 * lon_safety_buffer`. -/
theorem PredictedEnv_boxes (config : PredictionConfig)
    (considered : List (Int × PredictedObstacle)) (relative_time : ℝ) :
    PredictedEnv config (considered.map Prod.snd) relative_time
      = considered.map (fun entry =>
          { entry.2.GetBoundingBoxAtPoint (entry.2.GetPointAtTime relative_time) with
            width := (entry.2.GetBoundingBoxAtPoint
              (entry.2.GetPointAtTime relative_time)).width + 2 * config.lat_safety_buffer
            length := (entry.2.GetBoundingBoxAtPoint
              (entry.2.GetPointAtTime relative_time)).length
                + 2 * config.lon_safety_buffer }) := by
  have h2 : (2.0 : ℝ) = 2 := by norm_num
  simp [PredictedEnv, Box2d.LateralExtend, Box2d.LongitudinalExtend, h2]

/-- When `t_n` is the first accumulated time of `Init` that is not below
`max_lookahead_time`, every count of more than `n` loop tests gives the same
`n` snapshots, no count gives another result, and snapshot `k` holds the boxes
of the kept obstacles at time `t_k`. -/
theorem Init_at_first_stop (add : ℝ → ℝ → ℝ) (config : PredictionConfig)
    (ptr_ref_line_ : LaneGeometry)
    (IsObstacleInGraph : Int → Bool) (obstacles : List (Int × PredictedObstacle))
    (ego_vehicle_s ego_vehicle_d : ℝ) (reference_line : LaneGeometry) (n : Nat)
    (hbelow : ∀ k : Nat, k < n → RelativeTimeAt add config k < config.max_lookahead_time)
    (hstop : ¬ (RelativeTimeAt add config n < config.max_lookahead_time)) :
    ∃ snapshots : List (List Box2d),
      (∀ fuel : Nat, n < fuel →
        Init add fuel config ptr_ref_line_ IsObstacleInGraph obstacles ego_vehicle_s
          ego_vehicle_d reference_line = some snapshots) ∧
      (∀ (fuel : Nat) (r : List (List Box2d)),
        Init add fuel config ptr_ref_line_ IsObstacleInGraph obstacles ego_vehicle_s
          ego_vehicle_d reference_line = some r → r = snapshots) ∧
      snapshots.length = n ∧
      (∀ k : Nat, k < n →
        snapshots[k]? = some ((ObstacleConsidered ptr_ref_line_ IsObstacleInGraph obstacles
          ego_vehicle_s ego_vehicle_d reference_line).map (fun entry =>
            { entry.2.GetBoundingBoxAtPoint
                (entry.2.GetPointAtTime (RelativeTimeAt add config k)) with
              width := (entry.2.GetBoundingBoxAtPoint
                (entry.2.GetPointAtTime (RelativeTimeAt add config k))).width
                  + 2 * config.lat_safety_buffer
              length := (entry.2.GetBoundingBoxAtPoint
                (entry.2.GetPointAtTime (RelativeTimeAt add config k))).length
                  + 2 * config.lon_safety_buffer }))) := by
  have hrun := fun fuel hfuel => InitLoop_from_zero add config
    ((ObstacleConsidered ptr_ref_line_ IsObstacleInGraph obstacles ego_vehicle_s
      ego_vehicle_d reference_line).map Prod.snd) n hbelow hstop fuel hfuel
  refine ⟨(List.range n).map (fun k : Nat =>
      PredictedEnv config ((ObstacleConsidered ptr_ref_line_ IsObstacleInGraph obstacles
        ego_vehicle_s ego_vehicle_d reference_line).map Prod.snd)
        (RelativeTimeAt add config k)), ?_, ?_, ?_, ?_⟩
  · intro fuel hfuel
    exact hrun fuel hfuel
  · intro fuel r hr
    exact InitLoop_result_unique _ _ _ _ _ _ _ _ _ hr (hrun _ (Nat.lt_succ_self _))
  · rw [List.length_map, List.length_range]
  · intro k hk
    rw [List.getElem?_map, List.getElem?_range hk]
    simp only [Option.map, PredictedEnv_boxes]

/-- C23, amended: `Init` takes its snapshots at the accumulated times
`t_0 = 0.0`, `t_(k+1) = t_k + delta_t` (a sum of `double`s, rounded), as long as
`t_k < max_lookahead_time`.  When `t_n` is the first accumulated time that is
not below `max_lookahead_time`, `Init` terminates (every count of more than `n`
loop tests gives the same result, and no count gives another one) with exactly
`n` snapshots, snapshot `k` holding exactly one box per kept obstacle, in
order: the obstacle's bounding box at time `t_k` with its width extended by
`2 * lat_safety_buffer` and its length by `2 * lon_safety_buffer`.  When every
accumulated time is below `max_lookahead_time`, `Init` does not return; so it
is when a rounded sum `t_k + delta_t` gives `t_k` again below
`max_lookahead_time`.  When
`delta_t > 0` and the sums are exact, `t_k = k * delta_t`, `Init` terminates and
the snapshots are those of the `k` with `k * delta_t < max_lookahead_time`,
strictly. -/
theorem Init_snapshots (add : ℝ → ℝ → ℝ) (config : PredictionConfig)
    (ptr_ref_line_ : LaneGeometry)
    (IsObstacleInGraph : Int → Bool) (obstacles : List (Int × PredictedObstacle))
    (ego_vehicle_s ego_vehicle_d : ℝ) (reference_line : LaneGeometry) :
    (∀ n : Nat,
      (∀ k : Nat, k < n → RelativeTimeAt add config k < config.max_lookahead_time) →
      ¬ (RelativeTimeAt add config n < config.max_lookahead_time) →
      ∃ snapshots : List (List Box2d),
        (∀ fuel : Nat, n < fuel →
          Init add fuel config ptr_ref_line_ IsObstacleInGraph obstacles ego_vehicle_s
            ego_vehicle_d reference_line = some snapshots) ∧
        (∀ (fuel : Nat) (r : List (List Box2d)),
          Init add fuel config ptr_ref_line_ IsObstacleInGraph obstacles ego_vehicle_s
            ego_vehicle_d reference_line = some r → r = snapshots) ∧
        snapshots.length = n ∧
        (∀ k : Nat, k < n →
          snapshots[k]? = some ((ObstacleConsidered ptr_ref_line_ IsObstacleInGraph obstacles
            ego_vehicle_s ego_vehicle_d reference_line).map (fun entry =>
              { entry.2.GetBoundingBoxAtPoint
                  (entry.2.GetPointAtTime (RelativeTimeAt add config k)) with
                width := (entry.2.GetBoundingBoxAtPoint
                  (entry.2.GetPointAtTime (RelativeTimeAt add config k))).width
                    + 2 * config.lat_safety_buffer
                length := (entry.2.GetBoundingBoxAtPoint
                  (entry.2.GetPointAtTime (RelativeTimeAt add config k))).length
                    + 2 * config.lon_safety_buffer })))) ∧
    ((∀ k : Nat, RelativeTimeAt add config k < config.max_lookahead_time) →
      ∀ fuel : Nat,
        Init add fuel config ptr_ref_line_ IsObstacleInGraph obstacles ego_vehicle_s
          ego_vehicle_d reference_line = none) ∧
    (∀ k : Nat, (∀ j : Nat, j ≤ k → RelativeTimeAt add config j < config.max_lookahead_time) →
      add (RelativeTimeAt add config k) config.delta_t = RelativeTimeAt add config k →
      ∀ fuel : Nat,
        Init add fuel config ptr_ref_line_ IsObstacleInGraph obstacles ego_vehicle_s
          ego_vehicle_d reference_line = none) ∧
    (0 < config.delta_t →
      (∀ k : Nat, (k : ℝ) * config.delta_t < config.max_lookahead_time →
        add ((k : ℝ) * config.delta_t) config.delta_t
          = (k : ℝ) * config.delta_t + config.delta_t) →
      ∃ snapshots : List (List Box2d),
        (∃ fuel0 : Nat, ∀ fuel : Nat, fuel0 ≤ fuel →
          Init add fuel config ptr_ref_line_ IsObstacleInGraph obstacles ego_vehicle_s
            ego_vehicle_d reference_line = some snapshots) ∧
        (∀ k : Nat, k < snapshots.length ↔
          (k : ℝ) * config.delta_t < config.max_lookahead_time) ∧
        (∀ k : Nat, k < snapshots.length →
          snapshots[k]? = some ((ObstacleConsidered ptr_ref_line_ IsObstacleInGraph obstacles
            ego_vehicle_s ego_vehicle_d reference_line).map (fun entry =>
              { entry.2.GetBoundingBoxAtPoint
                  (entry.2.GetPointAtTime ((k : ℝ) * config.delta_t)) with
                width := (entry.2.GetBoundingBoxAtPoint
                  (entry.2.GetPointAtTime ((k : ℝ) * config.delta_t))).width
                    + 2 * config.lat_safety_buffer
                length := (entry.2.GetBoundingBoxAtPoint
                  (entry.2.GetPointAtTime ((k : ℝ) * config.delta_t))).length
                    + 2 * config.lon_safety_buffer })))) := by
  have hfirst := Init_at_first_stop add config ptr_ref_line_ IsObstacleInGraph obstacles
    ego_vehicle_s ego_vehicle_d reference_line
  have hnever : (∀ k : Nat, RelativeTimeAt add config k < config.max_lookahead_time) →
      ∀ fuel : Nat,
        Init add fuel config ptr_ref_line_ IsObstacleInGraph obstacles ego_vehicle_s
          ego_vehicle_d reference_line = none := by
    intro hall fuel
    exact InitLoop_never_returns add config _ fuel _ _ (by
      intro k
      have := hall k
      simpa [RelativeTimeAt] using this)
  refine ⟨hfirst, hnever, ?_, ?_⟩
  · intro k hbelow hstall
    apply hnever
    intro j
    by_cases hj : j ≤ k
    · exact hbelow j hj
    · obtain ⟨m, rfl⟩ : ∃ m, j = k + m := ⟨j - k, by omega⟩
      rw [RelativeTimeAt_stalled add config k hstall m]
      exact hbelow k (le_refl _)
  · intro hdt hexact
    have htime := RelativeTimeAt_exact add config ⌈config.max_lookahead_time / config.delta_t⌉₊
      (fun k hk => hexact k ((InitLoop_count config hdt k).mp hk))
    obtain ⟨snapshots, hrun, -, hlen, hbox⟩ :=
      hfirst ⌈config.max_lookahead_time / config.delta_t⌉₊
        (by
          intro k hk
          rw [htime k (le_of_lt hk)]
          exact (InitLoop_count config hdt k).mp hk)
        (by
          rw [htime _ (le_refl _)]
          intro hlt
          exact absurd ((InitLoop_count config hdt _).mpr hlt) (lt_irrefl _))
    refine ⟨snapshots, ⟨_, fun fuel hfuel => hrun fuel (Nat.lt_of_succ_le hfuel)⟩, ?_, ?_⟩
    · intro k
      rw [hlen]
      exact InitLoop_count config hdt k
    · intro k hk
      rw [hlen] at hk
      rw [hbox k hk, htime k (le_of_lt hk)]

end CollisionChecker

end planning

/-! ## Collision checker: a horizon of 1 s sampled every 0.5 s -/

namespace planning

namespace CollisionChecker

/-- The accumulated time of `Init` on a horizon of 1 s sampled every 0.5 s: the
sums of `double`s `0 + 0.5` and `0.5 + 0.5` are exact. -/
theorem RelativeTimeAt_half :
    RelativeTimeAt common.binary64_add Scenario.predictionConfig 0 = 0 ∧
    RelativeTimeAt common.binary64_add Scenario.predictionConfig 1 = 1 / 2 ∧
    RelativeTimeAt common.binary64_add Scenario.predictionConfig 2 = 1 := by
  have hstep : ∀ k : Nat, RelativeTimeAt common.binary64_add Scenario.predictionConfig (k + 1)
      = common.binary64_add (RelativeTimeAt common.binary64_add Scenario.predictionConfig k)
          (1 / 2) := by
    intro k
    rw [RelativeTimeAt_succ]
    rfl
  have h0 : RelativeTimeAt common.binary64_add Scenario.predictionConfig 0 = 0 := by
    norm_num [RelativeTimeAt]
  have h1 : RelativeTimeAt common.binary64_add Scenario.predictionConfig 1 = 1 / 2 := by
    rw [hstep, h0]
    exact common.binary64_add_half.1
  have h2 : RelativeTimeAt common.binary64_add Scenario.predictionConfig 2 = 1 := by
    rw [hstep, h1]
    exact common.binary64_add_half.2
  exact ⟨h0, h1, h2⟩

theorem predictionConfig_first_stop :
    (∀ k : Nat, k < 2 → RelativeTimeAt common.binary64_add Scenario.predictionConfig k
      < Scenario.predictionConfig.max_lookahead_time) ∧
    ¬ (RelativeTimeAt common.binary64_add Scenario.predictionConfig 2
      < Scenario.predictionConfig.max_lookahead_time) := by
  obtain ⟨h0, h1, h2⟩ := RelativeTimeAt_half
  have hmax : Scenario.predictionConfig.max_lookahead_time = 1 := rfl
  constructor
  · intro k hk
    rw [hmax]
    interval_cases k
    · rw [h0]
      norm_num
    · rw [h1]
      norm_num
  · rw [hmax, h2]
    norm_num

theorem predictionConfig_exact (k : Nat)
    (hk : (k : ℝ) * Scenario.predictionConfig.delta_t
      < Scenario.predictionConfig.max_lookahead_time) :
    common.binary64_add ((k : ℝ) * Scenario.predictionConfig.delta_t)
        Scenario.predictionConfig.delta_t
      = (k : ℝ) * Scenario.predictionConfig.delta_t + Scenario.predictionConfig.delta_t := by
  have hdt : Scenario.predictionConfig.delta_t = 1 / 2 := rfl
  have hmax : Scenario.predictionConfig.max_lookahead_time = 1 := rfl
  rw [hdt, hmax] at hk
  rw [hdt]
  have hk2 : k < 2 := by
    have : (k : ℝ) < 2 := by linarith
    exact_mod_cast this
  interval_cases k
  · have := common.binary64_add_half.1
    norm_num at this ⊢
    exact this
  · have := common.binary64_add_half.2
    norm_num at this ⊢
    exact this

/-- C23 on a 1 s horizon sampled every 0.5 s with one obstacle, where the sums
of `double`s are exact: the third accumulated time is the first that is not
below the horizon, and `Init` terminates with the two snapshots of `t = 0` and
`t = 0.5`; with `delta_t = 0` the sum `0 + 0` gives `0` again and `Init` does
not return. -/
theorem Init_snapshots_witness :
    (((∀ k : Nat, k < 2 → RelativeTimeAt common.binary64_add Scenario.predictionConfig k
          < Scenario.predictionConfig.max_lookahead_time) ∧
        ¬ (RelativeTimeAt common.binary64_add Scenario.predictionConfig 2
          < Scenario.predictionConfig.max_lookahead_time)) ∧
      ∃ snapshots : List (List Box2d),
        (∀ fuel : Nat, 2 < fuel →
          Init common.binary64_add fuel Scenario.predictionConfig Scenario.laneGeometry
            (fun _ => true) [(7, Scenario.movingObstacle)] 0 0 Scenario.laneGeometry
              = some snapshots) ∧
        (∀ (fuel : Nat) (r : List (List Box2d)),
          Init common.binary64_add fuel Scenario.predictionConfig Scenario.laneGeometry
            (fun _ => true) [(7, Scenario.movingObstacle)] 0 0 Scenario.laneGeometry
              = some r → r = snapshots) ∧
        snapshots.length = 2 ∧
        (∀ k : Nat, k < 2 →
          snapshots[k]? = some ((ObstacleConsidered Scenario.laneGeometry (fun _ => true)
            [(7, Scenario.movingObstacle)] 0 0 Scenario.laneGeometry).map (fun entry =>
              { entry.2.GetBoundingBoxAtPoint (entry.2.GetPointAtTime
                  (RelativeTimeAt common.binary64_add Scenario.predictionConfig k)) with
                width := (entry.2.GetBoundingBoxAtPoint (entry.2.GetPointAtTime
                  (RelativeTimeAt common.binary64_add Scenario.predictionConfig k))).width
                    + 2 * Scenario.predictionConfig.lat_safety_buffer
                length := (entry.2.GetBoundingBoxAtPoint (entry.2.GetPointAtTime
                  (RelativeTimeAt common.binary64_add Scenario.predictionConfig k))).length
                    + 2 * Scenario.predictionConfig.lon_safety_buffer })))) ∧
    (0 < Scenario.predictionConfig.delta_t ∧
      (∀ k : Nat, (k : ℝ) * Scenario.predictionConfig.delta_t
          < Scenario.predictionConfig.max_lookahead_time →
        common.binary64_add ((k : ℝ) * Scenario.predictionConfig.delta_t)
            Scenario.predictionConfig.delta_t
          = (k : ℝ) * Scenario.predictionConfig.delta_t + Scenario.predictionConfig.delta_t) ∧
      ∃ snapshots : List (List Box2d),
        (∃ fuel0 : Nat, ∀ fuel : Nat, fuel0 ≤ fuel →
          Init common.binary64_add fuel Scenario.predictionConfig Scenario.laneGeometry
            (fun _ => true) [(7, Scenario.movingObstacle)] 0 0 Scenario.laneGeometry
              = some snapshots) ∧
        (∀ k : Nat, k < snapshots.length ↔
          (k : ℝ) * Scenario.predictionConfig.delta_t
            < Scenario.predictionConfig.max_lookahead_time) ∧
        (∀ k : Nat, k < snapshots.length →
          snapshots[k]? = some ((ObstacleConsidered Scenario.laneGeometry (fun _ => true)
            [(7, Scenario.movingObstacle)] 0 0 Scenario.laneGeometry).map (fun entry =>
              { entry.2.GetBoundingBoxAtPoint
                  (entry.2.GetPointAtTime ((k : ℝ) * Scenario.predictionConfig.delta_t)) with
                width := (entry.2.GetBoundingBoxAtPoint
                  (entry.2.GetPointAtTime
                    ((k : ℝ) * Scenario.predictionConfig.delta_t))).width
                    + 2 * Scenario.predictionConfig.lat_safety_buffer
                length := (entry.2.GetBoundingBoxAtPoint
                  (entry.2.GetPointAtTime
                    ((k : ℝ) * Scenario.predictionConfig.delta_t))).length
                    + 2 * Scenario.predictionConfig.lon_safety_buffer })))) ∧
    ((∀ k : Nat, RelativeTimeAt common.binary64_add
        { Scenario.predictionConfig with delta_t := 0 } k
          < Scenario.predictionConfig.max_lookahead_time) ∧
      ∀ fuel : Nat,
        Init common.binary64_add fuel { Scenario.predictionConfig with delta_t := 0 }
          Scenario.laneGeometry (fun _ => true) [(7, Scenario.movingObstacle)] 0 0
          Scenario.laneGeometry = none) ∧
    ((∀ j : Nat, j ≤ 0 → RelativeTimeAt common.binary64_add
        { Scenario.predictionConfig with delta_t := 0 } j
          < Scenario.predictionConfig.max_lookahead_time) ∧
      common.binary64_add (RelativeTimeAt common.binary64_add
          { Scenario.predictionConfig with delta_t := 0 } 0) 0
        = RelativeTimeAt common.binary64_add { Scenario.predictionConfig with delta_t := 0 } 0 ∧
      ∀ fuel : Nat,
        Init common.binary64_add fuel { Scenario.predictionConfig with delta_t := 0 }
          Scenario.laneGeometry (fun _ => true) [(7, Scenario.movingObstacle)] 0 0
          Scenario.laneGeometry = none) := by
  have hdt : 0 < Scenario.predictionConfig.delta_t := by norm_num [Scenario.predictionConfig]
  have hzero : ∀ k : Nat, RelativeTimeAt common.binary64_add
      { Scenario.predictionConfig with delta_t := 0 } k = 0 := by
    intro k
    induction k with
    | zero => norm_num [RelativeTimeAt]
    | succ k ih =>
      rw [RelativeTimeAt_succ, ih]
      simp [common.binary64_add, common.binary64_round]
  have hfrozen : ∀ k : Nat, RelativeTimeAt common.binary64_add
      { Scenario.predictionConfig with delta_t := 0 } k
        < Scenario.predictionConfig.max_lookahead_time := by
    intro k
    rw [hzero]
    norm_num [Scenario.predictionConfig]
  have hstall : common.binary64_add (RelativeTimeAt common.binary64_add
        { Scenario.predictionConfig with delta_t := 0 } 0) 0
      = RelativeTimeAt common.binary64_add { Scenario.predictionConfig with delta_t := 0 } 0 := by
    rw [hzero]
    simp [common.binary64_add, common.binary64_round]
  exact ⟨⟨predictionConfig_first_stop,
      (Init_snapshots common.binary64_add Scenario.predictionConfig Scenario.laneGeometry
        (fun _ => true) [(7, Scenario.movingObstacle)] 0 0 Scenario.laneGeometry).1 2
        predictionConfig_first_stop.1 predictionConfig_first_stop.2⟩,
    ⟨hdt, predictionConfig_exact,
      (Init_snapshots common.binary64_add Scenario.predictionConfig Scenario.laneGeometry
        (fun _ => true) [(7, Scenario.movingObstacle)] 0 0 Scenario.laneGeometry).2.2.2 hdt
        predictionConfig_exact⟩,
    ⟨hfrozen,
      (Init_snapshots common.binary64_add { Scenario.predictionConfig with delta_t := 0 }
        Scenario.laneGeometry (fun _ => true) [(7, Scenario.movingObstacle)] 0 0
        Scenario.laneGeometry).2.1 hfrozen⟩,
    ⟨fun j _ => hfrozen j, hstall,
      (Init_snapshots common.binary64_add { Scenario.predictionConfig with delta_t := 0 }
        Scenario.laneGeometry (fun _ => true) [(7, Scenario.movingObstacle)] 0 0
        Scenario.laneGeometry).2.2.1 0 (fun j _ => hfrozen j) hstall⟩⟩

/-- The result of `Init` on a 1 s horizon sampled every 0.5 s with the obstacle
`Scenario.movingObstacle`: two snapshots, with the obstacle at `x = 10` and at
`x = 11`. -/
theorem Init_on_movingObstacle (fuel : Nat) (hfuel : 2 < fuel) :
    Init common.binary64_add fuel Scenario.predictionConfig Scenario.laneGeometry (fun _ => true)
        [(7, Scenario.movingObstacle)] 0 0 Scenario.laneGeometry
      = some [[{ center_x := 10, center_y := 0, heading := 0, length := 6, width := 3 }],
              [{ center_x := 11, center_y := 0, heading := 0, length := 6, width := 3 }]] := by
  obtain ⟨h0, h1, -⟩ := RelativeTimeAt_half
  have hrun := InitLoop_from_zero common.binary64_add Scenario.predictionConfig
    ((ObstacleConsidered Scenario.laneGeometry (fun _ => true)
      [(7, Scenario.movingObstacle)] 0 0 Scenario.laneGeometry).map Prod.snd) 2
    predictionConfig_first_stop.1 predictionConfig_first_stop.2 fuel hfuel
  simp only [Init]
  rw [hrun]
  have hr : List.range 2 = [0, 1] := rfl
  rw [hr, List.map_cons, List.map_cons, List.map_nil, h0, h1]
  norm_num [PredictedEnv, ObstacleConsidered, IsEgoVehicleInLane,
    IsObstacleBehindEgoVehicle, Scenario.predictionConfig, Scenario.laneGeometry,
    Scenario.movingObstacle, Box2d.LateralExtend, Box2d.LongitudinalExtend]

/-- C23 as stated fails on a 1 s horizon sampled every 0.5 s, where the sums of
`double`s are exact: `Init` returns, and whatever it returns has exactly two
snapshots (for `t = 0` and `t = 0.5`), although `k = 2` satisfies
`k * delta_t ≤ max_lookahead_time`. -/
theorem Init_stops_before_horizon :
    (∃ (fuel : Nat) (snapshots : List (List Box2d)),
      Init common.binary64_add fuel Scenario.predictionConfig Scenario.laneGeometry
        (fun _ => true) [(7, Scenario.movingObstacle)] 0 0 Scenario.laneGeometry
          = some snapshots) ∧
    (∀ (fuel : Nat) (snapshots : List (List Box2d)),
      Init common.binary64_add fuel Scenario.predictionConfig Scenario.laneGeometry
        (fun _ => true) [(7, Scenario.movingObstacle)] 0 0 Scenario.laneGeometry
          = some snapshots →
      snapshots.length = 2) ∧
    ((2 : Nat) : ℝ) * Scenario.predictionConfig.delta_t
      ≤ Scenario.predictionConfig.max_lookahead_time := by
  refine ⟨⟨3, _, Init_on_movingObstacle 3 (by norm_num)⟩, ?_, ?_⟩
  · intro fuel snapshots h
    have h3 := Init_on_movingObstacle 3 (by norm_num)
    simp only [Init] at h h3
    have := InitLoop_result_unique _ _ _ _ _ _ _ _ _ h h3
    rw [this]
    rfl
  · norm_num [Scenario.predictionConfig]

/-- On a horizon of 1 s sampled every 0.1 s (`delta_t` the `double` nearest to
0.1) `Init` builds eleven snapshots, not ten: ten rounded sums give
`0.9999999999999999 < 1`, so the loop runs once more, although
`10 * delta_t > 1`. -/
theorem Init_eleven_snapshots :
    (∃ (fuel : Nat) (snapshots : List (List Box2d)),
      Init common.binary64_add fuel Scenario.tenthConfig Scenario.laneGeometry
        (fun _ => true) [(7, Scenario.movingObstacle)] 0 0 Scenario.laneGeometry
          = some snapshots) ∧
    (∀ (fuel : Nat) (snapshots : List (List Box2d)),
      Init common.binary64_add fuel Scenario.tenthConfig Scenario.laneGeometry
        (fun _ => true) [(7, Scenario.movingObstacle)] 0 0 Scenario.laneGeometry
          = some snapshots →
      snapshots.length = 11) ∧
    ((10 : Nat) : ℝ) * Scenario.tenthConfig.delta_t > Scenario.tenthConfig.max_lookahead_time := by
  obtain ⟨hbelow, -, hstop⟩ := RelativeTimeAt_tenth
  obtain ⟨snapshots, hrun, huniq, hlen, -⟩ :=
    Init_at_first_stop common.binary64_add Scenario.tenthConfig Scenario.laneGeometry
      (fun _ => true) [(7, Scenario.movingObstacle)] 0 0 Scenario.laneGeometry 11
      hbelow hstop
  refine ⟨⟨12, snapshots, hrun 12 (by norm_num)⟩, ?_, ?_⟩
  · intro fuel r hr
    rw [huniq fuel r hr, hlen]
  · norm_num [Scenario.tenthConfig]

end CollisionChecker

end planning

/-! ## Collision checker: the reads of `predicted_obstacle_box_` -/

namespace planning

namespace CollisionChecker

/-- C32, amended: when `t_n` is the first accumulated time of `Init` that is not
below `max_lookahead_time` (`t_0 = 0.0`, `t_(k+1) = t_k + delta_t` in `double`
arithmetic), `Init` builds `n` snapshots.  On a trajectory whose points all have
an accumulated time below `max_lookahead_time` (point `k` at `t_k`), every read
`predicted_obstacle_box_[i]` of `IsCollision` is within these snapshots and the
call returns a verdict; in general a read is out of range exactly when the
trajectory has more points than there are snapshots and none of its points that
have a snapshot overlaps a box of it. -/
theorem IsCollision_reads_in_range (add : ℝ → ℝ → ℝ) (config : PredictionConfig)
    (ptr_ref_line_ : LaneGeometry)
    (IsObstacleInGraph : Int → Bool) (obstacles : List (Int × PredictedObstacle))
    (ego_vehicle_s ego_vehicle_d : ℝ) (reference_line : LaneGeometry) (n : Nat)
    (hbelow : ∀ k : Nat, k < n → RelativeTimeAt add config k < config.max_lookahead_time)
    (hstop : ¬ (RelativeTimeAt add config n < config.max_lookahead_time)) :
    ∃ snapshots : List (List Box2d),
      (∀ fuel : Nat, n < fuel →
        Init add fuel config ptr_ref_line_ IsObstacleInGraph obstacles ego_vehicle_s
          ego_vehicle_d reference_line = some snapshots) ∧
      snapshots.length = n ∧
      ∀ (HasOverlapWithBox2d : Box2d → Box2d → Bool) (vehicle_params : VehicleParams)
        (trajectory_points : List TrajectoryPoint),
        ((∀ k : Nat, k < trajectory_points.length →
            RelativeTimeAt add config k < config.max_lookahead_time) →
          ∃ b, IsCollision HasOverlapWithBox2d vehicle_params snapshots trajectory_points
            = some b) ∧
        (IsCollision HasOverlapWithBox2d vehicle_params snapshots trajectory_points = none ↔
          snapshots.length < trajectory_points.length ∧
          ∀ (k : Nat) (p : TrajectoryPoint) (boxes : List Box2d), k < snapshots.length →
            trajectory_points[k]? = some p → snapshots[k]? = some boxes →
            ∀ ob ∈ boxes, HasOverlapWithBox2d (EgoBoxSpec vehicle_params p) ob = false) := by
  obtain ⟨snapshots, hrun, -, hlen, -⟩ := Init_at_first_stop add config ptr_ref_line_
    IsObstacleInGraph obstacles ego_vehicle_s ego_vehicle_d reference_line n hbelow hstop
  refine ⟨snapshots, hrun, hlen, ?_⟩
  intro H vp traj
  constructor
  · intro hall
    have hle : traj.length ≤ snapshots.length := by
      rw [hlen]
      by_contra hnot
      exact hstop (hall n (not_le.mp hnot))
    obtain ⟨b, hb, -⟩ := IsCollisionFrom_spec H vp snapshots traj 0
      (by rw [Nat.zero_add]; exact hle)
    exact ⟨b, hb⟩
  · have h := IsCollisionFrom_none_iff H vp snapshots traj 0
    simp only [Nat.zero_add] at h
    unfold IsCollision
    rw [h]
    constructor
    · rintro ⟨⟨k, hk, hle⟩, hno⟩
      exact ⟨by omega, hno⟩
    · rintro ⟨hlt, hno⟩
      exact ⟨⟨_, hlt, le_refl _⟩, hno⟩

/-- C32 on a 1 s horizon sampled every 0.5 s with one obstacle: two snapshots. -/
theorem IsCollision_reads_in_range_witness :
    ((∀ k : Nat, k < 2 → RelativeTimeAt common.binary64_add Scenario.predictionConfig k
        < Scenario.predictionConfig.max_lookahead_time) ∧
      ¬ (RelativeTimeAt common.binary64_add Scenario.predictionConfig 2
        < Scenario.predictionConfig.max_lookahead_time)) ∧
    ∃ snapshots : List (List Box2d),
      (∀ fuel : Nat, 2 < fuel →
        Init common.binary64_add fuel Scenario.predictionConfig Scenario.laneGeometry
          (fun _ => true) [(7, Scenario.movingObstacle)] 0 0 Scenario.laneGeometry
            = some snapshots) ∧
      snapshots.length = 2 ∧
      ∀ (HasOverlapWithBox2d : Box2d → Box2d → Bool) (vehicle_params : VehicleParams)
        (trajectory_points : List TrajectoryPoint),
        ((∀ k : Nat, k < trajectory_points.length →
            RelativeTimeAt common.binary64_add Scenario.predictionConfig k
              < Scenario.predictionConfig.max_lookahead_time) →
          ∃ b, IsCollision HasOverlapWithBox2d vehicle_params snapshots trajectory_points
            = some b) ∧
        (IsCollision HasOverlapWithBox2d vehicle_params snapshots trajectory_points = none ↔
          snapshots.length < trajectory_points.length ∧
          ∀ (k : Nat) (p : TrajectoryPoint) (boxes : List Box2d), k < snapshots.length →
            trajectory_points[k]? = some p → snapshots[k]? = some boxes →
            ∀ ob ∈ boxes, HasOverlapWithBox2d (EgoBoxSpec vehicle_params p) ob = false) :=
  ⟨predictionConfig_first_stop,
    IsCollision_reads_in_range common.binary64_add Scenario.predictionConfig
      Scenario.laneGeometry (fun _ => true) [(7, Scenario.movingObstacle)] 0 0
      Scenario.laneGeometry 2 predictionConfig_first_stop.1 predictionConfig_first_stop.2⟩

/-- C32 as stated fails on a 1 s horizon sampled every 0.5 s, where the sums of
`double`s are exact: `Init` builds two snapshots; the trajectory
`Scenario.horizonTrajectory` is sampled at 0.5 s up to and including `t = 1`, no
point of it overlaps the obstacle, and `IsCollision` reads
`predicted_obstacle_box_[2]`, past the end. -/
theorem IsCollision_reads_past_snapshots_at_horizon :
    (∀ (k : Nat) (p : TrajectoryPoint), Scenario.horizonTrajectory[k]? = some p →
      p.relative_time = (k : ℝ) * Scenario.predictionConfig.delta_t ∧
      p.relative_time ≤ Scenario.predictionConfig.max_lookahead_time) ∧
    ∃ snapshots : List (List Box2d),
      Init common.binary64_add 3 Scenario.predictionConfig Scenario.laneGeometry
        (fun _ => true) [(7, Scenario.movingObstacle)] 0 0 Scenario.laneGeometry
          = some snapshots ∧
      snapshots.length = 2 ∧
      IsCollision Scenario.axisAlignedOverlap Scenario.vehicleParams snapshots
        Scenario.horizonTrajectory = none := by
  constructor
  · intro k p hp
    match k with
    | 0 =>
      simp [Scenario.horizonTrajectory] at hp
      subst hp
      norm_num [Scenario.predictionConfig]
    | 1 =>
      simp [Scenario.horizonTrajectory] at hp
      subst hp
      norm_num [Scenario.predictionConfig]
    | 2 =>
      simp [Scenario.horizonTrajectory] at hp
      subst hp
      norm_num [Scenario.predictionConfig]
    | n + 3 =>
      simp [Scenario.horizonTrajectory] at hp
  · refine ⟨_, Init_on_movingObstacle 3 (by norm_num), rfl, ?_⟩
    norm_num [IsCollision, IsCollisionFrom, Scenario.axisAlignedOverlap,
      Scenario.vehicleParams, Scenario.horizonTrajectory, Box2d.Shift]

end CollisionChecker

end planning

/-! ## Forward simulation: the net gap of the intelligent driver model -/

namespace planning

namespace OnLaneForwardSimulator

/-- C28, amended: in `GetIDMLonAcc` the net gap is
`s_a = leading_s - ego_s + leading_vehicle_length`, by the same expression in
the branch of a real leader (`leading_s` is the leader's Frenet `s`) and in the
branch of a virtual leader (`leading_s = Length - 0.5`): the leading length is
added, and no ego length enters.  This `s_a` is the divisor of
`desired_min_gap` in the acceleration that the function writes. -/
theorem GetIDMLonAcc_net_gap (idm_params : IDMParams) (ego_s_conditions : common.Array3)
    (reference_line : ReferenceLine) (leading_agent : Agent) :
    (¬ (ego_s_conditions.at0 > reference_line.Length ∨ ego_s_conditions.at0 < 0) →
      leading_agent.is_valid = true →
      ∀ leading_s_conditions leading_d_conditions : common.Array3,
        GetAgentFrenetState leading_agent reference_line
          = some (leading_s_conditions, leading_d_conditions) →
        (GetIDMLonAccGaps idm_params ego_s_conditions reference_line leading_agent).map
            Prod.snd
          = some (leading_s_conditions.at0 - ego_s_conditions.at0
              + idm_params.leading_vehicle_length)) ∧
    (¬ (ego_s_conditions.at0 > reference_line.Length ∨ ego_s_conditions.at0 < 0) →
      leading_agent.is_valid = false →
      (GetIDMLonAccGaps idm_params ego_s_conditions reference_line leading_agent).map
          Prod.snd
        = some ((reference_line.Length - 0.5) - ego_s_conditions.at0
            + idm_params.leading_vehicle_length)) ∧
    GetIDMLonAcc idm_params ego_s_conditions reference_line leading_agent
      = (GetIDMLonAccGaps idm_params ego_s_conditions reference_line leading_agent).map
          (fun gaps => RealDouble.max (RealDouble.min
            (RealDouble.mul (RealDouble.finite idm_params.max_acc)
              (RealDouble.sub
                (RealDouble.sub (RealDouble.finite 1)
                  (RealDouble.pow
                    (RealDouble.div (RealDouble.finite ego_s_conditions.at1)
                      (RealDouble.finite idm_params.desired_velocity))
                    idm_params.acc_exponent))
                (RealDouble.pow (RealDouble.div gaps.1 (RealDouble.finite gaps.2)) 2)))
            (RealDouble.finite idm_params.max_acc))
            (RealDouble.finite (-idm_params.max_decel))) := by
  have h00 : (0.0 : ℝ) = 0 := by norm_num
  refine ⟨?_, ?_, ?_⟩
  · intro hrange hvalid ls ld hls
    simp only [GetIDMLonAccGaps, h00, if_neg hrange, hvalid, if_true, hls]
    rfl
  · intro hrange hvalid
    simp only [GetIDMLonAccGaps, h00, if_neg hrange, hvalid, Bool.false_eq_true, if_false]
    split_ifs <;> rfl
  · unfold GetIDMLonAcc
    cases GetIDMLonAccGaps idm_params ego_s_conditions reference_line leading_agent with
    | none => rfl
    | some gaps => rfl

theorem idmParams_gaps_at_rest :
    GetIDMLonAccGaps Scenario.idmParams ⟨20, 0, 0⟩ Scenario.straightLine Scenario.leadingAgent
      = some (RealDouble.finite 2, 15) := by
  norm_num [GetIDMLonAccGaps, GetAgentFrenetState, Scenario.idmParams, Scenario.straightLine,
    Scenario.leadingAgent, common.CoordinateTransformer.CartesianToFrenet, RealDouble.add,
    RealDouble.mul, RealDouble.div, RealDouble.sqrt]

theorem idmParams_acc_at_rest :
    GetIDMLonAcc Scenario.idmParams ⟨20, 0, 0⟩ Scenario.straightLine Scenario.leadingAgent
      = some (RealDouble.finite (1 - (2 / 15) ^ 2)) := by
  simp only [GetIDMLonAcc, idmParams_gaps_at_rest]
  norm_num [IDMLonAccUnclamped, Scenario.idmParams, RealDouble.add, RealDouble.sub,
    RealDouble.neg, RealDouble.mul, RealDouble.div, RealDouble.pow, RealDouble.min,
    RealDouble.max, RealDouble.lt]

/-- C28 as stated fails: with the ego at `s = 20` and a leader at `s = 30` whose
length is 5, the code's net gap is `30 - 20 + 5 = 15` (and the acceleration it
writes is `1 - (2/15)^2`), while `leading_s - ego_s - leading_length -
ego_length/2` is at most 5 for every ego length. -/
theorem GetIDMLonAcc_adds_leading_length :
    (∃ leading_s_conditions leading_d_conditions : common.Array3,
      GetAgentFrenetState Scenario.leadingAgent Scenario.straightLine
        = some (leading_s_conditions, leading_d_conditions) ∧
      leading_s_conditions.at0 = 30) ∧
    GetIDMLonAccGaps Scenario.idmParams ⟨20, 0, 0⟩ Scenario.straightLine Scenario.leadingAgent
      = some (RealDouble.finite 2, 15) ∧
    GetIDMLonAcc Scenario.idmParams ⟨20, 0, 0⟩ Scenario.straightLine Scenario.leadingAgent
      = some (RealDouble.finite (1 - (2 / 15) ^ 2)) ∧
    (∀ ego_length : ℝ, 0 ≤ ego_length →
      NetGapSpec 30 20 Scenario.idmParams.leading_vehicle_length ego_length ≤ 5) := by
  refine ⟨⟨_, _, rfl, rfl⟩, idmParams_gaps_at_rest, idmParams_acc_at_rest, ?_⟩
  intro ego_length h
  simp only [NetGapSpec, Scenario.idmParams]
  linarith

end OnLaneForwardSimulator

end planning

/-! ## Forward simulation: the bounds of the acceleration -/

namespace planning

namespace OnLaneForwardSimulator

end OnLaneForwardSimulator

end planning

/-! ## Forward simulation: the acceleration on concrete inputs -/

namespace planning

namespace OnLaneForwardSimulator

/-- With the ego at `s = 35` behind a leader at `s = 30` of length 5 the net gap
is `s_a = 0`: the quotient `desired_min_gap / s_a` is `+inf`, the value before
the clamp is `-inf`, and the function writes `-max_decel = -1`. -/
theorem idmParams_acc_zero_gap :
    GetIDMLonAccGaps Scenario.idmParams ⟨35, 0, 0⟩ Scenario.straightLine Scenario.leadingAgent
      = some (RealDouble.finite 2, 0) ∧
    GetIDMLonAcc Scenario.idmParams ⟨35, 0, 0⟩ Scenario.straightLine Scenario.leadingAgent
      = some (RealDouble.finite (-1)) := by
  have hgaps : GetIDMLonAccGaps Scenario.idmParams ⟨35, 0, 0⟩ Scenario.straightLine
      Scenario.leadingAgent = some (RealDouble.finite 2, 0) := by
    norm_num [GetIDMLonAccGaps, GetAgentFrenetState, Scenario.idmParams, Scenario.straightLine,
      Scenario.leadingAgent, common.CoordinateTransformer.CartesianToFrenet, RealDouble.add,
      RealDouble.mul, RealDouble.div, RealDouble.sqrt]
  refine ⟨hgaps, ?_⟩
  simp only [GetIDMLonAcc, hgaps]
  norm_num [IDMLonAccUnclamped, Scenario.idmParams, RealDouble.add, RealDouble.sub,
    RealDouble.neg, RealDouble.mul, RealDouble.div, RealDouble.pow, RealDouble.min,
    RealDouble.max, RealDouble.lt, RealDouble.scaleInf]

end OnLaneForwardSimulator

end planning

/-! ## State machine: `Enter` and `Exit` -/

namespace planning

/-- C26, amended: `FollowLane::Exit` and `StopState::Exit` leave the planner as it
was.  `FollowLane::Enter` returns `true` and leaves the planner's reference
lines and maneuver goal as they were; it leaves the routes as they were when
there is a route, and when there is none it appends the route that `ReRoute`
answers.  Each of these three is idempotent: a second call changes nothing
more.  `StopState::Enter` reaches the end of a function that returns `bool`
without a `return` statement: every call of it is undefined behaviour, and
nothing holds of the state after it. -/
theorem Enter_Exit_frame (route_response route_response2 : RouteResponse)
    (reference_lines : List ReferenceLine) (planner : ManeuverPlanner) :
    (∃ after : ManeuverPlanner,
      FollowLane.Enter route_response (some planner) = Except.ok (true, after) ∧
      after.ref_lines_ = planner.ref_lines_ ∧
      after.maneuver_goal_ = planner.maneuver_goal_ ∧
      (planner.routes_ ≠ [] → after = planner) ∧
      (planner.routes_ = [] → after.routes_ = [route_response]) ∧
      FollowLane.Enter route_response2 (some after) = Except.ok (true, after)) ∧
    FollowLane.Exit (some planner) = some planner ∧
    FollowLane.Exit (FollowLane.Exit (some planner)) = FollowLane.Exit (some planner) ∧
    StopState.Exit (some planner) = some planner ∧
    StopState.Exit (StopState.Exit (some planner)) = StopState.Exit (some planner) ∧
    (∀ maneuver_planner : Option ManeuverPlanner,
      StopState.Enter reference_lines maneuver_planner
        = Except.error Failure.undefined_behaviour) := by
  refine ⟨?_, rfl, rfl, rfl, rfl, ?_⟩
  · cases hr : planner.routes_ with
    | nil =>
      refine ⟨{ planner with routes_ := [route_response] }, ?_, rfl, rfl, ?_, ?_, ?_⟩
      · simp [FollowLane.Enter, hr]
      · intro h
        exact absurd rfl h
      · intro _
        rfl
      · simp [FollowLane.Enter]
    | cons r rs =>
      refine ⟨planner, ?_, rfl, rfl, ?_, ?_, ?_⟩
      · simp [FollowLane.Enter, hr]
      · intro _
        rfl
      · intro h
        exact absurd h (List.cons_ne_nil _ _)
      · simp [FollowLane.Enter, hr]
  · intro maneuver_planner
    unfold StopState.Enter
    cases reference_lines.getLast? <;> rfl

/-- C26 on a planner with a route and on one without: `FollowLane::Enter` leaves
the first as it is and appends the answer of `ReRoute` to the routes of the
second; `StopState::Enter` on the reference line of the scenario has no defined
result. -/
theorem Enter_Exit_frame_witness :
    (({ Scenario.plannerWithoutRoute with routes_ := [Scenario.routeResponse] }
        : ManeuverPlanner).routes_ ≠ [] ∧
      ∃ after : ManeuverPlanner,
        FollowLane.Enter Scenario.routeResponse
          (some { Scenario.plannerWithoutRoute with routes_ := [Scenario.routeResponse] })
          = Except.ok (true, after) ∧
        after = { Scenario.plannerWithoutRoute with routes_ := [Scenario.routeResponse] }) ∧
    (Scenario.plannerWithoutRoute.routes_ = [] ∧
      ∃ after : ManeuverPlanner,
        FollowLane.Enter Scenario.routeResponse (some Scenario.plannerWithoutRoute)
          = Except.ok (true, after) ∧
        after.routes_ = [Scenario.routeResponse]) ∧
    StopState.Enter [Scenario.referenceLine 100] (some Scenario.plannerWithoutRoute)
      = Except.error Failure.undefined_behaviour := by
  have hne : ({ Scenario.plannerWithoutRoute with routes_ := [Scenario.routeResponse] }
      : ManeuverPlanner).routes_ ≠ [] := by simp
  have hnil : Scenario.plannerWithoutRoute.routes_ = [] := rfl
  obtain ⟨after1, h1, -, -, hkeep, -, -⟩ :=
    (Enter_Exit_frame Scenario.routeResponse Scenario.routeResponse
      [Scenario.referenceLine 100]
      { Scenario.plannerWithoutRoute with routes_ := [Scenario.routeResponse] }).1
  obtain ⟨after2, h2, -, -, -, happend, -⟩ :=
    (Enter_Exit_frame Scenario.routeResponse Scenario.routeResponse
      [Scenario.referenceLine 100] Scenario.plannerWithoutRoute).1
  exact ⟨⟨hne, after1, h1, hkeep hne⟩, ⟨hnil, after2, h2, happend hnil⟩,
    (Enter_Exit_frame Scenario.routeResponse Scenario.routeResponse
      [Scenario.referenceLine 100] Scenario.plannerWithoutRoute).2.2.2.2.2 _⟩

end planning

/-! ## `ObstacleDecision`: a leading vehicle that is not in the obstacle map -/

namespace planning

namespace FollowLane

/-- C10 (as stated, refuted): when the id of the leading vehicle is not negative
and is not a key of the obstacle map, `ObstacleDecision` throws
`std::out_of_range` at `obstacles.at(forward_obstacle_id)` (line 120), before
any test of the clear distance, and emits no decision.  So it is on
`Scenario.unknownLeaderTooClose`, where the clear distance 3 is below
`lon_safety_buffer = 5`: the input violates the conditions of a lane change,
and the decision is none of `kFollowLane`, `kStopAtDestination`,
`kEmergencyStop`. -/
theorem ObstacleDecision_throws_on_unknown_leader :
    (∀ (inputs : PlanningInputs) (maneuver_goal : ManeuverGoal),
      0 ≤ (inputs.GetLaneClearDistance 0).forward_obstacle_id →
      inputs.obstacles (inputs.GetLaneClearDistance 0).forward_obstacle_id = none →
      ObstacleDecision inputs maneuver_goal = Except.error Failure.out_of_range) ∧
    ¬ LaneChangeConsidered Scenario.unknownLeaderTooClose ∧
    (Scenario.unknownLeaderTooClose.GetLaneClearDistance 0).forward_clear_distance
      < Scenario.unknownLeaderTooClose.config.lon_safety_buffer ∧
    ObstacleDecision Scenario.unknownLeaderTooClose Scenario.freshGoal
      = Except.error Failure.out_of_range ∧
    ¬ ∃ g, ObstacleDecision Scenario.unknownLeaderTooClose Scenario.freshGoal = Except.ok g := by
  have hgen : ∀ (inputs : PlanningInputs) (maneuver_goal : ManeuverGoal),
      0 ≤ (inputs.GetLaneClearDistance 0).forward_obstacle_id →
      inputs.obstacles (inputs.GetLaneClearDistance 0).forward_obstacle_id = none →
      ObstacleDecision inputs maneuver_goal = Except.error Failure.out_of_range := by
    intro inputs maneuver_goal hlead hnone
    have hno : ¬ (inputs.GetLaneClearDistance 0).forward_obstacle_id < 0 := not_lt.mpr hlead
    simp only [ObstacleDecision, hno, hnone, ObstaclesAt, bind, Except.bind, if_false]
  have hthrow : ObstacleDecision Scenario.unknownLeaderTooClose Scenario.freshGoal
      = Except.error Failure.out_of_range :=
    hgen _ _ (by simp [Scenario.unknownLeaderTooClose]) (by simp [Scenario.unknownLeaderTooClose])
  refine ⟨hgen, ?_, ?_, hthrow, ?_⟩
  · rintro ⟨leader, -, hmap, -⟩
    simp [Scenario.unknownLeaderTooClose] at hmap
  · norm_num [Scenario.unknownLeaderTooClose, Scenario.config]
  · rintro ⟨g, hg⟩
    rw [hthrow] at hg
    cases hg

end FollowLane

end planning
